import Mathlib

/-!
Verification development for an event-driven wallet microservice
(NestJS / PostgreSQL / RabbitMQ).

The definitions below are a shallow embedding of the TypeScript source:

* `Wallet`, `Wallet.deposit`, `Wallet.withdraw`, `Wallet.credit`, … —
  `src/modules/wallet/entities/wallet.entity.ts`
* `TransferSaga` and its `markAs…` transitions —
  `src/modules/transfer/entities/transfer-saga.entity.ts`
* `TransactionManager.execute` —
  `src/infrastructure/database/transaction-manager.service.ts`
* `WalletRepository`, `WalletService` (deposit / withdraw /
  `executeIdempotentTransaction`, `getHistory`), `WalletController.getHistory`
* `TransferSagaService` (`executeTransfer`, `debitFromSender`,
  `creditToReceiver`, `compensate`, `executeTransactionalStep`,
  `executeWithRetry`, `performExponentialBackoff`)
* `FraudDetectionConsumer` (`generateIdempotencyKey`, `acquireLock`,
  `handleMessage`) together with a concrete SHA-256.

Monetary amounts are modelled as `Rat` (the source stores DECIMAL(20,2) and
computes on JavaScript numbers; the claims under study do not hinge on binary
floating-point rounding).  Dates are abstract day numbers (`Nat`); timestamps
are abstract ticks (`Nat`).  Fallible code returns `Except`.  The external
world (store, held distributed locks, broker) is threaded explicitly; broker
availability for awaited publishes and transient store faults are modelled by
explicit schedules consumed in call order, so that every function is a total
computable Lean function.
-/

/-- Wallet status, from `WalletStatus` in `wallet.entity.ts`. -/
inductive WalletStatus
  | active
  | frozen
  | closed
deriving DecidableEq, Repr

/-- The wallet aggregate, from the `Wallet` entity.  `lastWithdrawalDate` is
an abstract UTC day number (`none` when the column is NULL). -/
structure Wallet where
  id : String
  balance : Rat
  currency : String
  status : WalletStatus
  dailyWithdrawalLimit : Option Rat
  dailyWithdrawalTotal : Rat
  lastWithdrawalDate : Option Nat
  version : Nat
deriving DecidableEq, Repr

/-- Constructor of the `Wallet` entity (`new Wallet(id, currency)`). -/
def Wallet.new (id : String) (currency : String := "USD") : Wallet :=
  { id := id
    balance := 0
    currency := currency
    status := .active
    dailyWithdrawalLimit := none
    dailyWithdrawalTotal := 0
    lastWithdrawalDate := none
    version := 0 }

/-- Domain exceptions from `wallet.exceptions.ts` and
`transfer.exceptions.ts`. -/
inductive WalletError
  | invalidAmount (amount : Rat) (operation : String)
  | walletNotActive (status : WalletStatus)
  | insufficientFunds (balance amount : Rat)
  | withdrawalLimitExceeded (amount limit : Rat)
  | walletClosed
  | nonZeroBalance (balance : Rat)
deriving DecidableEq, Repr

/-- Models `Wallet.validatePositiveAmount`: throws `InvalidAmountError` when
`amount <= 0`. -/
def Wallet.validatePositiveAmount (amount : Rat) (operation : String) :
    Except WalletError Unit :=
  if amount ≤ 0 then .error (.invalidAmount amount operation) else .ok ()

/-- Models `Wallet.ensureWalletActive`: throws `WalletNotActiveError` when the
status is not ACTIVE. -/
def Wallet.ensureWalletActive (w : Wallet) : Except WalletError Unit :=
  if w.status ≠ .active then .error (.walletNotActive w.status) else .ok ()

/-- Models `Wallet.deposit(amount)`: validate positivity, require ACTIVE, then
`balance += amount`. -/
def Wallet.deposit (w : Wallet) (amount : Rat) : Except WalletError Wallet := do
  Wallet.validatePositiveAmount amount "Deposit"
  w.ensureWalletActive
  return { w with balance := w.balance + amount }

/-- Models `Wallet.credit(amount)` (used by transfers and compensation):
validate positivity, require ACTIVE, then `balance += amount`. -/
def Wallet.credit (w : Wallet) (amount : Rat) : Except WalletError Wallet := do
  Wallet.validatePositiveAmount amount "Credit"
  w.ensureWalletActive
  return { w with balance := w.balance + amount }

/-- Models `Wallet.resetDailyLimitIfNewDay`: the stored last-withdrawal date is
compared with today's date; when they differ (including a NULL stored date) the
daily total resets to 0. -/
def Wallet.resetDailyLimitIfNewDay (w : Wallet) (today : Nat) : Wallet :=
  if w.lastWithdrawalDate ≠ some today then { w with dailyWithdrawalTotal := 0 }
  else w

/-- Models `Wallet.validateDailyLimit`: with a limit set, throw
`WithdrawalLimitExceededError` when the would-be daily total exceeds it. -/
def Wallet.validateDailyLimit (w : Wallet) (amount : Rat) :
    Except WalletError Unit :=
  match w.dailyWithdrawalLimit with
  | none => .ok ()
  | some limit =>
      if w.dailyWithdrawalTotal + amount > limit then
        .error (.withdrawalLimitExceeded amount limit)
      else .ok ()

/-- Models `Wallet.trackWithdrawal`: add to the daily total and stamp today's
date. -/
def Wallet.trackWithdrawal (w : Wallet) (amount : Rat) (today : Nat) : Wallet :=
  { w with
      dailyWithdrawalTotal := w.dailyWithdrawalTotal + amount
      lastWithdrawalDate := some today }

/-- Models `Wallet.withdraw(amount)`: validate positivity, require ACTIVE,
reset the daily total on a new day, enforce the daily limit, check the balance,
then decrement and track. -/
def Wallet.withdraw (w : Wallet) (amount : Rat) (today : Nat) :
    Except WalletError Wallet := do
  Wallet.validatePositiveAmount amount "Withdrawal"
  w.ensureWalletActive
  let w1 := w.resetDailyLimitIfNewDay today
  Wallet.validateDailyLimit w1 amount
  if w1.balance < amount then
    .error (.insufficientFunds w1.balance amount)
  else
    return Wallet.trackWithdrawal { w1 with balance := w1.balance - amount }
      amount today

/-- Models `Wallet.freeze`: rejected on CLOSED, otherwise status becomes
FROZEN. -/
def Wallet.freeze (w : Wallet) : Except WalletError Wallet :=
  if w.status = .closed then .error .walletClosed
  else .ok { w with status := .frozen }

/-- Models `Wallet.unfreeze`: only a FROZEN wallet returns to ACTIVE; from any
other status this is a no-op. -/
def Wallet.unfreeze (w : Wallet) : Wallet :=
  if w.status = .frozen then { w with status := .active } else w

/-- Models `Wallet.close`: requires a zero balance. -/
def Wallet.close (w : Wallet) : Except WalletError Wallet :=
  if w.balance ≠ 0 then .error (.nonZeroBalance w.balance)
  else .ok { w with status := .closed }

/-- Transfer saga states, from `TransferSagaState`. -/
inductive TransferSagaState
  | pending
  | debited
  | completed
  | compensated
  | failed
deriving DecidableEq, Repr

/-- Structured stand-in for the saga's jsonb metadata column, which the entity
methods populate with `compensationReason` / `failureReason`. -/
structure SagaMeta where
  compensationReason : Option String := none
  failureReason : Option String := none
deriving DecidableEq, Repr

/-- The `TransferSaga` entity. -/
structure TransferSaga where
  id : String
  fromWalletId : String
  toWalletId : String
  amount : Rat
  currency : String
  state : TransferSagaState
  metadata : SagaMeta
deriving DecidableEq, Repr

/-- Saga constructor: `new TransferSaga(from, to, amount, currency)` starts in
PENDING with empty metadata; the UUID primary key is generated by the store and
passed in here explicitly. -/
def TransferSaga.new (id fromWalletId toWalletId : String) (amount : Rat)
    (currency : String) : TransferSaga :=
  { id := id
    fromWalletId := fromWalletId
    toWalletId := toWalletId
    amount := amount
    currency := currency
    state := .pending
    metadata := {} }

/-- Errors thrown by the saga entity's guarded transitions (plain `Error` with
a message naming the offending state in the source). -/
inductive SagaError
  | cannotMarkDebited (state : TransferSagaState)
  | cannotMarkCompleted (state : TransferSagaState)
  | cannotCompensate (state : TransferSagaState)
deriving DecidableEq, Repr

/-- Models `TransferSaga.markAsDebited`: only legal from PENDING. -/
def TransferSaga.markAsDebited (s : TransferSaga) :
    Except SagaError TransferSaga :=
  if s.state ≠ .pending then .error (.cannotMarkDebited s.state)
  else .ok { s with state := .debited }

/-- Models `TransferSaga.markAsCompleted`: only legal from DEBITED. -/
def TransferSaga.markAsCompleted (s : TransferSaga) :
    Except SagaError TransferSaga :=
  if s.state ≠ .debited then .error (.cannotMarkCompleted s.state)
  else .ok { s with state := .completed }

/-- Models `TransferSaga.markAsCompensated`: only legal from DEBITED; records
the compensation reason. -/
def TransferSaga.markAsCompensated (s : TransferSaga) (error : String) :
    Except SagaError TransferSaga :=
  if s.state ≠ .debited then .error (.cannotCompensate s.state)
  else .ok { s with
    state := .compensated
    metadata := { s.metadata with compensationReason := some error } }

/-- Models `TransferSaga.markAsFailed`: the source performs NO state check
here — it unconditionally sets FAILED and records the failure reason. -/
def TransferSaga.markAsFailed (s : TransferSaga) (error : String) :
    TransferSaga :=
  { s with
      state := .failed
      metadata := { s.metadata with failureReason := some error } }

/-- The declared legal transition relation of the spec:
PENDING → DEBITED, PENDING → FAILED, DEBITED → COMPLETED,
DEBITED → COMPENSATED, COMPENSATED → FAILED. -/
def legalSagaEdge : TransferSagaState → TransferSagaState → Bool
  | .pending, .debited => true
  | .pending, .failed => true
  | .debited, .completed => true
  | .debited, .compensated => true
  | .compensated, .failed => true
  | _, _ => false

/-- Event types of the append-only wallet journal (`WalletEventType`). -/
inductive WalletEventType
  | walletCreated
  | fundsDeposited
  | fundsWithdrawn
  | transferInitiated
  | transferCompleted
  | transferFailed
  | transferCompensated
  | walletFrozen
  | walletUnfrozen
  | walletClosed
deriving DecidableEq, Repr

/-- Structured stand-in for the jsonb metadata the services attach to journal
events and published payloads (`sagaId`, `transferTo`, `transferFrom`,
`toWalletId`, `reason`, `requestId`, `recovered`). -/
structure EventMeta where
  sagaId : Option String := none
  transferTo : Option String := none
  transferFrom : Option String := none
  toWalletId : Option String := none
  reason : Option String := none
  requestId : Option String := none
  recovered : Bool := false
deriving DecidableEq, Repr

/-- A row of the append-only `wallet_events` journal.  `createdAt` is an
abstract tick assigned when the row is written. -/
structure WalletEvent where
  walletId : String
  eventType : WalletEventType
  currency : String
  amount : Option Rat
  metadata : EventMeta
  createdAt : Nat
deriving DecidableEq, Repr

/-- The message body published to the event bus and stored in outbox rows:
`{eventType, walletId, amount?, metadata, timestamp}`. -/
structure OutboxPayload where
  eventType : WalletEventType
  walletId : String
  amount : Option Rat
  metadata : EventMeta
  timestamp : Nat
deriving DecidableEq, Repr

/-- An `outbox_events` row (`OutboxEvent` entity): aggregate id, event type,
payload, published flag (false on insert). -/
structure OutboxEvent where
  aggregateId : String
  eventType : WalletEventType
  payload : OutboxPayload
  published : Bool := false
deriving DecidableEq, Repr

/-- The result record returned by `executeTransfer`. -/
structure TransferResult where
  sagaId : String
  state : TransferSagaState
  fromWalletId : String
  toWalletId : String
  amount : Rat
deriving DecidableEq, Repr

/-- The serialized response stored in an `idempotency_keys` row: either a
wallet-engine response `{balance, walletId}` or a transfer result. -/
inductive StoredResponse
  | walletResp (balance : Rat) (walletId : String)
  | transferResp (r : TransferResult)
deriving DecidableEq, Repr

/-- An `idempotency_keys` row (`IdempotencyKey` entity). -/
structure IdempotencyKey where
  requestId : String
  response : StoredResponse
deriving DecidableEq, Repr

/-- The durable store: tables for wallets, the event journal, transfer sagas,
outbox rows and idempotency records. -/
structure Store where
  wallets : List Wallet
  events : List WalletEvent
  sagas : List TransferSaga
  outbox : List OutboxEvent
  idempotency : List IdempotencyKey
deriving DecidableEq, Repr

/-- Look a wallet up by primary key (`findOne` on the wallets table). -/
def Store.findWallet (st : Store) (id : String) : Option Wallet :=
  st.wallets.find? (fun w => w.id = id)

/-- Persist a wallet (`em.save`): replace the row with the same id, or insert
when absent. -/
def Store.saveWallet (st : Store) (w : Wallet) : Store :=
  if st.wallets.any (fun x => x.id = w.id) then
    { st with wallets := st.wallets.map (fun x => if x.id = w.id then w else x) }
  else
    { st with wallets := st.wallets ++ [w] }

/-- Look a saga up by primary key. -/
def Store.findSaga (st : Store) (id : String) : Option TransferSaga :=
  st.sagas.find? (fun s => s.id = id)

/-- Persist a saga (`em.save`): replace the row with the same id, or insert
when absent. -/
def Store.saveSaga (st : Store) (s : TransferSaga) : Store :=
  if st.sagas.any (fun x => x.id = s.id) then
    { st with sagas := st.sagas.map (fun x => if x.id = s.id then s else x) }
  else
    { st with sagas := st.sagas ++ [s] }

/-- Look an idempotency record up by request id
(`IdempotencyRepository.findByRequestId`). -/
def Store.findIdempotency (st : Store) (requestId : String) :
    Option IdempotencyKey :=
  st.idempotency.find? (fun k => k.requestId = requestId)

/-- Errors crossing the service boundaries: HTTP conflict on a lost
distributed lock, not-found lookups, domain errors, saga-transition errors,
transient store errors (PostgreSQL codes / optimistic lock mismatch), a
disconnected broker, and the generic error thrown when retries run out. -/
inductive AppError
  | concurrentRequest
  | notFound (entity id : String)
  | walletError (e : WalletError)
  | sagaError (e : SagaError)
  | pgError (code : String)
  | optimisticLockMismatch
  | busDisconnected
  | retriesExhausted
  | sameWalletTransfer
  | currencyMismatch (fromCurrency toCurrency : String)
deriving DecidableEq, Repr

/-- Models `TransferSagaService.isRetryableError`: PostgreSQL serialization
failure (40001), deadlock (40P01), unique violation (23505), or a TypeORM
`OptimisticLockVersionMismatchError`. -/
def isRetryableError : AppError → Bool
  | .pgError code =>
      code = "40001" ∨ code = "40P01" ∨ code = "23505"
  | .optimisticLockMismatch => true
  | _ => false

/-- The external world threaded through the services: the durable store, the
set of held distributed-lock keys, the broker (messages delivered so far), a
schedule of broker availability consumed by each awaited publish (empty
schedule = broker up), and a schedule of transient store faults consumed by
each store transaction (empty = healthy store). -/
structure World where
  store : Store
  locks : List String
  bus : List OutboxPayload
  pubSchedule : List Bool
  txFaults : List (Option AppError)
deriving DecidableEq, Repr

/-- A healthy world around a given store: no held locks, empty bus, broker up,
no store faults. -/
def World.ofStore (st : Store) : World :=
  { store := st, locks := [], bus := [], pubSchedule := [], txFaults := [] }

/-- The transaction context handed to business closures by the coordinator:
the transactional view of the store plus the in-memory outbox buffer appended
to by `publishEvent`. -/
structure TxContext where
  store : Store
  outboxBuffer : List OutboxEvent

/-- Commit path of `TransactionManager.execute`: run the business closure on a
transactional view; on success append the buffered outbox rows in the same
transaction and commit, then fire-and-forget publish the buffered payloads
(best effort - failures are swallowed and unobservable, the relay retries); on
a thrown error roll back (the store is left untouched) and propagate. -/
def TransactionManager.commitPath {α : Type} (w : World)
    (op : TxContext → Except AppError (TxContext × α)) :
    Except AppError α × World :=
  match op { store := w.store, outboxBuffer := [] } with
  | .ok (ctx, a) =>
      (.ok a,
        { w with
            store := { ctx.store with
              outbox := ctx.store.outbox ++ ctx.outboxBuffer }
            bus := w.bus ++ ctx.outboxBuffer.map (fun e => e.payload) })
  | .error e => (.error e, w)

/-- Transaction body including transient store faults: each transaction
consumes the head of the fault schedule; a scheduled fault aborts the
transaction (rollback - nothing persists) with that error. -/
def TransactionManager.runTx {α : Type} (w : World)
    (op : TxContext → Except AppError (TxContext × α)) :
    Except AppError α × World :=
  match w.txFaults with
  | some e :: rest => (.error e, { w with txFaults := rest })
  | none :: rest => TransactionManager.commitPath { w with txFaults := rest } op
  | [] => TransactionManager.commitPath w op

/-- Models `TransactionManager.execute`: optionally acquire a distributed lock
by atomic set-if-absent (failure throws the 409 `ConcurrentRequest` error
without touching the other holder's lock), run the transaction, and release
the lock in a `finally` on both success and failure. -/
def TransactionManager.execute {α : Type} (w : World) (lockKey : Option String)
    (op : TxContext → Except AppError (TxContext × α)) :
    Except AppError α × World :=
  match lockKey with
  | none => TransactionManager.runTx w op
  | some k =>
      if k ∈ w.locks then (.error .concurrentRequest, w)
      else
        let acquired := { w with locks := k :: w.locks }
        let (res, w2) := TransactionManager.runTx acquired op
        (res, { w2 with locks := w2.locks.erase k })

/-- Models `EventPublisher.publish`: an awaited publish straight to the broker
(no outbox row, no store write).  Broker availability is taken from the head of
the publish schedule; an unavailable broker throws. -/
def EventPublisher.publish (w : World) (payload : OutboxPayload) :
    Except AppError Unit × World :=
  match w.pubSchedule with
  | [] => (.ok (), { w with bus := w.bus ++ [payload] })
  | up :: rest =>
      if up then
        (.ok (), { w with bus := w.bus ++ [payload], pubSchedule := rest })
      else
        (.error .busDisconnected, { w with pubSchedule := rest })

/-- Config defaults from `AppConfigService`: `MAX_RETRIES ?? 10`. -/
def maxRetries : Nat := 10

/-- Config defaults from `AppConfigService`: `INITIAL_BACKOFF_MS ?? 50`. -/
def initialBackoffMs : Rat := 50

/-- Sleep duration computed by
`TransferSagaService.performExponentialBackoff(attempt, initialBackoffMs)`:
`2^attempt * initial`, capped at 5000 ms, plus a jitter drawn uniformly from
`[0, 100)` (the random draw is passed in explicitly). -/
def performExponentialBackoffMs (attempt : Nat) (initial : Rat) (jitter : Rat) :
    Rat :=
  min (2 ^ attempt * initial) 5000 + jitter

/-- Loop body of `TransferSagaService.executeWithRetry`, recursing on the
number of remaining attempts: run the operation; a retryable error consumes an
attempt and loops (after a backoff sleep, which does not affect the modelled
state); a non-retryable error is rethrown; exhausting all attempts throws the
generic concurrent-modification error. -/
def executeWithRetryGo {α : Type} (op : World → Except AppError α × World) :
    Nat → World → Except AppError α × World
  | 0, w => (.error .retriesExhausted, w)
  | Nat.succ n, w =>
      match op w with
      | (.ok a, w1) => (.ok a, w1)
      | (.error e, w1) =>
          if isRetryableError e then executeWithRetryGo op n w1
          else (.error e, w1)

/-- Models `TransferSagaService.executeWithRetry` at the configured
`maxRetries` (10 attempts). -/
def executeWithRetry {α : Type} (op : World → Except AppError α × World)
    (w : World) : Except AppError α × World :=
  executeWithRetryGo op maxRetries w

/-- Models `WalletRepository.getOrCreate`: return the existing row under lock,
or insert `{id, currency, balance: 0}` (remaining columns take their entity
defaults) and write a WALLET_CREATED journal event when the wallet has no
events yet. -/
def WalletRepository.getOrCreate (st : Store) (id currency : String)
    (now : Nat) : Store × Wallet :=
  match st.findWallet id with
  | some w => (st, w)
  | none =>
      let w := Wallet.new id currency
      let st1 := st.saveWallet w
      if (st1.events.filter (fun e => e.walletId = id)).length = 0 then
        ({ st1 with events := st1.events ++
            [{ walletId := id, eventType := .walletCreated, currency := currency,
               amount := none, metadata := {}, createdAt := now }] }, w)
      else (st1, w)

/-- Descending `created_at` order used by the history query. -/
def eventDescOrder (e1 e2 : WalletEvent) : Prop :=
  e2.createdAt ≤ e1.createdAt

instance : DecidableRel eventDescOrder :=
  fun e1 e2 => Nat.decLe e2.createdAt e1.createdAt

instance : IsTotal WalletEvent eventDescOrder :=
  ⟨fun a b => Nat.le_total b.createdAt a.createdAt⟩

instance : IsTrans WalletEvent eventDescOrder :=
  ⟨fun _ _ _ hab hbc => Nat.le_trans hbc hab⟩

/-- Models `WalletRepository.getEventHistory`: the wallet's journal rows
ordered by `created_at` descending, skipping `offset` rows and taking `limit`
rows — the limit is used exactly as passed in. -/
def WalletRepository.getEventHistory (st : Store) (walletId : String)
    (limit offset : Nat) : List WalletEvent :=
  ((List.insertionSort eventDescOrder
      (st.events.filter (fun e => e.walletId = walletId))).drop offset).take
    limit

/-- Models `WalletService.getHistory`: forwards to the repository (the
amount-normalisation map in the source does not change the rows as modelled
here). -/
def WalletService.getHistory (st : Store) (walletId : String)
    (limit offset : Nat) : List WalletEvent :=
  WalletRepository.getEventHistory st walletId limit offset

/-- JavaScript `x || d` over an optional numeric query field: an absent value
or a (falsy) zero falls back to the default. -/
def jsOrDefault (v : Option Nat) (d : Nat) : Nat :=
  match v with
  | none => d
  | some n => if n = 0 then d else n

/-- Models `WalletController.getHistory`: `limit = query.limit || 100`,
`offset = query.offset || 0`, forwarded to the service.  Neither the
controller, the DTO validators, the service nor the repository caps the limit
at 100. -/
def WalletController.getHistory (st : Store) (walletId : String)
    (limitQ offsetQ : Option Nat) : List WalletEvent :=
  WalletService.getHistory st walletId (jsOrDefault limitQ 100)
    (jsOrDefault offsetQ 0)

/-- Models `WalletService.executeIdempotentTransaction`: replay a stored
response when the request id is known; otherwise run one coordinator
transaction (under the optional `lock:req:<requestId>` distributed lock) that
loads or auto-creates the wallet under a row lock, applies the domain
operation, saves the wallet together with its journal event, buffers the
outbox row, and — as the last step of the same transaction — inserts the
idempotency record with the computed response.  The balance-cache write that
follows in the source is outside both the transaction and the claims modelled
here. -/
def WalletService.executeIdempotentTransaction (w : World) (walletId : String)
    (amount : Rat) (eventType : WalletEventType)
    (operation : Wallet → Except WalletError Wallet)
    (requestId : Option String) (autoCreateWallet : Bool) (now : Nat) :
    Except AppError StoredResponse × World :=
  match requestId.bind (fun rid => w.store.findIdempotency rid) with
  | some existing => (.ok existing.response, w)
  | none =>
      let lockKey := requestId.map (fun rid => "lock:req:" ++ rid)
      TransactionManager.execute w lockKey (fun ctx => do
        let (st1, wallet) ←
          if autoCreateWallet then
            Except.ok (WalletRepository.getOrCreate ctx.store walletId "USD" now)
          else
            match ctx.store.findWallet walletId with
            | some wa => Except.ok (ctx.store, wa)
            | none => Except.error (AppError.notFound "Wallet" walletId)
        let wallet' ← (operation wallet).mapError AppError.walletError
        let st2 := st1.saveWallet wallet'
        let ev : WalletEvent :=
          { walletId := walletId, eventType := eventType,
            currency := wallet'.currency, amount := some amount,
            metadata := { requestId := requestId }, createdAt := now }
        let st3 := { st2 with events := st2.events ++ [ev] }
        let payload : OutboxPayload :=
          { eventType := eventType, walletId := walletId,
            amount := some amount, metadata := { requestId := requestId },
            timestamp := now }
        let row : OutboxEvent :=
          { aggregateId := walletId, eventType := eventType, payload := payload }
        let result := StoredResponse.walletResp wallet'.balance wallet'.id
        let st4 :=
          match requestId with
          | some rid =>
              { st3 with idempotency :=
                  st3.idempotency ++ [{ requestId := rid, response := result }] }
          | none => st3
        return ({ store := st4, outboxBuffer := ctx.outboxBuffer ++ [row] },
          result))

/-- Models `WalletService.deposit`: idempotent transaction applying
`wallet.deposit(amount)` with auto-provisioning.  Note: the wallet engine
wraps the operation in NO retry loop; a transient store error propagates to
the caller directly. -/
def WalletService.deposit (w : World) (walletId : String) (amount : Rat)
    (requestId : Option String) (now : Nat) :
    Except AppError StoredResponse × World :=
  WalletService.executeIdempotentTransaction w walletId amount .fundsDeposited
    (fun wa => wa.deposit amount) requestId true now

/-- Models `WalletService.withdraw`: idempotent transaction applying
`wallet.withdraw(amount)` without auto-provisioning; no retry loop. -/
def WalletService.withdraw (w : World) (walletId : String) (amount : Rat)
    (requestId : Option String) (today now : Nat) :
    Except AppError StoredResponse × World :=
  WalletService.executeIdempotentTransaction w walletId amount .fundsWithdrawn
    (fun wa => wa.withdraw amount today) requestId false now

/-- Human-readable `error.message` used by the saga service when recording
failure and compensation reasons. -/
def AppError.message : AppError → String
  | .concurrentRequest => "Concurrent request in progress"
  | .notFound entity id => entity ++ " " ++ id ++ " not found"
  | .walletError _ => "wallet operation rejected"
  | .sagaError _ => "illegal saga transition"
  | .pgError code => "database error " ++ code
  | .optimisticLockMismatch => "optimistic lock version mismatch"
  | .busDisconnected => "EventPublisher not connected"
  | .retriesExhausted =>
      "Operation failed due to concurrent modification. Please retry."
  | .sameWalletTransfer => "Cannot transfer to the same wallet"
  | .currencyMismatch c1 c2 => "currency mismatch " ++ c1 ++ " vs " ++ c2

/-- The transactional closure of
`TransferSagaService.executeTransactionalStep`: under one coordinator
transaction, load the wallet under a pessimistic lock, apply the wallet
operation, save the wallet, reload the saga inside the transaction, apply the
optional saga transition and save it, append the journal event, and buffer the
matching outbox row. -/
def TransferSagaService.stepOp (walletId sagaId : String) (amount : Rat)
    (operation : Wallet → Except WalletError Wallet)
    (eventType : WalletEventType) (eventMetadata : EventMeta) (now : Nat)
    (updateSaga : Option (TransferSaga → Except SagaError TransferSaga))
    (ctx : TxContext) : Except AppError (TxContext × Unit) := do
  let wallet ←
    match ctx.store.findWallet walletId with
    | some wa => Except.ok wa
    | none => Except.error (AppError.notFound "Wallet" walletId)
  let wallet' ← (operation wallet).mapError AppError.walletError
  let st1 := ctx.store.saveWallet wallet'
  let saga ←
    match st1.findSaga sagaId with
    | some s => Except.ok s
    | none => Except.error (AppError.notFound "Saga" sagaId)
  let st2 ←
    match updateSaga with
    | some f => do
        let s' ← (f saga).mapError AppError.sagaError
        Except.ok (st1.saveSaga s')
    | none => Except.ok st1
  let ev : WalletEvent :=
    { walletId := walletId, eventType := eventType,
      currency := wallet'.currency, amount := some amount,
      metadata := eventMetadata, createdAt := now }
  let st3 := { st2 with events := st2.events ++ [ev] }
  let payload : OutboxPayload :=
    { eventType := eventType, walletId := walletId, amount := some amount,
      metadata := eventMetadata, timestamp := now }
  let row : OutboxEvent :=
    { aggregateId := walletId, eventType := eventType, payload := payload }
  return ({ store := st3, outboxBuffer := ctx.outboxBuffer ++ [row] }, ())

/-- Models `TransferSagaService.executeTransactionalStep`: the transactional
closure run through the coordinator (no distributed lock) and wrapped in
`executeWithRetry`. -/
def TransferSagaService.executeTransactionalStep (w : World)
    (walletId sagaId : String) (amount : Rat)
    (operation : Wallet → Except WalletError Wallet)
    (eventType : WalletEventType) (eventMetadata : EventMeta) (now : Nat)
    (updateSaga : Option (TransferSaga → Except SagaError TransferSaga)) :
    Except AppError Unit × World :=
  executeWithRetry
    (fun world => TransactionManager.execute world none
      (TransferSagaService.stepOp walletId sagaId amount operation eventType
        eventMetadata now updateSaga))
    w

/-- Models `TransferSagaService.debitFromSender`: withdraw semantics on the
source wallet, saga transition PENDING → DEBITED, FUNDS_WITHDRAWN event with
`{sagaId, transferTo}` metadata, matching outbox row. -/
def TransferSagaService.debitFromSender (w : World) (saga : TransferSaga)
    (today now : Nat) : Except AppError Unit × World :=
  TransferSagaService.executeTransactionalStep w saga.fromWalletId saga.id
    saga.amount (fun wa => wa.withdraw saga.amount today) .fundsWithdrawn
    { sagaId := some saga.id, transferTo := some saga.toWalletId } now
    (some (fun s => s.markAsDebited))

/-- Models `TransferSagaService.creditToReceiver`: `credit` on the destination
wallet (which must be ACTIVE), FUNDS_DEPOSITED event with
`{sagaId, transferFrom}` metadata, matching outbox row; no saga transition in
this step. -/
def TransferSagaService.creditToReceiver (w : World) (saga : TransferSaga)
    (now : Nat) : Except AppError Unit × World :=
  TransferSagaService.executeTransactionalStep w saga.toWalletId saga.id
    saga.amount (fun wa => wa.credit saga.amount) .fundsDeposited
    { sagaId := some saga.id, transferFrom := some saga.fromWalletId } now
    none

/-- Models `TransferSagaService.compensate`: one transactional step that
applies `credit(amount)` to the source wallet (so the wallet must be ACTIVE
for the refund to go through), transitions DEBITED → COMPENSATED, writes the
TRANSFER_COMPENSATED event and outbox row; on success a TRANSFER_FAILED
payload is published directly to the bus; on failure the error is rethrown and
nothing has persisted. -/
def TransferSagaService.compensate (w : World)
    (sagaId fromWalletId : String) (amount : Rat) (errorMessage : String)
    (now : Nat) : Except AppError Unit × World :=
  let step := TransferSagaService.executeTransactionalStep w fromWalletId
    sagaId amount (fun wa => wa.credit amount) .transferCompensated
    { sagaId := some sagaId, reason := some errorMessage } now
    (some (fun s => s.markAsCompensated errorMessage))
  match step with
  | (.error e, w1) => (.error e, w1)
  | (.ok _, w1) =>
      let payload : OutboxPayload :=
        { eventType := .transferFailed, walletId := fromWalletId,
          amount := some amount,
          metadata := { sagaId := some sagaId, reason := some errorMessage },
          timestamp := now }
      let (pres, w2) := EventPublisher.publish w1 payload
      match pres with
      | .ok _ => (.ok (), w2)
      | .error e => (.error e, w2)

/-- The catch block of `executeTransfer`: reload the saga; when it reached
DEBITED run compensation (a compensation failure replaces the original error),
otherwise mark the saga FAILED — `markAsFailed` has no state guard — save it,
and rethrow the original error. -/
def TransferSagaService.catchTransferError (w : World) (sagaId : String)
    (err : AppError) (now : Nat) : Except AppError StoredResponse × World :=
  match w.store.findSaga sagaId with
  | none => (.error (.notFound "Saga" sagaId), w)
  | some currentSaga =>
      if currentSaga.state = .debited then
        let (cres, w1) := TransferSagaService.compensate w currentSaga.id
          currentSaga.fromWalletId currentSaga.amount err.message now
        match cres with
        | .error ce => (.error ce, w1)
        | .ok _ => (.error err, w1)
      else
        let failedSaga := currentSaga.markAsFailed err.message
        let w1 := { w with store := w.store.saveSaga failedSaga }
        (.error err, w1)

/-- The try block of `executeTransfer`: debit leg, reload, credit leg, reload,
DEBITED → COMPLETED in its own save, awaited TRANSFER_COMPLETED publish
straight to the bus, build the result, and only then — outside every store
transaction — insert the idempotency record. -/
def TransferSagaService.tryTransferLegs (w : World) (saga : TransferSaga)
    (requestId : Option String) (today now : Nat) :
    Except AppError StoredResponse × World :=
  let (dres, w1) := TransferSagaService.debitFromSender w saga today now
  match dres with
  | .error e => (.error e, w1)
  | .ok _ =>
      match w1.store.findSaga saga.id with
      | none => (.error (.notFound "Saga" saga.id), w1)
      | some updatedSaga =>
          let (cres, w2) :=
            TransferSagaService.creditToReceiver w1 updatedSaga now
          match cres with
          | .error e => (.error e, w2)
          | .ok _ =>
              match w2.store.findSaga saga.id with
              | none => (.error (.notFound "Saga" saga.id), w2)
              | some finalSaga =>
                  match finalSaga.markAsCompleted with
                  | .error se => (.error (.sagaError se), w2)
                  | .ok completedSaga =>
                      let w3 :=
                        { w2 with store := w2.store.saveSaga completedSaga }
                      let metaDone : EventMeta :=
                        { sagaId := some saga.id,
                          toWalletId := some saga.toWalletId }
                      let payloadDone : OutboxPayload :=
                        { eventType := .transferCompleted,
                          walletId := saga.fromWalletId,
                          amount := some saga.amount,
                          metadata := metaDone,
                          timestamp := now }
                      let (pres, w4) := EventPublisher.publish w3 payloadDone
                      match pres with
                      | .error e => (.error e, w4)
                      | .ok _ =>
                          let result : TransferResult :=
                            { sagaId := completedSaga.id,
                              state := completedSaga.state,
                              fromWalletId := completedSaga.fromWalletId,
                              toWalletId := completedSaga.toWalletId,
                              amount := completedSaga.amount }
                          let w5 :=
                            match requestId with
                            | some rid =>
                                { w4 with store := { w4.store with
                                    idempotency := w4.store.idempotency ++
                                      [{ requestId := rid,
                                         response := .transferResp result }] } }
                            | none => w4
                          (.ok (.transferResp result), w5)

/-- Models `TransferSagaService.executeTransfer`: idempotent replay of the
stored response; reject same-wallet transfers; source wallet must exist;
destination auto-provisioned in its own repository transaction with the
source's currency; currencies must match; insert the saga in state PENDING;
publish TRANSFER_INITIATED directly to the bus (awaited, before the try
block); then run the legs with the catch block of
`TransferSagaService.catchTransferError`.  The generated saga UUID is passed
in as `newSagaId`. -/
def TransferSagaService.executeTransfer (w : World)
    (fromWalletId toWalletId : String) (amount : Rat)
    (requestId : Option String) (newSagaId : String) (today now : Nat) :
    Except AppError StoredResponse × World :=
  match requestId.bind (fun rid => w.store.findIdempotency rid) with
  | some existing => (.ok existing.response, w)
  | none =>
      if fromWalletId = toWalletId then (.error .sameWalletTransfer, w)
      else
        match w.store.findWallet fromWalletId with
        | none => (.error (.notFound "Wallet" fromWalletId), w)
        | some fromWallet =>
            let (st1, toWallet) := WalletRepository.getOrCreate w.store
              toWalletId fromWallet.currency now
            let w1 := { w with store := st1 }
            if toWallet.currency ≠ fromWallet.currency then
              (.error (.currencyMismatch fromWallet.currency toWallet.currency),
                w1)
            else
              let saga := TransferSaga.new newSagaId fromWalletId toWalletId
                amount fromWallet.currency
              let w2 := { w1 with store := w1.store.saveSaga saga }
              let metaInit : EventMeta :=
                { sagaId := some saga.id, toWalletId := some toWalletId,
                  requestId := requestId }
              let payloadInit : OutboxPayload :=
                { eventType := .transferInitiated, walletId := fromWalletId,
                  amount := some amount, metadata := metaInit,
                  timestamp := now }
              let (pres, w3) := EventPublisher.publish w2 payloadInit
              match pres with
              | .error e => (.error e, w3)
              | .ok _ =>
                  match TransferSagaService.tryTransferLegs w3 saga requestId
                    today now with
                  | (.ok r, w4) => (.ok r, w4)
                  | (.error e, w4) =>
                      TransferSagaService.catchTransferError w4 saga.id e now

/-- Truncate a number to a 32-bit machine word. -/
def word32 (n : Nat) : Nat := n % 4294967296

/-- Rotate a 32-bit word right by `k` positions. -/
def rotWord (k x : Nat) : Nat := word32 ((x >>> k) ||| (x <<< (32 - k)))

/-- The Σ0 mixing function of the SHA-256 compression loop. -/
def bigSigma0 (x : Nat) : Nat := rotWord 2 x ^^^ (rotWord 13 x ^^^ rotWord 22 x)

/-- The Σ1 mixing function of the SHA-256 compression loop. -/
def bigSigma1 (x : Nat) : Nat := rotWord 6 x ^^^ (rotWord 11 x ^^^ rotWord 25 x)

/-- The σ0 mixing function of the message schedule. -/
def smallSigma0 (x : Nat) : Nat := (x >>> 3) ^^^ (rotWord 7 x ^^^ rotWord 18 x)

/-- The σ1 mixing function of the message schedule. -/
def smallSigma1 (x : Nat) : Nat := (x >>> 10) ^^^ (rotWord 17 x ^^^ rotWord 19 x)

/-- The bitwise choice function: each bit of `e` selects the corresponding
bit of `f` or of `g`. -/
def chooseBits (e f g : Nat) : Nat := g ^^^ (e &&& (f ^^^ g))

/-- The bitwise majority vote of three words. -/
def majorityBits (a b c : Nat) : Nat := (a &&& (b ||| c)) ||| (b &&& c)

/-- The 64 round constants of SHA-256 (the fractional parts of the cube
roots of the first 64 primes, as 32-bit words, here written in decimal). -/
def roundConsts : List Nat :=
  [   1116352408, 1899447441, 3049323471, 3921009573,
   961987163, 1508970993, 2453635748, 2870763221,
   3624381080, 310598401, 607225278, 1426881987,
   1925078388, 2162078206, 2614888103, 3248222580,
   3835390401, 4022224774, 264347078, 604807628,
   770255983, 1249150122, 1555081692, 1996064986,
   2554220882, 2821834349, 2952996808, 3210313671,
   3336571891, 3584528711, 113926993, 338241895,
   666307205, 773529912, 1294757372, 1396182291,
   1695183700, 1986661051, 2177026350, 2456956037,
   2730485921, 2820302411, 3259730800, 3345764771,
   3516065817, 3600352804, 4094571909, 275423344,
   430227734, 506948616, 659060556, 883997877,
   958139571, 1322822218, 1537002063, 1747873779,
   1955562222, 2024104815, 2227730452, 2361852424,
   2428436474, 2756734187, 3204031479, 3329325298]

/-- The initial SHA-256 hash state (in decimal). -/
def initHash : List Nat :=
  [   1779033703, 3144134277, 1013904242, 2773480762,
   1359893119, 2600822924, 528734635, 1541459225]

/-- Combine a byte list into big-endian 32-bit words. -/
def beWords : List Nat → List Nat
  | x0 :: x1 :: x2 :: x3 :: tail =>
      ((x0 <<< 24) ||| (x1 <<< 16) ||| (x2 <<< 8) ||| x3) :: beWords tail
  | _ => []

/-- The next word of the message schedule, computed from the 16 words that
precede it. -/
def scheduleWord (ws : List Nat) : Nat :=
  let n := ws.length
  word32 (smallSigma1 (ws.getD (n - 2) 0) + ws.getD (n - 7) 0 +
    (smallSigma0 (ws.getD (n - 15) 0) + ws.getD (n - 16) 0))

/-- Extend the message schedule by the given number of words. -/
def extendSchedule : Nat → List Nat → List Nat
  | 0, ws => ws
  | Nat.succ k, ws => extendSchedule k (ws ++ [scheduleWord ws])

/-- One compression round on the eight-word working state; `kw` is the round
constant already folded into the schedule word. -/
def compressStep (st : List Nat) (kw : Nat) : List Nat :=
  match st with
  | [a, b, c, d, e, f, g, h] =>
      let u := word32 (bigSigma0 a + majorityBits a b c)
      let v := word32 (kw + (h + bigSigma1 e + chooseBits e f g))
      [word32 (v + u), a, b, c, word32 (d + v), e, f, g]
  | st => st

/-- Fold one 64-byte block into the running hash state. -/
def compressBlock (h : List Nat) (block : List Nat) : List Nat :=
  let ks := List.zipWith (fun k x => word32 (x + k)) roundConsts
    (extendSchedule 48 (beWords block))
  List.zipWith (fun x y => word32 (y + x)) h (ks.foldl compressStep h)

/-- Merkle–Damgård padding: a 0x80 byte, zeros up to 56 mod 64, and the bit
length of the message as eight big-endian bytes. -/
def padMessage (msg : List Nat) : List Nat :=
  let n := msg.length
  let lenTail := (List.range 8).map (fun i => ((8 * n) >>> (56 - 8 * i)) % 256)
  msg ++ 128 :: (List.replicate ((119 - n % 64) % 64) 0 ++ lenTail)

/-- Cut a padded message into 64-byte blocks (structural fuel; the fuel is
always sufficient because every step consumes 64 bytes). -/
def blocksOf64 : Nat → List Nat → List (List Nat)
  | 0, _ => []
  | _, [] => []
  | Nat.succ k, bs => bs.take 64 :: blocksOf64 k (bs.drop 64)

/-- The 64-byte blocks of a padded message. -/
def blocks64 (bs : List Nat) : List (List Nat) := blocksOf64 (bs.length + 1) bs

/-- The SHA-256 digest of a byte message, as eight 32-bit words. -/
def digestWords (msg : List Nat) : List Nat :=
  (blocks64 (padMessage msg)).foldl compressBlock initHash

/-- The lowercase hex character of a nibble. -/
def nibbleChar (n : Nat) : Char := "0123456789abcdef".toList.getD n (Char.ofNat 48)

/-- A 32-bit word rendered as 8 lowercase hex characters. -/
def wordHex (x : Nat) : String :=
  String.mk (((List.range 8).reverse).map (fun i => nibbleChar ((x >>> (4 * i)) % 16)))

/-- The bytes of an ASCII string (for ASCII text the UTF-8 bytes are the code
points; every string hashed in this development is ASCII). -/
def stringBytes (s : String) : List Nat := s.data.map (fun c => c.toNat)

/-- Hex-encoded SHA-256 of an ASCII string — the model of
`crypto.createHash('sha256').update(payload).digest('hex')`. -/
def sha256hexOfAscii (s : String) : String :=
  String.join ((digestWords (stringBytes s)).map wordHex)

/-- The parsed wallet-event payload consumed by the fraud consumer.
`timestamp` is the serialized timestamp string as it appears in the JSON
payload (used verbatim in the idempotency-key template); `tsMs` is
`new Date(timestamp).getTime()` (used by the sliding window); `amount` is the
optional numeric amount (integral in every message considered here). -/
structure FraudPayload where
  walletId : String
  eventType : String
  timestamp : String
  tsMs : Nat
  amount : Option Nat
deriving DecidableEq, Repr

/-- JavaScript template rendering of `event.amount || ''`: an absent amount or
a (falsy) zero renders as the empty string; otherwise its decimal digits. -/
def amountTemplate : Option Nat → String
  | none => ""
  | some n => if n = 0 then "" else toString n

/-- The payload string hashed by
`FraudDetectionConsumer.generateIdempotencyKey`:
`walletId-eventType-timestamp-amount` joined with the '-' character. -/
def FraudDetectionConsumer.hashInput (e : FraudPayload) : String :=
  e.walletId ++ "-" ++ e.eventType ++ "-" ++ e.timestamp ++ "-" ++
    amountTemplate e.amount

/-- Models `FraudDetectionConsumer.generateIdempotencyKey`: hex-encoded
SHA-256 of the '-'-joined field template. -/
def FraudDetectionConsumer.generateIdempotencyKey (e : FraudPayload) : String :=
  sha256hexOfAscii (FraudDetectionConsumer.hashInput e)

/-- Modelled from the spec: the spec describes the idempotency key as the
SHA-256 of the fields joined with the '|' separator
(`walletId|eventType|timestamp|amount?`); this definition follows the spec's
words, for comparison with the source's '-'-joined template. -/
def specIdempotencyKeyInput (e : FraudPayload) : String :=
  e.walletId ++ "|" ++ e.eventType ++ "|" ++ e.timestamp ++ "|" ++
    amountTemplate e.amount

/-- Modelled from the spec: hex-encoded SHA-256 of the '|'-joined template. -/
def specIdempotencyKey (e : FraudPayload) : String :=
  sha256hexOfAscii (specIdempotencyKeyInput e)

/-- `FRAUD_CONSTANTS.IDEMPOTENCY_TTL`: 24 hours in seconds. -/
def fraudIdempotencyTtl : Nat := 24 * 60 * 60

/-- The consumer-side cache: `processed_event:<key>` entries with the TTL (in
seconds) they were set with. -/
structure FraudCache where
  entries : List (String × Nat)
deriving DecidableEq, Repr

/-- Models `FraudDetectionConsumer.acquireLock`: atomic `SET key true EX ttl
NX` on `processed_event:<eventId>`; returns whether the key was newly set. -/
def FraudDetectionConsumer.acquireLock (cache : FraudCache) (eventId : String) :
    Bool × FraudCache :=
  let key := "processed_event:" ++ eventId
  if cache.entries.any (fun p => p.1 = key) then (false, cache)
  else (true, { entries := cache.entries ++ [(key, fraudIdempotencyTtl)] })

/-- A `fraud_alerts` row; the jsonb details are flattened into optional
fields. -/
structure FraudAlert where
  walletId : String
  alertType : String
  amountDetail : Option Nat := none
  thresholdDetail : Option Nat := none
  withdrawalCountDetail : Option Nat := none
  timeWindowDetail : Option String := none
deriving DecidableEq, Repr

/-- The consumer-visible state: the dedup cache, the fraud-alert table, and
the per-wallet sliding-window sorted set `withdrawals:<walletId>` flattened to
(walletId, score) pairs. -/
structure FraudState where
  cache : FraudCache
  alerts : List FraudAlert
  windows : List (String × Nat)
deriving DecidableEq, Repr

/-- Config defaults: `fraudDetectionThreshold` 10000,
`fraudDetectionMaxWithdrawals` 3, `fraudDetectionTimeWindowMinutes` 5. -/
def fraudThreshold : Nat := 10000

/-- Default maximum withdrawals inside the sliding window. -/
def fraudMaxWithdrawals : Nat := 3

/-- Default sliding-window length in minutes. -/
def fraudWindowMinutes : Nat := 5

/-- Models `FraudDetectionConsumer.detectRapidWithdrawals`: zadd the event
timestamp, trim scores at or below `now - window`, count the wallet's entries,
and insert a RAPID_WITHDRAWALS alert when the count exceeds the maximum. -/
def FraudDetectionConsumer.detectRapidWithdrawals (st : FraudState)
    (e : FraudPayload) : FraudState :=
  let nowMs := e.tsMs
  let windowMs := fraudWindowMinutes * 60 * 1000
  let cutoff := nowMs - windowMs
  let afterAdd := st.windows ++ [(e.walletId, nowMs)]
  let trimmed := afterAdd.filter
    (fun p => ¬(p.1 = e.walletId ∧ p.2 ≤ cutoff))
  let count := (trimmed.filter (fun p => p.1 = e.walletId)).length
  let st1 := { st with windows := trimmed }
  if count > fraudMaxWithdrawals then
    { st1 with alerts := st1.alerts ++
        [{ walletId := e.walletId, alertType := "rapid_withdrawals",
           withdrawalCountDetail := some count,
           timeWindowDetail := some (toString fraudWindowMinutes ++
             " minutes") }] }
  else st1

/-- Models `FraudDetectionConsumer.detectHighValueTransaction`: a truthy
amount above the threshold inserts a HIGH_VALUE_TRANSACTION alert. -/
def FraudDetectionConsumer.detectHighValueTransaction (st : FraudState)
    (e : FraudPayload) : FraudState :=
  match e.amount with
  | some a =>
      if a ≠ 0 ∧ a > fraudThreshold then
        { st with alerts := st.alerts ++
            [{ walletId := e.walletId, alertType := "high_value_transaction",
               amountDetail := some a,
               thresholdDetail := some fraudThreshold }] }
      else st
  | none => st

/-- Models `FraudDetectionConsumer.processFraudChecks`: rules run only for
FUNDS_WITHDRAWN events — rapid withdrawals first, then high value. -/
def FraudDetectionConsumer.processFraudChecks (st : FraudState)
    (e : FraudPayload) : FraudState :=
  if e.eventType = "FUNDS_WITHDRAWN" then
    FraudDetectionConsumer.detectHighValueTransaction
      (FraudDetectionConsumer.detectRapidWithdrawals st e) e
  else st

/-- Acknowledgement outcome of one consumed message. -/
inductive ConsumerAck
  | ack
  | nackToDlq
deriving DecidableEq, Repr

/-- Models the happy path of `FraudDetectionConsumer.handleMessage` after a
successful parse: compute the idempotency key, attempt the atomic
set-if-absent; when the key already existed, ack and return without applying
any rule; otherwise run the fraud checks and ack. -/
def FraudDetectionConsumer.handleMessage (st : FraudState) (e : FraudPayload) :
    ConsumerAck × FraudState :=
  let eventId := FraudDetectionConsumer.generateIdempotencyKey e
  let (isNew, cache1) := FraudDetectionConsumer.acquireLock st.cache eventId
  if isNew then
    (.ack, FraudDetectionConsumer.processFraudChecks { st with cache := cache1 }
      e)
  else
    (.ack, { st with cache := cache1 })

/-- Decidable equality for `Except`, needed to evaluate concrete runs. -/
instance {ε α : Type} [DecidableEq ε] [DecidableEq α] :
    DecidableEq (Except ε α) := fun x y =>
  match x, y with
  | .ok a, .ok b =>
      if h : a = b then isTrue (by rw [h])
      else isFalse (fun hc => h (Except.ok.inj hc))
  | .error e1, .error e2 =>
      if h : e1 = e2 then isTrue (by rw [h])
      else isFalse (fun hc => h (Except.error.inj hc))
  | .ok _, .error _ => isFalse (fun hc => Except.noConfusion hc)
  | .error _, .ok _ => isFalse (fun hc => Except.noConfusion hc)

/-- Demo fixture: a USD wallet with a chosen balance and status. -/
def demoWallet (id : String) (balance : Rat)
    (status : WalletStatus := .active) : Wallet :=
  { Wallet.new id "USD" with balance := balance, status := status }

/-- Demo fixture: a transfer saga of 100 from "alice" to "bob" stranded in
DEBITED. -/
def demoDebitedSaga : TransferSaga :=
  { TransferSaga.new "saga-1" "alice" "bob" 100 "USD" with state := .debited }

/-- Demo store for the compensation scenarios: the source wallet "alice"
holds 50 after a successful debit of 100, with a chosen status; the saga is
stranded in DEBITED. -/
def compensationStore (status : WalletStatus) : Store :=
  { wallets := [demoWallet "alice" 50 status]
    events := []
    sagas := [demoDebitedSaga]
    outbox := []
    idempotency := [] }

/-- Demo store for the transfer scenarios: "alice" holds 100 and "bob" holds
0, both ACTIVE. -/
def happyTransferStore : Store :=
  { wallets := [demoWallet "alice" 100, demoWallet "bob" 0]
    events := []
    sagas := []
    outbox := []
    idempotency := [] }

/-- Demo store for the history scenarios: 101 journal rows for wallet "w1"
with descending creation ticks. -/
def demoHistoryStore : Store :=
  { wallets := []
    events := (List.range 101).map (fun i =>
      { walletId := "w1", eventType := .fundsDeposited, currency := "USD",
        amount := some 1, metadata := {}, createdAt := 100 - i })
    sagas := []
    outbox := []
    idempotency := [] }

/-- Demo payload consumed by the fraud consumer: a withdrawal of 20000. -/
def demoFraudPayload : FraudPayload :=
  { walletId := "alice", eventType := "FUNDS_WITHDRAWN",
    timestamp := "2024-01-01T00:00:00.000Z", tsMs := 1704067200000,
    amount := some 20000 }

/-- Demo fixture: a fraud-consumer state with an empty cache, no alerts and
an empty sliding window. -/
def demoFraudState : FraudState :=
  { cache := { entries := [] }, alerts := [], windows := [] }

/-- Demo fixture: a bus payload for a deposit of 5 into "alice". -/
def demoOutboxPayload : OutboxPayload :=
  { eventType := .fundsDeposited, walletId := "alice", amount := some 5,
    metadata := {}, timestamp := 0 }

/-- Demo fixture: a single outbox row collected through `publishEvent`. -/
def demoOutboxRow : OutboxEvent :=
  { aggregateId := "alice", eventType := .fundsDeposited,
    payload := demoOutboxPayload }

/-- Demo fixture: a business closure run through the coordinator that leaves
the store unchanged and buffers one outbox row. -/
def demoTxOp (ctx : TxContext) : Except AppError (TxContext × Nat) :=
  .ok ({ store := ctx.store, outboxBuffer := ctx.outboxBuffer ++ [demoOutboxRow] }, 0)

/-- Demo fixture: a world over the happy transfer store whose broker accepts
exactly one awaited publish and then disconnects. -/
def failingPublishWorld : World :=
  { store := happyTransferStore, locks := [], bus := [],
    pubSchedule := [true, false], txFaults := [] }

/-- Demo fixture: the happy transfer store holding one previously stored
idempotency record. -/
def replayStore : Store :=
  { happyTransferStore with
      idempotency := [{ requestId := "req-0",
                        response := StoredResponse.walletResp 7 "alice" }] }

/-- Replacing every wallet with the saved wallet's id makes lookup of that id
return the saved wallet. -/
theorem Wallet.find_map_self (w : Wallet) :
    ∀ l : List Wallet, l.any (fun x => x.id = w.id) = true →
      (l.map (fun x => if x.id = w.id then w else x)).find?
        (fun x => x.id = w.id) = some w
  | [], h => by simp at h
  | a :: t, h => by
      by_cases ha : a.id = w.id
      · simp [List.find?, ha]
      · have ht : t.any (fun x => x.id = w.id) = true := by
          simp only [List.any_cons, Bool.or_eq_true] at h
          rcases h with h1 | h2
          · exact absurd (by simpa using h1) ha
          · exact h2
        simp [List.find?, ha, Wallet.find_map_self w t ht]

/-- Appending a wallet to a list with no occurrence of its id makes lookup of
that id return it. -/
theorem Wallet.find_app_self (w : Wallet) :
    ∀ l : List Wallet, (∀ x ∈ l, ¬ x.id = w.id) →
      (l ++ [w]).find? (fun x => x.id = w.id) = some w
  | [], _ => by simp [List.find?]
  | a :: t, h => by
      rw [List.cons_append,
        List.find?_cons_of_neg _ (by simpa using h a (by simp))]
      exact Wallet.find_app_self w t (fun y hy => h y (by simp [hy]))

/-- Replacing wallets of one id leaves lookups of a different id unchanged. -/
theorem Wallet.find_map_ne (w : Wallet) (i : String) (hne : i ≠ w.id) :
    ∀ l : List Wallet,
      (l.map (fun x => if x.id = w.id then w else x)).find?
        (fun x => x.id = i) = l.find? (fun x => x.id = i)
  | [] => rfl
  | a :: t => by
      by_cases ha : a.id = w.id
      · have hwa : ¬ w.id = i := fun hh => hne hh.symm
        have hai : ¬ a.id = i := by rw [ha]; exact hwa
        rw [List.map_cons, if_pos ha,
          List.find?_cons_of_neg _ (by simpa using hwa),
          List.find?_cons_of_neg _ (by simpa using hai),
          Wallet.find_map_ne w i hne t]
      · by_cases hai : a.id = i
        · rw [List.map_cons, if_neg ha,
            List.find?_cons_of_pos _ (by simpa using hai),
            List.find?_cons_of_pos _ (by simpa using hai)]
        · rw [List.map_cons, if_neg ha,
            List.find?_cons_of_neg _ (by simpa using hai),
            List.find?_cons_of_neg _ (by simpa using hai),
            Wallet.find_map_ne w i hne t]

/-- Appending a wallet leaves lookups of a different id unchanged. -/
theorem Wallet.find_app_ne (w : Wallet) (i : String) (hne : i ≠ w.id) :
    ∀ l : List Wallet,
      (l ++ [w]).find? (fun x => x.id = i) = l.find? (fun x => x.id = i)
  | [] => by
      have hwa : ¬ w.id = i := fun hh => hne hh.symm
      simp [List.find?, hwa]
  | a :: t => by
      by_cases hai : a.id = i
      · simp [List.find?, hai]
      · simp [List.find?, hai, Wallet.find_app_ne w i hne t]

/-- A saved wallet is found under its own id. -/
theorem Store.findWallet_saveWallet_self (st : Store) (w : Wallet) :
    (st.saveWallet w).findWallet w.id = some w := by
  unfold Store.saveWallet Store.findWallet
  by_cases h : st.wallets.any (fun x => x.id = w.id) = true
  · simpa [h] using Wallet.find_map_self w st.wallets h
  · have h' : ∀ x ∈ st.wallets, ¬ x.id = w.id := by
      intro x hx hc
      exact h (List.any_eq_true.mpr ⟨x, hx, by simpa using hc⟩)
    simpa [h] using Wallet.find_app_self w st.wallets h'

/-- Saving a wallet does not affect lookups of other wallet ids. -/
theorem Store.findWallet_saveWallet_ne (st : Store) (w : Wallet) (i : String)
    (hne : i ≠ w.id) : (st.saveWallet w).findWallet i = st.findWallet i := by
  unfold Store.saveWallet Store.findWallet
  by_cases h : st.wallets.any (fun x => x.id = w.id) = true
  · simpa [h] using Wallet.find_map_ne w i hne st.wallets
  · simpa [h] using Wallet.find_app_ne w i hne st.wallets

/-- Saving a wallet touches only the wallets table: sagas unchanged. -/
theorem Store.saveWallet_sagas (st : Store) (w : Wallet) :
    (st.saveWallet w).sagas = st.sagas := by
  unfold Store.saveWallet
  split <;> rfl

/-- Saving a wallet leaves the journal unchanged. -/
theorem Store.saveWallet_events (st : Store) (w : Wallet) :
    (st.saveWallet w).events = st.events := by
  unfold Store.saveWallet
  split <;> rfl

/-- Saving a wallet leaves the outbox unchanged. -/
theorem Store.saveWallet_outbox (st : Store) (w : Wallet) :
    (st.saveWallet w).outbox = st.outbox := by
  unfold Store.saveWallet
  split <;> rfl

/-- Saving a wallet leaves the idempotency table unchanged. -/
theorem Store.saveWallet_idempotency (st : Store) (w : Wallet) :
    (st.saveWallet w).idempotency = st.idempotency := by
  unfold Store.saveWallet
  split <;> rfl

/-- Replacing every saga with the saved saga's id makes lookup of that id
return the saved saga. -/
theorem TransferSaga.saga_find_map_self (s : TransferSaga) :
    ∀ l : List TransferSaga, l.any (fun x => x.id = s.id) = true →
      (l.map (fun x => if x.id = s.id then s else x)).find?
        (fun x => x.id = s.id) = some s
  | [], h => by simp at h
  | a :: t, h => by
      by_cases ha : a.id = s.id
      · simp [List.find?, ha]
      · have ht : t.any (fun x => x.id = s.id) = true := by
          simp only [List.any_cons, Bool.or_eq_true] at h
          rcases h with h1 | h2
          · exact absurd (by simpa using h1) ha
          · exact h2
        simp [List.find?, ha, TransferSaga.saga_find_map_self s t ht]

/-- Appending a saga to a list with no occurrence of its id makes lookup of
that id return it. -/
theorem TransferSaga.saga_find_app_self (s : TransferSaga) :
    ∀ l : List TransferSaga, (∀ x ∈ l, ¬ x.id = s.id) →
      (l ++ [s]).find? (fun x => x.id = s.id) = some s
  | [], _ => by simp [List.find?]
  | a :: t, h => by
      rw [List.cons_append,
        List.find?_cons_of_neg _ (by simpa using h a (by simp))]
      exact TransferSaga.saga_find_app_self s t (fun y hy => h y (by simp [hy]))

/-- A saved saga is found under its own id. -/
theorem Store.findSaga_saveSaga_self (st : Store) (s : TransferSaga) :
    (st.saveSaga s).findSaga s.id = some s := by
  unfold Store.saveSaga Store.findSaga
  by_cases h : st.sagas.any (fun x => x.id = s.id) = true
  · simpa [h] using TransferSaga.saga_find_map_self s st.sagas h
  · have h' : ∀ x ∈ st.sagas, ¬ x.id = s.id := by
      intro x hx hc
      exact h (List.any_eq_true.mpr ⟨x, hx, by simpa using hc⟩)
    simpa [h] using TransferSaga.saga_find_app_self s st.sagas h'

/-- Saving a saga touches only the sagas table: wallets unchanged. -/
theorem Store.saveSaga_wallets (st : Store) (s : TransferSaga) :
    (st.saveSaga s).wallets = st.wallets := by
  unfold Store.saveSaga
  split <;> rfl

/-- Saving a saga leaves the journal unchanged. -/
theorem Store.saveSaga_events (st : Store) (s : TransferSaga) :
    (st.saveSaga s).events = st.events := by
  unfold Store.saveSaga
  split <;> rfl

/-- Saving a saga leaves the outbox unchanged. -/
theorem Store.saveSaga_outbox (st : Store) (s : TransferSaga) :
    (st.saveSaga s).outbox = st.outbox := by
  unfold Store.saveSaga
  split <;> rfl

/-- Saving a saga leaves the idempotency table unchanged. -/
theorem Store.saveSaga_idempotency (st : Store) (s : TransferSaga) :
    (st.saveSaga s).idempotency = st.idempotency := by
  unfold Store.saveSaga
  split <;> rfl

/-- A found wallet carries the id it was looked up under. -/
theorem Store.findWallet_id (st : Store) (i : String) (w : Wallet)
    (h : st.findWallet i = some w) : w.id = i := by
  unfold Store.findWallet at h
  have := List.find?_some h
  simpa using this

/-- A found saga carries the id it was looked up under. -/
theorem Store.findSaga_id (st : Store) (i : String) (s : TransferSaga)
    (h : st.findSaga i = some s) : s.id = i := by
  unfold Store.findSaga at h
  have := List.find?_some h
  simpa using this

/-- Binding a successful Except value applies the continuation. -/
theorem Except.ok_bind {ε α β : Type} (a : α) (f : α → Except ε β) :
    (Except.ok a : Except ε α) >>= f = f a := rfl

/-- Binding a failed Except value short-circuits. -/
theorem Except.error_bind {ε α β : Type} (e : ε) (f : α → Except ε β) :
    (Except.error e : Except ε α) >>= f = .error e := rfl

/-- Mapping the error of a success is a no-op. -/
theorem Except.mapError_ok {ε δ α : Type} (a : α) (f : ε → δ) :
    (Except.ok a : Except ε α).mapError f = .ok a := rfl

/-- Mapping the error of a failure applies the function. -/
theorem Except.mapError_error {ε δ α : Type} (e : ε) (f : ε → δ) :
    (Except.error e : Except ε α).mapError f = .error (f e) := rfl

/-- The daily reset leaves the balance unchanged. -/
theorem Wallet.reset_balance (w : Wallet) (today : Nat) :
    (w.resetDailyLimitIfNewDay today).balance = w.balance := by
  unfold Wallet.resetDailyLimitIfNewDay
  split <;> rfl

/-- The daily reset leaves the status unchanged. -/
theorem Wallet.reset_status (w : Wallet) (today : Nat) :
    (w.resetDailyLimitIfNewDay today).status = w.status := by
  unfold Wallet.resetDailyLimitIfNewDay
  split <;> rfl

/-- The daily reset leaves the configured limit unchanged. -/
theorem Wallet.reset_limit (w : Wallet) (today : Nat) :
    (w.resetDailyLimitIfNewDay today).dailyWithdrawalLimit =
      w.dailyWithdrawalLimit := by
  unfold Wallet.resetDailyLimitIfNewDay
  split <;> rfl

/-- C2 (counterexample). The claim says every transition outside the declared
edge set throws and leaves the state unchanged; but `markAsFailed` performs no
check: on a saga in DEBITED it silently succeeds and moves the state to
FAILED, although DEBITED → FAILED is not a declared edge. -/
theorem c2_markAsFailed_unguarded :
    (demoDebitedSaga.markAsFailed "Network error").state =
      TransferSagaState.failed ∧
    legalSagaEdge .debited .failed = false ∧
    demoDebitedSaga.state = .debited :=
  ⟨rfl, rfl, rfl⟩

/-- C2 (amended). The three guarded transitions `markAsDebited`,
`markAsCompleted` and `markAsCompensated` move only along declared edges and
throw (leaving the state unchanged) from any other source state; but
`markAsFailed` is unguarded and sets FAILED from every state. -/
theorem c2_saga_transitions (s t : TransferSaga) (reason : String) :
    (s.markAsDebited = .ok t →
      s.state = .pending ∧ t.state = .debited ∧
        legalSagaEdge s.state t.state = true) ∧
    (s.markAsCompleted = .ok t →
      s.state = .debited ∧ t.state = .completed ∧
        legalSagaEdge s.state t.state = true) ∧
    (s.markAsCompensated reason = .ok t →
      s.state = .debited ∧ t.state = .compensated ∧
        legalSagaEdge s.state t.state = true) ∧
    (s.state ≠ .pending →
      s.markAsDebited = .error (.cannotMarkDebited s.state)) ∧
    (s.state ≠ .debited →
      s.markAsCompleted = .error (.cannotMarkCompleted s.state)) ∧
    (s.state ≠ .debited →
      s.markAsCompensated reason = .error (.cannotCompensate s.state)) ∧
    (s.markAsFailed reason).state = .failed := by
  unfold TransferSaga.markAsDebited TransferSaga.markAsCompleted
    TransferSaga.markAsCompensated TransferSaga.markAsFailed
  refine ⟨?_, ?_, ?_, ?_, ?_, ?_, rfl⟩
  · intro hok
    by_cases h : s.state = .pending
    · rw [if_neg (by simp [h])] at hok
      cases hok
      exact ⟨h, rfl, by rw [h]; rfl⟩
    · rw [if_pos h] at hok
      cases hok
  · intro hok
    by_cases h : s.state = .debited
    · rw [if_neg (by simp [h])] at hok
      cases hok
      exact ⟨h, rfl, by rw [h]; rfl⟩
    · rw [if_pos h] at hok
      cases hok
  · intro hok
    by_cases h : s.state = .debited
    · rw [if_neg (by simp [h])] at hok
      cases hok
      exact ⟨h, rfl, by rw [h]; rfl⟩
    · rw [if_pos h] at hok
      cases hok
  · intro h
    rw [if_pos h]
  · intro h
    rw [if_pos h]
  · intro h
    rw [if_pos h]

/-- C2 (witness). The amended theorem applied to a fresh PENDING saga marked
as debited. -/
theorem c2_saga_transitions_witness :
    ((TransferSaga.new "s1" "a" "b" 5 "USD").markAsDebited =
      .ok { TransferSaga.new "s1" "a" "b" 5 "USD" with state := .debited }) ∧
    ((TransferSaga.new "s1" "a" "b" 5 "USD").state = .pending ∧
      ({ TransferSaga.new "s1" "a" "b" 5 "USD" with
          state := .debited } : TransferSaga).state = .debited ∧
      legalSagaEdge (TransferSaga.new "s1" "a" "b" 5 "USD").state
        ({ TransferSaga.new "s1" "a" "b" 5 "USD" with
            state := .debited } : TransferSaga).state = true) :=
  ⟨rfl, (c2_saga_transitions _ _ "r").1 rfl⟩

/-- Unfolding of a successful positivity check. -/
theorem Wallet.validatePositiveAmount_pos (amount : Rat) (operation : String)
    (hpos : 0 < amount) :
    Wallet.validatePositiveAmount amount operation = .ok () := by
  unfold Wallet.validatePositiveAmount
  rw [if_neg (not_le.mpr hpos)]

/-- Unfolding of a successful active check. -/
theorem Wallet.ensureWalletActive_ok (w : Wallet) (hact : w.status = .active) :
    w.ensureWalletActive = .ok () := by
  unfold Wallet.ensureWalletActive
  rw [if_neg (by simp [hact])]

/-- Unfolding of a failed active check. -/
theorem Wallet.ensureWalletActive_err (w : Wallet)
    (hstat : w.status ≠ .active) :
    w.ensureWalletActive = .error (.walletNotActive w.status) := by
  unfold Wallet.ensureWalletActive
  rw [if_pos hstat]

/-- C7. For a positive withdrawal on an ACTIVE wallet: a last-withdrawal date
before today resets the daily total to 0 first; then a configured limit
exceeded by the would-be total fails with WithdrawalLimitExceeded; then an
insufficient balance fails with InsufficientFunds; otherwise the balance
decreases by the amount, the daily total increases by the amount, and the
last-withdrawal date becomes today. -/
theorem c7_withdraw_flow (w : Wallet) (amount : Rat) (today : Nat)
    (hact : w.status = .active) (hpos : 0 < amount) :
    ((∃ d, w.lastWithdrawalDate = some d ∧ d < today) →
      (w.resetDailyLimitIfNewDay today).dailyWithdrawalTotal = 0) ∧
    (∀ limit, w.dailyWithdrawalLimit = some limit →
      (w.resetDailyLimitIfNewDay today).dailyWithdrawalTotal + amount > limit →
      w.withdraw amount today =
        .error (.withdrawalLimitExceeded amount limit)) ∧
    (Wallet.validateDailyLimit (w.resetDailyLimitIfNewDay today) amount =
        .ok () →
      w.balance < amount →
      w.withdraw amount today =
        .error (.insufficientFunds w.balance amount)) ∧
    (Wallet.validateDailyLimit (w.resetDailyLimitIfNewDay today) amount =
        .ok () →
      ¬ w.balance < amount →
      w.withdraw amount today = .ok
        { w.resetDailyLimitIfNewDay today with
            balance := w.balance - amount
            dailyWithdrawalTotal :=
              (w.resetDailyLimitIfNewDay today).dailyWithdrawalTotal + amount
            lastWithdrawalDate := some today }) := by
  have hres : (w.resetDailyLimitIfNewDay today).balance = w.balance :=
    Wallet.reset_balance w today
  refine ⟨?_, ?_, ?_, ?_⟩
  · rintro ⟨d, hd, hlt⟩
    have hne : w.lastWithdrawalDate ≠ some today := by
      rw [hd]
      intro hc
      exact Nat.ne_of_lt hlt (Option.some.inj hc)
    unfold Wallet.resetDailyLimitIfNewDay
    rw [if_pos hne]
  · intro limit hlim hover
    have hval : Wallet.validateDailyLimit (w.resetDailyLimitIfNewDay today)
        amount = .error (.withdrawalLimitExceeded amount limit) := by
      unfold Wallet.validateDailyLimit
      rw [Wallet.reset_limit, hlim]
      exact if_pos hover
    unfold Wallet.withdraw
    simp only [Wallet.validatePositiveAmount_pos amount "Withdrawal" hpos,
      Except.ok_bind, Wallet.ensureWalletActive_ok w hact, hval,
      Except.error_bind]
  · intro hval hbal
    unfold Wallet.withdraw
    simp only [Wallet.validatePositiveAmount_pos amount "Withdrawal" hpos,
      Except.ok_bind, Wallet.ensureWalletActive_ok w hact, hval, hres]
    rw [if_pos hbal]
  · intro hval hbal
    unfold Wallet.withdraw
    simp only [Wallet.validatePositiveAmount_pos amount "Withdrawal" hpos,
      Except.ok_bind, Wallet.ensureWalletActive_ok w hact, hval, hres,
      Wallet.trackWithdrawal]
    rw [if_neg hbal]
    rfl

/-- C7 (witness). The theorem applied to an ACTIVE wallet with balance 100, a
daily limit of 150, a stale last-withdrawal date, and a withdrawal of 30. -/
theorem c7_withdraw_flow_witness :
    ((demoWallet "alice" 100).status = .active ∧ (0 : Rat) < 30) ∧
    (((∃ d, (demoWallet "alice" 100).lastWithdrawalDate = some d ∧ d < 6) →
      ((demoWallet "alice" 100).resetDailyLimitIfNewDay 6).dailyWithdrawalTotal
        = 0) ∧
    (∀ limit, (demoWallet "alice" 100).dailyWithdrawalLimit = some limit →
      ((demoWallet "alice" 100).resetDailyLimitIfNewDay 6).dailyWithdrawalTotal
          + 30 > limit →
      (demoWallet "alice" 100).withdraw 30 6 =
        .error (.withdrawalLimitExceeded 30 limit)) ∧
    (Wallet.validateDailyLimit
        ((demoWallet "alice" 100).resetDailyLimitIfNewDay 6) 30 = .ok () →
      (demoWallet "alice" 100).balance < 30 →
      (demoWallet "alice" 100).withdraw 30 6 =
        .error (.insufficientFunds (demoWallet "alice" 100).balance 30)) ∧
    (Wallet.validateDailyLimit
        ((demoWallet "alice" 100).resetDailyLimitIfNewDay 6) 30 = .ok () →
      ¬ (demoWallet "alice" 100).balance < 30 →
      (demoWallet "alice" 100).withdraw 30 6 = .ok
        { (demoWallet "alice" 100).resetDailyLimitIfNewDay 6 with
            balance := (demoWallet "alice" 100).balance - 30
            dailyWithdrawalTotal :=
              ((demoWallet "alice" 100).resetDailyLimitIfNewDay
                6).dailyWithdrawalTotal + 30
            lastWithdrawalDate := some 6 })) :=
  ⟨⟨rfl, by norm_num⟩, c7_withdraw_flow (demoWallet "alice" 100) 30 6 rfl
    (by norm_num)⟩

/-- C10. A deposit of a positive amount into a FROZEN or CLOSED wallet fails
with WalletNotActiveError at the entity level, and the service-level deposit
propagates the error with the world unchanged — the balance is untouched. -/
theorem c10_deposit_requires_active (w : Wallet) (world : World) (amount : Rat)
    (now : Nat) (hpos : 0 < amount) (hstat : w.status ≠ .active)
    (hfind : world.store.findWallet w.id = some w)
    (hfaults : world.txFaults = []) :
    w.deposit amount = .error (.walletNotActive w.status) ∧
    WalletService.deposit world w.id amount none now =
      (.error (.walletError (.walletNotActive w.status)), world) := by
  have hdep : w.deposit amount = .error (.walletNotActive w.status) := by
    unfold Wallet.deposit
    simp only [Wallet.validatePositiveAmount_pos amount "Deposit" hpos,
      Except.ok_bind, Wallet.ensureWalletActive_err w hstat,
      Except.error_bind]
  refine ⟨hdep, ?_⟩
  unfold WalletService.deposit WalletService.executeIdempotentTransaction
  simp only [Option.none_bind, Option.map_none']
  unfold TransactionManager.execute TransactionManager.runTx
  rw [hfaults]
  unfold TransactionManager.commitPath
  simp only [WalletRepository.getOrCreate, hfind, hdep, Except.ok_bind,
    Except.error_bind, Except.mapError_error]
  simp

/-- C10 (witness). The theorem applied to a FROZEN wallet holding 50 and a
deposit of 100. -/
theorem c10_deposit_requires_active_witness :
    ((0 : Rat) < 100 ∧ (demoWallet "alice" 50 .frozen).status ≠ .active ∧
      (World.ofStore (compensationStore .frozen)).store.findWallet
          (demoWallet "alice" 50 .frozen).id =
        some (demoWallet "alice" 50 .frozen) ∧
      (World.ofStore (compensationStore .frozen)).txFaults = []) ∧
    ((demoWallet "alice" 50 .frozen).deposit 100 =
        .error (.walletNotActive (demoWallet "alice" 50 .frozen).status) ∧
      WalletService.deposit (World.ofStore (compensationStore .frozen))
          (demoWallet "alice" 50 .frozen).id 100 none 0 =
        (.error (.walletError
            (.walletNotActive (demoWallet "alice" 50 .frozen).status)),
          World.ofStore (compensationStore .frozen))) :=
  ⟨⟨by norm_num, by decide, rfl, rfl⟩,
    c10_deposit_requires_active (demoWallet "alice" 50 .frozen)
      (World.ofStore (compensationStore .frozen)) 100 0 (by norm_num)
      (by decide) rfl rfl⟩

/-- The rapid-withdrawal rule never touches the dedup cache. -/
theorem FraudDetectionConsumer.detectRapidWithdrawals_cache (st : FraudState)
    (e : FraudPayload) :
    (FraudDetectionConsumer.detectRapidWithdrawals st e).cache = st.cache := by
  unfold FraudDetectionConsumer.detectRapidWithdrawals
  dsimp only
  split <;> rfl

/-- The high-value rule never touches the dedup cache. -/
theorem FraudDetectionConsumer.detectHighValueTransaction_cache
    (st : FraudState) (e : FraudPayload) :
    (FraudDetectionConsumer.detectHighValueTransaction st e).cache =
      st.cache := by
  unfold FraudDetectionConsumer.detectHighValueTransaction
  split
  · split <;> rfl
  · rfl

/-- The fraud rules never touch the dedup cache. -/
theorem FraudDetectionConsumer.processFraudChecks_cache (st : FraudState)
    (e : FraudPayload) :
    (FraudDetectionConsumer.processFraudChecks st e).cache = st.cache := by
  unfold FraudDetectionConsumer.processFraudChecks
  split
  · rw [FraudDetectionConsumer.detectHighValueTransaction_cache,
      FraudDetectionConsumer.detectRapidWithdrawals_cache]
  · rfl

set_option maxRecDepth 8000 in
/-- C9 (counterexample). The claim says the idempotency key joins the fields
with the '|' separator; the source joins them with '-'.  On a concrete
withdrawal payload the two hex digests differ. -/
theorem c9_key_separator_counterexample :
    FraudDetectionConsumer.generateIdempotencyKey demoFraudPayload =
      "b83b3a3df224f78bfe8be6ba25752a5bd57bb6811fe41bc89403f32a05bcb5e4" ∧
    specIdempotencyKey demoFraudPayload =
      "d79d5aa69e160323fed664f738006a5890b924c35c1e747472ad63d23e7f1374" ∧
    FraudDetectionConsumer.generateIdempotencyKey demoFraudPayload ≠
      specIdempotencyKey demoFraudPayload :=
  ⟨rfl, rfl, by decide⟩

/-- C9 (amended). The idempotency key is the hex-encoded SHA-256 of
`walletId-eventType-timestamp-amount?` joined with '-' (a falsy amount
renders as the empty string); dedup is an atomic set-if-absent on
`processed_event:<key>` with a 24-hour TTL; when the key already exists the
message is acked with no rule applied (the state is unchanged), and otherwise
the key is recorded with TTL 86400 seconds and the message is acked. -/
theorem c9_dedup_mechanics (st : FraudState) (e : FraudPayload) :
    FraudDetectionConsumer.generateIdempotencyKey e =
      sha256hexOfAscii (e.walletId ++ "-" ++ e.eventType ++ "-" ++
        e.timestamp ++ "-" ++ amountTemplate e.amount) ∧
    fraudIdempotencyTtl = 86400 ∧
    (st.cache.entries.any (fun p => p.1 = "processed_event:" ++
        FraudDetectionConsumer.generateIdempotencyKey e) = true →
      FraudDetectionConsumer.handleMessage st e = (.ack, st)) ∧
    (st.cache.entries.any (fun p => p.1 = "processed_event:" ++
        FraudDetectionConsumer.generateIdempotencyKey e) = false →
      (FraudDetectionConsumer.handleMessage st e).2.cache.entries =
          st.cache.entries ++ [("processed_event:" ++
            FraudDetectionConsumer.generateIdempotencyKey e,
            fraudIdempotencyTtl)] ∧
        (FraudDetectionConsumer.handleMessage st e).1 = .ack) := by
  refine ⟨rfl, rfl, ?_, ?_⟩
  · intro h
    unfold FraudDetectionConsumer.handleMessage
      FraudDetectionConsumer.acquireLock
    simp [h]
  · intro h
    unfold FraudDetectionConsumer.handleMessage
      FraudDetectionConsumer.acquireLock
    simp [h, FraudDetectionConsumer.processFraudChecks_cache]

/-- C9 (witness). The amended theorem applied to the demo withdrawal payload
against an empty cache: the key is recorded with the 24-hour TTL and the
message is acked. -/
theorem c9_dedup_mechanics_witness :
    (demoFraudState.cache.entries.any (fun p => p.1 = "processed_event:" ++
        FraudDetectionConsumer.generateIdempotencyKey demoFraudPayload) =
      false) ∧
    ((FraudDetectionConsumer.handleMessage demoFraudState
          demoFraudPayload).2.cache.entries =
        demoFraudState.cache.entries ++ [("processed_event:" ++
          FraudDetectionConsumer.generateIdempotencyKey demoFraudPayload,
          fraudIdempotencyTtl)] ∧
      (FraudDetectionConsumer.handleMessage demoFraudState
          demoFraudPayload).1 = .ack) :=
  ⟨rfl, (c9_dedup_mechanics demoFraudState demoFraudPayload).2.2.2 rfl⟩

/-- C8 (counterexample). The claim says any requested limit larger than 100
is capped to 100; on a store holding 101 journal rows for the wallet, a
request with limit 101 returns all 101 events. -/
theorem c8_no_limit_cap :
    (WalletController.getHistory demoHistoryStore "w1" (some 101)
      none).length = 101 ∧ 100 < 101 :=
  ⟨rfl, by decide⟩

/-- C8 (amended). History is returned ordered by `created_at` descending and
its length never exceeds the effective limit; the effective limit defaults to
100 only for an absent (or zero) query value — a requested limit larger than
100 is passed through uncapped. -/
theorem c8_history_order_and_limit (st : Store) (walletId : String)
    (limitQ offsetQ : Option Nat) :
    List.Sorted eventDescOrder
      (WalletController.getHistory st walletId limitQ offsetQ) ∧
    (WalletController.getHistory st walletId limitQ offsetQ).length ≤
      jsOrDefault limitQ 100 ∧
    (limitQ = none → jsOrDefault limitQ 100 = 100) ∧
    (∀ n, limitQ = some n → n ≠ 0 → jsOrDefault limitQ 100 = n) := by
  refine ⟨?_, ?_, ?_, ?_⟩
  · unfold WalletController.getHistory WalletService.getHistory
      WalletRepository.getEventHistory
    have hs : List.Sorted eventDescOrder (List.insertionSort eventDescOrder
        (st.events.filter (fun e => e.walletId = walletId))) :=
      List.sorted_insertionSort eventDescOrder _
    exact List.Pairwise.sublist
      ((List.take_sublist _ _).trans (List.drop_sublist _ _)) hs
  · unfold WalletController.getHistory WalletService.getHistory
      WalletRepository.getEventHistory
    exact List.length_take_le _ _
  · intro h
    rw [h]
    rfl
  · intro n h hn
    rw [h]
    show (if n = 0 then 100 else n) = n
    rw [if_neg hn]

/-- C8 (witness). The amended theorem applied at a requested limit of 101:
the effective limit is 101, not 100. -/
theorem c8_history_order_and_limit_witness :
    ((some (101 : Nat)) = some 101 ∧ (101 : Nat) ≠ 0) ∧
    jsOrDefault (some 101) 100 = 101 :=
  ⟨⟨rfl, by decide⟩,
    (c8_history_order_and_limit demoHistoryStore "w1" (some 101)
      none).2.2.2 101 rfl (by decide)⟩

/-- C6. Coordinator atomicity on a healthy store: when the business closure
succeeds, the coordinator commits the closure's store together with every
outbox row buffered via `publishEvent` (best-effort publishing the payloads)
and releases the optional distributed lock; when the closure throws, the
store rolls back in full, the lock is released, and the closure's error
propagates; when the lock is already held, the transaction never starts and
the 409 ConcurrentRequest error propagates with nothing changed. -/
theorem c6_coordinator_atomicity {α : Type} (w : World)
    (lockKey : Option String)
    (op : TxContext → Except AppError (TxContext × α))
    (hfaults : w.txFaults = []) :
    (∀ ctx a, op { store := w.store, outboxBuffer := [] } = .ok (ctx, a) →
      (∀ k, lockKey = some k → k ∉ w.locks) →
      ∃ w', TransactionManager.execute w lockKey op = (.ok a, w') ∧
        w'.store = { ctx.store with
          outbox := ctx.store.outbox ++ ctx.outboxBuffer } ∧
        w'.locks = w.locks ∧
        w'.bus = w.bus ++ ctx.outboxBuffer.map (fun e => e.payload)) ∧
    (∀ e, op { store := w.store, outboxBuffer := [] } = .error e →
      (∀ k, lockKey = some k → k ∉ w.locks) →
      ∃ w', TransactionManager.execute w lockKey op = (.error e, w') ∧
        w'.store = w.store ∧ w'.locks = w.locks) ∧
    (∀ k, lockKey = some k → k ∈ w.locks →
      TransactionManager.execute w lockKey op =
        (.error .concurrentRequest, w)) := by
  refine ⟨?_, ?_, ?_⟩
  · intro ctx a hop hfree
    cases lockKey with
    | none =>
        have hex : TransactionManager.execute w none op = (.ok a,
            { w with
                store := { ctx.store with
                  outbox := ctx.store.outbox ++ ctx.outboxBuffer }
                bus := w.bus ++ ctx.outboxBuffer.map (fun e => e.payload)
                txFaults := [] }) := by
          unfold TransactionManager.execute TransactionManager.runTx
            TransactionManager.commitPath
          rw [hfaults, hop]
        exact ⟨_, hex, rfl, rfl, rfl⟩
    | some k =>
        have hk := hfree k rfl
        have hex : TransactionManager.execute w (some k) op = (.ok a,
            { w with
                store := { ctx.store with
                  outbox := ctx.store.outbox ++ ctx.outboxBuffer }
                bus := w.bus ++ ctx.outboxBuffer.map (fun e => e.payload)
                locks := (k :: w.locks).erase k
                txFaults := [] }) := by
          unfold TransactionManager.execute
          dsimp only
          rw [if_neg hk]
          unfold TransactionManager.runTx TransactionManager.commitPath
          dsimp only
          rw [hfaults, hop]
        refine ⟨_, hex, rfl, ?_, rfl⟩
        exact List.erase_cons_head k w.locks
  · intro e hop hfree
    cases lockKey with
    | none =>
        have hex : TransactionManager.execute w none op = (.error e, w) := by
          unfold TransactionManager.execute TransactionManager.runTx
            TransactionManager.commitPath
          rw [hfaults, hop]
        exact ⟨_, hex, rfl, rfl⟩
    | some k =>
        have hk := hfree k rfl
        have hex : TransactionManager.execute w (some k) op = (.error e,
            { w with locks := (k :: w.locks).erase k, txFaults := [] }) := by
          unfold TransactionManager.execute
          dsimp only
          rw [if_neg hk]
          unfold TransactionManager.runTx TransactionManager.commitPath
          dsimp only
          rw [hfaults, hop]
        refine ⟨_, hex, rfl, ?_⟩
        exact List.erase_cons_head k w.locks
  · intro k hlk hk
    subst hlk
    unfold TransactionManager.execute
    dsimp only
    rw [if_pos hk]

/-- C6 (witness). The atomicity theorem applied to a closure buffering one
outbox row under a fresh `lock:req:` distributed lock: the row is committed
into the outbox, its payload best-effort published, and the lock released. -/
theorem c6_coordinator_atomicity_witness :
    (demoTxOp { store := (World.ofStore happyTransferStore).store, outboxBuffer := [] } =
      .ok ({ store := (World.ofStore happyTransferStore).store, outboxBuffer := [demoOutboxRow] }, 0)) ∧
    (∃ w', TransactionManager.execute (World.ofStore happyTransferStore)
        (some "lock:req:r1") demoTxOp = (.ok 0, w') ∧
      w'.store = { (World.ofStore happyTransferStore).store with
        outbox := (World.ofStore happyTransferStore).store.outbox ++
          [demoOutboxRow] } ∧
      w'.locks = (World.ofStore happyTransferStore).locks ∧
      w'.bus = (World.ofStore happyTransferStore).bus ++
        [demoOutboxRow].map (fun e => e.payload)) :=
  ⟨rfl, (c6_coordinator_atomicity (World.ofStore happyTransferStore)
      (some "lock:req:r1") demoTxOp rfl).1
    { store := (World.ofStore happyTransferStore).store, outboxBuffer := [demoOutboxRow] }
    0 rfl (by intro k hk; simp [World.ofStore])⟩

/-- Retry loop, fault-consumption lemma: with `n` leading transient store
faults followed by a healthy transaction, and a business closure that never
throws a retryable error itself, the retry loop with more than `n` attempts
ends exactly as the healthy transaction does. -/
theorem executeWithRetryGo_consumes_faults {α : Type}
    (op : TxContext → Except AppError (TxContext × α)) (e : AppError)
    (he : isRetryableError e = true)
    (hnr : ∀ (st : Store) (e' : AppError),
      op { store := st, outboxBuffer := [] } = .error e' →
      isRetryableError e' = false) :
    ∀ (n fuel : Nat) (w : World), n < fuel →
      w.txFaults = List.replicate n (some e) ++ [none] →
      executeWithRetryGo
        (fun world => TransactionManager.execute world none op) fuel w =
        TransactionManager.commitPath { w with txFaults := [] } op := by
  intro n
  induction n with
  | zero =>
      intro fuel w hlt hf
      obtain ⟨m, rfl⟩ : ∃ m, fuel = m + 1 :=
        ⟨fuel - 1, (Nat.succ_pred_eq_of_pos hlt).symm⟩
      have hex : TransactionManager.execute w none op =
          TransactionManager.commitPath { w with txFaults := [] } op := by
        unfold TransactionManager.execute TransactionManager.runTx
        rw [hf]
        rfl
      show (match TransactionManager.execute w none op with
        | (.ok a, w1) => (.ok a, w1)
        | (.error e0, w1) =>
            if isRetryableError e0 then
              executeWithRetryGo
                (fun world => TransactionManager.execute world none op) m w1
            else (.error e0, w1)) =
        TransactionManager.commitPath { w with txFaults := [] } op
      rw [hex]
      cases hcp : TransactionManager.commitPath { w with txFaults := [] }
          op with
      | mk res w1 =>
          cases res with
          | ok a => rfl
          | error e0 =>
              have hop0 : op { store := w.store, outboxBuffer := [] } =
                  .error e0 := by
                unfold TransactionManager.commitPath at hcp
                cases hop : op { store := w.store, outboxBuffer := [] } with
                | ok pair => rw [hop] at hcp; cases hcp
                | error e1 =>
                    rw [hop] at hcp
                    cases hcp
                    rfl
              dsimp only
              rw [if_neg (by simp [hnr w.store e0 hop0])]
  | succ n ih =>
      intro fuel w hlt hf
      obtain ⟨m, rfl⟩ : ∃ m, fuel = m + 1 :=
        ⟨fuel - 1, (Nat.succ_pred_eq_of_pos (Nat.lt_of_le_of_lt
          (Nat.zero_le _) hlt)).symm⟩
      have hex : TransactionManager.execute w none op =
          (.error e, { w with txFaults := List.replicate n (some e) ++ [none] }) := by
        unfold TransactionManager.execute TransactionManager.runTx
        rw [hf]
        rfl
      show (match TransactionManager.execute w none op with
        | (.ok a, w1) => (.ok a, w1)
        | (.error e0, w1) =>
            if isRetryableError e0 then
              executeWithRetryGo
                (fun world => TransactionManager.execute world none op) m w1
            else (.error e0, w1)) =
        TransactionManager.commitPath { w with txFaults := [] } op
      rw [hex]
      dsimp only
      rw [if_pos he]
      exact ih m { w with txFaults := List.replicate n (some e) ++ [none] } (Nat.lt_of_succ_lt_succ hlt) rfl

/-- Retry loop, exhaustion lemma: when every attempt hits a transient store
fault, the loop gives up after consuming exactly `fuel` attempts and throws
the generic concurrent-modification error. -/
theorem executeWithRetryGo_exhausts {α : Type}
    (op : TxContext → Except AppError (TxContext × α)) (e : AppError)
    (he : isRetryableError e = true) :
    ∀ (fuel : Nat) (w : World) (rest : List (Option AppError)),
      w.txFaults = List.replicate fuel (some e) ++ rest →
      executeWithRetryGo
        (fun world => TransactionManager.execute world none op) fuel w =
        (.error .retriesExhausted, { w with txFaults := rest }) := by
  intro fuel
  induction fuel with
  | zero =>
      intro w rest hf
      have hr : w.txFaults = rest := hf
      show ((.error .retriesExhausted, w) :
        Except AppError α × World) = (.error .retriesExhausted, { w with txFaults := rest })
      rw [← hr]
  | succ m ih =>
      intro w rest hf
      have hex : TransactionManager.execute w none op =
          (.error e, { w with txFaults := List.replicate m (some e) ++ rest }) := by
        unfold TransactionManager.execute TransactionManager.runTx
        rw [hf]
        rfl
      show (match TransactionManager.execute w none op with
        | (.ok a, w1) => (.ok a, w1)
        | (.error e0, w1) =>
            if isRetryableError e0 then
              executeWithRetryGo
                (fun world => TransactionManager.execute world none op) m w1
            else (.error e0, w1)) =
        (.error .retriesExhausted, { w with txFaults := rest })
      rw [hex]
      dsimp only
      rw [if_pos he]
      exact ih { w with txFaults := List.replicate m (some e) ++ rest } rest rfl

/-- Every error thrown by the saga transactional-step closure is a business
or lookup error, never one of the transient codes the retry loop retries. -/
theorem TransferSagaService.stepOp_errors_not_retryable
    (walletId sagaId : String) (amount : Rat)
    (operation : Wallet → Except WalletError Wallet)
    (eventType : WalletEventType) (eventMetadata : EventMeta) (now : Nat)
    (updateSaga : Option (TransferSaga → Except SagaError TransferSaga)) :
    ∀ (ctx : TxContext) (e' : AppError),
      TransferSagaService.stepOp walletId sagaId amount operation eventType
        eventMetadata now updateSaga ctx = .error e' →
      isRetryableError e' = false := by
  intro ctx e' h
  unfold TransferSagaService.stepOp at h
  cases hw : ctx.store.findWallet walletId with
  | none =>
      rw [hw] at h
      simp only [Except.error_bind] at h
      cases h
      rfl
  | some wallet =>
      rw [hw] at h
      simp only [Except.ok_bind] at h
      cases hop : operation wallet with
      | error ew =>
          rw [hop] at h
          simp only [Except.mapError_error, Except.error_bind] at h
          cases h
          rfl
      | ok wallet' =>
          rw [hop] at h
          simp only [Except.mapError_ok, Except.ok_bind] at h
          cases hs : (ctx.store.saveWallet wallet').findSaga sagaId with
          | none =>
              rw [hs] at h
              simp only [Except.error_bind] at h
              cases h
              rfl
          | some saga =>
              rw [hs] at h
              simp only [Except.ok_bind] at h
              cases updateSaga with
              | none =>
                  simp only [Except.ok_bind] at h
                  cases h
              | some f =>
                  dsimp only at h
                  cases hf : f saga with
                  | error es =>
                      rw [hf] at h
                      simp only [Except.mapError_error, Except.error_bind] at h
                      cases h
                      rfl
                  | ok saga' =>
                      rw [hf] at h
                      simp only [Except.mapError_ok, Except.ok_bind] at h
                      cases h

/-- C5 (counterexample). The claim says the wallet engine retries transient
store errors on deposit/withdraw with backoff up to 10 attempts.  On a
concrete withdrawal of 30 from "alice" (balance 100) whose first transaction
hits a serialization failure (code 40001) while the store is healthy
afterwards, `WalletService.withdraw` propagates the transient error to the
caller after a single attempt — the same call on the healthy world succeeds —
so no retry happens in the wallet engine. -/
theorem c5_wallet_engine_has_no_retry :
    WalletService.withdraw { World.ofStore happyTransferStore with txFaults := [some (.pgError "40001")] } "alice" 30 none 0 0 =
      (.error (.pgError "40001"), World.ofStore happyTransferStore) ∧
    isRetryableError (.pgError "40001") = true ∧
    (WalletService.withdraw (World.ofStore happyTransferStore) "alice" 30
        none 0 0).1 = .ok (.walletResp 70 "alice") :=
  ⟨rfl, rfl, by
    norm_num [WalletService.withdraw, WalletService.executeIdempotentTransaction,
      TransactionManager.execute, TransactionManager.runTx,
      TransactionManager.commitPath, Store.findWallet, World.ofStore,
      happyTransferStore, demoWallet, Wallet.new, Wallet.withdraw,
      Wallet.validatePositiveAmount, Wallet.ensureWalletActive,
      Wallet.resetDailyLimitIfNewDay, Wallet.validateDailyLimit,
      Wallet.trackWithdrawal, Store.saveWallet, Except.ok_bind,
      Except.error_bind, Except.mapError_ok, List.find?]⟩

/-- C5 (amended). The exponential-backoff retry policy of the claim — base
`initialBackoffMs` = 50 ms, factor 2, cap 5000 ms, jitter in [0, 100), up to
`maxRetries` = 10 attempts, retrying exactly the transient codes 40001, 40P01,
23505 and the optimistic-lock mismatch — is implemented in the transfer saga
engine's `executeWithRetry` around each saga transactional step; the wallet
engine's deposit and withdraw call the transaction coordinator once and
propagate a transient store error to the caller without any retry. -/
theorem c5_retry_policy_location :
    maxRetries = 10 ∧ initialBackoffMs = 50 ∧
    (∀ (k : Nat) (j : Rat), 0 ≤ j → j < 100 →
      performExponentialBackoffMs k initialBackoffMs j =
        min (50 * 2 ^ k) 5000 + j ∧
      performExponentialBackoffMs k initialBackoffMs j < 5100) ∧
    (isRetryableError (.pgError "40001") = true ∧
      isRetryableError (.pgError "40P01") = true ∧
      isRetryableError (.pgError "23505") = true ∧
      isRetryableError .optimisticLockMismatch = true ∧
      isRetryableError (.walletError (.insufficientFunds 0 1)) = false) ∧
    (∀ (w : World) (walletId sagaId : String) (amount : Rat)
        (operation : Wallet → Except WalletError Wallet)
        (eventType : WalletEventType) (eventMetadata : EventMeta) (now : Nat)
        (updateSaga : Option (TransferSaga → Except SagaError TransferSaga))
        (n : Nat) (e : AppError),
      n < maxRetries → isRetryableError e = true →
      w.txFaults = List.replicate n (some e) ++ [none] →
      TransferSagaService.executeTransactionalStep w walletId sagaId amount
          operation eventType eventMetadata now updateSaga =
        TransactionManager.commitPath { w with txFaults := [] }
          (TransferSagaService.stepOp walletId sagaId amount operation
            eventType eventMetadata now updateSaga)) ∧
    (∀ (w : World) (walletId : String) (amount : Rat) (today now : Nat)
        (e : AppError) (rest : List (Option AppError)),
      w.txFaults = some e :: rest →
      WalletService.withdraw w walletId amount none today now =
          (.error e, { w with txFaults := rest }) ∧
      WalletService.deposit w walletId amount none now =
          (.error e, { w with txFaults := rest })) := by
  refine ⟨rfl, rfl, ?_, ⟨rfl, rfl, rfl, rfl, rfl⟩, ?_, ?_⟩
  · intro k j h0 h100
    unfold performExponentialBackoffMs initialBackoffMs
    constructor
    · rw [mul_comm]
    · have hmin : min ((2 : Rat) ^ k * 50) 5000 ≤ 5000 :=
        min_le_right _ _
      linarith
  · intro w walletId sagaId amount operation eventType eventMetadata now
      updateSaga n e hn he hf
    unfold TransferSagaService.executeTransactionalStep executeWithRetry
    exact executeWithRetryGo_consumes_faults _ e he
      (fun st e' h => TransferSagaService.stepOp_errors_not_retryable
        walletId sagaId amount operation eventType eventMetadata now
        updateSaga { store := st, outboxBuffer := [] } e' h)
      n maxRetries w hn hf
  · intro w walletId amount today now e rest hf
    constructor
    · unfold WalletService.withdraw
        WalletService.executeIdempotentTransaction
      simp only [Option.none_bind, Option.map_none']
      unfold TransactionManager.execute TransactionManager.runTx
      rw [hf]
    · unfold WalletService.deposit
        WalletService.executeIdempotentTransaction
      simp only [Option.none_bind, Option.map_none']
      unfold TransactionManager.execute TransactionManager.runTx
      rw [hf]

/-- C5 (witness). The amended theorem's wallet-engine conjunct applied to a
withdrawal whose first transaction hits a serialization failure: the error
propagates directly. -/
theorem c5_retry_policy_location_witness :
    (({ World.ofStore happyTransferStore with txFaults := [some (.pgError "40001")] } : World).txFaults = some (.pgError "40001") :: []) ∧
    (WalletService.withdraw { World.ofStore happyTransferStore with txFaults := [some (.pgError "40001")] } "alice" 30 none 0 0 =
        (.error (.pgError "40001"), { { World.ofStore happyTransferStore with txFaults := [some (.pgError "40001")] } with txFaults := ([] : List (Option AppError)) }) ∧
      WalletService.deposit { World.ofStore happyTransferStore with txFaults := [some (.pgError "40001")] } "alice" 30 none 0 =
        (.error (.pgError "40001"), { { World.ofStore happyTransferStore with txFaults := [some (.pgError "40001")] } with txFaults := ([] : List (Option AppError)) })) :=
  ⟨rfl, c5_retry_policy_location.2.2.2.2.2
    { World.ofStore happyTransferStore with txFaults := [some (.pgError "40001")] }
    "alice" 30 0 0 (.pgError "40001") [] rfl⟩

/-- One-transaction success on a healthy store, computed form. -/
theorem TransactionManager.execute_none_ok {α : Type} (w : World)
    (op : TxContext → Except AppError (TxContext × α)) (ctx : TxContext)
    (a : α) (hfaults : w.txFaults = [])
    (hop : op { store := w.store, outboxBuffer := [] } = .ok (ctx, a)) :
    TransactionManager.execute w none op = (.ok a,
      { w with
          store := { ctx.store with
            outbox := ctx.store.outbox ++ ctx.outboxBuffer }
          bus := w.bus ++ ctx.outboxBuffer.map (fun e => e.payload)
          txFaults := [] }) := by
  unfold TransactionManager.execute TransactionManager.runTx
    TransactionManager.commitPath
  rw [hfaults, hop]

/-- One-transaction failure on a healthy store: full rollback. -/
theorem TransactionManager.execute_none_error {α : Type} (w : World)
    (op : TxContext → Except AppError (TxContext × α)) (e : AppError)
    (hfaults : w.txFaults = [])
    (hop : op { store := w.store, outboxBuffer := [] } = .error e) :
    TransactionManager.execute w none op = (.error e, w) := by
  unfold TransactionManager.execute TransactionManager.runTx
    TransactionManager.commitPath
  rw [hfaults, hop]

/-- The retry loop passes a first successful attempt straight through. -/
theorem executeWithRetry_first_ok {α : Type}
    (op : World → Except AppError α × World) (w w1 : World) (a : α)
    (h : op w = (.ok a, w1)) : executeWithRetry op w = (.ok a, w1) := by
  unfold executeWithRetry maxRetries
  show (match op w with
    | (.ok a, w1) => (.ok a, w1)
    | (.error e, w1) =>
        if isRetryableError e then executeWithRetryGo op 9 w1
        else (.error e, w1)) = (.ok a, w1)
  rw [h]

/-- The retry loop rethrows a first non-retryable error unchanged. -/
theorem executeWithRetry_first_error {α : Type}
    (op : World → Except AppError α × World) (w w1 : World) (e : AppError)
    (h : op w = (.error e, w1)) (hnr : isRetryableError e = false) :
    executeWithRetry op w = (.error e, w1) := by
  unfold executeWithRetry maxRetries
  show (match op w with
    | (.ok a, w1) => (.ok a, w1)
    | (.error e, w1) =>
        if isRetryableError e then executeWithRetryGo op 9 w1
        else (.error e, w1)) = (.error e, w1)
  rw [h]
  dsimp only
  rw [if_neg (by simp [hnr])]

/-- Wallet lookups depend only on the wallets table. -/
theorem Store.findWallet_congr (st1 st2 : Store) (i : String)
    (h : st1.wallets = st2.wallets) : st1.findWallet i = st2.findWallet i := by
  unfold Store.findWallet
  rw [h]

/-- Saga lookups depend only on the sagas table. -/
theorem Store.findSaga_congr (st1 st2 : Store) (i : String)
    (h : st1.sagas = st2.sagas) : st1.findSaga i = st2.findSaga i := by
  unfold Store.findSaga
  rw [h]

/-- Unfolding of a successful credit. -/
theorem Wallet.credit_ok (w : Wallet) (amount : Rat) (hpos : 0 < amount)
    (hact : w.status = .active) :
    w.credit amount = .ok { w with balance := w.balance + amount } := by
  unfold Wallet.credit
  simp only [Wallet.validatePositiveAmount_pos amount "Credit" hpos,
    Except.ok_bind, Wallet.ensureWalletActive_ok w hact]
  rfl

/-- Unfolding of a credit rejected on a non-ACTIVE wallet. -/
theorem Wallet.credit_not_active (w : Wallet) (amount : Rat)
    (hpos : 0 < amount) (hstat : w.status ≠ .active) :
    w.credit amount = .error (.walletNotActive w.status) := by
  unfold Wallet.credit
  simp only [Wallet.validatePositiveAmount_pos amount "Credit" hpos,
    Except.ok_bind, Wallet.ensureWalletActive_err w hstat, Except.error_bind]

/-- Evaluation of the saga step closure when the wallet operation fails: the
error surfaces as a (non-retryable) domain error and nothing is produced. -/
theorem TransferSagaService.stepOp_error_wallet (st : Store)
    (walletId sagaId : String) (amount : Rat)
    (operation : Wallet → Except WalletError Wallet)
    (eventType : WalletEventType) (eventMetadata : EventMeta) (now : Nat)
    (updateSaga : Option (TransferSaga → Except SagaError TransferSaga))
    (buf : List OutboxEvent) (wal : Wallet) (ew : WalletError)
    (hfind : st.findWallet walletId = some wal)
    (hop : operation wal = .error ew) :
    TransferSagaService.stepOp walletId sagaId amount operation eventType
      eventMetadata now updateSaga { store := st, outboxBuffer := buf } =
      .error (.walletError ew) := by
  unfold TransferSagaService.stepOp
  dsimp only
  rw [hfind]
  simp only [Except.ok_bind]
  rw [hop]
  simp only [Except.mapError_error, Except.error_bind]

/-- Evaluation of the saga step closure on success with a saga transition:
the wallet is saved, the transitioned saga is saved, the journal event is
appended and the outbox row is buffered. -/
theorem TransferSagaService.stepOp_ok_update (st : Store)
    (walletId sagaId : String) (amount : Rat)
    (operation : Wallet → Except WalletError Wallet)
    (eventType : WalletEventType) (eventMetadata : EventMeta) (now : Nat)
    (f : TransferSaga → Except SagaError TransferSaga)
    (buf : List OutboxEvent) (wal wal' : Wallet) (sg sg' : TransferSaga)
    (hfind : st.findWallet walletId = some wal)
    (hop : operation wal = .ok wal')
    (hsaga : (st.saveWallet wal').findSaga sagaId = some sg)
    (hf : f sg = .ok sg') :
    TransferSagaService.stepOp walletId sagaId amount operation eventType
      eventMetadata now (some f) { store := st, outboxBuffer := buf } =
      .ok ({ store := { (st.saveWallet wal').saveSaga sg' with events := ((st.saveWallet wal').saveSaga sg').events ++ [{ walletId := walletId, eventType := eventType, currency := wal'.currency, amount := some amount, metadata := eventMetadata, createdAt := now }] }, outboxBuffer := buf ++ [{ aggregateId := walletId, eventType := eventType, payload := { eventType := eventType, walletId := walletId, amount := some amount, metadata := eventMetadata, timestamp := now }, published := false }] }, ()) := by
  unfold TransferSagaService.stepOp
  dsimp only
  rw [hfind]
  simp only [Except.ok_bind]
  rw [hop]
  simp only [Except.mapError_ok, Except.ok_bind]
  rw [hsaga]
  simp only [Except.ok_bind]
  rw [hf]
  simp only [Except.mapError_ok, Except.ok_bind]
  rfl

/-- Evaluation of the saga step closure on success without a saga
transition. -/
theorem TransferSagaService.stepOp_ok_noUpdate (st : Store)
    (walletId sagaId : String) (amount : Rat)
    (operation : Wallet → Except WalletError Wallet)
    (eventType : WalletEventType) (eventMetadata : EventMeta) (now : Nat)
    (buf : List OutboxEvent) (wal wal' : Wallet) (sg : TransferSaga)
    (hfind : st.findWallet walletId = some wal)
    (hop : operation wal = .ok wal')
    (hsaga : (st.saveWallet wal').findSaga sagaId = some sg) :
    TransferSagaService.stepOp walletId sagaId amount operation eventType
      eventMetadata now none { store := st, outboxBuffer := buf } =
      .ok ({ store := { st.saveWallet wal' with events := (st.saveWallet wal').events ++ [{ walletId := walletId, eventType := eventType, currency := wal'.currency, amount := some amount, metadata := eventMetadata, createdAt := now }] }, outboxBuffer := buf ++ [{ aggregateId := walletId, eventType := eventType, payload := { eventType := eventType, walletId := walletId, amount := some amount, metadata := eventMetadata, timestamp := now }, published := false }] }, ()) := by
  unfold TransferSagaService.stepOp
  dsimp only
  rw [hfind]
  simp only [Except.ok_bind]
  rw [hop]
  simp only [Except.mapError_ok, Except.ok_bind]
  rw [hsaga]
  simp only [Except.ok_bind]
  rfl

/-- A saga transactional step whose single transaction succeeds returns that
result unchanged through the retry wrapper. -/
theorem TransferSagaService.executeTransactionalStep_first_ok
    (w w1 : World) (walletId sagaId : String) (amount : Rat)
    (operation : Wallet → Except WalletError Wallet)
    (eventType : WalletEventType) (eventMetadata : EventMeta) (now : Nat)
    (updateSaga : Option (TransferSaga → Except SagaError TransferSaga))
    (h : TransactionManager.execute w none (TransferSagaService.stepOp
      walletId sagaId amount operation eventType eventMetadata now
      updateSaga) = (.ok (), w1)) :
    TransferSagaService.executeTransactionalStep w walletId sagaId amount
      operation eventType eventMetadata now updateSaga = (.ok (), w1) := by
  unfold TransferSagaService.executeTransactionalStep
  exact executeWithRetry_first_ok _ w w1 () h

/-- A saga transactional step whose single transaction throws a
non-retryable error rethrows it unchanged through the retry wrapper. -/
theorem TransferSagaService.executeTransactionalStep_first_error
    (w w1 : World) (walletId sagaId : String) (amount : Rat)
    (operation : Wallet → Except WalletError Wallet)
    (eventType : WalletEventType) (eventMetadata : EventMeta) (now : Nat)
    (updateSaga : Option (TransferSaga → Except SagaError TransferSaga))
    (e : AppError)
    (h : TransactionManager.execute w none (TransferSagaService.stepOp
      walletId sagaId amount operation eventType eventMetadata now
      updateSaga) = (.error e, w1))
    (hnr : isRetryableError e = false) :
    TransferSagaService.executeTransactionalStep w walletId sagaId amount
      operation eventType eventMetadata now updateSaga = (.error e, w1) := by
  unfold TransferSagaService.executeTransactionalStep
  exact executeWithRetry_first_error _ w w1 e h hnr

/-- C1 (amended). Compensation of a DEBITED saga refunds through
`Wallet.credit`, which requires the source wallet to be ACTIVE: an ACTIVE
source is refunded (balance + amount), the saga transitions DEBITED →
COMPENSATED recording the reason, a TRANSFER_COMPENSATED journal event and
outbox row are written in the same transaction, and a TRANSFER_FAILED payload
is published; a FROZEN or CLOSED source makes the credit throw
WalletNotActiveError, the compensation transaction rolls back completely —
no refund, saga left in DEBITED for recovery — and the error propagates. -/
theorem c1_compensation_flow (w : World) (wal : Wallet) (sg : TransferSaga)
    (amount : Rat) (msg : String) (now : Nat)
    (hfind : w.store.findWallet sg.fromWalletId = some wal)
    (hsaga : w.store.findSaga sg.id = some sg)
    (hstate : sg.state = .debited)
    (hfaults : w.txFaults = []) (hsched : w.pubSchedule = [])
    (hpos : 0 < amount) :
    (wal.status ≠ .active →
      TransferSagaService.compensate w sg.id sg.fromWalletId amount msg now =
        (.error (.walletError (.walletNotActive wal.status)), w)) ∧
    (wal.status = .active →
      ∃ w', TransferSagaService.compensate w sg.id sg.fromWalletId amount msg
          now = (.ok (), w') ∧
        w'.store.findWallet sg.fromWalletId =
          some { wal with balance := wal.balance + amount } ∧
        w'.store.findSaga sg.id = some { sg with state := .compensated, metadata := { sg.metadata with compensationReason := some msg } } ∧
        (∃ ev ∈ w'.store.events, ev.walletId = sg.fromWalletId ∧ ev.eventType = .transferCompensated ∧ ev.amount = some amount) ∧
        (∃ row ∈ w'.store.outbox, row.eventType = .transferCompensated ∧ row.aggregateId = sg.fromWalletId) ∧
        (∃ p ∈ w'.bus, p.eventType = .transferFailed ∧ p.walletId = sg.fromWalletId ∧ p.metadata.reason = some msg)) := by
  have hid : wal.id = sg.fromWalletId := Store.findWallet_id _ _ _ hfind
  constructor
  · intro hstat
    have hcredit := Wallet.credit_not_active wal amount hpos hstat
    have hstep := TransferSagaService.stepOp_error_wallet w.store
      sg.fromWalletId sg.id amount (fun wa => wa.credit amount)
      .transferCompensated
      { sagaId := some sg.id, reason := some msg } now
      (some (fun s => s.markAsCompensated msg)) [] wal
      (.walletNotActive wal.status) hfind hcredit
    have hexec := TransactionManager.execute_none_error w _ _ hfaults hstep
    have hretry := TransferSagaService.executeTransactionalStep_first_error
      w w sg.fromWalletId sg.id amount (fun wa => wa.credit amount)
      .transferCompensated { sagaId := some sg.id, reason := some msg } now
      (some (fun s => s.markAsCompensated msg))
      (.walletError (.walletNotActive wal.status)) hexec rfl
    unfold TransferSagaService.compensate
    rw [hretry]
  · intro hact
    have hcredit := Wallet.credit_ok wal amount hpos hact
    have hsagafind : (w.store.saveWallet { wal with balance := wal.balance + amount }).findSaga sg.id = some sg := by
      rw [Store.findSaga_congr _ w.store _ (Store.saveWallet_sagas _ _)]
      exact hsaga
    have hmark : sg.markAsCompensated msg = .ok { sg with state := .compensated, metadata := { sg.metadata with compensationReason := some msg } } := by
      unfold TransferSaga.markAsCompensated
      rw [if_neg (by simp [hstate])]
    have hstep := TransferSagaService.stepOp_ok_update w.store
      sg.fromWalletId sg.id amount (fun wa => wa.credit amount)
      .transferCompensated
      { sagaId := some sg.id, reason := some msg } now
      (fun s => s.markAsCompensated msg) [] wal
      { wal with balance := wal.balance + amount } sg
      { sg with state := .compensated, metadata := { sg.metadata with compensationReason := some msg } }
      hfind hcredit hsagafind hmark
    have hexec := TransactionManager.execute_none_ok w _ _ () hfaults hstep
    have hretry := TransferSagaService.executeTransactionalStep_first_ok
      w _ sg.fromWalletId sg.id amount (fun wa => wa.credit amount)
      .transferCompensated { sagaId := some sg.id, reason := some msg } now
      (some (fun s => s.markAsCompensated msg)) hexec
    unfold TransferSagaService.compensate
    rw [hretry]
    dsimp only
    unfold EventPublisher.publish
    dsimp only
    rw [hsched]
    dsimp only
    refine ⟨_, rfl, ?_, ?_, ?_, ?_, ?_⟩
    · rw [← hid]
      refine Eq.trans (Store.findWallet_congr _
        (w.store.saveWallet { wal with balance := wal.balance + amount })
        wal.id ?_) ?_
      · simp [Store.saveSaga_wallets]
      · exact Store.findWallet_saveWallet_self w.store
          { wal with balance := wal.balance + amount }
    · refine Eq.trans (Store.findSaga_congr _
        ((w.store.saveWallet { wal with balance := wal.balance + amount }).saveSaga { sg with state := .compensated, metadata := { sg.metadata with compensationReason := some msg } })
        sg.id ?_) ?_
      · rfl
      · exact Store.findSaga_saveSaga_self
          (w.store.saveWallet { wal with balance := wal.balance + amount })
          { sg with state := .compensated, metadata := { sg.metadata with compensationReason := some msg } }
    · exact ⟨{ walletId := sg.fromWalletId, eventType := .transferCompensated, currency := wal.currency, amount := some amount, metadata := { sagaId := some sg.id, reason := some msg }, createdAt := now }, by simp, rfl, rfl, rfl⟩
    · exact ⟨{ aggregateId := sg.fromWalletId, eventType := .transferCompensated, payload := { eventType := .transferCompensated, walletId := sg.fromWalletId, amount := some amount, metadata := { sagaId := some sg.id, reason := some msg }, timestamp := now }, published := false }, by simp, rfl, rfl⟩
    · exact ⟨{ eventType := .transferFailed, walletId := sg.fromWalletId, amount := some amount, metadata := { sagaId := some sg.id, reason := some msg }, timestamp := now }, by simp, rfl, rfl, rfl⟩

/-- C1 (counterexample). The claim says compensation credits the refund even
to a FROZEN source and that a CLOSED source ends the saga FAILED.  On the
concrete DEBITED saga of 100 from "alice" (balance 50 after the debit):
with "alice" FROZEN the compensation throws WalletNotActiveError and changes
nothing (no refund), and with "alice" CLOSED the world is likewise unchanged,
so the saga remains DEBITED — it never reaches FAILED. -/
theorem c1_no_privileged_refund :
    (TransferSagaService.compensate (World.ofStore (compensationStore .frozen)) "saga-1" "alice" 100 "credit leg failed" 7 =
      (.error (.walletError (.walletNotActive .frozen)), World.ofStore (compensationStore .frozen))) ∧
    (TransferSagaService.compensate (World.ofStore (compensationStore .closed)) "saga-1" "alice" 100 "credit leg failed" 7 =
      (.error (.walletError (.walletNotActive .closed)), World.ofStore (compensationStore .closed))) ∧
    ((World.ofStore (compensationStore .frozen)).store.findWallet "alice").map (fun x => x.balance) = some 50 ∧
    ((World.ofStore (compensationStore .closed)).store.findSaga "saga-1").map (fun s => s.state) = some .debited ∧
    TransferSagaState.debited ≠ TransferSagaState.failed :=
  ⟨rfl, rfl, rfl, rfl, by decide⟩

/-- C1 (witness). The amended theorem's non-ACTIVE branch applied to the
FROZEN "alice": compensation throws and the world is unchanged. -/
theorem c1_compensation_flow_witness :
    ((demoWallet "alice" 50 .frozen).status ≠ .active ∧ (0 : Rat) < 100) ∧
    TransferSagaService.compensate (World.ofStore (compensationStore .frozen)) demoDebitedSaga.id demoDebitedSaga.fromWalletId 100 "credit leg failed" 7 =
      (.error (.walletError (.walletNotActive (demoWallet "alice" 50 .frozen).status)), World.ofStore (compensationStore .frozen)) :=
  ⟨⟨by decide, by norm_num⟩,
    (c1_compensation_flow (World.ofStore (compensationStore .frozen))
      (demoWallet "alice" 50 .frozen) demoDebitedSaga 100 "credit leg failed"
      7 rfl rfl rfl rfl rfl (by norm_num)).1 (by decide)⟩

/-- The daily reset leaves the wallet id unchanged. -/
theorem Wallet.reset_id (w : Wallet) (today : Nat) :
    (w.resetDailyLimitIfNewDay today).id = w.id := by
  unfold Wallet.resetDailyLimitIfNewDay
  split <;> rfl

/-- The daily reset leaves the currency unchanged. -/
theorem Wallet.reset_currency (w : Wallet) (today : Nat) :
    (w.resetDailyLimitIfNewDay today).currency = w.currency := by
  unfold Wallet.resetDailyLimitIfNewDay
  split <;> rfl

/-- Evaluation of a successful withdrawal: on an ACTIVE wallet with a
positive amount, a passing daily-limit check and sufficient balance, the
balance decreases by the amount, the daily total (after any reset) increases
by the amount and the date is stamped. -/
theorem Wallet.withdraw_ok_eval (w : Wallet) (amount : Rat) (today : Nat)
    (hact : w.status = .active) (hpos : 0 < amount)
    (hlim : Wallet.validateDailyLimit (w.resetDailyLimitIfNewDay today)
      amount = .ok ())
    (hbal : ¬ w.balance < amount) :
    w.withdraw amount today = .ok
      { w.resetDailyLimitIfNewDay today with
          balance := w.balance - amount
          dailyWithdrawalTotal :=
            (w.resetDailyLimitIfNewDay today).dailyWithdrawalTotal + amount
          lastWithdrawalDate := some today } := by
  have hres : (w.resetDailyLimitIfNewDay today).balance = w.balance :=
    Wallet.reset_balance w today
  unfold Wallet.withdraw
  simp only [Wallet.validatePositiveAmount_pos amount "Withdrawal" hpos,
    Except.ok_bind, Wallet.ensureWalletActive_ok w hact, hlim, hres,
    Wallet.trackWithdrawal]
  rw [if_neg hbal]
  rfl

/-- `getOrCreate` on an existing wallet returns it with the store
untouched. -/
theorem WalletRepository.getOrCreate_found (st : Store) (id currency : String)
    (now : Nat) (wal : Wallet) (h : st.findWallet id = some wal) :
    WalletRepository.getOrCreate st id currency now = (st, wal) := by
  unfold WalletRepository.getOrCreate
  rw [h]

/-- A saga save does not affect wallet lookups. -/
theorem Store.findWallet_saveSaga (st : Store) (s : TransferSaga) (i : String) :
    (st.saveSaga s).findWallet i = st.findWallet i :=
  Store.findWallet_congr _ _ i (Store.saveSaga_wallets st s)

/-- A wallet save does not affect saga lookups. -/
theorem Store.findSaga_saveWallet (st : Store) (w : Wallet) (i : String) :
    (st.saveWallet w).findSaga i = st.findSaga i :=
  Store.findSaga_congr _ _ i (Store.saveWallet_sagas st w)

/-- An awaited publish with an exhausted (empty) schedule succeeds and puts
the payload on the bus. -/
theorem EventPublisher.publish_up (w : World) (p : OutboxPayload)
    (h : w.pubSchedule = []) :
    EventPublisher.publish w p = (.ok (), { w with bus := w.bus ++ [p] }) := by
  unfold EventPublisher.publish
  rw [h]

/-- An awaited publish with an available broker at the head of the schedule
succeeds, puts the payload on the bus and consumes the schedule head. -/
theorem EventPublisher.publish_headTrue (w : World) (p : OutboxPayload)
    (rest : List Bool) (h : w.pubSchedule = true :: rest) :
    EventPublisher.publish w p =
      (.ok (), { w with bus := w.bus ++ [p], pubSchedule := rest }) := by
  unfold EventPublisher.publish
  rw [h]
  rfl

/-- An awaited publish against a disconnected broker throws and delivers
nothing. -/
theorem EventPublisher.publish_headFalse (w : World) (p : OutboxPayload)
    (rest : List Bool) (h : w.pubSchedule = false :: rest) :
    EventPublisher.publish w p =
      (.error .busDisconnected, { w with pubSchedule := rest }) := by
  unfold EventPublisher.publish
  rw [h]
  rfl

/-- The catch block of `executeTransfer` on a saga that never reached DEBITED:
`markAsFailed` runs unguarded, the FAILED saga is saved, and the original
error is rethrown. -/
theorem TransferSagaService.catch_not_debited (w : World) (sagaId : String)
    (err : AppError) (now : Nat) (sg : TransferSaga)
    (hfind : w.store.findSaga sagaId = some sg)
    (hnd : ¬ sg.state = .debited) :
    TransferSagaService.catchTransferError w sagaId err now =
      (.error err,
        { w with store := w.store.saveSaga (sg.markAsFailed err.message) }) := by
  unfold TransferSagaService.catchTransferError
  rw [hfind]
  dsimp only
  rw [if_neg hnd]

set_option maxHeartbeats 2000000 in
/-- Full evaluation of the debit leg on a healthy world: one committed
transaction saves the debited source wallet, transitions the saga
PENDING -> DEBITED, appends the FUNDS_WITHDRAWN journal event, persists the
matching outbox row and fires its payload onto the bus. -/
theorem TransferSagaService.debitFromSender_eval (v : World) (a b : Wallet)
    (amount : Rat) (sid : String) (today now : Nat)
    (hf : v.txFaults = [])
    (hw : v.store.findWallet a.id = some a)
    (hs : (v.store.saveWallet { a.resetDailyLimitIfNewDay today with balance := a.balance - amount, dailyWithdrawalTotal := (a.resetDailyLimitIfNewDay today).dailyWithdrawalTotal + amount, lastWithdrawalDate := some today }).findSaga sid = some (TransferSaga.new sid a.id b.id amount a.currency))
    (hact : a.status = .active) (hpos : 0 < amount)
    (hlim : Wallet.validateDailyLimit (a.resetDailyLimitIfNewDay today) amount = .ok ())
    (hbal : ¬ a.balance < amount) :
    TransferSagaService.debitFromSender v (TransferSaga.new sid a.id b.id amount a.currency) today now = (.ok (), { v with store := { ((v.store.saveWallet { a.resetDailyLimitIfNewDay today with balance := a.balance - amount, dailyWithdrawalTotal := (a.resetDailyLimitIfNewDay today).dailyWithdrawalTotal + amount, lastWithdrawalDate := some today }).saveSaga { TransferSaga.new sid a.id b.id amount a.currency with state := TransferSagaState.debited }) with events := ((v.store.saveWallet { a.resetDailyLimitIfNewDay today with balance := a.balance - amount, dailyWithdrawalTotal := (a.resetDailyLimitIfNewDay today).dailyWithdrawalTotal + amount, lastWithdrawalDate := some today }).saveSaga { TransferSaga.new sid a.id b.id amount a.currency with state := TransferSagaState.debited }).events ++ [{ walletId := a.id, eventType := WalletEventType.fundsWithdrawn, currency := (a.resetDailyLimitIfNewDay today).currency, amount := some amount, metadata := { sagaId := some sid, transferTo := some b.id }, createdAt := now }], outbox := ((v.store.saveWallet { a.resetDailyLimitIfNewDay today with balance := a.balance - amount, dailyWithdrawalTotal := (a.resetDailyLimitIfNewDay today).dailyWithdrawalTotal + amount, lastWithdrawalDate := some today }).saveSaga { TransferSaga.new sid a.id b.id amount a.currency with state := TransferSagaState.debited }).outbox ++ [{ aggregateId := a.id, eventType := WalletEventType.fundsWithdrawn, payload := { eventType := WalletEventType.fundsWithdrawn, walletId := a.id, amount := some amount, metadata := { sagaId := some sid, transferTo := some b.id }, timestamp := now }, published := false }] }, bus := v.bus ++ [{ eventType := WalletEventType.fundsWithdrawn, walletId := a.id, amount := some amount, metadata := { sagaId := some sid, transferTo := some b.id }, timestamp := now }], txFaults := [] }) := by
  unfold TransferSagaService.debitFromSender
  exact TransferSagaService.executeTransactionalStep_first_ok _ _ _ _ _ _ _ _ _ _
    (TransactionManager.execute_none_ok v _ _ () hf
      (TransferSagaService.stepOp_ok_update v.store _ _ _ _ _ _ _ (fun s => s.markAsDebited) [] a _ _ { TransferSaga.new sid a.id b.id amount a.currency with state := TransferSagaState.debited } hw
        (Wallet.withdraw_ok_eval a amount today hact hpos hlim hbal) hs rfl))

set_option maxHeartbeats 2000000 in
/-- Full evaluation of the credit leg on a healthy world: one committed
transaction saves the credited destination wallet (which must be ACTIVE),
appends the FUNDS_DEPOSITED journal event, persists the matching outbox row
and fires its payload onto the bus; the saga is not touched. -/
theorem TransferSagaService.creditToReceiver_eval (v : World) (a b : Wallet)
    (amount : Rat) (sid : String) (now : Nat)
    (hf : v.txFaults = [])
    (hw : v.store.findWallet b.id = some b)
    (hs : (v.store.saveWallet { b with balance := b.balance + amount }).findSaga sid = some ({ TransferSaga.new sid a.id b.id amount a.currency with state := TransferSagaState.debited }))
    (hbact : b.status = .active) (hpos : 0 < amount) :
    TransferSagaService.creditToReceiver v ({ TransferSaga.new sid a.id b.id amount a.currency with state := TransferSagaState.debited }) now = (.ok (), { v with store := { (v.store.saveWallet { b with balance := b.balance + amount }) with events := (v.store.saveWallet { b with balance := b.balance + amount }).events ++ [{ walletId := b.id, eventType := WalletEventType.fundsDeposited, currency := b.currency, amount := some amount, metadata := { sagaId := some sid, transferFrom := some a.id }, createdAt := now }], outbox := (v.store.saveWallet { b with balance := b.balance + amount }).outbox ++ [{ aggregateId := b.id, eventType := WalletEventType.fundsDeposited, payload := { eventType := WalletEventType.fundsDeposited, walletId := b.id, amount := some amount, metadata := { sagaId := some sid, transferFrom := some a.id }, timestamp := now }, published := false }] }, bus := v.bus ++ [{ eventType := WalletEventType.fundsDeposited, walletId := b.id, amount := some amount, metadata := { sagaId := some sid, transferFrom := some a.id }, timestamp := now }], txFaults := [] }) := by
  unfold TransferSagaService.creditToReceiver
  exact TransferSagaService.executeTransactionalStep_first_ok _ _ _ _ _ _ _ _ _ _
    (TransactionManager.execute_none_ok v _ _ () hf
      (TransferSagaService.stepOp_ok_noUpdate v.store _ _ _ _ _ _ _ [] b _ _ hw
        (Wallet.credit_ok b amount hpos hbact) hs))

set_option maxHeartbeats 4000000 in
/-- Full evaluation of a happy-path transfer without a request id: the result
is COMPLETED, the two leg transactions persist the wallet rows, the two leg
journal events and the two leg outbox rows, the saga row ends COMPLETED, the
idempotency table is untouched, and the TRANSFER_INITIATED and
TRANSFER_COMPLETED notifications reach only the bus. -/
theorem TransferSagaService.executeTransfer_happy_eval (w : World)
    (a b : Wallet) (amount : Rat) (sid : String) (today now : Nat)
    (hne : a.id ≠ b.id)
    (hfina : w.store.findWallet a.id = some a)
    (hfinb : w.store.findWallet b.id = some b)
    (hcur : b.currency = a.currency)
    (hfaults : w.txFaults = [])
    (hsched : w.pubSchedule = [])
    (hact : a.status = .active) (hbact : b.status = .active)
    (hpos : 0 < amount)
    (hlim : Wallet.validateDailyLimit (a.resetDailyLimitIfNewDay today) amount = .ok ())
    (hbal : ¬ a.balance < amount) :
    ∃ wFin : World,
      TransferSagaService.executeTransfer w a.id b.id amount none sid today now = (.ok (.transferResp { sagaId := sid, state := TransferSagaState.completed, fromWalletId := a.id, toWalletId := b.id, amount := amount }), wFin) ∧
      wFin.store.findWallet a.id = some { a.resetDailyLimitIfNewDay today with balance := a.balance - amount, dailyWithdrawalTotal := (a.resetDailyLimitIfNewDay today).dailyWithdrawalTotal + amount, lastWithdrawalDate := some today } ∧
      wFin.store.findWallet b.id = some { b with balance := b.balance + amount } ∧
      wFin.store.findSaga sid = some { TransferSaga.new sid a.id b.id amount a.currency with state := TransferSagaState.completed } ∧
      wFin.store.events = w.store.events ++ [{ walletId := a.id, eventType := WalletEventType.fundsWithdrawn, currency := a.currency, amount := some amount, metadata := { sagaId := some sid, transferTo := some b.id }, createdAt := now }, { walletId := b.id, eventType := WalletEventType.fundsDeposited, currency := b.currency, amount := some amount, metadata := { sagaId := some sid, transferFrom := some a.id }, createdAt := now }] ∧
      wFin.store.outbox = w.store.outbox ++ [{ aggregateId := a.id, eventType := WalletEventType.fundsWithdrawn, payload := { eventType := WalletEventType.fundsWithdrawn, walletId := a.id, amount := some amount, metadata := { sagaId := some sid, transferTo := some b.id }, timestamp := now }, published := false }, { aggregateId := b.id, eventType := WalletEventType.fundsDeposited, payload := { eventType := WalletEventType.fundsDeposited, walletId := b.id, amount := some amount, metadata := { sagaId := some sid, transferFrom := some a.id }, timestamp := now }, published := false }] ∧
      wFin.store.idempotency = w.store.idempotency ∧
      wFin.bus = w.bus ++ [{ eventType := WalletEventType.transferInitiated, walletId := a.id, amount := some amount, metadata := { sagaId := some sid, toWalletId := some b.id }, timestamp := now }, { eventType := WalletEventType.fundsWithdrawn, walletId := a.id, amount := some amount, metadata := { sagaId := some sid, transferTo := some b.id }, timestamp := now }, { eventType := WalletEventType.fundsDeposited, walletId := b.id, amount := some amount, metadata := { sagaId := some sid, transferFrom := some a.id }, timestamp := now }, { eventType := WalletEventType.transferCompleted, walletId := a.id, amount := some amount, metadata := { sagaId := some sid, toWalletId := some b.id }, timestamp := now }] ∧
      wFin.locks = w.locks := by
  have hAid : ({ a.resetDailyLimitIfNewDay today with balance := a.balance - amount, dailyWithdrawalTotal := (a.resetDailyLimitIfNewDay today).dailyWithdrawalTotal + amount, lastWithdrawalDate := some today } : Wallet).id = a.id := Wallet.reset_id a today
  have hbne : b.id ≠ ({ a.resetDailyLimitIfNewDay today with balance := a.balance - amount, dailyWithdrawalTotal := (a.resetDailyLimitIfNewDay today).dailyWithdrawalTotal + amount, lastWithdrawalDate := some today } : Wallet).id := fun h => hne ((h.trans hAid).symm)
  have hself : ∀ st : Store, (st.saveWallet { a.resetDailyLimitIfNewDay today with balance := a.balance - amount, dailyWithdrawalTotal := (a.resetDailyLimitIfNewDay today).dailyWithdrawalTotal + amount, lastWithdrawalDate := some today }).findWallet a.id = some { a.resetDailyLimitIfNewDay today with balance := a.balance - amount, dailyWithdrawalTotal := (a.resetDailyLimitIfNewDay today).dailyWithdrawalTotal + amount, lastWithdrawalDate := some today } := by
    intro st
    rw [← hAid]
    exact Store.findWallet_saveWallet_self st { a.resetDailyLimitIfNewDay today with balance := a.balance - amount, dailyWithdrawalTotal := (a.resetDailyLimitIfNewDay today).dailyWithdrawalTotal + amount, lastWithdrawalDate := some today }
  have hrelD : ({ wallets := (((w.store.saveSaga (TransferSaga.new sid a.id b.id amount a.currency)).saveWallet { a.resetDailyLimitIfNewDay today with balance := a.balance - amount, dailyWithdrawalTotal := (a.resetDailyLimitIfNewDay today).dailyWithdrawalTotal + amount, lastWithdrawalDate := some today }).saveSaga { TransferSaga.new sid a.id b.id amount a.currency with state := TransferSagaState.debited }).wallets, events := (((w.store.saveSaga (TransferSaga.new sid a.id b.id amount a.currency)).saveWallet { a.resetDailyLimitIfNewDay today with balance := a.balance - amount, dailyWithdrawalTotal := (a.resetDailyLimitIfNewDay today).dailyWithdrawalTotal + amount, lastWithdrawalDate := some today }).saveSaga { TransferSaga.new sid a.id b.id amount a.currency with state := TransferSagaState.debited }).events ++ [{ walletId := a.id, eventType := WalletEventType.fundsWithdrawn, currency := (a.resetDailyLimitIfNewDay today).currency, amount := some amount, metadata := { sagaId := some sid, transferTo := some b.id }, createdAt := now }], sagas := (((w.store.saveSaga (TransferSaga.new sid a.id b.id amount a.currency)).saveWallet { a.resetDailyLimitIfNewDay today with balance := a.balance - amount, dailyWithdrawalTotal := (a.resetDailyLimitIfNewDay today).dailyWithdrawalTotal + amount, lastWithdrawalDate := some today }).saveSaga { TransferSaga.new sid a.id b.id amount a.currency with state := TransferSagaState.debited }).sagas, outbox := (((w.store.saveSaga (TransferSaga.new sid a.id b.id amount a.currency)).saveWallet { a.resetDailyLimitIfNewDay today with balance := a.balance - amount, dailyWithdrawalTotal := (a.resetDailyLimitIfNewDay today).dailyWithdrawalTotal + amount, lastWithdrawalDate := some today }).saveSaga { TransferSaga.new sid a.id b.id amount a.currency with state := TransferSagaState.debited }).outbox ++ [{ aggregateId := a.id, eventType := WalletEventType.fundsWithdrawn, payload := { eventType := WalletEventType.fundsWithdrawn, walletId := a.id, amount := some amount, metadata := { sagaId := some sid, transferTo := some b.id }, timestamp := now }, published := false }], idempotency := (((w.store.saveSaga (TransferSaga.new sid a.id b.id amount a.currency)).saveWallet { a.resetDailyLimitIfNewDay today with balance := a.balance - amount, dailyWithdrawalTotal := (a.resetDailyLimitIfNewDay today).dailyWithdrawalTotal + amount, lastWithdrawalDate := some today }).saveSaga { TransferSaga.new sid a.id b.id amount a.currency with state := TransferSagaState.debited }).idempotency } : Store).findSaga sid = some { TransferSaga.new sid a.id b.id amount a.currency with state := TransferSagaState.debited } :=
    (Store.findSaga_congr { wallets := (((w.store.saveSaga (TransferSaga.new sid a.id b.id amount a.currency)).saveWallet { a.resetDailyLimitIfNewDay today with balance := a.balance - amount, dailyWithdrawalTotal := (a.resetDailyLimitIfNewDay today).dailyWithdrawalTotal + amount, lastWithdrawalDate := some today }).saveSaga { TransferSaga.new sid a.id b.id amount a.currency with state := TransferSagaState.debited }).wallets, events := (((w.store.saveSaga (TransferSaga.new sid a.id b.id amount a.currency)).saveWallet { a.resetDailyLimitIfNewDay today with balance := a.balance - amount, dailyWithdrawalTotal := (a.resetDailyLimitIfNewDay today).dailyWithdrawalTotal + amount, lastWithdrawalDate := some today }).saveSaga { TransferSaga.new sid a.id b.id amount a.currency with state := TransferSagaState.debited }).events ++ [{ walletId := a.id, eventType := WalletEventType.fundsWithdrawn, currency := (a.resetDailyLimitIfNewDay today).currency, amount := some amount, metadata := { sagaId := some sid, transferTo := some b.id }, createdAt := now }], sagas := (((w.store.saveSaga (TransferSaga.new sid a.id b.id amount a.currency)).saveWallet { a.resetDailyLimitIfNewDay today with balance := a.balance - amount, dailyWithdrawalTotal := (a.resetDailyLimitIfNewDay today).dailyWithdrawalTotal + amount, lastWithdrawalDate := some today }).saveSaga { TransferSaga.new sid a.id b.id amount a.currency with state := TransferSagaState.debited }).sagas, outbox := (((w.store.saveSaga (TransferSaga.new sid a.id b.id amount a.currency)).saveWallet { a.resetDailyLimitIfNewDay today with balance := a.balance - amount, dailyWithdrawalTotal := (a.resetDailyLimitIfNewDay today).dailyWithdrawalTotal + amount, lastWithdrawalDate := some today }).saveSaga { TransferSaga.new sid a.id b.id amount a.currency with state := TransferSagaState.debited }).outbox ++ [{ aggregateId := a.id, eventType := WalletEventType.fundsWithdrawn, payload := { eventType := WalletEventType.fundsWithdrawn, walletId := a.id, amount := some amount, metadata := { sagaId := some sid, transferTo := some b.id }, timestamp := now }, published := false }], idempotency := (((w.store.saveSaga (TransferSaga.new sid a.id b.id amount a.currency)).saveWallet { a.resetDailyLimitIfNewDay today with balance := a.balance - amount, dailyWithdrawalTotal := (a.resetDailyLimitIfNewDay today).dailyWithdrawalTotal + amount, lastWithdrawalDate := some today }).saveSaga { TransferSaga.new sid a.id b.id amount a.currency with state := TransferSagaState.debited }).idempotency } (((w.store.saveSaga (TransferSaga.new sid a.id b.id amount a.currency)).saveWallet { a.resetDailyLimitIfNewDay today with balance := a.balance - amount, dailyWithdrawalTotal := (a.resetDailyLimitIfNewDay today).dailyWithdrawalTotal + amount, lastWithdrawalDate := some today }).saveSaga { TransferSaga.new sid a.id b.id amount a.currency with state := TransferSagaState.debited }) sid rfl).trans
      (Store.findSaga_saveSaga_self ((w.store.saveSaga (TransferSaga.new sid a.id b.id amount a.currency)).saveWallet { a.resetDailyLimitIfNewDay today with balance := a.balance - amount, dailyWithdrawalTotal := (a.resetDailyLimitIfNewDay today).dailyWithdrawalTotal + amount, lastWithdrawalDate := some today }) { TransferSaga.new sid a.id b.id amount a.currency with state := TransferSagaState.debited })
  have hrelDg : ({ wallets := (((w.store.saveSaga (TransferSaga.new sid a.id b.id amount a.currency)).saveWallet { a.resetDailyLimitIfNewDay today with balance := a.balance - amount, dailyWithdrawalTotal := (a.resetDailyLimitIfNewDay today).dailyWithdrawalTotal + amount, lastWithdrawalDate := some today }).saveSaga { TransferSaga.new sid a.id b.id amount a.currency with state := TransferSagaState.debited }).wallets, events := (((w.store.saveSaga (TransferSaga.new sid a.id b.id amount a.currency)).saveWallet { a.resetDailyLimitIfNewDay today with balance := a.balance - amount, dailyWithdrawalTotal := (a.resetDailyLimitIfNewDay today).dailyWithdrawalTotal + amount, lastWithdrawalDate := some today }).saveSaga { TransferSaga.new sid a.id b.id amount a.currency with state := TransferSagaState.debited }).events ++ [{ walletId := a.id, eventType := WalletEventType.fundsWithdrawn, currency := (a.resetDailyLimitIfNewDay today).currency, amount := some amount, metadata := { sagaId := some sid, transferTo := some b.id }, createdAt := now }], sagas := (((w.store.saveSaga (TransferSaga.new sid a.id b.id amount a.currency)).saveWallet { a.resetDailyLimitIfNewDay today with balance := a.balance - amount, dailyWithdrawalTotal := (a.resetDailyLimitIfNewDay today).dailyWithdrawalTotal + amount, lastWithdrawalDate := some today }).saveSaga { TransferSaga.new sid a.id b.id amount a.currency with state := TransferSagaState.debited }).sagas, outbox := (((w.store.saveSaga (TransferSaga.new sid a.id b.id amount a.currency)).saveWallet { a.resetDailyLimitIfNewDay today with balance := a.balance - amount, dailyWithdrawalTotal := (a.resetDailyLimitIfNewDay today).dailyWithdrawalTotal + amount, lastWithdrawalDate := some today }).saveSaga { TransferSaga.new sid a.id b.id amount a.currency with state := TransferSagaState.debited }).outbox ++ [{ aggregateId := a.id, eventType := WalletEventType.fundsWithdrawn, payload := { eventType := WalletEventType.fundsWithdrawn, walletId := a.id, amount := some amount, metadata := { sagaId := some sid, transferTo := some b.id }, timestamp := now }, published := false }], idempotency := (((w.store.saveSaga (TransferSaga.new sid a.id b.id amount a.currency)).saveWallet { a.resetDailyLimitIfNewDay today with balance := a.balance - amount, dailyWithdrawalTotal := (a.resetDailyLimitIfNewDay today).dailyWithdrawalTotal + amount, lastWithdrawalDate := some today }).saveSaga { TransferSaga.new sid a.id b.id amount a.currency with state := TransferSagaState.debited }).idempotency } : Store).findSaga (TransferSaga.new sid a.id b.id amount a.currency).id = some { TransferSaga.new sid a.id b.id amount a.currency with state := TransferSagaState.debited } := hrelD
  have hrelD2g : ({ wallets := (Store.saveWallet { wallets := (((w.store.saveSaga (TransferSaga.new sid a.id b.id amount a.currency)).saveWallet { a.resetDailyLimitIfNewDay today with balance := a.balance - amount, dailyWithdrawalTotal := (a.resetDailyLimitIfNewDay today).dailyWithdrawalTotal + amount, lastWithdrawalDate := some today }).saveSaga { TransferSaga.new sid a.id b.id amount a.currency with state := TransferSagaState.debited }).wallets, events := (((w.store.saveSaga (TransferSaga.new sid a.id b.id amount a.currency)).saveWallet { a.resetDailyLimitIfNewDay today with balance := a.balance - amount, dailyWithdrawalTotal := (a.resetDailyLimitIfNewDay today).dailyWithdrawalTotal + amount, lastWithdrawalDate := some today }).saveSaga { TransferSaga.new sid a.id b.id amount a.currency with state := TransferSagaState.debited }).events ++ [{ walletId := a.id, eventType := WalletEventType.fundsWithdrawn, currency := (a.resetDailyLimitIfNewDay today).currency, amount := some amount, metadata := { sagaId := some sid, transferTo := some b.id }, createdAt := now }], sagas := (((w.store.saveSaga (TransferSaga.new sid a.id b.id amount a.currency)).saveWallet { a.resetDailyLimitIfNewDay today with balance := a.balance - amount, dailyWithdrawalTotal := (a.resetDailyLimitIfNewDay today).dailyWithdrawalTotal + amount, lastWithdrawalDate := some today }).saveSaga { TransferSaga.new sid a.id b.id amount a.currency with state := TransferSagaState.debited }).sagas, outbox := (((w.store.saveSaga (TransferSaga.new sid a.id b.id amount a.currency)).saveWallet { a.resetDailyLimitIfNewDay today with balance := a.balance - amount, dailyWithdrawalTotal := (a.resetDailyLimitIfNewDay today).dailyWithdrawalTotal + amount, lastWithdrawalDate := some today }).saveSaga { TransferSaga.new sid a.id b.id amount a.currency with state := TransferSagaState.debited }).outbox ++ [{ aggregateId := a.id, eventType := WalletEventType.fundsWithdrawn, payload := { eventType := WalletEventType.fundsWithdrawn, walletId := a.id, amount := some amount, metadata := { sagaId := some sid, transferTo := some b.id }, timestamp := now }, published := false }], idempotency := (((w.store.saveSaga (TransferSaga.new sid a.id b.id amount a.currency)).saveWallet { a.resetDailyLimitIfNewDay today with balance := a.balance - amount, dailyWithdrawalTotal := (a.resetDailyLimitIfNewDay today).dailyWithdrawalTotal + amount, lastWithdrawalDate := some today }).saveSaga { TransferSaga.new sid a.id b.id amount a.currency with state := TransferSagaState.debited }).idempotency } { b with balance := b.balance + amount }).wallets, events := (Store.saveWallet { wallets := (((w.store.saveSaga (TransferSaga.new sid a.id b.id amount a.currency)).saveWallet { a.resetDailyLimitIfNewDay today with balance := a.balance - amount, dailyWithdrawalTotal := (a.resetDailyLimitIfNewDay today).dailyWithdrawalTotal + amount, lastWithdrawalDate := some today }).saveSaga { TransferSaga.new sid a.id b.id amount a.currency with state := TransferSagaState.debited }).wallets, events := (((w.store.saveSaga (TransferSaga.new sid a.id b.id amount a.currency)).saveWallet { a.resetDailyLimitIfNewDay today with balance := a.balance - amount, dailyWithdrawalTotal := (a.resetDailyLimitIfNewDay today).dailyWithdrawalTotal + amount, lastWithdrawalDate := some today }).saveSaga { TransferSaga.new sid a.id b.id amount a.currency with state := TransferSagaState.debited }).events ++ [{ walletId := a.id, eventType := WalletEventType.fundsWithdrawn, currency := (a.resetDailyLimitIfNewDay today).currency, amount := some amount, metadata := { sagaId := some sid, transferTo := some b.id }, createdAt := now }], sagas := (((w.store.saveSaga (TransferSaga.new sid a.id b.id amount a.currency)).saveWallet { a.resetDailyLimitIfNewDay today with balance := a.balance - amount, dailyWithdrawalTotal := (a.resetDailyLimitIfNewDay today).dailyWithdrawalTotal + amount, lastWithdrawalDate := some today }).saveSaga { TransferSaga.new sid a.id b.id amount a.currency with state := TransferSagaState.debited }).sagas, outbox := (((w.store.saveSaga (TransferSaga.new sid a.id b.id amount a.currency)).saveWallet { a.resetDailyLimitIfNewDay today with balance := a.balance - amount, dailyWithdrawalTotal := (a.resetDailyLimitIfNewDay today).dailyWithdrawalTotal + amount, lastWithdrawalDate := some today }).saveSaga { TransferSaga.new sid a.id b.id amount a.currency with state := TransferSagaState.debited }).outbox ++ [{ aggregateId := a.id, eventType := WalletEventType.fundsWithdrawn, payload := { eventType := WalletEventType.fundsWithdrawn, walletId := a.id, amount := some amount, metadata := { sagaId := some sid, transferTo := some b.id }, timestamp := now }, published := false }], idempotency := (((w.store.saveSaga (TransferSaga.new sid a.id b.id amount a.currency)).saveWallet { a.resetDailyLimitIfNewDay today with balance := a.balance - amount, dailyWithdrawalTotal := (a.resetDailyLimitIfNewDay today).dailyWithdrawalTotal + amount, lastWithdrawalDate := some today }).saveSaga { TransferSaga.new sid a.id b.id amount a.currency with state := TransferSagaState.debited }).idempotency } { b with balance := b.balance + amount }).events ++ [{ walletId := b.id, eventType := WalletEventType.fundsDeposited, currency := b.currency, amount := some amount, metadata := { sagaId := some sid, transferFrom := some a.id }, createdAt := now }], sagas := (Store.saveWallet { wallets := (((w.store.saveSaga (TransferSaga.new sid a.id b.id amount a.currency)).saveWallet { a.resetDailyLimitIfNewDay today with balance := a.balance - amount, dailyWithdrawalTotal := (a.resetDailyLimitIfNewDay today).dailyWithdrawalTotal + amount, lastWithdrawalDate := some today }).saveSaga { TransferSaga.new sid a.id b.id amount a.currency with state := TransferSagaState.debited }).wallets, events := (((w.store.saveSaga (TransferSaga.new sid a.id b.id amount a.currency)).saveWallet { a.resetDailyLimitIfNewDay today with balance := a.balance - amount, dailyWithdrawalTotal := (a.resetDailyLimitIfNewDay today).dailyWithdrawalTotal + amount, lastWithdrawalDate := some today }).saveSaga { TransferSaga.new sid a.id b.id amount a.currency with state := TransferSagaState.debited }).events ++ [{ walletId := a.id, eventType := WalletEventType.fundsWithdrawn, currency := (a.resetDailyLimitIfNewDay today).currency, amount := some amount, metadata := { sagaId := some sid, transferTo := some b.id }, createdAt := now }], sagas := (((w.store.saveSaga (TransferSaga.new sid a.id b.id amount a.currency)).saveWallet { a.resetDailyLimitIfNewDay today with balance := a.balance - amount, dailyWithdrawalTotal := (a.resetDailyLimitIfNewDay today).dailyWithdrawalTotal + amount, lastWithdrawalDate := some today }).saveSaga { TransferSaga.new sid a.id b.id amount a.currency with state := TransferSagaState.debited }).sagas, outbox := (((w.store.saveSaga (TransferSaga.new sid a.id b.id amount a.currency)).saveWallet { a.resetDailyLimitIfNewDay today with balance := a.balance - amount, dailyWithdrawalTotal := (a.resetDailyLimitIfNewDay today).dailyWithdrawalTotal + amount, lastWithdrawalDate := some today }).saveSaga { TransferSaga.new sid a.id b.id amount a.currency with state := TransferSagaState.debited }).outbox ++ [{ aggregateId := a.id, eventType := WalletEventType.fundsWithdrawn, payload := { eventType := WalletEventType.fundsWithdrawn, walletId := a.id, amount := some amount, metadata := { sagaId := some sid, transferTo := some b.id }, timestamp := now }, published := false }], idempotency := (((w.store.saveSaga (TransferSaga.new sid a.id b.id amount a.currency)).saveWallet { a.resetDailyLimitIfNewDay today with balance := a.balance - amount, dailyWithdrawalTotal := (a.resetDailyLimitIfNewDay today).dailyWithdrawalTotal + amount, lastWithdrawalDate := some today }).saveSaga { TransferSaga.new sid a.id b.id amount a.currency with state := TransferSagaState.debited }).idempotency } { b with balance := b.balance + amount }).sagas, outbox := (Store.saveWallet { wallets := (((w.store.saveSaga (TransferSaga.new sid a.id b.id amount a.currency)).saveWallet { a.resetDailyLimitIfNewDay today with balance := a.balance - amount, dailyWithdrawalTotal := (a.resetDailyLimitIfNewDay today).dailyWithdrawalTotal + amount, lastWithdrawalDate := some today }).saveSaga { TransferSaga.new sid a.id b.id amount a.currency with state := TransferSagaState.debited }).wallets, events := (((w.store.saveSaga (TransferSaga.new sid a.id b.id amount a.currency)).saveWallet { a.resetDailyLimitIfNewDay today with balance := a.balance - amount, dailyWithdrawalTotal := (a.resetDailyLimitIfNewDay today).dailyWithdrawalTotal + amount, lastWithdrawalDate := some today }).saveSaga { TransferSaga.new sid a.id b.id amount a.currency with state := TransferSagaState.debited }).events ++ [{ walletId := a.id, eventType := WalletEventType.fundsWithdrawn, currency := (a.resetDailyLimitIfNewDay today).currency, amount := some amount, metadata := { sagaId := some sid, transferTo := some b.id }, createdAt := now }], sagas := (((w.store.saveSaga (TransferSaga.new sid a.id b.id amount a.currency)).saveWallet { a.resetDailyLimitIfNewDay today with balance := a.balance - amount, dailyWithdrawalTotal := (a.resetDailyLimitIfNewDay today).dailyWithdrawalTotal + amount, lastWithdrawalDate := some today }).saveSaga { TransferSaga.new sid a.id b.id amount a.currency with state := TransferSagaState.debited }).sagas, outbox := (((w.store.saveSaga (TransferSaga.new sid a.id b.id amount a.currency)).saveWallet { a.resetDailyLimitIfNewDay today with balance := a.balance - amount, dailyWithdrawalTotal := (a.resetDailyLimitIfNewDay today).dailyWithdrawalTotal + amount, lastWithdrawalDate := some today }).saveSaga { TransferSaga.new sid a.id b.id amount a.currency with state := TransferSagaState.debited }).outbox ++ [{ aggregateId := a.id, eventType := WalletEventType.fundsWithdrawn, payload := { eventType := WalletEventType.fundsWithdrawn, walletId := a.id, amount := some amount, metadata := { sagaId := some sid, transferTo := some b.id }, timestamp := now }, published := false }], idempotency := (((w.store.saveSaga (TransferSaga.new sid a.id b.id amount a.currency)).saveWallet { a.resetDailyLimitIfNewDay today with balance := a.balance - amount, dailyWithdrawalTotal := (a.resetDailyLimitIfNewDay today).dailyWithdrawalTotal + amount, lastWithdrawalDate := some today }).saveSaga { TransferSaga.new sid a.id b.id amount a.currency with state := TransferSagaState.debited }).idempotency } { b with balance := b.balance + amount }).outbox ++ [{ aggregateId := b.id, eventType := WalletEventType.fundsDeposited, payload := { eventType := WalletEventType.fundsDeposited, walletId := b.id, amount := some amount, metadata := { sagaId := some sid, transferFrom := some a.id }, timestamp := now }, published := false }], idempotency := (Store.saveWallet { wallets := (((w.store.saveSaga (TransferSaga.new sid a.id b.id amount a.currency)).saveWallet { a.resetDailyLimitIfNewDay today with balance := a.balance - amount, dailyWithdrawalTotal := (a.resetDailyLimitIfNewDay today).dailyWithdrawalTotal + amount, lastWithdrawalDate := some today }).saveSaga { TransferSaga.new sid a.id b.id amount a.currency with state := TransferSagaState.debited }).wallets, events := (((w.store.saveSaga (TransferSaga.new sid a.id b.id amount a.currency)).saveWallet { a.resetDailyLimitIfNewDay today with balance := a.balance - amount, dailyWithdrawalTotal := (a.resetDailyLimitIfNewDay today).dailyWithdrawalTotal + amount, lastWithdrawalDate := some today }).saveSaga { TransferSaga.new sid a.id b.id amount a.currency with state := TransferSagaState.debited }).events ++ [{ walletId := a.id, eventType := WalletEventType.fundsWithdrawn, currency := (a.resetDailyLimitIfNewDay today).currency, amount := some amount, metadata := { sagaId := some sid, transferTo := some b.id }, createdAt := now }], sagas := (((w.store.saveSaga (TransferSaga.new sid a.id b.id amount a.currency)).saveWallet { a.resetDailyLimitIfNewDay today with balance := a.balance - amount, dailyWithdrawalTotal := (a.resetDailyLimitIfNewDay today).dailyWithdrawalTotal + amount, lastWithdrawalDate := some today }).saveSaga { TransferSaga.new sid a.id b.id amount a.currency with state := TransferSagaState.debited }).sagas, outbox := (((w.store.saveSaga (TransferSaga.new sid a.id b.id amount a.currency)).saveWallet { a.resetDailyLimitIfNewDay today with balance := a.balance - amount, dailyWithdrawalTotal := (a.resetDailyLimitIfNewDay today).dailyWithdrawalTotal + amount, lastWithdrawalDate := some today }).saveSaga { TransferSaga.new sid a.id b.id amount a.currency with state := TransferSagaState.debited }).outbox ++ [{ aggregateId := a.id, eventType := WalletEventType.fundsWithdrawn, payload := { eventType := WalletEventType.fundsWithdrawn, walletId := a.id, amount := some amount, metadata := { sagaId := some sid, transferTo := some b.id }, timestamp := now }, published := false }], idempotency := (((w.store.saveSaga (TransferSaga.new sid a.id b.id amount a.currency)).saveWallet { a.resetDailyLimitIfNewDay today with balance := a.balance - amount, dailyWithdrawalTotal := (a.resetDailyLimitIfNewDay today).dailyWithdrawalTotal + amount, lastWithdrawalDate := some today }).saveSaga { TransferSaga.new sid a.id b.id amount a.currency with state := TransferSagaState.debited }).idempotency } { b with balance := b.balance + amount }).idempotency } : Store).findSaga (TransferSaga.new sid a.id b.id amount a.currency).id = some { TransferSaga.new sid a.id b.id amount a.currency with state := TransferSagaState.debited } :=
    (Store.findSaga_congr { wallets := (Store.saveWallet { wallets := (((w.store.saveSaga (TransferSaga.new sid a.id b.id amount a.currency)).saveWallet { a.resetDailyLimitIfNewDay today with balance := a.balance - amount, dailyWithdrawalTotal := (a.resetDailyLimitIfNewDay today).dailyWithdrawalTotal + amount, lastWithdrawalDate := some today }).saveSaga { TransferSaga.new sid a.id b.id amount a.currency with state := TransferSagaState.debited }).wallets, events := (((w.store.saveSaga (TransferSaga.new sid a.id b.id amount a.currency)).saveWallet { a.resetDailyLimitIfNewDay today with balance := a.balance - amount, dailyWithdrawalTotal := (a.resetDailyLimitIfNewDay today).dailyWithdrawalTotal + amount, lastWithdrawalDate := some today }).saveSaga { TransferSaga.new sid a.id b.id amount a.currency with state := TransferSagaState.debited }).events ++ [{ walletId := a.id, eventType := WalletEventType.fundsWithdrawn, currency := (a.resetDailyLimitIfNewDay today).currency, amount := some amount, metadata := { sagaId := some sid, transferTo := some b.id }, createdAt := now }], sagas := (((w.store.saveSaga (TransferSaga.new sid a.id b.id amount a.currency)).saveWallet { a.resetDailyLimitIfNewDay today with balance := a.balance - amount, dailyWithdrawalTotal := (a.resetDailyLimitIfNewDay today).dailyWithdrawalTotal + amount, lastWithdrawalDate := some today }).saveSaga { TransferSaga.new sid a.id b.id amount a.currency with state := TransferSagaState.debited }).sagas, outbox := (((w.store.saveSaga (TransferSaga.new sid a.id b.id amount a.currency)).saveWallet { a.resetDailyLimitIfNewDay today with balance := a.balance - amount, dailyWithdrawalTotal := (a.resetDailyLimitIfNewDay today).dailyWithdrawalTotal + amount, lastWithdrawalDate := some today }).saveSaga { TransferSaga.new sid a.id b.id amount a.currency with state := TransferSagaState.debited }).outbox ++ [{ aggregateId := a.id, eventType := WalletEventType.fundsWithdrawn, payload := { eventType := WalletEventType.fundsWithdrawn, walletId := a.id, amount := some amount, metadata := { sagaId := some sid, transferTo := some b.id }, timestamp := now }, published := false }], idempotency := (((w.store.saveSaga (TransferSaga.new sid a.id b.id amount a.currency)).saveWallet { a.resetDailyLimitIfNewDay today with balance := a.balance - amount, dailyWithdrawalTotal := (a.resetDailyLimitIfNewDay today).dailyWithdrawalTotal + amount, lastWithdrawalDate := some today }).saveSaga { TransferSaga.new sid a.id b.id amount a.currency with state := TransferSagaState.debited }).idempotency } { b with balance := b.balance + amount }).wallets, events := (Store.saveWallet { wallets := (((w.store.saveSaga (TransferSaga.new sid a.id b.id amount a.currency)).saveWallet { a.resetDailyLimitIfNewDay today with balance := a.balance - amount, dailyWithdrawalTotal := (a.resetDailyLimitIfNewDay today).dailyWithdrawalTotal + amount, lastWithdrawalDate := some today }).saveSaga { TransferSaga.new sid a.id b.id amount a.currency with state := TransferSagaState.debited }).wallets, events := (((w.store.saveSaga (TransferSaga.new sid a.id b.id amount a.currency)).saveWallet { a.resetDailyLimitIfNewDay today with balance := a.balance - amount, dailyWithdrawalTotal := (a.resetDailyLimitIfNewDay today).dailyWithdrawalTotal + amount, lastWithdrawalDate := some today }).saveSaga { TransferSaga.new sid a.id b.id amount a.currency with state := TransferSagaState.debited }).events ++ [{ walletId := a.id, eventType := WalletEventType.fundsWithdrawn, currency := (a.resetDailyLimitIfNewDay today).currency, amount := some amount, metadata := { sagaId := some sid, transferTo := some b.id }, createdAt := now }], sagas := (((w.store.saveSaga (TransferSaga.new sid a.id b.id amount a.currency)).saveWallet { a.resetDailyLimitIfNewDay today with balance := a.balance - amount, dailyWithdrawalTotal := (a.resetDailyLimitIfNewDay today).dailyWithdrawalTotal + amount, lastWithdrawalDate := some today }).saveSaga { TransferSaga.new sid a.id b.id amount a.currency with state := TransferSagaState.debited }).sagas, outbox := (((w.store.saveSaga (TransferSaga.new sid a.id b.id amount a.currency)).saveWallet { a.resetDailyLimitIfNewDay today with balance := a.balance - amount, dailyWithdrawalTotal := (a.resetDailyLimitIfNewDay today).dailyWithdrawalTotal + amount, lastWithdrawalDate := some today }).saveSaga { TransferSaga.new sid a.id b.id amount a.currency with state := TransferSagaState.debited }).outbox ++ [{ aggregateId := a.id, eventType := WalletEventType.fundsWithdrawn, payload := { eventType := WalletEventType.fundsWithdrawn, walletId := a.id, amount := some amount, metadata := { sagaId := some sid, transferTo := some b.id }, timestamp := now }, published := false }], idempotency := (((w.store.saveSaga (TransferSaga.new sid a.id b.id amount a.currency)).saveWallet { a.resetDailyLimitIfNewDay today with balance := a.balance - amount, dailyWithdrawalTotal := (a.resetDailyLimitIfNewDay today).dailyWithdrawalTotal + amount, lastWithdrawalDate := some today }).saveSaga { TransferSaga.new sid a.id b.id amount a.currency with state := TransferSagaState.debited }).idempotency } { b with balance := b.balance + amount }).events ++ [{ walletId := b.id, eventType := WalletEventType.fundsDeposited, currency := b.currency, amount := some amount, metadata := { sagaId := some sid, transferFrom := some a.id }, createdAt := now }], sagas := (Store.saveWallet { wallets := (((w.store.saveSaga (TransferSaga.new sid a.id b.id amount a.currency)).saveWallet { a.resetDailyLimitIfNewDay today with balance := a.balance - amount, dailyWithdrawalTotal := (a.resetDailyLimitIfNewDay today).dailyWithdrawalTotal + amount, lastWithdrawalDate := some today }).saveSaga { TransferSaga.new sid a.id b.id amount a.currency with state := TransferSagaState.debited }).wallets, events := (((w.store.saveSaga (TransferSaga.new sid a.id b.id amount a.currency)).saveWallet { a.resetDailyLimitIfNewDay today with balance := a.balance - amount, dailyWithdrawalTotal := (a.resetDailyLimitIfNewDay today).dailyWithdrawalTotal + amount, lastWithdrawalDate := some today }).saveSaga { TransferSaga.new sid a.id b.id amount a.currency with state := TransferSagaState.debited }).events ++ [{ walletId := a.id, eventType := WalletEventType.fundsWithdrawn, currency := (a.resetDailyLimitIfNewDay today).currency, amount := some amount, metadata := { sagaId := some sid, transferTo := some b.id }, createdAt := now }], sagas := (((w.store.saveSaga (TransferSaga.new sid a.id b.id amount a.currency)).saveWallet { a.resetDailyLimitIfNewDay today with balance := a.balance - amount, dailyWithdrawalTotal := (a.resetDailyLimitIfNewDay today).dailyWithdrawalTotal + amount, lastWithdrawalDate := some today }).saveSaga { TransferSaga.new sid a.id b.id amount a.currency with state := TransferSagaState.debited }).sagas, outbox := (((w.store.saveSaga (TransferSaga.new sid a.id b.id amount a.currency)).saveWallet { a.resetDailyLimitIfNewDay today with balance := a.balance - amount, dailyWithdrawalTotal := (a.resetDailyLimitIfNewDay today).dailyWithdrawalTotal + amount, lastWithdrawalDate := some today }).saveSaga { TransferSaga.new sid a.id b.id amount a.currency with state := TransferSagaState.debited }).outbox ++ [{ aggregateId := a.id, eventType := WalletEventType.fundsWithdrawn, payload := { eventType := WalletEventType.fundsWithdrawn, walletId := a.id, amount := some amount, metadata := { sagaId := some sid, transferTo := some b.id }, timestamp := now }, published := false }], idempotency := (((w.store.saveSaga (TransferSaga.new sid a.id b.id amount a.currency)).saveWallet { a.resetDailyLimitIfNewDay today with balance := a.balance - amount, dailyWithdrawalTotal := (a.resetDailyLimitIfNewDay today).dailyWithdrawalTotal + amount, lastWithdrawalDate := some today }).saveSaga { TransferSaga.new sid a.id b.id amount a.currency with state := TransferSagaState.debited }).idempotency } { b with balance := b.balance + amount }).sagas, outbox := (Store.saveWallet { wallets := (((w.store.saveSaga (TransferSaga.new sid a.id b.id amount a.currency)).saveWallet { a.resetDailyLimitIfNewDay today with balance := a.balance - amount, dailyWithdrawalTotal := (a.resetDailyLimitIfNewDay today).dailyWithdrawalTotal + amount, lastWithdrawalDate := some today }).saveSaga { TransferSaga.new sid a.id b.id amount a.currency with state := TransferSagaState.debited }).wallets, events := (((w.store.saveSaga (TransferSaga.new sid a.id b.id amount a.currency)).saveWallet { a.resetDailyLimitIfNewDay today with balance := a.balance - amount, dailyWithdrawalTotal := (a.resetDailyLimitIfNewDay today).dailyWithdrawalTotal + amount, lastWithdrawalDate := some today }).saveSaga { TransferSaga.new sid a.id b.id amount a.currency with state := TransferSagaState.debited }).events ++ [{ walletId := a.id, eventType := WalletEventType.fundsWithdrawn, currency := (a.resetDailyLimitIfNewDay today).currency, amount := some amount, metadata := { sagaId := some sid, transferTo := some b.id }, createdAt := now }], sagas := (((w.store.saveSaga (TransferSaga.new sid a.id b.id amount a.currency)).saveWallet { a.resetDailyLimitIfNewDay today with balance := a.balance - amount, dailyWithdrawalTotal := (a.resetDailyLimitIfNewDay today).dailyWithdrawalTotal + amount, lastWithdrawalDate := some today }).saveSaga { TransferSaga.new sid a.id b.id amount a.currency with state := TransferSagaState.debited }).sagas, outbox := (((w.store.saveSaga (TransferSaga.new sid a.id b.id amount a.currency)).saveWallet { a.resetDailyLimitIfNewDay today with balance := a.balance - amount, dailyWithdrawalTotal := (a.resetDailyLimitIfNewDay today).dailyWithdrawalTotal + amount, lastWithdrawalDate := some today }).saveSaga { TransferSaga.new sid a.id b.id amount a.currency with state := TransferSagaState.debited }).outbox ++ [{ aggregateId := a.id, eventType := WalletEventType.fundsWithdrawn, payload := { eventType := WalletEventType.fundsWithdrawn, walletId := a.id, amount := some amount, metadata := { sagaId := some sid, transferTo := some b.id }, timestamp := now }, published := false }], idempotency := (((w.store.saveSaga (TransferSaga.new sid a.id b.id amount a.currency)).saveWallet { a.resetDailyLimitIfNewDay today with balance := a.balance - amount, dailyWithdrawalTotal := (a.resetDailyLimitIfNewDay today).dailyWithdrawalTotal + amount, lastWithdrawalDate := some today }).saveSaga { TransferSaga.new sid a.id b.id amount a.currency with state := TransferSagaState.debited }).idempotency } { b with balance := b.balance + amount }).outbox ++ [{ aggregateId := b.id, eventType := WalletEventType.fundsDeposited, payload := { eventType := WalletEventType.fundsDeposited, walletId := b.id, amount := some amount, metadata := { sagaId := some sid, transferFrom := some a.id }, timestamp := now }, published := false }], idempotency := (Store.saveWallet { wallets := (((w.store.saveSaga (TransferSaga.new sid a.id b.id amount a.currency)).saveWallet { a.resetDailyLimitIfNewDay today with balance := a.balance - amount, dailyWithdrawalTotal := (a.resetDailyLimitIfNewDay today).dailyWithdrawalTotal + amount, lastWithdrawalDate := some today }).saveSaga { TransferSaga.new sid a.id b.id amount a.currency with state := TransferSagaState.debited }).wallets, events := (((w.store.saveSaga (TransferSaga.new sid a.id b.id amount a.currency)).saveWallet { a.resetDailyLimitIfNewDay today with balance := a.balance - amount, dailyWithdrawalTotal := (a.resetDailyLimitIfNewDay today).dailyWithdrawalTotal + amount, lastWithdrawalDate := some today }).saveSaga { TransferSaga.new sid a.id b.id amount a.currency with state := TransferSagaState.debited }).events ++ [{ walletId := a.id, eventType := WalletEventType.fundsWithdrawn, currency := (a.resetDailyLimitIfNewDay today).currency, amount := some amount, metadata := { sagaId := some sid, transferTo := some b.id }, createdAt := now }], sagas := (((w.store.saveSaga (TransferSaga.new sid a.id b.id amount a.currency)).saveWallet { a.resetDailyLimitIfNewDay today with balance := a.balance - amount, dailyWithdrawalTotal := (a.resetDailyLimitIfNewDay today).dailyWithdrawalTotal + amount, lastWithdrawalDate := some today }).saveSaga { TransferSaga.new sid a.id b.id amount a.currency with state := TransferSagaState.debited }).sagas, outbox := (((w.store.saveSaga (TransferSaga.new sid a.id b.id amount a.currency)).saveWallet { a.resetDailyLimitIfNewDay today with balance := a.balance - amount, dailyWithdrawalTotal := (a.resetDailyLimitIfNewDay today).dailyWithdrawalTotal + amount, lastWithdrawalDate := some today }).saveSaga { TransferSaga.new sid a.id b.id amount a.currency with state := TransferSagaState.debited }).outbox ++ [{ aggregateId := a.id, eventType := WalletEventType.fundsWithdrawn, payload := { eventType := WalletEventType.fundsWithdrawn, walletId := a.id, amount := some amount, metadata := { sagaId := some sid, transferTo := some b.id }, timestamp := now }, published := false }], idempotency := (((w.store.saveSaga (TransferSaga.new sid a.id b.id amount a.currency)).saveWallet { a.resetDailyLimitIfNewDay today with balance := a.balance - amount, dailyWithdrawalTotal := (a.resetDailyLimitIfNewDay today).dailyWithdrawalTotal + amount, lastWithdrawalDate := some today }).saveSaga { TransferSaga.new sid a.id b.id amount a.currency with state := TransferSagaState.debited }).idempotency } { b with balance := b.balance + amount }).idempotency } (Store.saveWallet { wallets := (((w.store.saveSaga (TransferSaga.new sid a.id b.id amount a.currency)).saveWallet { a.resetDailyLimitIfNewDay today with balance := a.balance - amount, dailyWithdrawalTotal := (a.resetDailyLimitIfNewDay today).dailyWithdrawalTotal + amount, lastWithdrawalDate := some today }).saveSaga { TransferSaga.new sid a.id b.id amount a.currency with state := TransferSagaState.debited }).wallets, events := (((w.store.saveSaga (TransferSaga.new sid a.id b.id amount a.currency)).saveWallet { a.resetDailyLimitIfNewDay today with balance := a.balance - amount, dailyWithdrawalTotal := (a.resetDailyLimitIfNewDay today).dailyWithdrawalTotal + amount, lastWithdrawalDate := some today }).saveSaga { TransferSaga.new sid a.id b.id amount a.currency with state := TransferSagaState.debited }).events ++ [{ walletId := a.id, eventType := WalletEventType.fundsWithdrawn, currency := (a.resetDailyLimitIfNewDay today).currency, amount := some amount, metadata := { sagaId := some sid, transferTo := some b.id }, createdAt := now }], sagas := (((w.store.saveSaga (TransferSaga.new sid a.id b.id amount a.currency)).saveWallet { a.resetDailyLimitIfNewDay today with balance := a.balance - amount, dailyWithdrawalTotal := (a.resetDailyLimitIfNewDay today).dailyWithdrawalTotal + amount, lastWithdrawalDate := some today }).saveSaga { TransferSaga.new sid a.id b.id amount a.currency with state := TransferSagaState.debited }).sagas, outbox := (((w.store.saveSaga (TransferSaga.new sid a.id b.id amount a.currency)).saveWallet { a.resetDailyLimitIfNewDay today with balance := a.balance - amount, dailyWithdrawalTotal := (a.resetDailyLimitIfNewDay today).dailyWithdrawalTotal + amount, lastWithdrawalDate := some today }).saveSaga { TransferSaga.new sid a.id b.id amount a.currency with state := TransferSagaState.debited }).outbox ++ [{ aggregateId := a.id, eventType := WalletEventType.fundsWithdrawn, payload := { eventType := WalletEventType.fundsWithdrawn, walletId := a.id, amount := some amount, metadata := { sagaId := some sid, transferTo := some b.id }, timestamp := now }, published := false }], idempotency := (((w.store.saveSaga (TransferSaga.new sid a.id b.id amount a.currency)).saveWallet { a.resetDailyLimitIfNewDay today with balance := a.balance - amount, dailyWithdrawalTotal := (a.resetDailyLimitIfNewDay today).dailyWithdrawalTotal + amount, lastWithdrawalDate := some today }).saveSaga { TransferSaga.new sid a.id b.id amount a.currency with state := TransferSagaState.debited }).idempotency } { b with balance := b.balance + amount }) (TransferSaga.new sid a.id b.id amount a.currency).id rfl).trans
      ((Store.findSaga_saveWallet { wallets := (((w.store.saveSaga (TransferSaga.new sid a.id b.id amount a.currency)).saveWallet { a.resetDailyLimitIfNewDay today with balance := a.balance - amount, dailyWithdrawalTotal := (a.resetDailyLimitIfNewDay today).dailyWithdrawalTotal + amount, lastWithdrawalDate := some today }).saveSaga { TransferSaga.new sid a.id b.id amount a.currency with state := TransferSagaState.debited }).wallets, events := (((w.store.saveSaga (TransferSaga.new sid a.id b.id amount a.currency)).saveWallet { a.resetDailyLimitIfNewDay today with balance := a.balance - amount, dailyWithdrawalTotal := (a.resetDailyLimitIfNewDay today).dailyWithdrawalTotal + amount, lastWithdrawalDate := some today }).saveSaga { TransferSaga.new sid a.id b.id amount a.currency with state := TransferSagaState.debited }).events ++ [{ walletId := a.id, eventType := WalletEventType.fundsWithdrawn, currency := (a.resetDailyLimitIfNewDay today).currency, amount := some amount, metadata := { sagaId := some sid, transferTo := some b.id }, createdAt := now }], sagas := (((w.store.saveSaga (TransferSaga.new sid a.id b.id amount a.currency)).saveWallet { a.resetDailyLimitIfNewDay today with balance := a.balance - amount, dailyWithdrawalTotal := (a.resetDailyLimitIfNewDay today).dailyWithdrawalTotal + amount, lastWithdrawalDate := some today }).saveSaga { TransferSaga.new sid a.id b.id amount a.currency with state := TransferSagaState.debited }).sagas, outbox := (((w.store.saveSaga (TransferSaga.new sid a.id b.id amount a.currency)).saveWallet { a.resetDailyLimitIfNewDay today with balance := a.balance - amount, dailyWithdrawalTotal := (a.resetDailyLimitIfNewDay today).dailyWithdrawalTotal + amount, lastWithdrawalDate := some today }).saveSaga { TransferSaga.new sid a.id b.id amount a.currency with state := TransferSagaState.debited }).outbox ++ [{ aggregateId := a.id, eventType := WalletEventType.fundsWithdrawn, payload := { eventType := WalletEventType.fundsWithdrawn, walletId := a.id, amount := some amount, metadata := { sagaId := some sid, transferTo := some b.id }, timestamp := now }, published := false }], idempotency := (((w.store.saveSaga (TransferSaga.new sid a.id b.id amount a.currency)).saveWallet { a.resetDailyLimitIfNewDay today with balance := a.balance - amount, dailyWithdrawalTotal := (a.resetDailyLimitIfNewDay today).dailyWithdrawalTotal + amount, lastWithdrawalDate := some today }).saveSaga { TransferSaga.new sid a.id b.id amount a.currency with state := TransferSagaState.debited }).idempotency } { b with balance := b.balance + amount } (TransferSaga.new sid a.id b.id amount a.currency).id).trans hrelDg)
  have hmc : ({ TransferSaga.new sid a.id b.id amount a.currency with state := TransferSagaState.debited } : TransferSaga).markAsCompleted = Except.ok ({ { TransferSaga.new sid a.id b.id amount a.currency with state := TransferSagaState.debited } with state := TransferSagaState.completed } : TransferSaga) := rfl
  have htry : TransferSagaService.tryTransferLegs { store := (w.store.saveSaga (TransferSaga.new sid a.id b.id amount a.currency)), locks := w.locks, bus := w.bus ++ [{ eventType := WalletEventType.transferInitiated, walletId := a.id, amount := some amount, metadata := { sagaId := some (TransferSaga.new sid a.id b.id amount a.currency).id, transferTo := none, transferFrom := none, toWalletId := some b.id, reason := none, requestId := none, recovered := false }, timestamp := now }], pubSchedule := [], txFaults := [] } (TransferSaga.new sid a.id b.id amount a.currency) none today now = (Except.ok (StoredResponse.transferResp { sagaId := sid, state := TransferSagaState.completed, fromWalletId := a.id, toWalletId := b.id, amount := amount }), { store := Store.saveSaga { wallets := (Store.saveWallet { wallets := (((w.store.saveSaga (TransferSaga.new sid a.id b.id amount a.currency)).saveWallet { a.resetDailyLimitIfNewDay today with balance := a.balance - amount, dailyWithdrawalTotal := (a.resetDailyLimitIfNewDay today).dailyWithdrawalTotal + amount, lastWithdrawalDate := some today }).saveSaga { TransferSaga.new sid a.id b.id amount a.currency with state := TransferSagaState.debited }).wallets, events := (((w.store.saveSaga (TransferSaga.new sid a.id b.id amount a.currency)).saveWallet { a.resetDailyLimitIfNewDay today with balance := a.balance - amount, dailyWithdrawalTotal := (a.resetDailyLimitIfNewDay today).dailyWithdrawalTotal + amount, lastWithdrawalDate := some today }).saveSaga { TransferSaga.new sid a.id b.id amount a.currency with state := TransferSagaState.debited }).events ++ [{ walletId := a.id, eventType := WalletEventType.fundsWithdrawn, currency := (a.resetDailyLimitIfNewDay today).currency, amount := some amount, metadata := { sagaId := some sid, transferTo := some b.id }, createdAt := now }], sagas := (((w.store.saveSaga (TransferSaga.new sid a.id b.id amount a.currency)).saveWallet { a.resetDailyLimitIfNewDay today with balance := a.balance - amount, dailyWithdrawalTotal := (a.resetDailyLimitIfNewDay today).dailyWithdrawalTotal + amount, lastWithdrawalDate := some today }).saveSaga { TransferSaga.new sid a.id b.id amount a.currency with state := TransferSagaState.debited }).sagas, outbox := (((w.store.saveSaga (TransferSaga.new sid a.id b.id amount a.currency)).saveWallet { a.resetDailyLimitIfNewDay today with balance := a.balance - amount, dailyWithdrawalTotal := (a.resetDailyLimitIfNewDay today).dailyWithdrawalTotal + amount, lastWithdrawalDate := some today }).saveSaga { TransferSaga.new sid a.id b.id amount a.currency with state := TransferSagaState.debited }).outbox ++ [{ aggregateId := a.id, eventType := WalletEventType.fundsWithdrawn, payload := { eventType := WalletEventType.fundsWithdrawn, walletId := a.id, amount := some amount, metadata := { sagaId := some sid, transferTo := some b.id }, timestamp := now }, published := false }], idempotency := (((w.store.saveSaga (TransferSaga.new sid a.id b.id amount a.currency)).saveWallet { a.resetDailyLimitIfNewDay today with balance := a.balance - amount, dailyWithdrawalTotal := (a.resetDailyLimitIfNewDay today).dailyWithdrawalTotal + amount, lastWithdrawalDate := some today }).saveSaga { TransferSaga.new sid a.id b.id amount a.currency with state := TransferSagaState.debited }).idempotency } { b with balance := b.balance + amount }).wallets, events := (Store.saveWallet { wallets := (((w.store.saveSaga (TransferSaga.new sid a.id b.id amount a.currency)).saveWallet { a.resetDailyLimitIfNewDay today with balance := a.balance - amount, dailyWithdrawalTotal := (a.resetDailyLimitIfNewDay today).dailyWithdrawalTotal + amount, lastWithdrawalDate := some today }).saveSaga { TransferSaga.new sid a.id b.id amount a.currency with state := TransferSagaState.debited }).wallets, events := (((w.store.saveSaga (TransferSaga.new sid a.id b.id amount a.currency)).saveWallet { a.resetDailyLimitIfNewDay today with balance := a.balance - amount, dailyWithdrawalTotal := (a.resetDailyLimitIfNewDay today).dailyWithdrawalTotal + amount, lastWithdrawalDate := some today }).saveSaga { TransferSaga.new sid a.id b.id amount a.currency with state := TransferSagaState.debited }).events ++ [{ walletId := a.id, eventType := WalletEventType.fundsWithdrawn, currency := (a.resetDailyLimitIfNewDay today).currency, amount := some amount, metadata := { sagaId := some sid, transferTo := some b.id }, createdAt := now }], sagas := (((w.store.saveSaga (TransferSaga.new sid a.id b.id amount a.currency)).saveWallet { a.resetDailyLimitIfNewDay today with balance := a.balance - amount, dailyWithdrawalTotal := (a.resetDailyLimitIfNewDay today).dailyWithdrawalTotal + amount, lastWithdrawalDate := some today }).saveSaga { TransferSaga.new sid a.id b.id amount a.currency with state := TransferSagaState.debited }).sagas, outbox := (((w.store.saveSaga (TransferSaga.new sid a.id b.id amount a.currency)).saveWallet { a.resetDailyLimitIfNewDay today with balance := a.balance - amount, dailyWithdrawalTotal := (a.resetDailyLimitIfNewDay today).dailyWithdrawalTotal + amount, lastWithdrawalDate := some today }).saveSaga { TransferSaga.new sid a.id b.id amount a.currency with state := TransferSagaState.debited }).outbox ++ [{ aggregateId := a.id, eventType := WalletEventType.fundsWithdrawn, payload := { eventType := WalletEventType.fundsWithdrawn, walletId := a.id, amount := some amount, metadata := { sagaId := some sid, transferTo := some b.id }, timestamp := now }, published := false }], idempotency := (((w.store.saveSaga (TransferSaga.new sid a.id b.id amount a.currency)).saveWallet { a.resetDailyLimitIfNewDay today with balance := a.balance - amount, dailyWithdrawalTotal := (a.resetDailyLimitIfNewDay today).dailyWithdrawalTotal + amount, lastWithdrawalDate := some today }).saveSaga { TransferSaga.new sid a.id b.id amount a.currency with state := TransferSagaState.debited }).idempotency } { b with balance := b.balance + amount }).events ++ [{ walletId := b.id, eventType := WalletEventType.fundsDeposited, currency := b.currency, amount := some amount, metadata := { sagaId := some sid, transferFrom := some a.id }, createdAt := now }], sagas := (Store.saveWallet { wallets := (((w.store.saveSaga (TransferSaga.new sid a.id b.id amount a.currency)).saveWallet { a.resetDailyLimitIfNewDay today with balance := a.balance - amount, dailyWithdrawalTotal := (a.resetDailyLimitIfNewDay today).dailyWithdrawalTotal + amount, lastWithdrawalDate := some today }).saveSaga { TransferSaga.new sid a.id b.id amount a.currency with state := TransferSagaState.debited }).wallets, events := (((w.store.saveSaga (TransferSaga.new sid a.id b.id amount a.currency)).saveWallet { a.resetDailyLimitIfNewDay today with balance := a.balance - amount, dailyWithdrawalTotal := (a.resetDailyLimitIfNewDay today).dailyWithdrawalTotal + amount, lastWithdrawalDate := some today }).saveSaga { TransferSaga.new sid a.id b.id amount a.currency with state := TransferSagaState.debited }).events ++ [{ walletId := a.id, eventType := WalletEventType.fundsWithdrawn, currency := (a.resetDailyLimitIfNewDay today).currency, amount := some amount, metadata := { sagaId := some sid, transferTo := some b.id }, createdAt := now }], sagas := (((w.store.saveSaga (TransferSaga.new sid a.id b.id amount a.currency)).saveWallet { a.resetDailyLimitIfNewDay today with balance := a.balance - amount, dailyWithdrawalTotal := (a.resetDailyLimitIfNewDay today).dailyWithdrawalTotal + amount, lastWithdrawalDate := some today }).saveSaga { TransferSaga.new sid a.id b.id amount a.currency with state := TransferSagaState.debited }).sagas, outbox := (((w.store.saveSaga (TransferSaga.new sid a.id b.id amount a.currency)).saveWallet { a.resetDailyLimitIfNewDay today with balance := a.balance - amount, dailyWithdrawalTotal := (a.resetDailyLimitIfNewDay today).dailyWithdrawalTotal + amount, lastWithdrawalDate := some today }).saveSaga { TransferSaga.new sid a.id b.id amount a.currency with state := TransferSagaState.debited }).outbox ++ [{ aggregateId := a.id, eventType := WalletEventType.fundsWithdrawn, payload := { eventType := WalletEventType.fundsWithdrawn, walletId := a.id, amount := some amount, metadata := { sagaId := some sid, transferTo := some b.id }, timestamp := now }, published := false }], idempotency := (((w.store.saveSaga (TransferSaga.new sid a.id b.id amount a.currency)).saveWallet { a.resetDailyLimitIfNewDay today with balance := a.balance - amount, dailyWithdrawalTotal := (a.resetDailyLimitIfNewDay today).dailyWithdrawalTotal + amount, lastWithdrawalDate := some today }).saveSaga { TransferSaga.new sid a.id b.id amount a.currency with state := TransferSagaState.debited }).idempotency } { b with balance := b.balance + amount }).sagas, outbox := (Store.saveWallet { wallets := (((w.store.saveSaga (TransferSaga.new sid a.id b.id amount a.currency)).saveWallet { a.resetDailyLimitIfNewDay today with balance := a.balance - amount, dailyWithdrawalTotal := (a.resetDailyLimitIfNewDay today).dailyWithdrawalTotal + amount, lastWithdrawalDate := some today }).saveSaga { TransferSaga.new sid a.id b.id amount a.currency with state := TransferSagaState.debited }).wallets, events := (((w.store.saveSaga (TransferSaga.new sid a.id b.id amount a.currency)).saveWallet { a.resetDailyLimitIfNewDay today with balance := a.balance - amount, dailyWithdrawalTotal := (a.resetDailyLimitIfNewDay today).dailyWithdrawalTotal + amount, lastWithdrawalDate := some today }).saveSaga { TransferSaga.new sid a.id b.id amount a.currency with state := TransferSagaState.debited }).events ++ [{ walletId := a.id, eventType := WalletEventType.fundsWithdrawn, currency := (a.resetDailyLimitIfNewDay today).currency, amount := some amount, metadata := { sagaId := some sid, transferTo := some b.id }, createdAt := now }], sagas := (((w.store.saveSaga (TransferSaga.new sid a.id b.id amount a.currency)).saveWallet { a.resetDailyLimitIfNewDay today with balance := a.balance - amount, dailyWithdrawalTotal := (a.resetDailyLimitIfNewDay today).dailyWithdrawalTotal + amount, lastWithdrawalDate := some today }).saveSaga { TransferSaga.new sid a.id b.id amount a.currency with state := TransferSagaState.debited }).sagas, outbox := (((w.store.saveSaga (TransferSaga.new sid a.id b.id amount a.currency)).saveWallet { a.resetDailyLimitIfNewDay today with balance := a.balance - amount, dailyWithdrawalTotal := (a.resetDailyLimitIfNewDay today).dailyWithdrawalTotal + amount, lastWithdrawalDate := some today }).saveSaga { TransferSaga.new sid a.id b.id amount a.currency with state := TransferSagaState.debited }).outbox ++ [{ aggregateId := a.id, eventType := WalletEventType.fundsWithdrawn, payload := { eventType := WalletEventType.fundsWithdrawn, walletId := a.id, amount := some amount, metadata := { sagaId := some sid, transferTo := some b.id }, timestamp := now }, published := false }], idempotency := (((w.store.saveSaga (TransferSaga.new sid a.id b.id amount a.currency)).saveWallet { a.resetDailyLimitIfNewDay today with balance := a.balance - amount, dailyWithdrawalTotal := (a.resetDailyLimitIfNewDay today).dailyWithdrawalTotal + amount, lastWithdrawalDate := some today }).saveSaga { TransferSaga.new sid a.id b.id amount a.currency with state := TransferSagaState.debited }).idempotency } { b with balance := b.balance + amount }).outbox ++ [{ aggregateId := b.id, eventType := WalletEventType.fundsDeposited, payload := { eventType := WalletEventType.fundsDeposited, walletId := b.id, amount := some amount, metadata := { sagaId := some sid, transferFrom := some a.id }, timestamp := now }, published := false }], idempotency := (Store.saveWallet { wallets := (((w.store.saveSaga (TransferSaga.new sid a.id b.id amount a.currency)).saveWallet { a.resetDailyLimitIfNewDay today with balance := a.balance - amount, dailyWithdrawalTotal := (a.resetDailyLimitIfNewDay today).dailyWithdrawalTotal + amount, lastWithdrawalDate := some today }).saveSaga { TransferSaga.new sid a.id b.id amount a.currency with state := TransferSagaState.debited }).wallets, events := (((w.store.saveSaga (TransferSaga.new sid a.id b.id amount a.currency)).saveWallet { a.resetDailyLimitIfNewDay today with balance := a.balance - amount, dailyWithdrawalTotal := (a.resetDailyLimitIfNewDay today).dailyWithdrawalTotal + amount, lastWithdrawalDate := some today }).saveSaga { TransferSaga.new sid a.id b.id amount a.currency with state := TransferSagaState.debited }).events ++ [{ walletId := a.id, eventType := WalletEventType.fundsWithdrawn, currency := (a.resetDailyLimitIfNewDay today).currency, amount := some amount, metadata := { sagaId := some sid, transferTo := some b.id }, createdAt := now }], sagas := (((w.store.saveSaga (TransferSaga.new sid a.id b.id amount a.currency)).saveWallet { a.resetDailyLimitIfNewDay today with balance := a.balance - amount, dailyWithdrawalTotal := (a.resetDailyLimitIfNewDay today).dailyWithdrawalTotal + amount, lastWithdrawalDate := some today }).saveSaga { TransferSaga.new sid a.id b.id amount a.currency with state := TransferSagaState.debited }).sagas, outbox := (((w.store.saveSaga (TransferSaga.new sid a.id b.id amount a.currency)).saveWallet { a.resetDailyLimitIfNewDay today with balance := a.balance - amount, dailyWithdrawalTotal := (a.resetDailyLimitIfNewDay today).dailyWithdrawalTotal + amount, lastWithdrawalDate := some today }).saveSaga { TransferSaga.new sid a.id b.id amount a.currency with state := TransferSagaState.debited }).outbox ++ [{ aggregateId := a.id, eventType := WalletEventType.fundsWithdrawn, payload := { eventType := WalletEventType.fundsWithdrawn, walletId := a.id, amount := some amount, metadata := { sagaId := some sid, transferTo := some b.id }, timestamp := now }, published := false }], idempotency := (((w.store.saveSaga (TransferSaga.new sid a.id b.id amount a.currency)).saveWallet { a.resetDailyLimitIfNewDay today with balance := a.balance - amount, dailyWithdrawalTotal := (a.resetDailyLimitIfNewDay today).dailyWithdrawalTotal + amount, lastWithdrawalDate := some today }).saveSaga { TransferSaga.new sid a.id b.id amount a.currency with state := TransferSagaState.debited }).idempotency } { b with balance := b.balance + amount }).idempotency } { { TransferSaga.new sid a.id b.id amount a.currency with state := TransferSagaState.debited } with state := TransferSagaState.completed }, locks := w.locks, bus := (((w.bus ++ [{ eventType := WalletEventType.transferInitiated, walletId := a.id, amount := some amount, metadata := { sagaId := some (TransferSaga.new sid a.id b.id amount a.currency).id, transferTo := none, transferFrom := none, toWalletId := some b.id, reason := none, requestId := none, recovered := false }, timestamp := now }]) ++ [{ eventType := WalletEventType.fundsWithdrawn, walletId := a.id, amount := some amount, metadata := { sagaId := some sid, transferTo := some b.id }, timestamp := now }]) ++ [{ eventType := WalletEventType.fundsDeposited, walletId := b.id, amount := some amount, metadata := { sagaId := some sid, transferFrom := some a.id }, timestamp := now }]) ++ [{ eventType := WalletEventType.transferCompleted, walletId := (TransferSaga.new sid a.id b.id amount a.currency).fromWalletId, amount := some (TransferSaga.new sid a.id b.id amount a.currency).amount, metadata := { sagaId := some (TransferSaga.new sid a.id b.id amount a.currency).id, transferTo := none, transferFrom := none, toWalletId := some (TransferSaga.new sid a.id b.id amount a.currency).toWalletId, reason := none, requestId := none, recovered := false }, timestamp := now }], pubSchedule := [], txFaults := [] }) := by
    unfold TransferSagaService.tryTransferLegs
    rw [TransferSagaService.debitFromSender_eval { store := (w.store.saveSaga (TransferSaga.new sid a.id b.id amount a.currency)), locks := w.locks, bus := w.bus ++ [{ eventType := WalletEventType.transferInitiated, walletId := a.id, amount := some amount, metadata := { sagaId := some (TransferSaga.new sid a.id b.id amount a.currency).id, transferTo := none, transferFrom := none, toWalletId := some b.id, reason := none, requestId := none, recovered := false }, timestamp := now }], pubSchedule := [], txFaults := [] } a b amount sid today now rfl ((Store.findWallet_saveSaga w.store (TransferSaga.new sid a.id b.id amount a.currency) a.id).trans hfina) ((Store.findSaga_saveWallet (w.store.saveSaga (TransferSaga.new sid a.id b.id amount a.currency)) { a.resetDailyLimitIfNewDay today with balance := a.balance - amount, dailyWithdrawalTotal := (a.resetDailyLimitIfNewDay today).dailyWithdrawalTotal + amount, lastWithdrawalDate := some today } sid).trans (Store.findSaga_saveSaga_self w.store (TransferSaga.new sid a.id b.id amount a.currency))) hact hpos hlim hbal]
    dsimp only
    rw [hrelDg]
    dsimp only
    rw [TransferSagaService.creditToReceiver_eval { store := { wallets := (((w.store.saveSaga (TransferSaga.new sid a.id b.id amount a.currency)).saveWallet { a.resetDailyLimitIfNewDay today with balance := a.balance - amount, dailyWithdrawalTotal := (a.resetDailyLimitIfNewDay today).dailyWithdrawalTotal + amount, lastWithdrawalDate := some today }).saveSaga { TransferSaga.new sid a.id b.id amount a.currency with state := TransferSagaState.debited }).wallets, events := (((w.store.saveSaga (TransferSaga.new sid a.id b.id amount a.currency)).saveWallet { a.resetDailyLimitIfNewDay today with balance := a.balance - amount, dailyWithdrawalTotal := (a.resetDailyLimitIfNewDay today).dailyWithdrawalTotal + amount, lastWithdrawalDate := some today }).saveSaga { TransferSaga.new sid a.id b.id amount a.currency with state := TransferSagaState.debited }).events ++ [{ walletId := a.id, eventType := WalletEventType.fundsWithdrawn, currency := (a.resetDailyLimitIfNewDay today).currency, amount := some amount, metadata := { sagaId := some sid, transferTo := some b.id }, createdAt := now }], sagas := (((w.store.saveSaga (TransferSaga.new sid a.id b.id amount a.currency)).saveWallet { a.resetDailyLimitIfNewDay today with balance := a.balance - amount, dailyWithdrawalTotal := (a.resetDailyLimitIfNewDay today).dailyWithdrawalTotal + amount, lastWithdrawalDate := some today }).saveSaga { TransferSaga.new sid a.id b.id amount a.currency with state := TransferSagaState.debited }).sagas, outbox := (((w.store.saveSaga (TransferSaga.new sid a.id b.id amount a.currency)).saveWallet { a.resetDailyLimitIfNewDay today with balance := a.balance - amount, dailyWithdrawalTotal := (a.resetDailyLimitIfNewDay today).dailyWithdrawalTotal + amount, lastWithdrawalDate := some today }).saveSaga { TransferSaga.new sid a.id b.id amount a.currency with state := TransferSagaState.debited }).outbox ++ [{ aggregateId := a.id, eventType := WalletEventType.fundsWithdrawn, payload := { eventType := WalletEventType.fundsWithdrawn, walletId := a.id, amount := some amount, metadata := { sagaId := some sid, transferTo := some b.id }, timestamp := now }, published := false }], idempotency := (((w.store.saveSaga (TransferSaga.new sid a.id b.id amount a.currency)).saveWallet { a.resetDailyLimitIfNewDay today with balance := a.balance - amount, dailyWithdrawalTotal := (a.resetDailyLimitIfNewDay today).dailyWithdrawalTotal + amount, lastWithdrawalDate := some today }).saveSaga { TransferSaga.new sid a.id b.id amount a.currency with state := TransferSagaState.debited }).idempotency }, locks := w.locks, bus := (w.bus ++ [{ eventType := WalletEventType.transferInitiated, walletId := a.id, amount := some amount, metadata := { sagaId := some (TransferSaga.new sid a.id b.id amount a.currency).id, transferTo := none, transferFrom := none, toWalletId := some b.id, reason := none, requestId := none, recovered := false }, timestamp := now }]) ++ [{ eventType := WalletEventType.fundsWithdrawn, walletId := a.id, amount := some amount, metadata := { sagaId := some sid, transferTo := some b.id }, timestamp := now }], pubSchedule := [], txFaults := [] } a b amount sid now rfl ((Store.findWallet_congr { wallets := (((w.store.saveSaga (TransferSaga.new sid a.id b.id amount a.currency)).saveWallet { a.resetDailyLimitIfNewDay today with balance := a.balance - amount, dailyWithdrawalTotal := (a.resetDailyLimitIfNewDay today).dailyWithdrawalTotal + amount, lastWithdrawalDate := some today }).saveSaga { TransferSaga.new sid a.id b.id amount a.currency with state := TransferSagaState.debited }).wallets, events := (((w.store.saveSaga (TransferSaga.new sid a.id b.id amount a.currency)).saveWallet { a.resetDailyLimitIfNewDay today with balance := a.balance - amount, dailyWithdrawalTotal := (a.resetDailyLimitIfNewDay today).dailyWithdrawalTotal + amount, lastWithdrawalDate := some today }).saveSaga { TransferSaga.new sid a.id b.id amount a.currency with state := TransferSagaState.debited }).events ++ [{ walletId := a.id, eventType := WalletEventType.fundsWithdrawn, currency := (a.resetDailyLimitIfNewDay today).currency, amount := some amount, metadata := { sagaId := some sid, transferTo := some b.id }, createdAt := now }], sagas := (((w.store.saveSaga (TransferSaga.new sid a.id b.id amount a.currency)).saveWallet { a.resetDailyLimitIfNewDay today with balance := a.balance - amount, dailyWithdrawalTotal := (a.resetDailyLimitIfNewDay today).dailyWithdrawalTotal + amount, lastWithdrawalDate := some today }).saveSaga { TransferSaga.new sid a.id b.id amount a.currency with state := TransferSagaState.debited }).sagas, outbox := (((w.store.saveSaga (TransferSaga.new sid a.id b.id amount a.currency)).saveWallet { a.resetDailyLimitIfNewDay today with balance := a.balance - amount, dailyWithdrawalTotal := (a.resetDailyLimitIfNewDay today).dailyWithdrawalTotal + amount, lastWithdrawalDate := some today }).saveSaga { TransferSaga.new sid a.id b.id amount a.currency with state := TransferSagaState.debited }).outbox ++ [{ aggregateId := a.id, eventType := WalletEventType.fundsWithdrawn, payload := { eventType := WalletEventType.fundsWithdrawn, walletId := a.id, amount := some amount, metadata := { sagaId := some sid, transferTo := some b.id }, timestamp := now }, published := false }], idempotency := (((w.store.saveSaga (TransferSaga.new sid a.id b.id amount a.currency)).saveWallet { a.resetDailyLimitIfNewDay today with balance := a.balance - amount, dailyWithdrawalTotal := (a.resetDailyLimitIfNewDay today).dailyWithdrawalTotal + amount, lastWithdrawalDate := some today }).saveSaga { TransferSaga.new sid a.id b.id amount a.currency with state := TransferSagaState.debited }).idempotency } (((w.store.saveSaga (TransferSaga.new sid a.id b.id amount a.currency)).saveWallet { a.resetDailyLimitIfNewDay today with balance := a.balance - amount, dailyWithdrawalTotal := (a.resetDailyLimitIfNewDay today).dailyWithdrawalTotal + amount, lastWithdrawalDate := some today }).saveSaga { TransferSaga.new sid a.id b.id amount a.currency with state := TransferSagaState.debited }) b.id rfl).trans ((Store.findWallet_saveSaga ((w.store.saveSaga (TransferSaga.new sid a.id b.id amount a.currency)).saveWallet { a.resetDailyLimitIfNewDay today with balance := a.balance - amount, dailyWithdrawalTotal := (a.resetDailyLimitIfNewDay today).dailyWithdrawalTotal + amount, lastWithdrawalDate := some today }) { TransferSaga.new sid a.id b.id amount a.currency with state := TransferSagaState.debited } b.id).trans ((Store.findWallet_saveWallet_ne (w.store.saveSaga (TransferSaga.new sid a.id b.id amount a.currency)) { a.resetDailyLimitIfNewDay today with balance := a.balance - amount, dailyWithdrawalTotal := (a.resetDailyLimitIfNewDay today).dailyWithdrawalTotal + amount, lastWithdrawalDate := some today } b.id hbne).trans ((Store.findWallet_saveSaga w.store (TransferSaga.new sid a.id b.id amount a.currency) b.id).trans hfinb)))) ((Store.findSaga_saveWallet { wallets := (((w.store.saveSaga (TransferSaga.new sid a.id b.id amount a.currency)).saveWallet { a.resetDailyLimitIfNewDay today with balance := a.balance - amount, dailyWithdrawalTotal := (a.resetDailyLimitIfNewDay today).dailyWithdrawalTotal + amount, lastWithdrawalDate := some today }).saveSaga { TransferSaga.new sid a.id b.id amount a.currency with state := TransferSagaState.debited }).wallets, events := (((w.store.saveSaga (TransferSaga.new sid a.id b.id amount a.currency)).saveWallet { a.resetDailyLimitIfNewDay today with balance := a.balance - amount, dailyWithdrawalTotal := (a.resetDailyLimitIfNewDay today).dailyWithdrawalTotal + amount, lastWithdrawalDate := some today }).saveSaga { TransferSaga.new sid a.id b.id amount a.currency with state := TransferSagaState.debited }).events ++ [{ walletId := a.id, eventType := WalletEventType.fundsWithdrawn, currency := (a.resetDailyLimitIfNewDay today).currency, amount := some amount, metadata := { sagaId := some sid, transferTo := some b.id }, createdAt := now }], sagas := (((w.store.saveSaga (TransferSaga.new sid a.id b.id amount a.currency)).saveWallet { a.resetDailyLimitIfNewDay today with balance := a.balance - amount, dailyWithdrawalTotal := (a.resetDailyLimitIfNewDay today).dailyWithdrawalTotal + amount, lastWithdrawalDate := some today }).saveSaga { TransferSaga.new sid a.id b.id amount a.currency with state := TransferSagaState.debited }).sagas, outbox := (((w.store.saveSaga (TransferSaga.new sid a.id b.id amount a.currency)).saveWallet { a.resetDailyLimitIfNewDay today with balance := a.balance - amount, dailyWithdrawalTotal := (a.resetDailyLimitIfNewDay today).dailyWithdrawalTotal + amount, lastWithdrawalDate := some today }).saveSaga { TransferSaga.new sid a.id b.id amount a.currency with state := TransferSagaState.debited }).outbox ++ [{ aggregateId := a.id, eventType := WalletEventType.fundsWithdrawn, payload := { eventType := WalletEventType.fundsWithdrawn, walletId := a.id, amount := some amount, metadata := { sagaId := some sid, transferTo := some b.id }, timestamp := now }, published := false }], idempotency := (((w.store.saveSaga (TransferSaga.new sid a.id b.id amount a.currency)).saveWallet { a.resetDailyLimitIfNewDay today with balance := a.balance - amount, dailyWithdrawalTotal := (a.resetDailyLimitIfNewDay today).dailyWithdrawalTotal + amount, lastWithdrawalDate := some today }).saveSaga { TransferSaga.new sid a.id b.id amount a.currency with state := TransferSagaState.debited }).idempotency } { b with balance := b.balance + amount } sid).trans hrelD) hbact hpos]
    dsimp only
    rw [hrelD2g]
    dsimp only
    rw [hmc]
    dsimp only [EventPublisher.publish]
    rfl
  refine ⟨{ store := Store.saveSaga { wallets := (Store.saveWallet { wallets := (((w.store.saveSaga (TransferSaga.new sid a.id b.id amount a.currency)).saveWallet { a.resetDailyLimitIfNewDay today with balance := a.balance - amount, dailyWithdrawalTotal := (a.resetDailyLimitIfNewDay today).dailyWithdrawalTotal + amount, lastWithdrawalDate := some today }).saveSaga { TransferSaga.new sid a.id b.id amount a.currency with state := TransferSagaState.debited }).wallets, events := (((w.store.saveSaga (TransferSaga.new sid a.id b.id amount a.currency)).saveWallet { a.resetDailyLimitIfNewDay today with balance := a.balance - amount, dailyWithdrawalTotal := (a.resetDailyLimitIfNewDay today).dailyWithdrawalTotal + amount, lastWithdrawalDate := some today }).saveSaga { TransferSaga.new sid a.id b.id amount a.currency with state := TransferSagaState.debited }).events ++ [{ walletId := a.id, eventType := WalletEventType.fundsWithdrawn, currency := (a.resetDailyLimitIfNewDay today).currency, amount := some amount, metadata := { sagaId := some sid, transferTo := some b.id }, createdAt := now }], sagas := (((w.store.saveSaga (TransferSaga.new sid a.id b.id amount a.currency)).saveWallet { a.resetDailyLimitIfNewDay today with balance := a.balance - amount, dailyWithdrawalTotal := (a.resetDailyLimitIfNewDay today).dailyWithdrawalTotal + amount, lastWithdrawalDate := some today }).saveSaga { TransferSaga.new sid a.id b.id amount a.currency with state := TransferSagaState.debited }).sagas, outbox := (((w.store.saveSaga (TransferSaga.new sid a.id b.id amount a.currency)).saveWallet { a.resetDailyLimitIfNewDay today with balance := a.balance - amount, dailyWithdrawalTotal := (a.resetDailyLimitIfNewDay today).dailyWithdrawalTotal + amount, lastWithdrawalDate := some today }).saveSaga { TransferSaga.new sid a.id b.id amount a.currency with state := TransferSagaState.debited }).outbox ++ [{ aggregateId := a.id, eventType := WalletEventType.fundsWithdrawn, payload := { eventType := WalletEventType.fundsWithdrawn, walletId := a.id, amount := some amount, metadata := { sagaId := some sid, transferTo := some b.id }, timestamp := now }, published := false }], idempotency := (((w.store.saveSaga (TransferSaga.new sid a.id b.id amount a.currency)).saveWallet { a.resetDailyLimitIfNewDay today with balance := a.balance - amount, dailyWithdrawalTotal := (a.resetDailyLimitIfNewDay today).dailyWithdrawalTotal + amount, lastWithdrawalDate := some today }).saveSaga { TransferSaga.new sid a.id b.id amount a.currency with state := TransferSagaState.debited }).idempotency } { b with balance := b.balance + amount }).wallets, events := (Store.saveWallet { wallets := (((w.store.saveSaga (TransferSaga.new sid a.id b.id amount a.currency)).saveWallet { a.resetDailyLimitIfNewDay today with balance := a.balance - amount, dailyWithdrawalTotal := (a.resetDailyLimitIfNewDay today).dailyWithdrawalTotal + amount, lastWithdrawalDate := some today }).saveSaga { TransferSaga.new sid a.id b.id amount a.currency with state := TransferSagaState.debited }).wallets, events := (((w.store.saveSaga (TransferSaga.new sid a.id b.id amount a.currency)).saveWallet { a.resetDailyLimitIfNewDay today with balance := a.balance - amount, dailyWithdrawalTotal := (a.resetDailyLimitIfNewDay today).dailyWithdrawalTotal + amount, lastWithdrawalDate := some today }).saveSaga { TransferSaga.new sid a.id b.id amount a.currency with state := TransferSagaState.debited }).events ++ [{ walletId := a.id, eventType := WalletEventType.fundsWithdrawn, currency := (a.resetDailyLimitIfNewDay today).currency, amount := some amount, metadata := { sagaId := some sid, transferTo := some b.id }, createdAt := now }], sagas := (((w.store.saveSaga (TransferSaga.new sid a.id b.id amount a.currency)).saveWallet { a.resetDailyLimitIfNewDay today with balance := a.balance - amount, dailyWithdrawalTotal := (a.resetDailyLimitIfNewDay today).dailyWithdrawalTotal + amount, lastWithdrawalDate := some today }).saveSaga { TransferSaga.new sid a.id b.id amount a.currency with state := TransferSagaState.debited }).sagas, outbox := (((w.store.saveSaga (TransferSaga.new sid a.id b.id amount a.currency)).saveWallet { a.resetDailyLimitIfNewDay today with balance := a.balance - amount, dailyWithdrawalTotal := (a.resetDailyLimitIfNewDay today).dailyWithdrawalTotal + amount, lastWithdrawalDate := some today }).saveSaga { TransferSaga.new sid a.id b.id amount a.currency with state := TransferSagaState.debited }).outbox ++ [{ aggregateId := a.id, eventType := WalletEventType.fundsWithdrawn, payload := { eventType := WalletEventType.fundsWithdrawn, walletId := a.id, amount := some amount, metadata := { sagaId := some sid, transferTo := some b.id }, timestamp := now }, published := false }], idempotency := (((w.store.saveSaga (TransferSaga.new sid a.id b.id amount a.currency)).saveWallet { a.resetDailyLimitIfNewDay today with balance := a.balance - amount, dailyWithdrawalTotal := (a.resetDailyLimitIfNewDay today).dailyWithdrawalTotal + amount, lastWithdrawalDate := some today }).saveSaga { TransferSaga.new sid a.id b.id amount a.currency with state := TransferSagaState.debited }).idempotency } { b with balance := b.balance + amount }).events ++ [{ walletId := b.id, eventType := WalletEventType.fundsDeposited, currency := b.currency, amount := some amount, metadata := { sagaId := some sid, transferFrom := some a.id }, createdAt := now }], sagas := (Store.saveWallet { wallets := (((w.store.saveSaga (TransferSaga.new sid a.id b.id amount a.currency)).saveWallet { a.resetDailyLimitIfNewDay today with balance := a.balance - amount, dailyWithdrawalTotal := (a.resetDailyLimitIfNewDay today).dailyWithdrawalTotal + amount, lastWithdrawalDate := some today }).saveSaga { TransferSaga.new sid a.id b.id amount a.currency with state := TransferSagaState.debited }).wallets, events := (((w.store.saveSaga (TransferSaga.new sid a.id b.id amount a.currency)).saveWallet { a.resetDailyLimitIfNewDay today with balance := a.balance - amount, dailyWithdrawalTotal := (a.resetDailyLimitIfNewDay today).dailyWithdrawalTotal + amount, lastWithdrawalDate := some today }).saveSaga { TransferSaga.new sid a.id b.id amount a.currency with state := TransferSagaState.debited }).events ++ [{ walletId := a.id, eventType := WalletEventType.fundsWithdrawn, currency := (a.resetDailyLimitIfNewDay today).currency, amount := some amount, metadata := { sagaId := some sid, transferTo := some b.id }, createdAt := now }], sagas := (((w.store.saveSaga (TransferSaga.new sid a.id b.id amount a.currency)).saveWallet { a.resetDailyLimitIfNewDay today with balance := a.balance - amount, dailyWithdrawalTotal := (a.resetDailyLimitIfNewDay today).dailyWithdrawalTotal + amount, lastWithdrawalDate := some today }).saveSaga { TransferSaga.new sid a.id b.id amount a.currency with state := TransferSagaState.debited }).sagas, outbox := (((w.store.saveSaga (TransferSaga.new sid a.id b.id amount a.currency)).saveWallet { a.resetDailyLimitIfNewDay today with balance := a.balance - amount, dailyWithdrawalTotal := (a.resetDailyLimitIfNewDay today).dailyWithdrawalTotal + amount, lastWithdrawalDate := some today }).saveSaga { TransferSaga.new sid a.id b.id amount a.currency with state := TransferSagaState.debited }).outbox ++ [{ aggregateId := a.id, eventType := WalletEventType.fundsWithdrawn, payload := { eventType := WalletEventType.fundsWithdrawn, walletId := a.id, amount := some amount, metadata := { sagaId := some sid, transferTo := some b.id }, timestamp := now }, published := false }], idempotency := (((w.store.saveSaga (TransferSaga.new sid a.id b.id amount a.currency)).saveWallet { a.resetDailyLimitIfNewDay today with balance := a.balance - amount, dailyWithdrawalTotal := (a.resetDailyLimitIfNewDay today).dailyWithdrawalTotal + amount, lastWithdrawalDate := some today }).saveSaga { TransferSaga.new sid a.id b.id amount a.currency with state := TransferSagaState.debited }).idempotency } { b with balance := b.balance + amount }).sagas, outbox := (Store.saveWallet { wallets := (((w.store.saveSaga (TransferSaga.new sid a.id b.id amount a.currency)).saveWallet { a.resetDailyLimitIfNewDay today with balance := a.balance - amount, dailyWithdrawalTotal := (a.resetDailyLimitIfNewDay today).dailyWithdrawalTotal + amount, lastWithdrawalDate := some today }).saveSaga { TransferSaga.new sid a.id b.id amount a.currency with state := TransferSagaState.debited }).wallets, events := (((w.store.saveSaga (TransferSaga.new sid a.id b.id amount a.currency)).saveWallet { a.resetDailyLimitIfNewDay today with balance := a.balance - amount, dailyWithdrawalTotal := (a.resetDailyLimitIfNewDay today).dailyWithdrawalTotal + amount, lastWithdrawalDate := some today }).saveSaga { TransferSaga.new sid a.id b.id amount a.currency with state := TransferSagaState.debited }).events ++ [{ walletId := a.id, eventType := WalletEventType.fundsWithdrawn, currency := (a.resetDailyLimitIfNewDay today).currency, amount := some amount, metadata := { sagaId := some sid, transferTo := some b.id }, createdAt := now }], sagas := (((w.store.saveSaga (TransferSaga.new sid a.id b.id amount a.currency)).saveWallet { a.resetDailyLimitIfNewDay today with balance := a.balance - amount, dailyWithdrawalTotal := (a.resetDailyLimitIfNewDay today).dailyWithdrawalTotal + amount, lastWithdrawalDate := some today }).saveSaga { TransferSaga.new sid a.id b.id amount a.currency with state := TransferSagaState.debited }).sagas, outbox := (((w.store.saveSaga (TransferSaga.new sid a.id b.id amount a.currency)).saveWallet { a.resetDailyLimitIfNewDay today with balance := a.balance - amount, dailyWithdrawalTotal := (a.resetDailyLimitIfNewDay today).dailyWithdrawalTotal + amount, lastWithdrawalDate := some today }).saveSaga { TransferSaga.new sid a.id b.id amount a.currency with state := TransferSagaState.debited }).outbox ++ [{ aggregateId := a.id, eventType := WalletEventType.fundsWithdrawn, payload := { eventType := WalletEventType.fundsWithdrawn, walletId := a.id, amount := some amount, metadata := { sagaId := some sid, transferTo := some b.id }, timestamp := now }, published := false }], idempotency := (((w.store.saveSaga (TransferSaga.new sid a.id b.id amount a.currency)).saveWallet { a.resetDailyLimitIfNewDay today with balance := a.balance - amount, dailyWithdrawalTotal := (a.resetDailyLimitIfNewDay today).dailyWithdrawalTotal + amount, lastWithdrawalDate := some today }).saveSaga { TransferSaga.new sid a.id b.id amount a.currency with state := TransferSagaState.debited }).idempotency } { b with balance := b.balance + amount }).outbox ++ [{ aggregateId := b.id, eventType := WalletEventType.fundsDeposited, payload := { eventType := WalletEventType.fundsDeposited, walletId := b.id, amount := some amount, metadata := { sagaId := some sid, transferFrom := some a.id }, timestamp := now }, published := false }], idempotency := (Store.saveWallet { wallets := (((w.store.saveSaga (TransferSaga.new sid a.id b.id amount a.currency)).saveWallet { a.resetDailyLimitIfNewDay today with balance := a.balance - amount, dailyWithdrawalTotal := (a.resetDailyLimitIfNewDay today).dailyWithdrawalTotal + amount, lastWithdrawalDate := some today }).saveSaga { TransferSaga.new sid a.id b.id amount a.currency with state := TransferSagaState.debited }).wallets, events := (((w.store.saveSaga (TransferSaga.new sid a.id b.id amount a.currency)).saveWallet { a.resetDailyLimitIfNewDay today with balance := a.balance - amount, dailyWithdrawalTotal := (a.resetDailyLimitIfNewDay today).dailyWithdrawalTotal + amount, lastWithdrawalDate := some today }).saveSaga { TransferSaga.new sid a.id b.id amount a.currency with state := TransferSagaState.debited }).events ++ [{ walletId := a.id, eventType := WalletEventType.fundsWithdrawn, currency := (a.resetDailyLimitIfNewDay today).currency, amount := some amount, metadata := { sagaId := some sid, transferTo := some b.id }, createdAt := now }], sagas := (((w.store.saveSaga (TransferSaga.new sid a.id b.id amount a.currency)).saveWallet { a.resetDailyLimitIfNewDay today with balance := a.balance - amount, dailyWithdrawalTotal := (a.resetDailyLimitIfNewDay today).dailyWithdrawalTotal + amount, lastWithdrawalDate := some today }).saveSaga { TransferSaga.new sid a.id b.id amount a.currency with state := TransferSagaState.debited }).sagas, outbox := (((w.store.saveSaga (TransferSaga.new sid a.id b.id amount a.currency)).saveWallet { a.resetDailyLimitIfNewDay today with balance := a.balance - amount, dailyWithdrawalTotal := (a.resetDailyLimitIfNewDay today).dailyWithdrawalTotal + amount, lastWithdrawalDate := some today }).saveSaga { TransferSaga.new sid a.id b.id amount a.currency with state := TransferSagaState.debited }).outbox ++ [{ aggregateId := a.id, eventType := WalletEventType.fundsWithdrawn, payload := { eventType := WalletEventType.fundsWithdrawn, walletId := a.id, amount := some amount, metadata := { sagaId := some sid, transferTo := some b.id }, timestamp := now }, published := false }], idempotency := (((w.store.saveSaga (TransferSaga.new sid a.id b.id amount a.currency)).saveWallet { a.resetDailyLimitIfNewDay today with balance := a.balance - amount, dailyWithdrawalTotal := (a.resetDailyLimitIfNewDay today).dailyWithdrawalTotal + amount, lastWithdrawalDate := some today }).saveSaga { TransferSaga.new sid a.id b.id amount a.currency with state := TransferSagaState.debited }).idempotency } { b with balance := b.balance + amount }).idempotency } { { TransferSaga.new sid a.id b.id amount a.currency with state := TransferSagaState.debited } with state := TransferSagaState.completed }, locks := w.locks, bus := (((w.bus ++ [{ eventType := WalletEventType.transferInitiated, walletId := a.id, amount := some amount, metadata := { sagaId := some (TransferSaga.new sid a.id b.id amount a.currency).id, transferTo := none, transferFrom := none, toWalletId := some b.id, reason := none, requestId := none, recovered := false }, timestamp := now }]) ++ [{ eventType := WalletEventType.fundsWithdrawn, walletId := a.id, amount := some amount, metadata := { sagaId := some sid, transferTo := some b.id }, timestamp := now }]) ++ [{ eventType := WalletEventType.fundsDeposited, walletId := b.id, amount := some amount, metadata := { sagaId := some sid, transferFrom := some a.id }, timestamp := now }]) ++ [{ eventType := WalletEventType.transferCompleted, walletId := (TransferSaga.new sid a.id b.id amount a.currency).fromWalletId, amount := some (TransferSaga.new sid a.id b.id amount a.currency).amount, metadata := { sagaId := some (TransferSaga.new sid a.id b.id amount a.currency).id, transferTo := none, transferFrom := none, toWalletId := some (TransferSaga.new sid a.id b.id amount a.currency).toWalletId, reason := none, requestId := none, recovered := false }, timestamp := now }], pubSchedule := [], txFaults := [] }, ?heq, ?c2, ?c3, ?c4, ?c5, ?c6, ?c7, ?c8, ?c9⟩
  case heq =>
    unfold TransferSagaService.executeTransfer
    dsimp only [Option.bind]
    rw [if_neg hne]
    rw [hfina]
    dsimp only
    rw [WalletRepository.getOrCreate_found w.store b.id a.currency now b hfinb]
    dsimp only
    rw [if_neg (not_not_intro hcur)]
    rw [hsched, hfaults]
    dsimp only [EventPublisher.publish]
    rw [htry]
  case c2 =>
    dsimp only
    exact (Store.findWallet_saveSaga { wallets := (Store.saveWallet { wallets := (((w.store.saveSaga (TransferSaga.new sid a.id b.id amount a.currency)).saveWallet { a.resetDailyLimitIfNewDay today with balance := a.balance - amount, dailyWithdrawalTotal := (a.resetDailyLimitIfNewDay today).dailyWithdrawalTotal + amount, lastWithdrawalDate := some today }).saveSaga { TransferSaga.new sid a.id b.id amount a.currency with state := TransferSagaState.debited }).wallets, events := (((w.store.saveSaga (TransferSaga.new sid a.id b.id amount a.currency)).saveWallet { a.resetDailyLimitIfNewDay today with balance := a.balance - amount, dailyWithdrawalTotal := (a.resetDailyLimitIfNewDay today).dailyWithdrawalTotal + amount, lastWithdrawalDate := some today }).saveSaga { TransferSaga.new sid a.id b.id amount a.currency with state := TransferSagaState.debited }).events ++ [{ walletId := a.id, eventType := WalletEventType.fundsWithdrawn, currency := (a.resetDailyLimitIfNewDay today).currency, amount := some amount, metadata := { sagaId := some sid, transferTo := some b.id }, createdAt := now }], sagas := (((w.store.saveSaga (TransferSaga.new sid a.id b.id amount a.currency)).saveWallet { a.resetDailyLimitIfNewDay today with balance := a.balance - amount, dailyWithdrawalTotal := (a.resetDailyLimitIfNewDay today).dailyWithdrawalTotal + amount, lastWithdrawalDate := some today }).saveSaga { TransferSaga.new sid a.id b.id amount a.currency with state := TransferSagaState.debited }).sagas, outbox := (((w.store.saveSaga (TransferSaga.new sid a.id b.id amount a.currency)).saveWallet { a.resetDailyLimitIfNewDay today with balance := a.balance - amount, dailyWithdrawalTotal := (a.resetDailyLimitIfNewDay today).dailyWithdrawalTotal + amount, lastWithdrawalDate := some today }).saveSaga { TransferSaga.new sid a.id b.id amount a.currency with state := TransferSagaState.debited }).outbox ++ [{ aggregateId := a.id, eventType := WalletEventType.fundsWithdrawn, payload := { eventType := WalletEventType.fundsWithdrawn, walletId := a.id, amount := some amount, metadata := { sagaId := some sid, transferTo := some b.id }, timestamp := now }, published := false }], idempotency := (((w.store.saveSaga (TransferSaga.new sid a.id b.id amount a.currency)).saveWallet { a.resetDailyLimitIfNewDay today with balance := a.balance - amount, dailyWithdrawalTotal := (a.resetDailyLimitIfNewDay today).dailyWithdrawalTotal + amount, lastWithdrawalDate := some today }).saveSaga { TransferSaga.new sid a.id b.id amount a.currency with state := TransferSagaState.debited }).idempotency } { b with balance := b.balance + amount }).wallets, events := (Store.saveWallet { wallets := (((w.store.saveSaga (TransferSaga.new sid a.id b.id amount a.currency)).saveWallet { a.resetDailyLimitIfNewDay today with balance := a.balance - amount, dailyWithdrawalTotal := (a.resetDailyLimitIfNewDay today).dailyWithdrawalTotal + amount, lastWithdrawalDate := some today }).saveSaga { TransferSaga.new sid a.id b.id amount a.currency with state := TransferSagaState.debited }).wallets, events := (((w.store.saveSaga (TransferSaga.new sid a.id b.id amount a.currency)).saveWallet { a.resetDailyLimitIfNewDay today with balance := a.balance - amount, dailyWithdrawalTotal := (a.resetDailyLimitIfNewDay today).dailyWithdrawalTotal + amount, lastWithdrawalDate := some today }).saveSaga { TransferSaga.new sid a.id b.id amount a.currency with state := TransferSagaState.debited }).events ++ [{ walletId := a.id, eventType := WalletEventType.fundsWithdrawn, currency := (a.resetDailyLimitIfNewDay today).currency, amount := some amount, metadata := { sagaId := some sid, transferTo := some b.id }, createdAt := now }], sagas := (((w.store.saveSaga (TransferSaga.new sid a.id b.id amount a.currency)).saveWallet { a.resetDailyLimitIfNewDay today with balance := a.balance - amount, dailyWithdrawalTotal := (a.resetDailyLimitIfNewDay today).dailyWithdrawalTotal + amount, lastWithdrawalDate := some today }).saveSaga { TransferSaga.new sid a.id b.id amount a.currency with state := TransferSagaState.debited }).sagas, outbox := (((w.store.saveSaga (TransferSaga.new sid a.id b.id amount a.currency)).saveWallet { a.resetDailyLimitIfNewDay today with balance := a.balance - amount, dailyWithdrawalTotal := (a.resetDailyLimitIfNewDay today).dailyWithdrawalTotal + amount, lastWithdrawalDate := some today }).saveSaga { TransferSaga.new sid a.id b.id amount a.currency with state := TransferSagaState.debited }).outbox ++ [{ aggregateId := a.id, eventType := WalletEventType.fundsWithdrawn, payload := { eventType := WalletEventType.fundsWithdrawn, walletId := a.id, amount := some amount, metadata := { sagaId := some sid, transferTo := some b.id }, timestamp := now }, published := false }], idempotency := (((w.store.saveSaga (TransferSaga.new sid a.id b.id amount a.currency)).saveWallet { a.resetDailyLimitIfNewDay today with balance := a.balance - amount, dailyWithdrawalTotal := (a.resetDailyLimitIfNewDay today).dailyWithdrawalTotal + amount, lastWithdrawalDate := some today }).saveSaga { TransferSaga.new sid a.id b.id amount a.currency with state := TransferSagaState.debited }).idempotency } { b with balance := b.balance + amount }).events ++ [{ walletId := b.id, eventType := WalletEventType.fundsDeposited, currency := b.currency, amount := some amount, metadata := { sagaId := some sid, transferFrom := some a.id }, createdAt := now }], sagas := (Store.saveWallet { wallets := (((w.store.saveSaga (TransferSaga.new sid a.id b.id amount a.currency)).saveWallet { a.resetDailyLimitIfNewDay today with balance := a.balance - amount, dailyWithdrawalTotal := (a.resetDailyLimitIfNewDay today).dailyWithdrawalTotal + amount, lastWithdrawalDate := some today }).saveSaga { TransferSaga.new sid a.id b.id amount a.currency with state := TransferSagaState.debited }).wallets, events := (((w.store.saveSaga (TransferSaga.new sid a.id b.id amount a.currency)).saveWallet { a.resetDailyLimitIfNewDay today with balance := a.balance - amount, dailyWithdrawalTotal := (a.resetDailyLimitIfNewDay today).dailyWithdrawalTotal + amount, lastWithdrawalDate := some today }).saveSaga { TransferSaga.new sid a.id b.id amount a.currency with state := TransferSagaState.debited }).events ++ [{ walletId := a.id, eventType := WalletEventType.fundsWithdrawn, currency := (a.resetDailyLimitIfNewDay today).currency, amount := some amount, metadata := { sagaId := some sid, transferTo := some b.id }, createdAt := now }], sagas := (((w.store.saveSaga (TransferSaga.new sid a.id b.id amount a.currency)).saveWallet { a.resetDailyLimitIfNewDay today with balance := a.balance - amount, dailyWithdrawalTotal := (a.resetDailyLimitIfNewDay today).dailyWithdrawalTotal + amount, lastWithdrawalDate := some today }).saveSaga { TransferSaga.new sid a.id b.id amount a.currency with state := TransferSagaState.debited }).sagas, outbox := (((w.store.saveSaga (TransferSaga.new sid a.id b.id amount a.currency)).saveWallet { a.resetDailyLimitIfNewDay today with balance := a.balance - amount, dailyWithdrawalTotal := (a.resetDailyLimitIfNewDay today).dailyWithdrawalTotal + amount, lastWithdrawalDate := some today }).saveSaga { TransferSaga.new sid a.id b.id amount a.currency with state := TransferSagaState.debited }).outbox ++ [{ aggregateId := a.id, eventType := WalletEventType.fundsWithdrawn, payload := { eventType := WalletEventType.fundsWithdrawn, walletId := a.id, amount := some amount, metadata := { sagaId := some sid, transferTo := some b.id }, timestamp := now }, published := false }], idempotency := (((w.store.saveSaga (TransferSaga.new sid a.id b.id amount a.currency)).saveWallet { a.resetDailyLimitIfNewDay today with balance := a.balance - amount, dailyWithdrawalTotal := (a.resetDailyLimitIfNewDay today).dailyWithdrawalTotal + amount, lastWithdrawalDate := some today }).saveSaga { TransferSaga.new sid a.id b.id amount a.currency with state := TransferSagaState.debited }).idempotency } { b with balance := b.balance + amount }).sagas, outbox := (Store.saveWallet { wallets := (((w.store.saveSaga (TransferSaga.new sid a.id b.id amount a.currency)).saveWallet { a.resetDailyLimitIfNewDay today with balance := a.balance - amount, dailyWithdrawalTotal := (a.resetDailyLimitIfNewDay today).dailyWithdrawalTotal + amount, lastWithdrawalDate := some today }).saveSaga { TransferSaga.new sid a.id b.id amount a.currency with state := TransferSagaState.debited }).wallets, events := (((w.store.saveSaga (TransferSaga.new sid a.id b.id amount a.currency)).saveWallet { a.resetDailyLimitIfNewDay today with balance := a.balance - amount, dailyWithdrawalTotal := (a.resetDailyLimitIfNewDay today).dailyWithdrawalTotal + amount, lastWithdrawalDate := some today }).saveSaga { TransferSaga.new sid a.id b.id amount a.currency with state := TransferSagaState.debited }).events ++ [{ walletId := a.id, eventType := WalletEventType.fundsWithdrawn, currency := (a.resetDailyLimitIfNewDay today).currency, amount := some amount, metadata := { sagaId := some sid, transferTo := some b.id }, createdAt := now }], sagas := (((w.store.saveSaga (TransferSaga.new sid a.id b.id amount a.currency)).saveWallet { a.resetDailyLimitIfNewDay today with balance := a.balance - amount, dailyWithdrawalTotal := (a.resetDailyLimitIfNewDay today).dailyWithdrawalTotal + amount, lastWithdrawalDate := some today }).saveSaga { TransferSaga.new sid a.id b.id amount a.currency with state := TransferSagaState.debited }).sagas, outbox := (((w.store.saveSaga (TransferSaga.new sid a.id b.id amount a.currency)).saveWallet { a.resetDailyLimitIfNewDay today with balance := a.balance - amount, dailyWithdrawalTotal := (a.resetDailyLimitIfNewDay today).dailyWithdrawalTotal + amount, lastWithdrawalDate := some today }).saveSaga { TransferSaga.new sid a.id b.id amount a.currency with state := TransferSagaState.debited }).outbox ++ [{ aggregateId := a.id, eventType := WalletEventType.fundsWithdrawn, payload := { eventType := WalletEventType.fundsWithdrawn, walletId := a.id, amount := some amount, metadata := { sagaId := some sid, transferTo := some b.id }, timestamp := now }, published := false }], idempotency := (((w.store.saveSaga (TransferSaga.new sid a.id b.id amount a.currency)).saveWallet { a.resetDailyLimitIfNewDay today with balance := a.balance - amount, dailyWithdrawalTotal := (a.resetDailyLimitIfNewDay today).dailyWithdrawalTotal + amount, lastWithdrawalDate := some today }).saveSaga { TransferSaga.new sid a.id b.id amount a.currency with state := TransferSagaState.debited }).idempotency } { b with balance := b.balance + amount }).outbox ++ [{ aggregateId := b.id, eventType := WalletEventType.fundsDeposited, payload := { eventType := WalletEventType.fundsDeposited, walletId := b.id, amount := some amount, metadata := { sagaId := some sid, transferFrom := some a.id }, timestamp := now }, published := false }], idempotency := (Store.saveWallet { wallets := (((w.store.saveSaga (TransferSaga.new sid a.id b.id amount a.currency)).saveWallet { a.resetDailyLimitIfNewDay today with balance := a.balance - amount, dailyWithdrawalTotal := (a.resetDailyLimitIfNewDay today).dailyWithdrawalTotal + amount, lastWithdrawalDate := some today }).saveSaga { TransferSaga.new sid a.id b.id amount a.currency with state := TransferSagaState.debited }).wallets, events := (((w.store.saveSaga (TransferSaga.new sid a.id b.id amount a.currency)).saveWallet { a.resetDailyLimitIfNewDay today with balance := a.balance - amount, dailyWithdrawalTotal := (a.resetDailyLimitIfNewDay today).dailyWithdrawalTotal + amount, lastWithdrawalDate := some today }).saveSaga { TransferSaga.new sid a.id b.id amount a.currency with state := TransferSagaState.debited }).events ++ [{ walletId := a.id, eventType := WalletEventType.fundsWithdrawn, currency := (a.resetDailyLimitIfNewDay today).currency, amount := some amount, metadata := { sagaId := some sid, transferTo := some b.id }, createdAt := now }], sagas := (((w.store.saveSaga (TransferSaga.new sid a.id b.id amount a.currency)).saveWallet { a.resetDailyLimitIfNewDay today with balance := a.balance - amount, dailyWithdrawalTotal := (a.resetDailyLimitIfNewDay today).dailyWithdrawalTotal + amount, lastWithdrawalDate := some today }).saveSaga { TransferSaga.new sid a.id b.id amount a.currency with state := TransferSagaState.debited }).sagas, outbox := (((w.store.saveSaga (TransferSaga.new sid a.id b.id amount a.currency)).saveWallet { a.resetDailyLimitIfNewDay today with balance := a.balance - amount, dailyWithdrawalTotal := (a.resetDailyLimitIfNewDay today).dailyWithdrawalTotal + amount, lastWithdrawalDate := some today }).saveSaga { TransferSaga.new sid a.id b.id amount a.currency with state := TransferSagaState.debited }).outbox ++ [{ aggregateId := a.id, eventType := WalletEventType.fundsWithdrawn, payload := { eventType := WalletEventType.fundsWithdrawn, walletId := a.id, amount := some amount, metadata := { sagaId := some sid, transferTo := some b.id }, timestamp := now }, published := false }], idempotency := (((w.store.saveSaga (TransferSaga.new sid a.id b.id amount a.currency)).saveWallet { a.resetDailyLimitIfNewDay today with balance := a.balance - amount, dailyWithdrawalTotal := (a.resetDailyLimitIfNewDay today).dailyWithdrawalTotal + amount, lastWithdrawalDate := some today }).saveSaga { TransferSaga.new sid a.id b.id amount a.currency with state := TransferSagaState.debited }).idempotency } { b with balance := b.balance + amount }).idempotency } { { TransferSaga.new sid a.id b.id amount a.currency with state := TransferSagaState.debited } with state := TransferSagaState.completed } a.id).trans ((Store.findWallet_congr { wallets := (Store.saveWallet { wallets := (((w.store.saveSaga (TransferSaga.new sid a.id b.id amount a.currency)).saveWallet { a.resetDailyLimitIfNewDay today with balance := a.balance - amount, dailyWithdrawalTotal := (a.resetDailyLimitIfNewDay today).dailyWithdrawalTotal + amount, lastWithdrawalDate := some today }).saveSaga { TransferSaga.new sid a.id b.id amount a.currency with state := TransferSagaState.debited }).wallets, events := (((w.store.saveSaga (TransferSaga.new sid a.id b.id amount a.currency)).saveWallet { a.resetDailyLimitIfNewDay today with balance := a.balance - amount, dailyWithdrawalTotal := (a.resetDailyLimitIfNewDay today).dailyWithdrawalTotal + amount, lastWithdrawalDate := some today }).saveSaga { TransferSaga.new sid a.id b.id amount a.currency with state := TransferSagaState.debited }).events ++ [{ walletId := a.id, eventType := WalletEventType.fundsWithdrawn, currency := (a.resetDailyLimitIfNewDay today).currency, amount := some amount, metadata := { sagaId := some sid, transferTo := some b.id }, createdAt := now }], sagas := (((w.store.saveSaga (TransferSaga.new sid a.id b.id amount a.currency)).saveWallet { a.resetDailyLimitIfNewDay today with balance := a.balance - amount, dailyWithdrawalTotal := (a.resetDailyLimitIfNewDay today).dailyWithdrawalTotal + amount, lastWithdrawalDate := some today }).saveSaga { TransferSaga.new sid a.id b.id amount a.currency with state := TransferSagaState.debited }).sagas, outbox := (((w.store.saveSaga (TransferSaga.new sid a.id b.id amount a.currency)).saveWallet { a.resetDailyLimitIfNewDay today with balance := a.balance - amount, dailyWithdrawalTotal := (a.resetDailyLimitIfNewDay today).dailyWithdrawalTotal + amount, lastWithdrawalDate := some today }).saveSaga { TransferSaga.new sid a.id b.id amount a.currency with state := TransferSagaState.debited }).outbox ++ [{ aggregateId := a.id, eventType := WalletEventType.fundsWithdrawn, payload := { eventType := WalletEventType.fundsWithdrawn, walletId := a.id, amount := some amount, metadata := { sagaId := some sid, transferTo := some b.id }, timestamp := now }, published := false }], idempotency := (((w.store.saveSaga (TransferSaga.new sid a.id b.id amount a.currency)).saveWallet { a.resetDailyLimitIfNewDay today with balance := a.balance - amount, dailyWithdrawalTotal := (a.resetDailyLimitIfNewDay today).dailyWithdrawalTotal + amount, lastWithdrawalDate := some today }).saveSaga { TransferSaga.new sid a.id b.id amount a.currency with state := TransferSagaState.debited }).idempotency } { b with balance := b.balance + amount }).wallets, events := (Store.saveWallet { wallets := (((w.store.saveSaga (TransferSaga.new sid a.id b.id amount a.currency)).saveWallet { a.resetDailyLimitIfNewDay today with balance := a.balance - amount, dailyWithdrawalTotal := (a.resetDailyLimitIfNewDay today).dailyWithdrawalTotal + amount, lastWithdrawalDate := some today }).saveSaga { TransferSaga.new sid a.id b.id amount a.currency with state := TransferSagaState.debited }).wallets, events := (((w.store.saveSaga (TransferSaga.new sid a.id b.id amount a.currency)).saveWallet { a.resetDailyLimitIfNewDay today with balance := a.balance - amount, dailyWithdrawalTotal := (a.resetDailyLimitIfNewDay today).dailyWithdrawalTotal + amount, lastWithdrawalDate := some today }).saveSaga { TransferSaga.new sid a.id b.id amount a.currency with state := TransferSagaState.debited }).events ++ [{ walletId := a.id, eventType := WalletEventType.fundsWithdrawn, currency := (a.resetDailyLimitIfNewDay today).currency, amount := some amount, metadata := { sagaId := some sid, transferTo := some b.id }, createdAt := now }], sagas := (((w.store.saveSaga (TransferSaga.new sid a.id b.id amount a.currency)).saveWallet { a.resetDailyLimitIfNewDay today with balance := a.balance - amount, dailyWithdrawalTotal := (a.resetDailyLimitIfNewDay today).dailyWithdrawalTotal + amount, lastWithdrawalDate := some today }).saveSaga { TransferSaga.new sid a.id b.id amount a.currency with state := TransferSagaState.debited }).sagas, outbox := (((w.store.saveSaga (TransferSaga.new sid a.id b.id amount a.currency)).saveWallet { a.resetDailyLimitIfNewDay today with balance := a.balance - amount, dailyWithdrawalTotal := (a.resetDailyLimitIfNewDay today).dailyWithdrawalTotal + amount, lastWithdrawalDate := some today }).saveSaga { TransferSaga.new sid a.id b.id amount a.currency with state := TransferSagaState.debited }).outbox ++ [{ aggregateId := a.id, eventType := WalletEventType.fundsWithdrawn, payload := { eventType := WalletEventType.fundsWithdrawn, walletId := a.id, amount := some amount, metadata := { sagaId := some sid, transferTo := some b.id }, timestamp := now }, published := false }], idempotency := (((w.store.saveSaga (TransferSaga.new sid a.id b.id amount a.currency)).saveWallet { a.resetDailyLimitIfNewDay today with balance := a.balance - amount, dailyWithdrawalTotal := (a.resetDailyLimitIfNewDay today).dailyWithdrawalTotal + amount, lastWithdrawalDate := some today }).saveSaga { TransferSaga.new sid a.id b.id amount a.currency with state := TransferSagaState.debited }).idempotency } { b with balance := b.balance + amount }).events ++ [{ walletId := b.id, eventType := WalletEventType.fundsDeposited, currency := b.currency, amount := some amount, metadata := { sagaId := some sid, transferFrom := some a.id }, createdAt := now }], sagas := (Store.saveWallet { wallets := (((w.store.saveSaga (TransferSaga.new sid a.id b.id amount a.currency)).saveWallet { a.resetDailyLimitIfNewDay today with balance := a.balance - amount, dailyWithdrawalTotal := (a.resetDailyLimitIfNewDay today).dailyWithdrawalTotal + amount, lastWithdrawalDate := some today }).saveSaga { TransferSaga.new sid a.id b.id amount a.currency with state := TransferSagaState.debited }).wallets, events := (((w.store.saveSaga (TransferSaga.new sid a.id b.id amount a.currency)).saveWallet { a.resetDailyLimitIfNewDay today with balance := a.balance - amount, dailyWithdrawalTotal := (a.resetDailyLimitIfNewDay today).dailyWithdrawalTotal + amount, lastWithdrawalDate := some today }).saveSaga { TransferSaga.new sid a.id b.id amount a.currency with state := TransferSagaState.debited }).events ++ [{ walletId := a.id, eventType := WalletEventType.fundsWithdrawn, currency := (a.resetDailyLimitIfNewDay today).currency, amount := some amount, metadata := { sagaId := some sid, transferTo := some b.id }, createdAt := now }], sagas := (((w.store.saveSaga (TransferSaga.new sid a.id b.id amount a.currency)).saveWallet { a.resetDailyLimitIfNewDay today with balance := a.balance - amount, dailyWithdrawalTotal := (a.resetDailyLimitIfNewDay today).dailyWithdrawalTotal + amount, lastWithdrawalDate := some today }).saveSaga { TransferSaga.new sid a.id b.id amount a.currency with state := TransferSagaState.debited }).sagas, outbox := (((w.store.saveSaga (TransferSaga.new sid a.id b.id amount a.currency)).saveWallet { a.resetDailyLimitIfNewDay today with balance := a.balance - amount, dailyWithdrawalTotal := (a.resetDailyLimitIfNewDay today).dailyWithdrawalTotal + amount, lastWithdrawalDate := some today }).saveSaga { TransferSaga.new sid a.id b.id amount a.currency with state := TransferSagaState.debited }).outbox ++ [{ aggregateId := a.id, eventType := WalletEventType.fundsWithdrawn, payload := { eventType := WalletEventType.fundsWithdrawn, walletId := a.id, amount := some amount, metadata := { sagaId := some sid, transferTo := some b.id }, timestamp := now }, published := false }], idempotency := (((w.store.saveSaga (TransferSaga.new sid a.id b.id amount a.currency)).saveWallet { a.resetDailyLimitIfNewDay today with balance := a.balance - amount, dailyWithdrawalTotal := (a.resetDailyLimitIfNewDay today).dailyWithdrawalTotal + amount, lastWithdrawalDate := some today }).saveSaga { TransferSaga.new sid a.id b.id amount a.currency with state := TransferSagaState.debited }).idempotency } { b with balance := b.balance + amount }).sagas, outbox := (Store.saveWallet { wallets := (((w.store.saveSaga (TransferSaga.new sid a.id b.id amount a.currency)).saveWallet { a.resetDailyLimitIfNewDay today with balance := a.balance - amount, dailyWithdrawalTotal := (a.resetDailyLimitIfNewDay today).dailyWithdrawalTotal + amount, lastWithdrawalDate := some today }).saveSaga { TransferSaga.new sid a.id b.id amount a.currency with state := TransferSagaState.debited }).wallets, events := (((w.store.saveSaga (TransferSaga.new sid a.id b.id amount a.currency)).saveWallet { a.resetDailyLimitIfNewDay today with balance := a.balance - amount, dailyWithdrawalTotal := (a.resetDailyLimitIfNewDay today).dailyWithdrawalTotal + amount, lastWithdrawalDate := some today }).saveSaga { TransferSaga.new sid a.id b.id amount a.currency with state := TransferSagaState.debited }).events ++ [{ walletId := a.id, eventType := WalletEventType.fundsWithdrawn, currency := (a.resetDailyLimitIfNewDay today).currency, amount := some amount, metadata := { sagaId := some sid, transferTo := some b.id }, createdAt := now }], sagas := (((w.store.saveSaga (TransferSaga.new sid a.id b.id amount a.currency)).saveWallet { a.resetDailyLimitIfNewDay today with balance := a.balance - amount, dailyWithdrawalTotal := (a.resetDailyLimitIfNewDay today).dailyWithdrawalTotal + amount, lastWithdrawalDate := some today }).saveSaga { TransferSaga.new sid a.id b.id amount a.currency with state := TransferSagaState.debited }).sagas, outbox := (((w.store.saveSaga (TransferSaga.new sid a.id b.id amount a.currency)).saveWallet { a.resetDailyLimitIfNewDay today with balance := a.balance - amount, dailyWithdrawalTotal := (a.resetDailyLimitIfNewDay today).dailyWithdrawalTotal + amount, lastWithdrawalDate := some today }).saveSaga { TransferSaga.new sid a.id b.id amount a.currency with state := TransferSagaState.debited }).outbox ++ [{ aggregateId := a.id, eventType := WalletEventType.fundsWithdrawn, payload := { eventType := WalletEventType.fundsWithdrawn, walletId := a.id, amount := some amount, metadata := { sagaId := some sid, transferTo := some b.id }, timestamp := now }, published := false }], idempotency := (((w.store.saveSaga (TransferSaga.new sid a.id b.id amount a.currency)).saveWallet { a.resetDailyLimitIfNewDay today with balance := a.balance - amount, dailyWithdrawalTotal := (a.resetDailyLimitIfNewDay today).dailyWithdrawalTotal + amount, lastWithdrawalDate := some today }).saveSaga { TransferSaga.new sid a.id b.id amount a.currency with state := TransferSagaState.debited }).idempotency } { b with balance := b.balance + amount }).outbox ++ [{ aggregateId := b.id, eventType := WalletEventType.fundsDeposited, payload := { eventType := WalletEventType.fundsDeposited, walletId := b.id, amount := some amount, metadata := { sagaId := some sid, transferFrom := some a.id }, timestamp := now }, published := false }], idempotency := (Store.saveWallet { wallets := (((w.store.saveSaga (TransferSaga.new sid a.id b.id amount a.currency)).saveWallet { a.resetDailyLimitIfNewDay today with balance := a.balance - amount, dailyWithdrawalTotal := (a.resetDailyLimitIfNewDay today).dailyWithdrawalTotal + amount, lastWithdrawalDate := some today }).saveSaga { TransferSaga.new sid a.id b.id amount a.currency with state := TransferSagaState.debited }).wallets, events := (((w.store.saveSaga (TransferSaga.new sid a.id b.id amount a.currency)).saveWallet { a.resetDailyLimitIfNewDay today with balance := a.balance - amount, dailyWithdrawalTotal := (a.resetDailyLimitIfNewDay today).dailyWithdrawalTotal + amount, lastWithdrawalDate := some today }).saveSaga { TransferSaga.new sid a.id b.id amount a.currency with state := TransferSagaState.debited }).events ++ [{ walletId := a.id, eventType := WalletEventType.fundsWithdrawn, currency := (a.resetDailyLimitIfNewDay today).currency, amount := some amount, metadata := { sagaId := some sid, transferTo := some b.id }, createdAt := now }], sagas := (((w.store.saveSaga (TransferSaga.new sid a.id b.id amount a.currency)).saveWallet { a.resetDailyLimitIfNewDay today with balance := a.balance - amount, dailyWithdrawalTotal := (a.resetDailyLimitIfNewDay today).dailyWithdrawalTotal + amount, lastWithdrawalDate := some today }).saveSaga { TransferSaga.new sid a.id b.id amount a.currency with state := TransferSagaState.debited }).sagas, outbox := (((w.store.saveSaga (TransferSaga.new sid a.id b.id amount a.currency)).saveWallet { a.resetDailyLimitIfNewDay today with balance := a.balance - amount, dailyWithdrawalTotal := (a.resetDailyLimitIfNewDay today).dailyWithdrawalTotal + amount, lastWithdrawalDate := some today }).saveSaga { TransferSaga.new sid a.id b.id amount a.currency with state := TransferSagaState.debited }).outbox ++ [{ aggregateId := a.id, eventType := WalletEventType.fundsWithdrawn, payload := { eventType := WalletEventType.fundsWithdrawn, walletId := a.id, amount := some amount, metadata := { sagaId := some sid, transferTo := some b.id }, timestamp := now }, published := false }], idempotency := (((w.store.saveSaga (TransferSaga.new sid a.id b.id amount a.currency)).saveWallet { a.resetDailyLimitIfNewDay today with balance := a.balance - amount, dailyWithdrawalTotal := (a.resetDailyLimitIfNewDay today).dailyWithdrawalTotal + amount, lastWithdrawalDate := some today }).saveSaga { TransferSaga.new sid a.id b.id amount a.currency with state := TransferSagaState.debited }).idempotency } { b with balance := b.balance + amount }).idempotency } (Store.saveWallet { wallets := (((w.store.saveSaga (TransferSaga.new sid a.id b.id amount a.currency)).saveWallet { a.resetDailyLimitIfNewDay today with balance := a.balance - amount, dailyWithdrawalTotal := (a.resetDailyLimitIfNewDay today).dailyWithdrawalTotal + amount, lastWithdrawalDate := some today }).saveSaga { TransferSaga.new sid a.id b.id amount a.currency with state := TransferSagaState.debited }).wallets, events := (((w.store.saveSaga (TransferSaga.new sid a.id b.id amount a.currency)).saveWallet { a.resetDailyLimitIfNewDay today with balance := a.balance - amount, dailyWithdrawalTotal := (a.resetDailyLimitIfNewDay today).dailyWithdrawalTotal + amount, lastWithdrawalDate := some today }).saveSaga { TransferSaga.new sid a.id b.id amount a.currency with state := TransferSagaState.debited }).events ++ [{ walletId := a.id, eventType := WalletEventType.fundsWithdrawn, currency := (a.resetDailyLimitIfNewDay today).currency, amount := some amount, metadata := { sagaId := some sid, transferTo := some b.id }, createdAt := now }], sagas := (((w.store.saveSaga (TransferSaga.new sid a.id b.id amount a.currency)).saveWallet { a.resetDailyLimitIfNewDay today with balance := a.balance - amount, dailyWithdrawalTotal := (a.resetDailyLimitIfNewDay today).dailyWithdrawalTotal + amount, lastWithdrawalDate := some today }).saveSaga { TransferSaga.new sid a.id b.id amount a.currency with state := TransferSagaState.debited }).sagas, outbox := (((w.store.saveSaga (TransferSaga.new sid a.id b.id amount a.currency)).saveWallet { a.resetDailyLimitIfNewDay today with balance := a.balance - amount, dailyWithdrawalTotal := (a.resetDailyLimitIfNewDay today).dailyWithdrawalTotal + amount, lastWithdrawalDate := some today }).saveSaga { TransferSaga.new sid a.id b.id amount a.currency with state := TransferSagaState.debited }).outbox ++ [{ aggregateId := a.id, eventType := WalletEventType.fundsWithdrawn, payload := { eventType := WalletEventType.fundsWithdrawn, walletId := a.id, amount := some amount, metadata := { sagaId := some sid, transferTo := some b.id }, timestamp := now }, published := false }], idempotency := (((w.store.saveSaga (TransferSaga.new sid a.id b.id amount a.currency)).saveWallet { a.resetDailyLimitIfNewDay today with balance := a.balance - amount, dailyWithdrawalTotal := (a.resetDailyLimitIfNewDay today).dailyWithdrawalTotal + amount, lastWithdrawalDate := some today }).saveSaga { TransferSaga.new sid a.id b.id amount a.currency with state := TransferSagaState.debited }).idempotency } { b with balance := b.balance + amount }) a.id rfl).trans ((Store.findWallet_saveWallet_ne { wallets := (((w.store.saveSaga (TransferSaga.new sid a.id b.id amount a.currency)).saveWallet { a.resetDailyLimitIfNewDay today with balance := a.balance - amount, dailyWithdrawalTotal := (a.resetDailyLimitIfNewDay today).dailyWithdrawalTotal + amount, lastWithdrawalDate := some today }).saveSaga { TransferSaga.new sid a.id b.id amount a.currency with state := TransferSagaState.debited }).wallets, events := (((w.store.saveSaga (TransferSaga.new sid a.id b.id amount a.currency)).saveWallet { a.resetDailyLimitIfNewDay today with balance := a.balance - amount, dailyWithdrawalTotal := (a.resetDailyLimitIfNewDay today).dailyWithdrawalTotal + amount, lastWithdrawalDate := some today }).saveSaga { TransferSaga.new sid a.id b.id amount a.currency with state := TransferSagaState.debited }).events ++ [{ walletId := a.id, eventType := WalletEventType.fundsWithdrawn, currency := (a.resetDailyLimitIfNewDay today).currency, amount := some amount, metadata := { sagaId := some sid, transferTo := some b.id }, createdAt := now }], sagas := (((w.store.saveSaga (TransferSaga.new sid a.id b.id amount a.currency)).saveWallet { a.resetDailyLimitIfNewDay today with balance := a.balance - amount, dailyWithdrawalTotal := (a.resetDailyLimitIfNewDay today).dailyWithdrawalTotal + amount, lastWithdrawalDate := some today }).saveSaga { TransferSaga.new sid a.id b.id amount a.currency with state := TransferSagaState.debited }).sagas, outbox := (((w.store.saveSaga (TransferSaga.new sid a.id b.id amount a.currency)).saveWallet { a.resetDailyLimitIfNewDay today with balance := a.balance - amount, dailyWithdrawalTotal := (a.resetDailyLimitIfNewDay today).dailyWithdrawalTotal + amount, lastWithdrawalDate := some today }).saveSaga { TransferSaga.new sid a.id b.id amount a.currency with state := TransferSagaState.debited }).outbox ++ [{ aggregateId := a.id, eventType := WalletEventType.fundsWithdrawn, payload := { eventType := WalletEventType.fundsWithdrawn, walletId := a.id, amount := some amount, metadata := { sagaId := some sid, transferTo := some b.id }, timestamp := now }, published := false }], idempotency := (((w.store.saveSaga (TransferSaga.new sid a.id b.id amount a.currency)).saveWallet { a.resetDailyLimitIfNewDay today with balance := a.balance - amount, dailyWithdrawalTotal := (a.resetDailyLimitIfNewDay today).dailyWithdrawalTotal + amount, lastWithdrawalDate := some today }).saveSaga { TransferSaga.new sid a.id b.id amount a.currency with state := TransferSagaState.debited }).idempotency } { b with balance := b.balance + amount } a.id hne).trans ((Store.findWallet_congr { wallets := (((w.store.saveSaga (TransferSaga.new sid a.id b.id amount a.currency)).saveWallet { a.resetDailyLimitIfNewDay today with balance := a.balance - amount, dailyWithdrawalTotal := (a.resetDailyLimitIfNewDay today).dailyWithdrawalTotal + amount, lastWithdrawalDate := some today }).saveSaga { TransferSaga.new sid a.id b.id amount a.currency with state := TransferSagaState.debited }).wallets, events := (((w.store.saveSaga (TransferSaga.new sid a.id b.id amount a.currency)).saveWallet { a.resetDailyLimitIfNewDay today with balance := a.balance - amount, dailyWithdrawalTotal := (a.resetDailyLimitIfNewDay today).dailyWithdrawalTotal + amount, lastWithdrawalDate := some today }).saveSaga { TransferSaga.new sid a.id b.id amount a.currency with state := TransferSagaState.debited }).events ++ [{ walletId := a.id, eventType := WalletEventType.fundsWithdrawn, currency := (a.resetDailyLimitIfNewDay today).currency, amount := some amount, metadata := { sagaId := some sid, transferTo := some b.id }, createdAt := now }], sagas := (((w.store.saveSaga (TransferSaga.new sid a.id b.id amount a.currency)).saveWallet { a.resetDailyLimitIfNewDay today with balance := a.balance - amount, dailyWithdrawalTotal := (a.resetDailyLimitIfNewDay today).dailyWithdrawalTotal + amount, lastWithdrawalDate := some today }).saveSaga { TransferSaga.new sid a.id b.id amount a.currency with state := TransferSagaState.debited }).sagas, outbox := (((w.store.saveSaga (TransferSaga.new sid a.id b.id amount a.currency)).saveWallet { a.resetDailyLimitIfNewDay today with balance := a.balance - amount, dailyWithdrawalTotal := (a.resetDailyLimitIfNewDay today).dailyWithdrawalTotal + amount, lastWithdrawalDate := some today }).saveSaga { TransferSaga.new sid a.id b.id amount a.currency with state := TransferSagaState.debited }).outbox ++ [{ aggregateId := a.id, eventType := WalletEventType.fundsWithdrawn, payload := { eventType := WalletEventType.fundsWithdrawn, walletId := a.id, amount := some amount, metadata := { sagaId := some sid, transferTo := some b.id }, timestamp := now }, published := false }], idempotency := (((w.store.saveSaga (TransferSaga.new sid a.id b.id amount a.currency)).saveWallet { a.resetDailyLimitIfNewDay today with balance := a.balance - amount, dailyWithdrawalTotal := (a.resetDailyLimitIfNewDay today).dailyWithdrawalTotal + amount, lastWithdrawalDate := some today }).saveSaga { TransferSaga.new sid a.id b.id amount a.currency with state := TransferSagaState.debited }).idempotency } (((w.store.saveSaga (TransferSaga.new sid a.id b.id amount a.currency)).saveWallet { a.resetDailyLimitIfNewDay today with balance := a.balance - amount, dailyWithdrawalTotal := (a.resetDailyLimitIfNewDay today).dailyWithdrawalTotal + amount, lastWithdrawalDate := some today }).saveSaga { TransferSaga.new sid a.id b.id amount a.currency with state := TransferSagaState.debited }) a.id rfl).trans ((Store.findWallet_saveSaga ((w.store.saveSaga (TransferSaga.new sid a.id b.id amount a.currency)).saveWallet { a.resetDailyLimitIfNewDay today with balance := a.balance - amount, dailyWithdrawalTotal := (a.resetDailyLimitIfNewDay today).dailyWithdrawalTotal + amount, lastWithdrawalDate := some today }) { TransferSaga.new sid a.id b.id amount a.currency with state := TransferSagaState.debited } a.id).trans (hself (w.store.saveSaga (TransferSaga.new sid a.id b.id amount a.currency)))))))
  case c3 =>
    dsimp only
    exact (Store.findWallet_saveSaga { wallets := (Store.saveWallet { wallets := (((w.store.saveSaga (TransferSaga.new sid a.id b.id amount a.currency)).saveWallet { a.resetDailyLimitIfNewDay today with balance := a.balance - amount, dailyWithdrawalTotal := (a.resetDailyLimitIfNewDay today).dailyWithdrawalTotal + amount, lastWithdrawalDate := some today }).saveSaga { TransferSaga.new sid a.id b.id amount a.currency with state := TransferSagaState.debited }).wallets, events := (((w.store.saveSaga (TransferSaga.new sid a.id b.id amount a.currency)).saveWallet { a.resetDailyLimitIfNewDay today with balance := a.balance - amount, dailyWithdrawalTotal := (a.resetDailyLimitIfNewDay today).dailyWithdrawalTotal + amount, lastWithdrawalDate := some today }).saveSaga { TransferSaga.new sid a.id b.id amount a.currency with state := TransferSagaState.debited }).events ++ [{ walletId := a.id, eventType := WalletEventType.fundsWithdrawn, currency := (a.resetDailyLimitIfNewDay today).currency, amount := some amount, metadata := { sagaId := some sid, transferTo := some b.id }, createdAt := now }], sagas := (((w.store.saveSaga (TransferSaga.new sid a.id b.id amount a.currency)).saveWallet { a.resetDailyLimitIfNewDay today with balance := a.balance - amount, dailyWithdrawalTotal := (a.resetDailyLimitIfNewDay today).dailyWithdrawalTotal + amount, lastWithdrawalDate := some today }).saveSaga { TransferSaga.new sid a.id b.id amount a.currency with state := TransferSagaState.debited }).sagas, outbox := (((w.store.saveSaga (TransferSaga.new sid a.id b.id amount a.currency)).saveWallet { a.resetDailyLimitIfNewDay today with balance := a.balance - amount, dailyWithdrawalTotal := (a.resetDailyLimitIfNewDay today).dailyWithdrawalTotal + amount, lastWithdrawalDate := some today }).saveSaga { TransferSaga.new sid a.id b.id amount a.currency with state := TransferSagaState.debited }).outbox ++ [{ aggregateId := a.id, eventType := WalletEventType.fundsWithdrawn, payload := { eventType := WalletEventType.fundsWithdrawn, walletId := a.id, amount := some amount, metadata := { sagaId := some sid, transferTo := some b.id }, timestamp := now }, published := false }], idempotency := (((w.store.saveSaga (TransferSaga.new sid a.id b.id amount a.currency)).saveWallet { a.resetDailyLimitIfNewDay today with balance := a.balance - amount, dailyWithdrawalTotal := (a.resetDailyLimitIfNewDay today).dailyWithdrawalTotal + amount, lastWithdrawalDate := some today }).saveSaga { TransferSaga.new sid a.id b.id amount a.currency with state := TransferSagaState.debited }).idempotency } { b with balance := b.balance + amount }).wallets, events := (Store.saveWallet { wallets := (((w.store.saveSaga (TransferSaga.new sid a.id b.id amount a.currency)).saveWallet { a.resetDailyLimitIfNewDay today with balance := a.balance - amount, dailyWithdrawalTotal := (a.resetDailyLimitIfNewDay today).dailyWithdrawalTotal + amount, lastWithdrawalDate := some today }).saveSaga { TransferSaga.new sid a.id b.id amount a.currency with state := TransferSagaState.debited }).wallets, events := (((w.store.saveSaga (TransferSaga.new sid a.id b.id amount a.currency)).saveWallet { a.resetDailyLimitIfNewDay today with balance := a.balance - amount, dailyWithdrawalTotal := (a.resetDailyLimitIfNewDay today).dailyWithdrawalTotal + amount, lastWithdrawalDate := some today }).saveSaga { TransferSaga.new sid a.id b.id amount a.currency with state := TransferSagaState.debited }).events ++ [{ walletId := a.id, eventType := WalletEventType.fundsWithdrawn, currency := (a.resetDailyLimitIfNewDay today).currency, amount := some amount, metadata := { sagaId := some sid, transferTo := some b.id }, createdAt := now }], sagas := (((w.store.saveSaga (TransferSaga.new sid a.id b.id amount a.currency)).saveWallet { a.resetDailyLimitIfNewDay today with balance := a.balance - amount, dailyWithdrawalTotal := (a.resetDailyLimitIfNewDay today).dailyWithdrawalTotal + amount, lastWithdrawalDate := some today }).saveSaga { TransferSaga.new sid a.id b.id amount a.currency with state := TransferSagaState.debited }).sagas, outbox := (((w.store.saveSaga (TransferSaga.new sid a.id b.id amount a.currency)).saveWallet { a.resetDailyLimitIfNewDay today with balance := a.balance - amount, dailyWithdrawalTotal := (a.resetDailyLimitIfNewDay today).dailyWithdrawalTotal + amount, lastWithdrawalDate := some today }).saveSaga { TransferSaga.new sid a.id b.id amount a.currency with state := TransferSagaState.debited }).outbox ++ [{ aggregateId := a.id, eventType := WalletEventType.fundsWithdrawn, payload := { eventType := WalletEventType.fundsWithdrawn, walletId := a.id, amount := some amount, metadata := { sagaId := some sid, transferTo := some b.id }, timestamp := now }, published := false }], idempotency := (((w.store.saveSaga (TransferSaga.new sid a.id b.id amount a.currency)).saveWallet { a.resetDailyLimitIfNewDay today with balance := a.balance - amount, dailyWithdrawalTotal := (a.resetDailyLimitIfNewDay today).dailyWithdrawalTotal + amount, lastWithdrawalDate := some today }).saveSaga { TransferSaga.new sid a.id b.id amount a.currency with state := TransferSagaState.debited }).idempotency } { b with balance := b.balance + amount }).events ++ [{ walletId := b.id, eventType := WalletEventType.fundsDeposited, currency := b.currency, amount := some amount, metadata := { sagaId := some sid, transferFrom := some a.id }, createdAt := now }], sagas := (Store.saveWallet { wallets := (((w.store.saveSaga (TransferSaga.new sid a.id b.id amount a.currency)).saveWallet { a.resetDailyLimitIfNewDay today with balance := a.balance - amount, dailyWithdrawalTotal := (a.resetDailyLimitIfNewDay today).dailyWithdrawalTotal + amount, lastWithdrawalDate := some today }).saveSaga { TransferSaga.new sid a.id b.id amount a.currency with state := TransferSagaState.debited }).wallets, events := (((w.store.saveSaga (TransferSaga.new sid a.id b.id amount a.currency)).saveWallet { a.resetDailyLimitIfNewDay today with balance := a.balance - amount, dailyWithdrawalTotal := (a.resetDailyLimitIfNewDay today).dailyWithdrawalTotal + amount, lastWithdrawalDate := some today }).saveSaga { TransferSaga.new sid a.id b.id amount a.currency with state := TransferSagaState.debited }).events ++ [{ walletId := a.id, eventType := WalletEventType.fundsWithdrawn, currency := (a.resetDailyLimitIfNewDay today).currency, amount := some amount, metadata := { sagaId := some sid, transferTo := some b.id }, createdAt := now }], sagas := (((w.store.saveSaga (TransferSaga.new sid a.id b.id amount a.currency)).saveWallet { a.resetDailyLimitIfNewDay today with balance := a.balance - amount, dailyWithdrawalTotal := (a.resetDailyLimitIfNewDay today).dailyWithdrawalTotal + amount, lastWithdrawalDate := some today }).saveSaga { TransferSaga.new sid a.id b.id amount a.currency with state := TransferSagaState.debited }).sagas, outbox := (((w.store.saveSaga (TransferSaga.new sid a.id b.id amount a.currency)).saveWallet { a.resetDailyLimitIfNewDay today with balance := a.balance - amount, dailyWithdrawalTotal := (a.resetDailyLimitIfNewDay today).dailyWithdrawalTotal + amount, lastWithdrawalDate := some today }).saveSaga { TransferSaga.new sid a.id b.id amount a.currency with state := TransferSagaState.debited }).outbox ++ [{ aggregateId := a.id, eventType := WalletEventType.fundsWithdrawn, payload := { eventType := WalletEventType.fundsWithdrawn, walletId := a.id, amount := some amount, metadata := { sagaId := some sid, transferTo := some b.id }, timestamp := now }, published := false }], idempotency := (((w.store.saveSaga (TransferSaga.new sid a.id b.id amount a.currency)).saveWallet { a.resetDailyLimitIfNewDay today with balance := a.balance - amount, dailyWithdrawalTotal := (a.resetDailyLimitIfNewDay today).dailyWithdrawalTotal + amount, lastWithdrawalDate := some today }).saveSaga { TransferSaga.new sid a.id b.id amount a.currency with state := TransferSagaState.debited }).idempotency } { b with balance := b.balance + amount }).sagas, outbox := (Store.saveWallet { wallets := (((w.store.saveSaga (TransferSaga.new sid a.id b.id amount a.currency)).saveWallet { a.resetDailyLimitIfNewDay today with balance := a.balance - amount, dailyWithdrawalTotal := (a.resetDailyLimitIfNewDay today).dailyWithdrawalTotal + amount, lastWithdrawalDate := some today }).saveSaga { TransferSaga.new sid a.id b.id amount a.currency with state := TransferSagaState.debited }).wallets, events := (((w.store.saveSaga (TransferSaga.new sid a.id b.id amount a.currency)).saveWallet { a.resetDailyLimitIfNewDay today with balance := a.balance - amount, dailyWithdrawalTotal := (a.resetDailyLimitIfNewDay today).dailyWithdrawalTotal + amount, lastWithdrawalDate := some today }).saveSaga { TransferSaga.new sid a.id b.id amount a.currency with state := TransferSagaState.debited }).events ++ [{ walletId := a.id, eventType := WalletEventType.fundsWithdrawn, currency := (a.resetDailyLimitIfNewDay today).currency, amount := some amount, metadata := { sagaId := some sid, transferTo := some b.id }, createdAt := now }], sagas := (((w.store.saveSaga (TransferSaga.new sid a.id b.id amount a.currency)).saveWallet { a.resetDailyLimitIfNewDay today with balance := a.balance - amount, dailyWithdrawalTotal := (a.resetDailyLimitIfNewDay today).dailyWithdrawalTotal + amount, lastWithdrawalDate := some today }).saveSaga { TransferSaga.new sid a.id b.id amount a.currency with state := TransferSagaState.debited }).sagas, outbox := (((w.store.saveSaga (TransferSaga.new sid a.id b.id amount a.currency)).saveWallet { a.resetDailyLimitIfNewDay today with balance := a.balance - amount, dailyWithdrawalTotal := (a.resetDailyLimitIfNewDay today).dailyWithdrawalTotal + amount, lastWithdrawalDate := some today }).saveSaga { TransferSaga.new sid a.id b.id amount a.currency with state := TransferSagaState.debited }).outbox ++ [{ aggregateId := a.id, eventType := WalletEventType.fundsWithdrawn, payload := { eventType := WalletEventType.fundsWithdrawn, walletId := a.id, amount := some amount, metadata := { sagaId := some sid, transferTo := some b.id }, timestamp := now }, published := false }], idempotency := (((w.store.saveSaga (TransferSaga.new sid a.id b.id amount a.currency)).saveWallet { a.resetDailyLimitIfNewDay today with balance := a.balance - amount, dailyWithdrawalTotal := (a.resetDailyLimitIfNewDay today).dailyWithdrawalTotal + amount, lastWithdrawalDate := some today }).saveSaga { TransferSaga.new sid a.id b.id amount a.currency with state := TransferSagaState.debited }).idempotency } { b with balance := b.balance + amount }).outbox ++ [{ aggregateId := b.id, eventType := WalletEventType.fundsDeposited, payload := { eventType := WalletEventType.fundsDeposited, walletId := b.id, amount := some amount, metadata := { sagaId := some sid, transferFrom := some a.id }, timestamp := now }, published := false }], idempotency := (Store.saveWallet { wallets := (((w.store.saveSaga (TransferSaga.new sid a.id b.id amount a.currency)).saveWallet { a.resetDailyLimitIfNewDay today with balance := a.balance - amount, dailyWithdrawalTotal := (a.resetDailyLimitIfNewDay today).dailyWithdrawalTotal + amount, lastWithdrawalDate := some today }).saveSaga { TransferSaga.new sid a.id b.id amount a.currency with state := TransferSagaState.debited }).wallets, events := (((w.store.saveSaga (TransferSaga.new sid a.id b.id amount a.currency)).saveWallet { a.resetDailyLimitIfNewDay today with balance := a.balance - amount, dailyWithdrawalTotal := (a.resetDailyLimitIfNewDay today).dailyWithdrawalTotal + amount, lastWithdrawalDate := some today }).saveSaga { TransferSaga.new sid a.id b.id amount a.currency with state := TransferSagaState.debited }).events ++ [{ walletId := a.id, eventType := WalletEventType.fundsWithdrawn, currency := (a.resetDailyLimitIfNewDay today).currency, amount := some amount, metadata := { sagaId := some sid, transferTo := some b.id }, createdAt := now }], sagas := (((w.store.saveSaga (TransferSaga.new sid a.id b.id amount a.currency)).saveWallet { a.resetDailyLimitIfNewDay today with balance := a.balance - amount, dailyWithdrawalTotal := (a.resetDailyLimitIfNewDay today).dailyWithdrawalTotal + amount, lastWithdrawalDate := some today }).saveSaga { TransferSaga.new sid a.id b.id amount a.currency with state := TransferSagaState.debited }).sagas, outbox := (((w.store.saveSaga (TransferSaga.new sid a.id b.id amount a.currency)).saveWallet { a.resetDailyLimitIfNewDay today with balance := a.balance - amount, dailyWithdrawalTotal := (a.resetDailyLimitIfNewDay today).dailyWithdrawalTotal + amount, lastWithdrawalDate := some today }).saveSaga { TransferSaga.new sid a.id b.id amount a.currency with state := TransferSagaState.debited }).outbox ++ [{ aggregateId := a.id, eventType := WalletEventType.fundsWithdrawn, payload := { eventType := WalletEventType.fundsWithdrawn, walletId := a.id, amount := some amount, metadata := { sagaId := some sid, transferTo := some b.id }, timestamp := now }, published := false }], idempotency := (((w.store.saveSaga (TransferSaga.new sid a.id b.id amount a.currency)).saveWallet { a.resetDailyLimitIfNewDay today with balance := a.balance - amount, dailyWithdrawalTotal := (a.resetDailyLimitIfNewDay today).dailyWithdrawalTotal + amount, lastWithdrawalDate := some today }).saveSaga { TransferSaga.new sid a.id b.id amount a.currency with state := TransferSagaState.debited }).idempotency } { b with balance := b.balance + amount }).idempotency } { { TransferSaga.new sid a.id b.id amount a.currency with state := TransferSagaState.debited } with state := TransferSagaState.completed } b.id).trans ((Store.findWallet_congr { wallets := (Store.saveWallet { wallets := (((w.store.saveSaga (TransferSaga.new sid a.id b.id amount a.currency)).saveWallet { a.resetDailyLimitIfNewDay today with balance := a.balance - amount, dailyWithdrawalTotal := (a.resetDailyLimitIfNewDay today).dailyWithdrawalTotal + amount, lastWithdrawalDate := some today }).saveSaga { TransferSaga.new sid a.id b.id amount a.currency with state := TransferSagaState.debited }).wallets, events := (((w.store.saveSaga (TransferSaga.new sid a.id b.id amount a.currency)).saveWallet { a.resetDailyLimitIfNewDay today with balance := a.balance - amount, dailyWithdrawalTotal := (a.resetDailyLimitIfNewDay today).dailyWithdrawalTotal + amount, lastWithdrawalDate := some today }).saveSaga { TransferSaga.new sid a.id b.id amount a.currency with state := TransferSagaState.debited }).events ++ [{ walletId := a.id, eventType := WalletEventType.fundsWithdrawn, currency := (a.resetDailyLimitIfNewDay today).currency, amount := some amount, metadata := { sagaId := some sid, transferTo := some b.id }, createdAt := now }], sagas := (((w.store.saveSaga (TransferSaga.new sid a.id b.id amount a.currency)).saveWallet { a.resetDailyLimitIfNewDay today with balance := a.balance - amount, dailyWithdrawalTotal := (a.resetDailyLimitIfNewDay today).dailyWithdrawalTotal + amount, lastWithdrawalDate := some today }).saveSaga { TransferSaga.new sid a.id b.id amount a.currency with state := TransferSagaState.debited }).sagas, outbox := (((w.store.saveSaga (TransferSaga.new sid a.id b.id amount a.currency)).saveWallet { a.resetDailyLimitIfNewDay today with balance := a.balance - amount, dailyWithdrawalTotal := (a.resetDailyLimitIfNewDay today).dailyWithdrawalTotal + amount, lastWithdrawalDate := some today }).saveSaga { TransferSaga.new sid a.id b.id amount a.currency with state := TransferSagaState.debited }).outbox ++ [{ aggregateId := a.id, eventType := WalletEventType.fundsWithdrawn, payload := { eventType := WalletEventType.fundsWithdrawn, walletId := a.id, amount := some amount, metadata := { sagaId := some sid, transferTo := some b.id }, timestamp := now }, published := false }], idempotency := (((w.store.saveSaga (TransferSaga.new sid a.id b.id amount a.currency)).saveWallet { a.resetDailyLimitIfNewDay today with balance := a.balance - amount, dailyWithdrawalTotal := (a.resetDailyLimitIfNewDay today).dailyWithdrawalTotal + amount, lastWithdrawalDate := some today }).saveSaga { TransferSaga.new sid a.id b.id amount a.currency with state := TransferSagaState.debited }).idempotency } { b with balance := b.balance + amount }).wallets, events := (Store.saveWallet { wallets := (((w.store.saveSaga (TransferSaga.new sid a.id b.id amount a.currency)).saveWallet { a.resetDailyLimitIfNewDay today with balance := a.balance - amount, dailyWithdrawalTotal := (a.resetDailyLimitIfNewDay today).dailyWithdrawalTotal + amount, lastWithdrawalDate := some today }).saveSaga { TransferSaga.new sid a.id b.id amount a.currency with state := TransferSagaState.debited }).wallets, events := (((w.store.saveSaga (TransferSaga.new sid a.id b.id amount a.currency)).saveWallet { a.resetDailyLimitIfNewDay today with balance := a.balance - amount, dailyWithdrawalTotal := (a.resetDailyLimitIfNewDay today).dailyWithdrawalTotal + amount, lastWithdrawalDate := some today }).saveSaga { TransferSaga.new sid a.id b.id amount a.currency with state := TransferSagaState.debited }).events ++ [{ walletId := a.id, eventType := WalletEventType.fundsWithdrawn, currency := (a.resetDailyLimitIfNewDay today).currency, amount := some amount, metadata := { sagaId := some sid, transferTo := some b.id }, createdAt := now }], sagas := (((w.store.saveSaga (TransferSaga.new sid a.id b.id amount a.currency)).saveWallet { a.resetDailyLimitIfNewDay today with balance := a.balance - amount, dailyWithdrawalTotal := (a.resetDailyLimitIfNewDay today).dailyWithdrawalTotal + amount, lastWithdrawalDate := some today }).saveSaga { TransferSaga.new sid a.id b.id amount a.currency with state := TransferSagaState.debited }).sagas, outbox := (((w.store.saveSaga (TransferSaga.new sid a.id b.id amount a.currency)).saveWallet { a.resetDailyLimitIfNewDay today with balance := a.balance - amount, dailyWithdrawalTotal := (a.resetDailyLimitIfNewDay today).dailyWithdrawalTotal + amount, lastWithdrawalDate := some today }).saveSaga { TransferSaga.new sid a.id b.id amount a.currency with state := TransferSagaState.debited }).outbox ++ [{ aggregateId := a.id, eventType := WalletEventType.fundsWithdrawn, payload := { eventType := WalletEventType.fundsWithdrawn, walletId := a.id, amount := some amount, metadata := { sagaId := some sid, transferTo := some b.id }, timestamp := now }, published := false }], idempotency := (((w.store.saveSaga (TransferSaga.new sid a.id b.id amount a.currency)).saveWallet { a.resetDailyLimitIfNewDay today with balance := a.balance - amount, dailyWithdrawalTotal := (a.resetDailyLimitIfNewDay today).dailyWithdrawalTotal + amount, lastWithdrawalDate := some today }).saveSaga { TransferSaga.new sid a.id b.id amount a.currency with state := TransferSagaState.debited }).idempotency } { b with balance := b.balance + amount }).events ++ [{ walletId := b.id, eventType := WalletEventType.fundsDeposited, currency := b.currency, amount := some amount, metadata := { sagaId := some sid, transferFrom := some a.id }, createdAt := now }], sagas := (Store.saveWallet { wallets := (((w.store.saveSaga (TransferSaga.new sid a.id b.id amount a.currency)).saveWallet { a.resetDailyLimitIfNewDay today with balance := a.balance - amount, dailyWithdrawalTotal := (a.resetDailyLimitIfNewDay today).dailyWithdrawalTotal + amount, lastWithdrawalDate := some today }).saveSaga { TransferSaga.new sid a.id b.id amount a.currency with state := TransferSagaState.debited }).wallets, events := (((w.store.saveSaga (TransferSaga.new sid a.id b.id amount a.currency)).saveWallet { a.resetDailyLimitIfNewDay today with balance := a.balance - amount, dailyWithdrawalTotal := (a.resetDailyLimitIfNewDay today).dailyWithdrawalTotal + amount, lastWithdrawalDate := some today }).saveSaga { TransferSaga.new sid a.id b.id amount a.currency with state := TransferSagaState.debited }).events ++ [{ walletId := a.id, eventType := WalletEventType.fundsWithdrawn, currency := (a.resetDailyLimitIfNewDay today).currency, amount := some amount, metadata := { sagaId := some sid, transferTo := some b.id }, createdAt := now }], sagas := (((w.store.saveSaga (TransferSaga.new sid a.id b.id amount a.currency)).saveWallet { a.resetDailyLimitIfNewDay today with balance := a.balance - amount, dailyWithdrawalTotal := (a.resetDailyLimitIfNewDay today).dailyWithdrawalTotal + amount, lastWithdrawalDate := some today }).saveSaga { TransferSaga.new sid a.id b.id amount a.currency with state := TransferSagaState.debited }).sagas, outbox := (((w.store.saveSaga (TransferSaga.new sid a.id b.id amount a.currency)).saveWallet { a.resetDailyLimitIfNewDay today with balance := a.balance - amount, dailyWithdrawalTotal := (a.resetDailyLimitIfNewDay today).dailyWithdrawalTotal + amount, lastWithdrawalDate := some today }).saveSaga { TransferSaga.new sid a.id b.id amount a.currency with state := TransferSagaState.debited }).outbox ++ [{ aggregateId := a.id, eventType := WalletEventType.fundsWithdrawn, payload := { eventType := WalletEventType.fundsWithdrawn, walletId := a.id, amount := some amount, metadata := { sagaId := some sid, transferTo := some b.id }, timestamp := now }, published := false }], idempotency := (((w.store.saveSaga (TransferSaga.new sid a.id b.id amount a.currency)).saveWallet { a.resetDailyLimitIfNewDay today with balance := a.balance - amount, dailyWithdrawalTotal := (a.resetDailyLimitIfNewDay today).dailyWithdrawalTotal + amount, lastWithdrawalDate := some today }).saveSaga { TransferSaga.new sid a.id b.id amount a.currency with state := TransferSagaState.debited }).idempotency } { b with balance := b.balance + amount }).sagas, outbox := (Store.saveWallet { wallets := (((w.store.saveSaga (TransferSaga.new sid a.id b.id amount a.currency)).saveWallet { a.resetDailyLimitIfNewDay today with balance := a.balance - amount, dailyWithdrawalTotal := (a.resetDailyLimitIfNewDay today).dailyWithdrawalTotal + amount, lastWithdrawalDate := some today }).saveSaga { TransferSaga.new sid a.id b.id amount a.currency with state := TransferSagaState.debited }).wallets, events := (((w.store.saveSaga (TransferSaga.new sid a.id b.id amount a.currency)).saveWallet { a.resetDailyLimitIfNewDay today with balance := a.balance - amount, dailyWithdrawalTotal := (a.resetDailyLimitIfNewDay today).dailyWithdrawalTotal + amount, lastWithdrawalDate := some today }).saveSaga { TransferSaga.new sid a.id b.id amount a.currency with state := TransferSagaState.debited }).events ++ [{ walletId := a.id, eventType := WalletEventType.fundsWithdrawn, currency := (a.resetDailyLimitIfNewDay today).currency, amount := some amount, metadata := { sagaId := some sid, transferTo := some b.id }, createdAt := now }], sagas := (((w.store.saveSaga (TransferSaga.new sid a.id b.id amount a.currency)).saveWallet { a.resetDailyLimitIfNewDay today with balance := a.balance - amount, dailyWithdrawalTotal := (a.resetDailyLimitIfNewDay today).dailyWithdrawalTotal + amount, lastWithdrawalDate := some today }).saveSaga { TransferSaga.new sid a.id b.id amount a.currency with state := TransferSagaState.debited }).sagas, outbox := (((w.store.saveSaga (TransferSaga.new sid a.id b.id amount a.currency)).saveWallet { a.resetDailyLimitIfNewDay today with balance := a.balance - amount, dailyWithdrawalTotal := (a.resetDailyLimitIfNewDay today).dailyWithdrawalTotal + amount, lastWithdrawalDate := some today }).saveSaga { TransferSaga.new sid a.id b.id amount a.currency with state := TransferSagaState.debited }).outbox ++ [{ aggregateId := a.id, eventType := WalletEventType.fundsWithdrawn, payload := { eventType := WalletEventType.fundsWithdrawn, walletId := a.id, amount := some amount, metadata := { sagaId := some sid, transferTo := some b.id }, timestamp := now }, published := false }], idempotency := (((w.store.saveSaga (TransferSaga.new sid a.id b.id amount a.currency)).saveWallet { a.resetDailyLimitIfNewDay today with balance := a.balance - amount, dailyWithdrawalTotal := (a.resetDailyLimitIfNewDay today).dailyWithdrawalTotal + amount, lastWithdrawalDate := some today }).saveSaga { TransferSaga.new sid a.id b.id amount a.currency with state := TransferSagaState.debited }).idempotency } { b with balance := b.balance + amount }).outbox ++ [{ aggregateId := b.id, eventType := WalletEventType.fundsDeposited, payload := { eventType := WalletEventType.fundsDeposited, walletId := b.id, amount := some amount, metadata := { sagaId := some sid, transferFrom := some a.id }, timestamp := now }, published := false }], idempotency := (Store.saveWallet { wallets := (((w.store.saveSaga (TransferSaga.new sid a.id b.id amount a.currency)).saveWallet { a.resetDailyLimitIfNewDay today with balance := a.balance - amount, dailyWithdrawalTotal := (a.resetDailyLimitIfNewDay today).dailyWithdrawalTotal + amount, lastWithdrawalDate := some today }).saveSaga { TransferSaga.new sid a.id b.id amount a.currency with state := TransferSagaState.debited }).wallets, events := (((w.store.saveSaga (TransferSaga.new sid a.id b.id amount a.currency)).saveWallet { a.resetDailyLimitIfNewDay today with balance := a.balance - amount, dailyWithdrawalTotal := (a.resetDailyLimitIfNewDay today).dailyWithdrawalTotal + amount, lastWithdrawalDate := some today }).saveSaga { TransferSaga.new sid a.id b.id amount a.currency with state := TransferSagaState.debited }).events ++ [{ walletId := a.id, eventType := WalletEventType.fundsWithdrawn, currency := (a.resetDailyLimitIfNewDay today).currency, amount := some amount, metadata := { sagaId := some sid, transferTo := some b.id }, createdAt := now }], sagas := (((w.store.saveSaga (TransferSaga.new sid a.id b.id amount a.currency)).saveWallet { a.resetDailyLimitIfNewDay today with balance := a.balance - amount, dailyWithdrawalTotal := (a.resetDailyLimitIfNewDay today).dailyWithdrawalTotal + amount, lastWithdrawalDate := some today }).saveSaga { TransferSaga.new sid a.id b.id amount a.currency with state := TransferSagaState.debited }).sagas, outbox := (((w.store.saveSaga (TransferSaga.new sid a.id b.id amount a.currency)).saveWallet { a.resetDailyLimitIfNewDay today with balance := a.balance - amount, dailyWithdrawalTotal := (a.resetDailyLimitIfNewDay today).dailyWithdrawalTotal + amount, lastWithdrawalDate := some today }).saveSaga { TransferSaga.new sid a.id b.id amount a.currency with state := TransferSagaState.debited }).outbox ++ [{ aggregateId := a.id, eventType := WalletEventType.fundsWithdrawn, payload := { eventType := WalletEventType.fundsWithdrawn, walletId := a.id, amount := some amount, metadata := { sagaId := some sid, transferTo := some b.id }, timestamp := now }, published := false }], idempotency := (((w.store.saveSaga (TransferSaga.new sid a.id b.id amount a.currency)).saveWallet { a.resetDailyLimitIfNewDay today with balance := a.balance - amount, dailyWithdrawalTotal := (a.resetDailyLimitIfNewDay today).dailyWithdrawalTotal + amount, lastWithdrawalDate := some today }).saveSaga { TransferSaga.new sid a.id b.id amount a.currency with state := TransferSagaState.debited }).idempotency } { b with balance := b.balance + amount }).idempotency } (Store.saveWallet { wallets := (((w.store.saveSaga (TransferSaga.new sid a.id b.id amount a.currency)).saveWallet { a.resetDailyLimitIfNewDay today with balance := a.balance - amount, dailyWithdrawalTotal := (a.resetDailyLimitIfNewDay today).dailyWithdrawalTotal + amount, lastWithdrawalDate := some today }).saveSaga { TransferSaga.new sid a.id b.id amount a.currency with state := TransferSagaState.debited }).wallets, events := (((w.store.saveSaga (TransferSaga.new sid a.id b.id amount a.currency)).saveWallet { a.resetDailyLimitIfNewDay today with balance := a.balance - amount, dailyWithdrawalTotal := (a.resetDailyLimitIfNewDay today).dailyWithdrawalTotal + amount, lastWithdrawalDate := some today }).saveSaga { TransferSaga.new sid a.id b.id amount a.currency with state := TransferSagaState.debited }).events ++ [{ walletId := a.id, eventType := WalletEventType.fundsWithdrawn, currency := (a.resetDailyLimitIfNewDay today).currency, amount := some amount, metadata := { sagaId := some sid, transferTo := some b.id }, createdAt := now }], sagas := (((w.store.saveSaga (TransferSaga.new sid a.id b.id amount a.currency)).saveWallet { a.resetDailyLimitIfNewDay today with balance := a.balance - amount, dailyWithdrawalTotal := (a.resetDailyLimitIfNewDay today).dailyWithdrawalTotal + amount, lastWithdrawalDate := some today }).saveSaga { TransferSaga.new sid a.id b.id amount a.currency with state := TransferSagaState.debited }).sagas, outbox := (((w.store.saveSaga (TransferSaga.new sid a.id b.id amount a.currency)).saveWallet { a.resetDailyLimitIfNewDay today with balance := a.balance - amount, dailyWithdrawalTotal := (a.resetDailyLimitIfNewDay today).dailyWithdrawalTotal + amount, lastWithdrawalDate := some today }).saveSaga { TransferSaga.new sid a.id b.id amount a.currency with state := TransferSagaState.debited }).outbox ++ [{ aggregateId := a.id, eventType := WalletEventType.fundsWithdrawn, payload := { eventType := WalletEventType.fundsWithdrawn, walletId := a.id, amount := some amount, metadata := { sagaId := some sid, transferTo := some b.id }, timestamp := now }, published := false }], idempotency := (((w.store.saveSaga (TransferSaga.new sid a.id b.id amount a.currency)).saveWallet { a.resetDailyLimitIfNewDay today with balance := a.balance - amount, dailyWithdrawalTotal := (a.resetDailyLimitIfNewDay today).dailyWithdrawalTotal + amount, lastWithdrawalDate := some today }).saveSaga { TransferSaga.new sid a.id b.id amount a.currency with state := TransferSagaState.debited }).idempotency } { b with balance := b.balance + amount }) b.id rfl).trans (Store.findWallet_saveWallet_self { wallets := (((w.store.saveSaga (TransferSaga.new sid a.id b.id amount a.currency)).saveWallet { a.resetDailyLimitIfNewDay today with balance := a.balance - amount, dailyWithdrawalTotal := (a.resetDailyLimitIfNewDay today).dailyWithdrawalTotal + amount, lastWithdrawalDate := some today }).saveSaga { TransferSaga.new sid a.id b.id amount a.currency with state := TransferSagaState.debited }).wallets, events := (((w.store.saveSaga (TransferSaga.new sid a.id b.id amount a.currency)).saveWallet { a.resetDailyLimitIfNewDay today with balance := a.balance - amount, dailyWithdrawalTotal := (a.resetDailyLimitIfNewDay today).dailyWithdrawalTotal + amount, lastWithdrawalDate := some today }).saveSaga { TransferSaga.new sid a.id b.id amount a.currency with state := TransferSagaState.debited }).events ++ [{ walletId := a.id, eventType := WalletEventType.fundsWithdrawn, currency := (a.resetDailyLimitIfNewDay today).currency, amount := some amount, metadata := { sagaId := some sid, transferTo := some b.id }, createdAt := now }], sagas := (((w.store.saveSaga (TransferSaga.new sid a.id b.id amount a.currency)).saveWallet { a.resetDailyLimitIfNewDay today with balance := a.balance - amount, dailyWithdrawalTotal := (a.resetDailyLimitIfNewDay today).dailyWithdrawalTotal + amount, lastWithdrawalDate := some today }).saveSaga { TransferSaga.new sid a.id b.id amount a.currency with state := TransferSagaState.debited }).sagas, outbox := (((w.store.saveSaga (TransferSaga.new sid a.id b.id amount a.currency)).saveWallet { a.resetDailyLimitIfNewDay today with balance := a.balance - amount, dailyWithdrawalTotal := (a.resetDailyLimitIfNewDay today).dailyWithdrawalTotal + amount, lastWithdrawalDate := some today }).saveSaga { TransferSaga.new sid a.id b.id amount a.currency with state := TransferSagaState.debited }).outbox ++ [{ aggregateId := a.id, eventType := WalletEventType.fundsWithdrawn, payload := { eventType := WalletEventType.fundsWithdrawn, walletId := a.id, amount := some amount, metadata := { sagaId := some sid, transferTo := some b.id }, timestamp := now }, published := false }], idempotency := (((w.store.saveSaga (TransferSaga.new sid a.id b.id amount a.currency)).saveWallet { a.resetDailyLimitIfNewDay today with balance := a.balance - amount, dailyWithdrawalTotal := (a.resetDailyLimitIfNewDay today).dailyWithdrawalTotal + amount, lastWithdrawalDate := some today }).saveSaga { TransferSaga.new sid a.id b.id amount a.currency with state := TransferSagaState.debited }).idempotency } { b with balance := b.balance + amount }))
  case c4 =>
    dsimp only
    exact Store.findSaga_saveSaga_self { wallets := (Store.saveWallet { wallets := (((w.store.saveSaga (TransferSaga.new sid a.id b.id amount a.currency)).saveWallet { a.resetDailyLimitIfNewDay today with balance := a.balance - amount, dailyWithdrawalTotal := (a.resetDailyLimitIfNewDay today).dailyWithdrawalTotal + amount, lastWithdrawalDate := some today }).saveSaga { TransferSaga.new sid a.id b.id amount a.currency with state := TransferSagaState.debited }).wallets, events := (((w.store.saveSaga (TransferSaga.new sid a.id b.id amount a.currency)).saveWallet { a.resetDailyLimitIfNewDay today with balance := a.balance - amount, dailyWithdrawalTotal := (a.resetDailyLimitIfNewDay today).dailyWithdrawalTotal + amount, lastWithdrawalDate := some today }).saveSaga { TransferSaga.new sid a.id b.id amount a.currency with state := TransferSagaState.debited }).events ++ [{ walletId := a.id, eventType := WalletEventType.fundsWithdrawn, currency := (a.resetDailyLimitIfNewDay today).currency, amount := some amount, metadata := { sagaId := some sid, transferTo := some b.id }, createdAt := now }], sagas := (((w.store.saveSaga (TransferSaga.new sid a.id b.id amount a.currency)).saveWallet { a.resetDailyLimitIfNewDay today with balance := a.balance - amount, dailyWithdrawalTotal := (a.resetDailyLimitIfNewDay today).dailyWithdrawalTotal + amount, lastWithdrawalDate := some today }).saveSaga { TransferSaga.new sid a.id b.id amount a.currency with state := TransferSagaState.debited }).sagas, outbox := (((w.store.saveSaga (TransferSaga.new sid a.id b.id amount a.currency)).saveWallet { a.resetDailyLimitIfNewDay today with balance := a.balance - amount, dailyWithdrawalTotal := (a.resetDailyLimitIfNewDay today).dailyWithdrawalTotal + amount, lastWithdrawalDate := some today }).saveSaga { TransferSaga.new sid a.id b.id amount a.currency with state := TransferSagaState.debited }).outbox ++ [{ aggregateId := a.id, eventType := WalletEventType.fundsWithdrawn, payload := { eventType := WalletEventType.fundsWithdrawn, walletId := a.id, amount := some amount, metadata := { sagaId := some sid, transferTo := some b.id }, timestamp := now }, published := false }], idempotency := (((w.store.saveSaga (TransferSaga.new sid a.id b.id amount a.currency)).saveWallet { a.resetDailyLimitIfNewDay today with balance := a.balance - amount, dailyWithdrawalTotal := (a.resetDailyLimitIfNewDay today).dailyWithdrawalTotal + amount, lastWithdrawalDate := some today }).saveSaga { TransferSaga.new sid a.id b.id amount a.currency with state := TransferSagaState.debited }).idempotency } { b with balance := b.balance + amount }).wallets, events := (Store.saveWallet { wallets := (((w.store.saveSaga (TransferSaga.new sid a.id b.id amount a.currency)).saveWallet { a.resetDailyLimitIfNewDay today with balance := a.balance - amount, dailyWithdrawalTotal := (a.resetDailyLimitIfNewDay today).dailyWithdrawalTotal + amount, lastWithdrawalDate := some today }).saveSaga { TransferSaga.new sid a.id b.id amount a.currency with state := TransferSagaState.debited }).wallets, events := (((w.store.saveSaga (TransferSaga.new sid a.id b.id amount a.currency)).saveWallet { a.resetDailyLimitIfNewDay today with balance := a.balance - amount, dailyWithdrawalTotal := (a.resetDailyLimitIfNewDay today).dailyWithdrawalTotal + amount, lastWithdrawalDate := some today }).saveSaga { TransferSaga.new sid a.id b.id amount a.currency with state := TransferSagaState.debited }).events ++ [{ walletId := a.id, eventType := WalletEventType.fundsWithdrawn, currency := (a.resetDailyLimitIfNewDay today).currency, amount := some amount, metadata := { sagaId := some sid, transferTo := some b.id }, createdAt := now }], sagas := (((w.store.saveSaga (TransferSaga.new sid a.id b.id amount a.currency)).saveWallet { a.resetDailyLimitIfNewDay today with balance := a.balance - amount, dailyWithdrawalTotal := (a.resetDailyLimitIfNewDay today).dailyWithdrawalTotal + amount, lastWithdrawalDate := some today }).saveSaga { TransferSaga.new sid a.id b.id amount a.currency with state := TransferSagaState.debited }).sagas, outbox := (((w.store.saveSaga (TransferSaga.new sid a.id b.id amount a.currency)).saveWallet { a.resetDailyLimitIfNewDay today with balance := a.balance - amount, dailyWithdrawalTotal := (a.resetDailyLimitIfNewDay today).dailyWithdrawalTotal + amount, lastWithdrawalDate := some today }).saveSaga { TransferSaga.new sid a.id b.id amount a.currency with state := TransferSagaState.debited }).outbox ++ [{ aggregateId := a.id, eventType := WalletEventType.fundsWithdrawn, payload := { eventType := WalletEventType.fundsWithdrawn, walletId := a.id, amount := some amount, metadata := { sagaId := some sid, transferTo := some b.id }, timestamp := now }, published := false }], idempotency := (((w.store.saveSaga (TransferSaga.new sid a.id b.id amount a.currency)).saveWallet { a.resetDailyLimitIfNewDay today with balance := a.balance - amount, dailyWithdrawalTotal := (a.resetDailyLimitIfNewDay today).dailyWithdrawalTotal + amount, lastWithdrawalDate := some today }).saveSaga { TransferSaga.new sid a.id b.id amount a.currency with state := TransferSagaState.debited }).idempotency } { b with balance := b.balance + amount }).events ++ [{ walletId := b.id, eventType := WalletEventType.fundsDeposited, currency := b.currency, amount := some amount, metadata := { sagaId := some sid, transferFrom := some a.id }, createdAt := now }], sagas := (Store.saveWallet { wallets := (((w.store.saveSaga (TransferSaga.new sid a.id b.id amount a.currency)).saveWallet { a.resetDailyLimitIfNewDay today with balance := a.balance - amount, dailyWithdrawalTotal := (a.resetDailyLimitIfNewDay today).dailyWithdrawalTotal + amount, lastWithdrawalDate := some today }).saveSaga { TransferSaga.new sid a.id b.id amount a.currency with state := TransferSagaState.debited }).wallets, events := (((w.store.saveSaga (TransferSaga.new sid a.id b.id amount a.currency)).saveWallet { a.resetDailyLimitIfNewDay today with balance := a.balance - amount, dailyWithdrawalTotal := (a.resetDailyLimitIfNewDay today).dailyWithdrawalTotal + amount, lastWithdrawalDate := some today }).saveSaga { TransferSaga.new sid a.id b.id amount a.currency with state := TransferSagaState.debited }).events ++ [{ walletId := a.id, eventType := WalletEventType.fundsWithdrawn, currency := (a.resetDailyLimitIfNewDay today).currency, amount := some amount, metadata := { sagaId := some sid, transferTo := some b.id }, createdAt := now }], sagas := (((w.store.saveSaga (TransferSaga.new sid a.id b.id amount a.currency)).saveWallet { a.resetDailyLimitIfNewDay today with balance := a.balance - amount, dailyWithdrawalTotal := (a.resetDailyLimitIfNewDay today).dailyWithdrawalTotal + amount, lastWithdrawalDate := some today }).saveSaga { TransferSaga.new sid a.id b.id amount a.currency with state := TransferSagaState.debited }).sagas, outbox := (((w.store.saveSaga (TransferSaga.new sid a.id b.id amount a.currency)).saveWallet { a.resetDailyLimitIfNewDay today with balance := a.balance - amount, dailyWithdrawalTotal := (a.resetDailyLimitIfNewDay today).dailyWithdrawalTotal + amount, lastWithdrawalDate := some today }).saveSaga { TransferSaga.new sid a.id b.id amount a.currency with state := TransferSagaState.debited }).outbox ++ [{ aggregateId := a.id, eventType := WalletEventType.fundsWithdrawn, payload := { eventType := WalletEventType.fundsWithdrawn, walletId := a.id, amount := some amount, metadata := { sagaId := some sid, transferTo := some b.id }, timestamp := now }, published := false }], idempotency := (((w.store.saveSaga (TransferSaga.new sid a.id b.id amount a.currency)).saveWallet { a.resetDailyLimitIfNewDay today with balance := a.balance - amount, dailyWithdrawalTotal := (a.resetDailyLimitIfNewDay today).dailyWithdrawalTotal + amount, lastWithdrawalDate := some today }).saveSaga { TransferSaga.new sid a.id b.id amount a.currency with state := TransferSagaState.debited }).idempotency } { b with balance := b.balance + amount }).sagas, outbox := (Store.saveWallet { wallets := (((w.store.saveSaga (TransferSaga.new sid a.id b.id amount a.currency)).saveWallet { a.resetDailyLimitIfNewDay today with balance := a.balance - amount, dailyWithdrawalTotal := (a.resetDailyLimitIfNewDay today).dailyWithdrawalTotal + amount, lastWithdrawalDate := some today }).saveSaga { TransferSaga.new sid a.id b.id amount a.currency with state := TransferSagaState.debited }).wallets, events := (((w.store.saveSaga (TransferSaga.new sid a.id b.id amount a.currency)).saveWallet { a.resetDailyLimitIfNewDay today with balance := a.balance - amount, dailyWithdrawalTotal := (a.resetDailyLimitIfNewDay today).dailyWithdrawalTotal + amount, lastWithdrawalDate := some today }).saveSaga { TransferSaga.new sid a.id b.id amount a.currency with state := TransferSagaState.debited }).events ++ [{ walletId := a.id, eventType := WalletEventType.fundsWithdrawn, currency := (a.resetDailyLimitIfNewDay today).currency, amount := some amount, metadata := { sagaId := some sid, transferTo := some b.id }, createdAt := now }], sagas := (((w.store.saveSaga (TransferSaga.new sid a.id b.id amount a.currency)).saveWallet { a.resetDailyLimitIfNewDay today with balance := a.balance - amount, dailyWithdrawalTotal := (a.resetDailyLimitIfNewDay today).dailyWithdrawalTotal + amount, lastWithdrawalDate := some today }).saveSaga { TransferSaga.new sid a.id b.id amount a.currency with state := TransferSagaState.debited }).sagas, outbox := (((w.store.saveSaga (TransferSaga.new sid a.id b.id amount a.currency)).saveWallet { a.resetDailyLimitIfNewDay today with balance := a.balance - amount, dailyWithdrawalTotal := (a.resetDailyLimitIfNewDay today).dailyWithdrawalTotal + amount, lastWithdrawalDate := some today }).saveSaga { TransferSaga.new sid a.id b.id amount a.currency with state := TransferSagaState.debited }).outbox ++ [{ aggregateId := a.id, eventType := WalletEventType.fundsWithdrawn, payload := { eventType := WalletEventType.fundsWithdrawn, walletId := a.id, amount := some amount, metadata := { sagaId := some sid, transferTo := some b.id }, timestamp := now }, published := false }], idempotency := (((w.store.saveSaga (TransferSaga.new sid a.id b.id amount a.currency)).saveWallet { a.resetDailyLimitIfNewDay today with balance := a.balance - amount, dailyWithdrawalTotal := (a.resetDailyLimitIfNewDay today).dailyWithdrawalTotal + amount, lastWithdrawalDate := some today }).saveSaga { TransferSaga.new sid a.id b.id amount a.currency with state := TransferSagaState.debited }).idempotency } { b with balance := b.balance + amount }).outbox ++ [{ aggregateId := b.id, eventType := WalletEventType.fundsDeposited, payload := { eventType := WalletEventType.fundsDeposited, walletId := b.id, amount := some amount, metadata := { sagaId := some sid, transferFrom := some a.id }, timestamp := now }, published := false }], idempotency := (Store.saveWallet { wallets := (((w.store.saveSaga (TransferSaga.new sid a.id b.id amount a.currency)).saveWallet { a.resetDailyLimitIfNewDay today with balance := a.balance - amount, dailyWithdrawalTotal := (a.resetDailyLimitIfNewDay today).dailyWithdrawalTotal + amount, lastWithdrawalDate := some today }).saveSaga { TransferSaga.new sid a.id b.id amount a.currency with state := TransferSagaState.debited }).wallets, events := (((w.store.saveSaga (TransferSaga.new sid a.id b.id amount a.currency)).saveWallet { a.resetDailyLimitIfNewDay today with balance := a.balance - amount, dailyWithdrawalTotal := (a.resetDailyLimitIfNewDay today).dailyWithdrawalTotal + amount, lastWithdrawalDate := some today }).saveSaga { TransferSaga.new sid a.id b.id amount a.currency with state := TransferSagaState.debited }).events ++ [{ walletId := a.id, eventType := WalletEventType.fundsWithdrawn, currency := (a.resetDailyLimitIfNewDay today).currency, amount := some amount, metadata := { sagaId := some sid, transferTo := some b.id }, createdAt := now }], sagas := (((w.store.saveSaga (TransferSaga.new sid a.id b.id amount a.currency)).saveWallet { a.resetDailyLimitIfNewDay today with balance := a.balance - amount, dailyWithdrawalTotal := (a.resetDailyLimitIfNewDay today).dailyWithdrawalTotal + amount, lastWithdrawalDate := some today }).saveSaga { TransferSaga.new sid a.id b.id amount a.currency with state := TransferSagaState.debited }).sagas, outbox := (((w.store.saveSaga (TransferSaga.new sid a.id b.id amount a.currency)).saveWallet { a.resetDailyLimitIfNewDay today with balance := a.balance - amount, dailyWithdrawalTotal := (a.resetDailyLimitIfNewDay today).dailyWithdrawalTotal + amount, lastWithdrawalDate := some today }).saveSaga { TransferSaga.new sid a.id b.id amount a.currency with state := TransferSagaState.debited }).outbox ++ [{ aggregateId := a.id, eventType := WalletEventType.fundsWithdrawn, payload := { eventType := WalletEventType.fundsWithdrawn, walletId := a.id, amount := some amount, metadata := { sagaId := some sid, transferTo := some b.id }, timestamp := now }, published := false }], idempotency := (((w.store.saveSaga (TransferSaga.new sid a.id b.id amount a.currency)).saveWallet { a.resetDailyLimitIfNewDay today with balance := a.balance - amount, dailyWithdrawalTotal := (a.resetDailyLimitIfNewDay today).dailyWithdrawalTotal + amount, lastWithdrawalDate := some today }).saveSaga { TransferSaga.new sid a.id b.id amount a.currency with state := TransferSagaState.debited }).idempotency } { b with balance := b.balance + amount }).idempotency } { { TransferSaga.new sid a.id b.id amount a.currency with state := TransferSagaState.debited } with state := TransferSagaState.completed }
  case c5 =>
    dsimp only
    simp only [Store.saveSaga_events, Store.saveWallet_events, Wallet.reset_currency, List.append_assoc, List.cons_append, List.nil_append]
  case c6 =>
    dsimp only
    simp only [Store.saveSaga_outbox, Store.saveWallet_outbox, List.append_assoc, List.cons_append, List.nil_append]
  case c7 =>
    dsimp only
    simp only [Store.saveSaga_idempotency, Store.saveWallet_idempotency]
  case c8 =>
    dsimp only
    simp only [TransferSaga.new, List.append_assoc, List.cons_append, List.nil_append]
  case c9 =>
    rfl

set_option maxHeartbeats 4000000 in
/-- Full evaluation of a transfer whose broker accepts the awaited
TRANSFER_INITIATED publish and then disconnects before the awaited
TRANSFER_COMPLETED publish: both leg transactions have already committed (the
wallet rows, leg events and leg outbox rows persist), the saga is re-marked
FAILED from COMPLETED by the unguarded `markAsFailed`, the caller sees the
broker error — and the idempotency table is untouched even when a request id
was supplied, because `executeTransfer` saves the idempotency record only
after the awaited publish, outside every store transaction. -/
theorem TransferSagaService.executeTransfer_publishFail_eval (w : World)
    (a b : Wallet) (amount : Rat) (rid : Option String) (sid : String)
    (today now : Nat)
    (hne : a.id ≠ b.id)
    (hnoidem : rid.bind (fun r => w.store.findIdempotency r) = none)
    (hfina : w.store.findWallet a.id = some a)
    (hfinb : w.store.findWallet b.id = some b)
    (hcur : b.currency = a.currency)
    (hfaults : w.txFaults = [])
    (hsched : w.pubSchedule = [true, false])
    (hact : a.status = .active) (hbact : b.status = .active)
    (hpos : 0 < amount)
    (hlim : Wallet.validateDailyLimit (a.resetDailyLimitIfNewDay today) amount = .ok ())
    (hbal : ¬ a.balance < amount) :
    ∃ wFin : World,
      TransferSagaService.executeTransfer w a.id b.id amount rid sid today now = (.error .busDisconnected, wFin) ∧
      wFin.store.findWallet a.id = some { a.resetDailyLimitIfNewDay today with balance := a.balance - amount, dailyWithdrawalTotal := (a.resetDailyLimitIfNewDay today).dailyWithdrawalTotal + amount, lastWithdrawalDate := some today } ∧
      wFin.store.findWallet b.id = some { b with balance := b.balance + amount } ∧
      wFin.store.findSaga sid = some { TransferSaga.new sid a.id b.id amount a.currency with state := TransferSagaState.failed, metadata := { compensationReason := none, failureReason := some (AppError.message AppError.busDisconnected) } } ∧
      wFin.store.events = w.store.events ++ [{ walletId := a.id, eventType := WalletEventType.fundsWithdrawn, currency := a.currency, amount := some amount, metadata := { sagaId := some sid, transferTo := some b.id }, createdAt := now }, { walletId := b.id, eventType := WalletEventType.fundsDeposited, currency := b.currency, amount := some amount, metadata := { sagaId := some sid, transferFrom := some a.id }, createdAt := now }] ∧
      wFin.store.outbox = w.store.outbox ++ [{ aggregateId := a.id, eventType := WalletEventType.fundsWithdrawn, payload := { eventType := WalletEventType.fundsWithdrawn, walletId := a.id, amount := some amount, metadata := { sagaId := some sid, transferTo := some b.id }, timestamp := now }, published := false }, { aggregateId := b.id, eventType := WalletEventType.fundsDeposited, payload := { eventType := WalletEventType.fundsDeposited, walletId := b.id, amount := some amount, metadata := { sagaId := some sid, transferFrom := some a.id }, timestamp := now }, published := false }] ∧
      wFin.store.idempotency = w.store.idempotency ∧
      wFin.bus = w.bus ++ [{ eventType := WalletEventType.transferInitiated, walletId := a.id, amount := some amount, metadata := { sagaId := some sid, toWalletId := some b.id, requestId := rid }, timestamp := now }, { eventType := WalletEventType.fundsWithdrawn, walletId := a.id, amount := some amount, metadata := { sagaId := some sid, transferTo := some b.id }, timestamp := now }, { eventType := WalletEventType.fundsDeposited, walletId := b.id, amount := some amount, metadata := { sagaId := some sid, transferFrom := some a.id }, timestamp := now }] ∧
      wFin.locks = w.locks := by
  have hAid : ({ a.resetDailyLimitIfNewDay today with balance := a.balance - amount, dailyWithdrawalTotal := (a.resetDailyLimitIfNewDay today).dailyWithdrawalTotal + amount, lastWithdrawalDate := some today } : Wallet).id = a.id := Wallet.reset_id a today
  have hbne : b.id ≠ ({ a.resetDailyLimitIfNewDay today with balance := a.balance - amount, dailyWithdrawalTotal := (a.resetDailyLimitIfNewDay today).dailyWithdrawalTotal + amount, lastWithdrawalDate := some today } : Wallet).id := fun h => hne ((h.trans hAid).symm)
  have hself : ∀ st : Store, (st.saveWallet { a.resetDailyLimitIfNewDay today with balance := a.balance - amount, dailyWithdrawalTotal := (a.resetDailyLimitIfNewDay today).dailyWithdrawalTotal + amount, lastWithdrawalDate := some today }).findWallet a.id = some { a.resetDailyLimitIfNewDay today with balance := a.balance - amount, dailyWithdrawalTotal := (a.resetDailyLimitIfNewDay today).dailyWithdrawalTotal + amount, lastWithdrawalDate := some today } := by
    intro st
    rw [← hAid]
    exact Store.findWallet_saveWallet_self st { a.resetDailyLimitIfNewDay today with balance := a.balance - amount, dailyWithdrawalTotal := (a.resetDailyLimitIfNewDay today).dailyWithdrawalTotal + amount, lastWithdrawalDate := some today }
  have hrelD : ({ wallets := (((w.store.saveSaga (TransferSaga.new sid a.id b.id amount a.currency)).saveWallet { a.resetDailyLimitIfNewDay today with balance := a.balance - amount, dailyWithdrawalTotal := (a.resetDailyLimitIfNewDay today).dailyWithdrawalTotal + amount, lastWithdrawalDate := some today }).saveSaga { TransferSaga.new sid a.id b.id amount a.currency with state := TransferSagaState.debited }).wallets, events := (((w.store.saveSaga (TransferSaga.new sid a.id b.id amount a.currency)).saveWallet { a.resetDailyLimitIfNewDay today with balance := a.balance - amount, dailyWithdrawalTotal := (a.resetDailyLimitIfNewDay today).dailyWithdrawalTotal + amount, lastWithdrawalDate := some today }).saveSaga { TransferSaga.new sid a.id b.id amount a.currency with state := TransferSagaState.debited }).events ++ [{ walletId := a.id, eventType := WalletEventType.fundsWithdrawn, currency := (a.resetDailyLimitIfNewDay today).currency, amount := some amount, metadata := { sagaId := some sid, transferTo := some b.id }, createdAt := now }], sagas := (((w.store.saveSaga (TransferSaga.new sid a.id b.id amount a.currency)).saveWallet { a.resetDailyLimitIfNewDay today with balance := a.balance - amount, dailyWithdrawalTotal := (a.resetDailyLimitIfNewDay today).dailyWithdrawalTotal + amount, lastWithdrawalDate := some today }).saveSaga { TransferSaga.new sid a.id b.id amount a.currency with state := TransferSagaState.debited }).sagas, outbox := (((w.store.saveSaga (TransferSaga.new sid a.id b.id amount a.currency)).saveWallet { a.resetDailyLimitIfNewDay today with balance := a.balance - amount, dailyWithdrawalTotal := (a.resetDailyLimitIfNewDay today).dailyWithdrawalTotal + amount, lastWithdrawalDate := some today }).saveSaga { TransferSaga.new sid a.id b.id amount a.currency with state := TransferSagaState.debited }).outbox ++ [{ aggregateId := a.id, eventType := WalletEventType.fundsWithdrawn, payload := { eventType := WalletEventType.fundsWithdrawn, walletId := a.id, amount := some amount, metadata := { sagaId := some sid, transferTo := some b.id }, timestamp := now }, published := false }], idempotency := (((w.store.saveSaga (TransferSaga.new sid a.id b.id amount a.currency)).saveWallet { a.resetDailyLimitIfNewDay today with balance := a.balance - amount, dailyWithdrawalTotal := (a.resetDailyLimitIfNewDay today).dailyWithdrawalTotal + amount, lastWithdrawalDate := some today }).saveSaga { TransferSaga.new sid a.id b.id amount a.currency with state := TransferSagaState.debited }).idempotency } : Store).findSaga sid = some { TransferSaga.new sid a.id b.id amount a.currency with state := TransferSagaState.debited } :=
    (Store.findSaga_congr { wallets := (((w.store.saveSaga (TransferSaga.new sid a.id b.id amount a.currency)).saveWallet { a.resetDailyLimitIfNewDay today with balance := a.balance - amount, dailyWithdrawalTotal := (a.resetDailyLimitIfNewDay today).dailyWithdrawalTotal + amount, lastWithdrawalDate := some today }).saveSaga { TransferSaga.new sid a.id b.id amount a.currency with state := TransferSagaState.debited }).wallets, events := (((w.store.saveSaga (TransferSaga.new sid a.id b.id amount a.currency)).saveWallet { a.resetDailyLimitIfNewDay today with balance := a.balance - amount, dailyWithdrawalTotal := (a.resetDailyLimitIfNewDay today).dailyWithdrawalTotal + amount, lastWithdrawalDate := some today }).saveSaga { TransferSaga.new sid a.id b.id amount a.currency with state := TransferSagaState.debited }).events ++ [{ walletId := a.id, eventType := WalletEventType.fundsWithdrawn, currency := (a.resetDailyLimitIfNewDay today).currency, amount := some amount, metadata := { sagaId := some sid, transferTo := some b.id }, createdAt := now }], sagas := (((w.store.saveSaga (TransferSaga.new sid a.id b.id amount a.currency)).saveWallet { a.resetDailyLimitIfNewDay today with balance := a.balance - amount, dailyWithdrawalTotal := (a.resetDailyLimitIfNewDay today).dailyWithdrawalTotal + amount, lastWithdrawalDate := some today }).saveSaga { TransferSaga.new sid a.id b.id amount a.currency with state := TransferSagaState.debited }).sagas, outbox := (((w.store.saveSaga (TransferSaga.new sid a.id b.id amount a.currency)).saveWallet { a.resetDailyLimitIfNewDay today with balance := a.balance - amount, dailyWithdrawalTotal := (a.resetDailyLimitIfNewDay today).dailyWithdrawalTotal + amount, lastWithdrawalDate := some today }).saveSaga { TransferSaga.new sid a.id b.id amount a.currency with state := TransferSagaState.debited }).outbox ++ [{ aggregateId := a.id, eventType := WalletEventType.fundsWithdrawn, payload := { eventType := WalletEventType.fundsWithdrawn, walletId := a.id, amount := some amount, metadata := { sagaId := some sid, transferTo := some b.id }, timestamp := now }, published := false }], idempotency := (((w.store.saveSaga (TransferSaga.new sid a.id b.id amount a.currency)).saveWallet { a.resetDailyLimitIfNewDay today with balance := a.balance - amount, dailyWithdrawalTotal := (a.resetDailyLimitIfNewDay today).dailyWithdrawalTotal + amount, lastWithdrawalDate := some today }).saveSaga { TransferSaga.new sid a.id b.id amount a.currency with state := TransferSagaState.debited }).idempotency } (((w.store.saveSaga (TransferSaga.new sid a.id b.id amount a.currency)).saveWallet { a.resetDailyLimitIfNewDay today with balance := a.balance - amount, dailyWithdrawalTotal := (a.resetDailyLimitIfNewDay today).dailyWithdrawalTotal + amount, lastWithdrawalDate := some today }).saveSaga { TransferSaga.new sid a.id b.id amount a.currency with state := TransferSagaState.debited }) sid rfl).trans
      (Store.findSaga_saveSaga_self ((w.store.saveSaga (TransferSaga.new sid a.id b.id amount a.currency)).saveWallet { a.resetDailyLimitIfNewDay today with balance := a.balance - amount, dailyWithdrawalTotal := (a.resetDailyLimitIfNewDay today).dailyWithdrawalTotal + amount, lastWithdrawalDate := some today }) { TransferSaga.new sid a.id b.id amount a.currency with state := TransferSagaState.debited })
  have hrelDg : ({ wallets := (((w.store.saveSaga (TransferSaga.new sid a.id b.id amount a.currency)).saveWallet { a.resetDailyLimitIfNewDay today with balance := a.balance - amount, dailyWithdrawalTotal := (a.resetDailyLimitIfNewDay today).dailyWithdrawalTotal + amount, lastWithdrawalDate := some today }).saveSaga { TransferSaga.new sid a.id b.id amount a.currency with state := TransferSagaState.debited }).wallets, events := (((w.store.saveSaga (TransferSaga.new sid a.id b.id amount a.currency)).saveWallet { a.resetDailyLimitIfNewDay today with balance := a.balance - amount, dailyWithdrawalTotal := (a.resetDailyLimitIfNewDay today).dailyWithdrawalTotal + amount, lastWithdrawalDate := some today }).saveSaga { TransferSaga.new sid a.id b.id amount a.currency with state := TransferSagaState.debited }).events ++ [{ walletId := a.id, eventType := WalletEventType.fundsWithdrawn, currency := (a.resetDailyLimitIfNewDay today).currency, amount := some amount, metadata := { sagaId := some sid, transferTo := some b.id }, createdAt := now }], sagas := (((w.store.saveSaga (TransferSaga.new sid a.id b.id amount a.currency)).saveWallet { a.resetDailyLimitIfNewDay today with balance := a.balance - amount, dailyWithdrawalTotal := (a.resetDailyLimitIfNewDay today).dailyWithdrawalTotal + amount, lastWithdrawalDate := some today }).saveSaga { TransferSaga.new sid a.id b.id amount a.currency with state := TransferSagaState.debited }).sagas, outbox := (((w.store.saveSaga (TransferSaga.new sid a.id b.id amount a.currency)).saveWallet { a.resetDailyLimitIfNewDay today with balance := a.balance - amount, dailyWithdrawalTotal := (a.resetDailyLimitIfNewDay today).dailyWithdrawalTotal + amount, lastWithdrawalDate := some today }).saveSaga { TransferSaga.new sid a.id b.id amount a.currency with state := TransferSagaState.debited }).outbox ++ [{ aggregateId := a.id, eventType := WalletEventType.fundsWithdrawn, payload := { eventType := WalletEventType.fundsWithdrawn, walletId := a.id, amount := some amount, metadata := { sagaId := some sid, transferTo := some b.id }, timestamp := now }, published := false }], idempotency := (((w.store.saveSaga (TransferSaga.new sid a.id b.id amount a.currency)).saveWallet { a.resetDailyLimitIfNewDay today with balance := a.balance - amount, dailyWithdrawalTotal := (a.resetDailyLimitIfNewDay today).dailyWithdrawalTotal + amount, lastWithdrawalDate := some today }).saveSaga { TransferSaga.new sid a.id b.id amount a.currency with state := TransferSagaState.debited }).idempotency } : Store).findSaga (TransferSaga.new sid a.id b.id amount a.currency).id = some { TransferSaga.new sid a.id b.id amount a.currency with state := TransferSagaState.debited } := hrelD
  have hrelD2g : ({ wallets := (Store.saveWallet { wallets := (((w.store.saveSaga (TransferSaga.new sid a.id b.id amount a.currency)).saveWallet { a.resetDailyLimitIfNewDay today with balance := a.balance - amount, dailyWithdrawalTotal := (a.resetDailyLimitIfNewDay today).dailyWithdrawalTotal + amount, lastWithdrawalDate := some today }).saveSaga { TransferSaga.new sid a.id b.id amount a.currency with state := TransferSagaState.debited }).wallets, events := (((w.store.saveSaga (TransferSaga.new sid a.id b.id amount a.currency)).saveWallet { a.resetDailyLimitIfNewDay today with balance := a.balance - amount, dailyWithdrawalTotal := (a.resetDailyLimitIfNewDay today).dailyWithdrawalTotal + amount, lastWithdrawalDate := some today }).saveSaga { TransferSaga.new sid a.id b.id amount a.currency with state := TransferSagaState.debited }).events ++ [{ walletId := a.id, eventType := WalletEventType.fundsWithdrawn, currency := (a.resetDailyLimitIfNewDay today).currency, amount := some amount, metadata := { sagaId := some sid, transferTo := some b.id }, createdAt := now }], sagas := (((w.store.saveSaga (TransferSaga.new sid a.id b.id amount a.currency)).saveWallet { a.resetDailyLimitIfNewDay today with balance := a.balance - amount, dailyWithdrawalTotal := (a.resetDailyLimitIfNewDay today).dailyWithdrawalTotal + amount, lastWithdrawalDate := some today }).saveSaga { TransferSaga.new sid a.id b.id amount a.currency with state := TransferSagaState.debited }).sagas, outbox := (((w.store.saveSaga (TransferSaga.new sid a.id b.id amount a.currency)).saveWallet { a.resetDailyLimitIfNewDay today with balance := a.balance - amount, dailyWithdrawalTotal := (a.resetDailyLimitIfNewDay today).dailyWithdrawalTotal + amount, lastWithdrawalDate := some today }).saveSaga { TransferSaga.new sid a.id b.id amount a.currency with state := TransferSagaState.debited }).outbox ++ [{ aggregateId := a.id, eventType := WalletEventType.fundsWithdrawn, payload := { eventType := WalletEventType.fundsWithdrawn, walletId := a.id, amount := some amount, metadata := { sagaId := some sid, transferTo := some b.id }, timestamp := now }, published := false }], idempotency := (((w.store.saveSaga (TransferSaga.new sid a.id b.id amount a.currency)).saveWallet { a.resetDailyLimitIfNewDay today with balance := a.balance - amount, dailyWithdrawalTotal := (a.resetDailyLimitIfNewDay today).dailyWithdrawalTotal + amount, lastWithdrawalDate := some today }).saveSaga { TransferSaga.new sid a.id b.id amount a.currency with state := TransferSagaState.debited }).idempotency } { b with balance := b.balance + amount }).wallets, events := (Store.saveWallet { wallets := (((w.store.saveSaga (TransferSaga.new sid a.id b.id amount a.currency)).saveWallet { a.resetDailyLimitIfNewDay today with balance := a.balance - amount, dailyWithdrawalTotal := (a.resetDailyLimitIfNewDay today).dailyWithdrawalTotal + amount, lastWithdrawalDate := some today }).saveSaga { TransferSaga.new sid a.id b.id amount a.currency with state := TransferSagaState.debited }).wallets, events := (((w.store.saveSaga (TransferSaga.new sid a.id b.id amount a.currency)).saveWallet { a.resetDailyLimitIfNewDay today with balance := a.balance - amount, dailyWithdrawalTotal := (a.resetDailyLimitIfNewDay today).dailyWithdrawalTotal + amount, lastWithdrawalDate := some today }).saveSaga { TransferSaga.new sid a.id b.id amount a.currency with state := TransferSagaState.debited }).events ++ [{ walletId := a.id, eventType := WalletEventType.fundsWithdrawn, currency := (a.resetDailyLimitIfNewDay today).currency, amount := some amount, metadata := { sagaId := some sid, transferTo := some b.id }, createdAt := now }], sagas := (((w.store.saveSaga (TransferSaga.new sid a.id b.id amount a.currency)).saveWallet { a.resetDailyLimitIfNewDay today with balance := a.balance - amount, dailyWithdrawalTotal := (a.resetDailyLimitIfNewDay today).dailyWithdrawalTotal + amount, lastWithdrawalDate := some today }).saveSaga { TransferSaga.new sid a.id b.id amount a.currency with state := TransferSagaState.debited }).sagas, outbox := (((w.store.saveSaga (TransferSaga.new sid a.id b.id amount a.currency)).saveWallet { a.resetDailyLimitIfNewDay today with balance := a.balance - amount, dailyWithdrawalTotal := (a.resetDailyLimitIfNewDay today).dailyWithdrawalTotal + amount, lastWithdrawalDate := some today }).saveSaga { TransferSaga.new sid a.id b.id amount a.currency with state := TransferSagaState.debited }).outbox ++ [{ aggregateId := a.id, eventType := WalletEventType.fundsWithdrawn, payload := { eventType := WalletEventType.fundsWithdrawn, walletId := a.id, amount := some amount, metadata := { sagaId := some sid, transferTo := some b.id }, timestamp := now }, published := false }], idempotency := (((w.store.saveSaga (TransferSaga.new sid a.id b.id amount a.currency)).saveWallet { a.resetDailyLimitIfNewDay today with balance := a.balance - amount, dailyWithdrawalTotal := (a.resetDailyLimitIfNewDay today).dailyWithdrawalTotal + amount, lastWithdrawalDate := some today }).saveSaga { TransferSaga.new sid a.id b.id amount a.currency with state := TransferSagaState.debited }).idempotency } { b with balance := b.balance + amount }).events ++ [{ walletId := b.id, eventType := WalletEventType.fundsDeposited, currency := b.currency, amount := some amount, metadata := { sagaId := some sid, transferFrom := some a.id }, createdAt := now }], sagas := (Store.saveWallet { wallets := (((w.store.saveSaga (TransferSaga.new sid a.id b.id amount a.currency)).saveWallet { a.resetDailyLimitIfNewDay today with balance := a.balance - amount, dailyWithdrawalTotal := (a.resetDailyLimitIfNewDay today).dailyWithdrawalTotal + amount, lastWithdrawalDate := some today }).saveSaga { TransferSaga.new sid a.id b.id amount a.currency with state := TransferSagaState.debited }).wallets, events := (((w.store.saveSaga (TransferSaga.new sid a.id b.id amount a.currency)).saveWallet { a.resetDailyLimitIfNewDay today with balance := a.balance - amount, dailyWithdrawalTotal := (a.resetDailyLimitIfNewDay today).dailyWithdrawalTotal + amount, lastWithdrawalDate := some today }).saveSaga { TransferSaga.new sid a.id b.id amount a.currency with state := TransferSagaState.debited }).events ++ [{ walletId := a.id, eventType := WalletEventType.fundsWithdrawn, currency := (a.resetDailyLimitIfNewDay today).currency, amount := some amount, metadata := { sagaId := some sid, transferTo := some b.id }, createdAt := now }], sagas := (((w.store.saveSaga (TransferSaga.new sid a.id b.id amount a.currency)).saveWallet { a.resetDailyLimitIfNewDay today with balance := a.balance - amount, dailyWithdrawalTotal := (a.resetDailyLimitIfNewDay today).dailyWithdrawalTotal + amount, lastWithdrawalDate := some today }).saveSaga { TransferSaga.new sid a.id b.id amount a.currency with state := TransferSagaState.debited }).sagas, outbox := (((w.store.saveSaga (TransferSaga.new sid a.id b.id amount a.currency)).saveWallet { a.resetDailyLimitIfNewDay today with balance := a.balance - amount, dailyWithdrawalTotal := (a.resetDailyLimitIfNewDay today).dailyWithdrawalTotal + amount, lastWithdrawalDate := some today }).saveSaga { TransferSaga.new sid a.id b.id amount a.currency with state := TransferSagaState.debited }).outbox ++ [{ aggregateId := a.id, eventType := WalletEventType.fundsWithdrawn, payload := { eventType := WalletEventType.fundsWithdrawn, walletId := a.id, amount := some amount, metadata := { sagaId := some sid, transferTo := some b.id }, timestamp := now }, published := false }], idempotency := (((w.store.saveSaga (TransferSaga.new sid a.id b.id amount a.currency)).saveWallet { a.resetDailyLimitIfNewDay today with balance := a.balance - amount, dailyWithdrawalTotal := (a.resetDailyLimitIfNewDay today).dailyWithdrawalTotal + amount, lastWithdrawalDate := some today }).saveSaga { TransferSaga.new sid a.id b.id amount a.currency with state := TransferSagaState.debited }).idempotency } { b with balance := b.balance + amount }).sagas, outbox := (Store.saveWallet { wallets := (((w.store.saveSaga (TransferSaga.new sid a.id b.id amount a.currency)).saveWallet { a.resetDailyLimitIfNewDay today with balance := a.balance - amount, dailyWithdrawalTotal := (a.resetDailyLimitIfNewDay today).dailyWithdrawalTotal + amount, lastWithdrawalDate := some today }).saveSaga { TransferSaga.new sid a.id b.id amount a.currency with state := TransferSagaState.debited }).wallets, events := (((w.store.saveSaga (TransferSaga.new sid a.id b.id amount a.currency)).saveWallet { a.resetDailyLimitIfNewDay today with balance := a.balance - amount, dailyWithdrawalTotal := (a.resetDailyLimitIfNewDay today).dailyWithdrawalTotal + amount, lastWithdrawalDate := some today }).saveSaga { TransferSaga.new sid a.id b.id amount a.currency with state := TransferSagaState.debited }).events ++ [{ walletId := a.id, eventType := WalletEventType.fundsWithdrawn, currency := (a.resetDailyLimitIfNewDay today).currency, amount := some amount, metadata := { sagaId := some sid, transferTo := some b.id }, createdAt := now }], sagas := (((w.store.saveSaga (TransferSaga.new sid a.id b.id amount a.currency)).saveWallet { a.resetDailyLimitIfNewDay today with balance := a.balance - amount, dailyWithdrawalTotal := (a.resetDailyLimitIfNewDay today).dailyWithdrawalTotal + amount, lastWithdrawalDate := some today }).saveSaga { TransferSaga.new sid a.id b.id amount a.currency with state := TransferSagaState.debited }).sagas, outbox := (((w.store.saveSaga (TransferSaga.new sid a.id b.id amount a.currency)).saveWallet { a.resetDailyLimitIfNewDay today with balance := a.balance - amount, dailyWithdrawalTotal := (a.resetDailyLimitIfNewDay today).dailyWithdrawalTotal + amount, lastWithdrawalDate := some today }).saveSaga { TransferSaga.new sid a.id b.id amount a.currency with state := TransferSagaState.debited }).outbox ++ [{ aggregateId := a.id, eventType := WalletEventType.fundsWithdrawn, payload := { eventType := WalletEventType.fundsWithdrawn, walletId := a.id, amount := some amount, metadata := { sagaId := some sid, transferTo := some b.id }, timestamp := now }, published := false }], idempotency := (((w.store.saveSaga (TransferSaga.new sid a.id b.id amount a.currency)).saveWallet { a.resetDailyLimitIfNewDay today with balance := a.balance - amount, dailyWithdrawalTotal := (a.resetDailyLimitIfNewDay today).dailyWithdrawalTotal + amount, lastWithdrawalDate := some today }).saveSaga { TransferSaga.new sid a.id b.id amount a.currency with state := TransferSagaState.debited }).idempotency } { b with balance := b.balance + amount }).outbox ++ [{ aggregateId := b.id, eventType := WalletEventType.fundsDeposited, payload := { eventType := WalletEventType.fundsDeposited, walletId := b.id, amount := some amount, metadata := { sagaId := some sid, transferFrom := some a.id }, timestamp := now }, published := false }], idempotency := (Store.saveWallet { wallets := (((w.store.saveSaga (TransferSaga.new sid a.id b.id amount a.currency)).saveWallet { a.resetDailyLimitIfNewDay today with balance := a.balance - amount, dailyWithdrawalTotal := (a.resetDailyLimitIfNewDay today).dailyWithdrawalTotal + amount, lastWithdrawalDate := some today }).saveSaga { TransferSaga.new sid a.id b.id amount a.currency with state := TransferSagaState.debited }).wallets, events := (((w.store.saveSaga (TransferSaga.new sid a.id b.id amount a.currency)).saveWallet { a.resetDailyLimitIfNewDay today with balance := a.balance - amount, dailyWithdrawalTotal := (a.resetDailyLimitIfNewDay today).dailyWithdrawalTotal + amount, lastWithdrawalDate := some today }).saveSaga { TransferSaga.new sid a.id b.id amount a.currency with state := TransferSagaState.debited }).events ++ [{ walletId := a.id, eventType := WalletEventType.fundsWithdrawn, currency := (a.resetDailyLimitIfNewDay today).currency, amount := some amount, metadata := { sagaId := some sid, transferTo := some b.id }, createdAt := now }], sagas := (((w.store.saveSaga (TransferSaga.new sid a.id b.id amount a.currency)).saveWallet { a.resetDailyLimitIfNewDay today with balance := a.balance - amount, dailyWithdrawalTotal := (a.resetDailyLimitIfNewDay today).dailyWithdrawalTotal + amount, lastWithdrawalDate := some today }).saveSaga { TransferSaga.new sid a.id b.id amount a.currency with state := TransferSagaState.debited }).sagas, outbox := (((w.store.saveSaga (TransferSaga.new sid a.id b.id amount a.currency)).saveWallet { a.resetDailyLimitIfNewDay today with balance := a.balance - amount, dailyWithdrawalTotal := (a.resetDailyLimitIfNewDay today).dailyWithdrawalTotal + amount, lastWithdrawalDate := some today }).saveSaga { TransferSaga.new sid a.id b.id amount a.currency with state := TransferSagaState.debited }).outbox ++ [{ aggregateId := a.id, eventType := WalletEventType.fundsWithdrawn, payload := { eventType := WalletEventType.fundsWithdrawn, walletId := a.id, amount := some amount, metadata := { sagaId := some sid, transferTo := some b.id }, timestamp := now }, published := false }], idempotency := (((w.store.saveSaga (TransferSaga.new sid a.id b.id amount a.currency)).saveWallet { a.resetDailyLimitIfNewDay today with balance := a.balance - amount, dailyWithdrawalTotal := (a.resetDailyLimitIfNewDay today).dailyWithdrawalTotal + amount, lastWithdrawalDate := some today }).saveSaga { TransferSaga.new sid a.id b.id amount a.currency with state := TransferSagaState.debited }).idempotency } { b with balance := b.balance + amount }).idempotency } : Store).findSaga (TransferSaga.new sid a.id b.id amount a.currency).id = some { TransferSaga.new sid a.id b.id amount a.currency with state := TransferSagaState.debited } :=
    (Store.findSaga_congr { wallets := (Store.saveWallet { wallets := (((w.store.saveSaga (TransferSaga.new sid a.id b.id amount a.currency)).saveWallet { a.resetDailyLimitIfNewDay today with balance := a.balance - amount, dailyWithdrawalTotal := (a.resetDailyLimitIfNewDay today).dailyWithdrawalTotal + amount, lastWithdrawalDate := some today }).saveSaga { TransferSaga.new sid a.id b.id amount a.currency with state := TransferSagaState.debited }).wallets, events := (((w.store.saveSaga (TransferSaga.new sid a.id b.id amount a.currency)).saveWallet { a.resetDailyLimitIfNewDay today with balance := a.balance - amount, dailyWithdrawalTotal := (a.resetDailyLimitIfNewDay today).dailyWithdrawalTotal + amount, lastWithdrawalDate := some today }).saveSaga { TransferSaga.new sid a.id b.id amount a.currency with state := TransferSagaState.debited }).events ++ [{ walletId := a.id, eventType := WalletEventType.fundsWithdrawn, currency := (a.resetDailyLimitIfNewDay today).currency, amount := some amount, metadata := { sagaId := some sid, transferTo := some b.id }, createdAt := now }], sagas := (((w.store.saveSaga (TransferSaga.new sid a.id b.id amount a.currency)).saveWallet { a.resetDailyLimitIfNewDay today with balance := a.balance - amount, dailyWithdrawalTotal := (a.resetDailyLimitIfNewDay today).dailyWithdrawalTotal + amount, lastWithdrawalDate := some today }).saveSaga { TransferSaga.new sid a.id b.id amount a.currency with state := TransferSagaState.debited }).sagas, outbox := (((w.store.saveSaga (TransferSaga.new sid a.id b.id amount a.currency)).saveWallet { a.resetDailyLimitIfNewDay today with balance := a.balance - amount, dailyWithdrawalTotal := (a.resetDailyLimitIfNewDay today).dailyWithdrawalTotal + amount, lastWithdrawalDate := some today }).saveSaga { TransferSaga.new sid a.id b.id amount a.currency with state := TransferSagaState.debited }).outbox ++ [{ aggregateId := a.id, eventType := WalletEventType.fundsWithdrawn, payload := { eventType := WalletEventType.fundsWithdrawn, walletId := a.id, amount := some amount, metadata := { sagaId := some sid, transferTo := some b.id }, timestamp := now }, published := false }], idempotency := (((w.store.saveSaga (TransferSaga.new sid a.id b.id amount a.currency)).saveWallet { a.resetDailyLimitIfNewDay today with balance := a.balance - amount, dailyWithdrawalTotal := (a.resetDailyLimitIfNewDay today).dailyWithdrawalTotal + amount, lastWithdrawalDate := some today }).saveSaga { TransferSaga.new sid a.id b.id amount a.currency with state := TransferSagaState.debited }).idempotency } { b with balance := b.balance + amount }).wallets, events := (Store.saveWallet { wallets := (((w.store.saveSaga (TransferSaga.new sid a.id b.id amount a.currency)).saveWallet { a.resetDailyLimitIfNewDay today with balance := a.balance - amount, dailyWithdrawalTotal := (a.resetDailyLimitIfNewDay today).dailyWithdrawalTotal + amount, lastWithdrawalDate := some today }).saveSaga { TransferSaga.new sid a.id b.id amount a.currency with state := TransferSagaState.debited }).wallets, events := (((w.store.saveSaga (TransferSaga.new sid a.id b.id amount a.currency)).saveWallet { a.resetDailyLimitIfNewDay today with balance := a.balance - amount, dailyWithdrawalTotal := (a.resetDailyLimitIfNewDay today).dailyWithdrawalTotal + amount, lastWithdrawalDate := some today }).saveSaga { TransferSaga.new sid a.id b.id amount a.currency with state := TransferSagaState.debited }).events ++ [{ walletId := a.id, eventType := WalletEventType.fundsWithdrawn, currency := (a.resetDailyLimitIfNewDay today).currency, amount := some amount, metadata := { sagaId := some sid, transferTo := some b.id }, createdAt := now }], sagas := (((w.store.saveSaga (TransferSaga.new sid a.id b.id amount a.currency)).saveWallet { a.resetDailyLimitIfNewDay today with balance := a.balance - amount, dailyWithdrawalTotal := (a.resetDailyLimitIfNewDay today).dailyWithdrawalTotal + amount, lastWithdrawalDate := some today }).saveSaga { TransferSaga.new sid a.id b.id amount a.currency with state := TransferSagaState.debited }).sagas, outbox := (((w.store.saveSaga (TransferSaga.new sid a.id b.id amount a.currency)).saveWallet { a.resetDailyLimitIfNewDay today with balance := a.balance - amount, dailyWithdrawalTotal := (a.resetDailyLimitIfNewDay today).dailyWithdrawalTotal + amount, lastWithdrawalDate := some today }).saveSaga { TransferSaga.new sid a.id b.id amount a.currency with state := TransferSagaState.debited }).outbox ++ [{ aggregateId := a.id, eventType := WalletEventType.fundsWithdrawn, payload := { eventType := WalletEventType.fundsWithdrawn, walletId := a.id, amount := some amount, metadata := { sagaId := some sid, transferTo := some b.id }, timestamp := now }, published := false }], idempotency := (((w.store.saveSaga (TransferSaga.new sid a.id b.id amount a.currency)).saveWallet { a.resetDailyLimitIfNewDay today with balance := a.balance - amount, dailyWithdrawalTotal := (a.resetDailyLimitIfNewDay today).dailyWithdrawalTotal + amount, lastWithdrawalDate := some today }).saveSaga { TransferSaga.new sid a.id b.id amount a.currency with state := TransferSagaState.debited }).idempotency } { b with balance := b.balance + amount }).events ++ [{ walletId := b.id, eventType := WalletEventType.fundsDeposited, currency := b.currency, amount := some amount, metadata := { sagaId := some sid, transferFrom := some a.id }, createdAt := now }], sagas := (Store.saveWallet { wallets := (((w.store.saveSaga (TransferSaga.new sid a.id b.id amount a.currency)).saveWallet { a.resetDailyLimitIfNewDay today with balance := a.balance - amount, dailyWithdrawalTotal := (a.resetDailyLimitIfNewDay today).dailyWithdrawalTotal + amount, lastWithdrawalDate := some today }).saveSaga { TransferSaga.new sid a.id b.id amount a.currency with state := TransferSagaState.debited }).wallets, events := (((w.store.saveSaga (TransferSaga.new sid a.id b.id amount a.currency)).saveWallet { a.resetDailyLimitIfNewDay today with balance := a.balance - amount, dailyWithdrawalTotal := (a.resetDailyLimitIfNewDay today).dailyWithdrawalTotal + amount, lastWithdrawalDate := some today }).saveSaga { TransferSaga.new sid a.id b.id amount a.currency with state := TransferSagaState.debited }).events ++ [{ walletId := a.id, eventType := WalletEventType.fundsWithdrawn, currency := (a.resetDailyLimitIfNewDay today).currency, amount := some amount, metadata := { sagaId := some sid, transferTo := some b.id }, createdAt := now }], sagas := (((w.store.saveSaga (TransferSaga.new sid a.id b.id amount a.currency)).saveWallet { a.resetDailyLimitIfNewDay today with balance := a.balance - amount, dailyWithdrawalTotal := (a.resetDailyLimitIfNewDay today).dailyWithdrawalTotal + amount, lastWithdrawalDate := some today }).saveSaga { TransferSaga.new sid a.id b.id amount a.currency with state := TransferSagaState.debited }).sagas, outbox := (((w.store.saveSaga (TransferSaga.new sid a.id b.id amount a.currency)).saveWallet { a.resetDailyLimitIfNewDay today with balance := a.balance - amount, dailyWithdrawalTotal := (a.resetDailyLimitIfNewDay today).dailyWithdrawalTotal + amount, lastWithdrawalDate := some today }).saveSaga { TransferSaga.new sid a.id b.id amount a.currency with state := TransferSagaState.debited }).outbox ++ [{ aggregateId := a.id, eventType := WalletEventType.fundsWithdrawn, payload := { eventType := WalletEventType.fundsWithdrawn, walletId := a.id, amount := some amount, metadata := { sagaId := some sid, transferTo := some b.id }, timestamp := now }, published := false }], idempotency := (((w.store.saveSaga (TransferSaga.new sid a.id b.id amount a.currency)).saveWallet { a.resetDailyLimitIfNewDay today with balance := a.balance - amount, dailyWithdrawalTotal := (a.resetDailyLimitIfNewDay today).dailyWithdrawalTotal + amount, lastWithdrawalDate := some today }).saveSaga { TransferSaga.new sid a.id b.id amount a.currency with state := TransferSagaState.debited }).idempotency } { b with balance := b.balance + amount }).sagas, outbox := (Store.saveWallet { wallets := (((w.store.saveSaga (TransferSaga.new sid a.id b.id amount a.currency)).saveWallet { a.resetDailyLimitIfNewDay today with balance := a.balance - amount, dailyWithdrawalTotal := (a.resetDailyLimitIfNewDay today).dailyWithdrawalTotal + amount, lastWithdrawalDate := some today }).saveSaga { TransferSaga.new sid a.id b.id amount a.currency with state := TransferSagaState.debited }).wallets, events := (((w.store.saveSaga (TransferSaga.new sid a.id b.id amount a.currency)).saveWallet { a.resetDailyLimitIfNewDay today with balance := a.balance - amount, dailyWithdrawalTotal := (a.resetDailyLimitIfNewDay today).dailyWithdrawalTotal + amount, lastWithdrawalDate := some today }).saveSaga { TransferSaga.new sid a.id b.id amount a.currency with state := TransferSagaState.debited }).events ++ [{ walletId := a.id, eventType := WalletEventType.fundsWithdrawn, currency := (a.resetDailyLimitIfNewDay today).currency, amount := some amount, metadata := { sagaId := some sid, transferTo := some b.id }, createdAt := now }], sagas := (((w.store.saveSaga (TransferSaga.new sid a.id b.id amount a.currency)).saveWallet { a.resetDailyLimitIfNewDay today with balance := a.balance - amount, dailyWithdrawalTotal := (a.resetDailyLimitIfNewDay today).dailyWithdrawalTotal + amount, lastWithdrawalDate := some today }).saveSaga { TransferSaga.new sid a.id b.id amount a.currency with state := TransferSagaState.debited }).sagas, outbox := (((w.store.saveSaga (TransferSaga.new sid a.id b.id amount a.currency)).saveWallet { a.resetDailyLimitIfNewDay today with balance := a.balance - amount, dailyWithdrawalTotal := (a.resetDailyLimitIfNewDay today).dailyWithdrawalTotal + amount, lastWithdrawalDate := some today }).saveSaga { TransferSaga.new sid a.id b.id amount a.currency with state := TransferSagaState.debited }).outbox ++ [{ aggregateId := a.id, eventType := WalletEventType.fundsWithdrawn, payload := { eventType := WalletEventType.fundsWithdrawn, walletId := a.id, amount := some amount, metadata := { sagaId := some sid, transferTo := some b.id }, timestamp := now }, published := false }], idempotency := (((w.store.saveSaga (TransferSaga.new sid a.id b.id amount a.currency)).saveWallet { a.resetDailyLimitIfNewDay today with balance := a.balance - amount, dailyWithdrawalTotal := (a.resetDailyLimitIfNewDay today).dailyWithdrawalTotal + amount, lastWithdrawalDate := some today }).saveSaga { TransferSaga.new sid a.id b.id amount a.currency with state := TransferSagaState.debited }).idempotency } { b with balance := b.balance + amount }).outbox ++ [{ aggregateId := b.id, eventType := WalletEventType.fundsDeposited, payload := { eventType := WalletEventType.fundsDeposited, walletId := b.id, amount := some amount, metadata := { sagaId := some sid, transferFrom := some a.id }, timestamp := now }, published := false }], idempotency := (Store.saveWallet { wallets := (((w.store.saveSaga (TransferSaga.new sid a.id b.id amount a.currency)).saveWallet { a.resetDailyLimitIfNewDay today with balance := a.balance - amount, dailyWithdrawalTotal := (a.resetDailyLimitIfNewDay today).dailyWithdrawalTotal + amount, lastWithdrawalDate := some today }).saveSaga { TransferSaga.new sid a.id b.id amount a.currency with state := TransferSagaState.debited }).wallets, events := (((w.store.saveSaga (TransferSaga.new sid a.id b.id amount a.currency)).saveWallet { a.resetDailyLimitIfNewDay today with balance := a.balance - amount, dailyWithdrawalTotal := (a.resetDailyLimitIfNewDay today).dailyWithdrawalTotal + amount, lastWithdrawalDate := some today }).saveSaga { TransferSaga.new sid a.id b.id amount a.currency with state := TransferSagaState.debited }).events ++ [{ walletId := a.id, eventType := WalletEventType.fundsWithdrawn, currency := (a.resetDailyLimitIfNewDay today).currency, amount := some amount, metadata := { sagaId := some sid, transferTo := some b.id }, createdAt := now }], sagas := (((w.store.saveSaga (TransferSaga.new sid a.id b.id amount a.currency)).saveWallet { a.resetDailyLimitIfNewDay today with balance := a.balance - amount, dailyWithdrawalTotal := (a.resetDailyLimitIfNewDay today).dailyWithdrawalTotal + amount, lastWithdrawalDate := some today }).saveSaga { TransferSaga.new sid a.id b.id amount a.currency with state := TransferSagaState.debited }).sagas, outbox := (((w.store.saveSaga (TransferSaga.new sid a.id b.id amount a.currency)).saveWallet { a.resetDailyLimitIfNewDay today with balance := a.balance - amount, dailyWithdrawalTotal := (a.resetDailyLimitIfNewDay today).dailyWithdrawalTotal + amount, lastWithdrawalDate := some today }).saveSaga { TransferSaga.new sid a.id b.id amount a.currency with state := TransferSagaState.debited }).outbox ++ [{ aggregateId := a.id, eventType := WalletEventType.fundsWithdrawn, payload := { eventType := WalletEventType.fundsWithdrawn, walletId := a.id, amount := some amount, metadata := { sagaId := some sid, transferTo := some b.id }, timestamp := now }, published := false }], idempotency := (((w.store.saveSaga (TransferSaga.new sid a.id b.id amount a.currency)).saveWallet { a.resetDailyLimitIfNewDay today with balance := a.balance - amount, dailyWithdrawalTotal := (a.resetDailyLimitIfNewDay today).dailyWithdrawalTotal + amount, lastWithdrawalDate := some today }).saveSaga { TransferSaga.new sid a.id b.id amount a.currency with state := TransferSagaState.debited }).idempotency } { b with balance := b.balance + amount }).idempotency } (Store.saveWallet { wallets := (((w.store.saveSaga (TransferSaga.new sid a.id b.id amount a.currency)).saveWallet { a.resetDailyLimitIfNewDay today with balance := a.balance - amount, dailyWithdrawalTotal := (a.resetDailyLimitIfNewDay today).dailyWithdrawalTotal + amount, lastWithdrawalDate := some today }).saveSaga { TransferSaga.new sid a.id b.id amount a.currency with state := TransferSagaState.debited }).wallets, events := (((w.store.saveSaga (TransferSaga.new sid a.id b.id amount a.currency)).saveWallet { a.resetDailyLimitIfNewDay today with balance := a.balance - amount, dailyWithdrawalTotal := (a.resetDailyLimitIfNewDay today).dailyWithdrawalTotal + amount, lastWithdrawalDate := some today }).saveSaga { TransferSaga.new sid a.id b.id amount a.currency with state := TransferSagaState.debited }).events ++ [{ walletId := a.id, eventType := WalletEventType.fundsWithdrawn, currency := (a.resetDailyLimitIfNewDay today).currency, amount := some amount, metadata := { sagaId := some sid, transferTo := some b.id }, createdAt := now }], sagas := (((w.store.saveSaga (TransferSaga.new sid a.id b.id amount a.currency)).saveWallet { a.resetDailyLimitIfNewDay today with balance := a.balance - amount, dailyWithdrawalTotal := (a.resetDailyLimitIfNewDay today).dailyWithdrawalTotal + amount, lastWithdrawalDate := some today }).saveSaga { TransferSaga.new sid a.id b.id amount a.currency with state := TransferSagaState.debited }).sagas, outbox := (((w.store.saveSaga (TransferSaga.new sid a.id b.id amount a.currency)).saveWallet { a.resetDailyLimitIfNewDay today with balance := a.balance - amount, dailyWithdrawalTotal := (a.resetDailyLimitIfNewDay today).dailyWithdrawalTotal + amount, lastWithdrawalDate := some today }).saveSaga { TransferSaga.new sid a.id b.id amount a.currency with state := TransferSagaState.debited }).outbox ++ [{ aggregateId := a.id, eventType := WalletEventType.fundsWithdrawn, payload := { eventType := WalletEventType.fundsWithdrawn, walletId := a.id, amount := some amount, metadata := { sagaId := some sid, transferTo := some b.id }, timestamp := now }, published := false }], idempotency := (((w.store.saveSaga (TransferSaga.new sid a.id b.id amount a.currency)).saveWallet { a.resetDailyLimitIfNewDay today with balance := a.balance - amount, dailyWithdrawalTotal := (a.resetDailyLimitIfNewDay today).dailyWithdrawalTotal + amount, lastWithdrawalDate := some today }).saveSaga { TransferSaga.new sid a.id b.id amount a.currency with state := TransferSagaState.debited }).idempotency } { b with balance := b.balance + amount }) (TransferSaga.new sid a.id b.id amount a.currency).id rfl).trans
      ((Store.findSaga_saveWallet { wallets := (((w.store.saveSaga (TransferSaga.new sid a.id b.id amount a.currency)).saveWallet { a.resetDailyLimitIfNewDay today with balance := a.balance - amount, dailyWithdrawalTotal := (a.resetDailyLimitIfNewDay today).dailyWithdrawalTotal + amount, lastWithdrawalDate := some today }).saveSaga { TransferSaga.new sid a.id b.id amount a.currency with state := TransferSagaState.debited }).wallets, events := (((w.store.saveSaga (TransferSaga.new sid a.id b.id amount a.currency)).saveWallet { a.resetDailyLimitIfNewDay today with balance := a.balance - amount, dailyWithdrawalTotal := (a.resetDailyLimitIfNewDay today).dailyWithdrawalTotal + amount, lastWithdrawalDate := some today }).saveSaga { TransferSaga.new sid a.id b.id amount a.currency with state := TransferSagaState.debited }).events ++ [{ walletId := a.id, eventType := WalletEventType.fundsWithdrawn, currency := (a.resetDailyLimitIfNewDay today).currency, amount := some amount, metadata := { sagaId := some sid, transferTo := some b.id }, createdAt := now }], sagas := (((w.store.saveSaga (TransferSaga.new sid a.id b.id amount a.currency)).saveWallet { a.resetDailyLimitIfNewDay today with balance := a.balance - amount, dailyWithdrawalTotal := (a.resetDailyLimitIfNewDay today).dailyWithdrawalTotal + amount, lastWithdrawalDate := some today }).saveSaga { TransferSaga.new sid a.id b.id amount a.currency with state := TransferSagaState.debited }).sagas, outbox := (((w.store.saveSaga (TransferSaga.new sid a.id b.id amount a.currency)).saveWallet { a.resetDailyLimitIfNewDay today with balance := a.balance - amount, dailyWithdrawalTotal := (a.resetDailyLimitIfNewDay today).dailyWithdrawalTotal + amount, lastWithdrawalDate := some today }).saveSaga { TransferSaga.new sid a.id b.id amount a.currency with state := TransferSagaState.debited }).outbox ++ [{ aggregateId := a.id, eventType := WalletEventType.fundsWithdrawn, payload := { eventType := WalletEventType.fundsWithdrawn, walletId := a.id, amount := some amount, metadata := { sagaId := some sid, transferTo := some b.id }, timestamp := now }, published := false }], idempotency := (((w.store.saveSaga (TransferSaga.new sid a.id b.id amount a.currency)).saveWallet { a.resetDailyLimitIfNewDay today with balance := a.balance - amount, dailyWithdrawalTotal := (a.resetDailyLimitIfNewDay today).dailyWithdrawalTotal + amount, lastWithdrawalDate := some today }).saveSaga { TransferSaga.new sid a.id b.id amount a.currency with state := TransferSagaState.debited }).idempotency } { b with balance := b.balance + amount } (TransferSaga.new sid a.id b.id amount a.currency).id).trans hrelDg)
  have hmc : ({ TransferSaga.new sid a.id b.id amount a.currency with state := TransferSagaState.debited } : TransferSaga).markAsCompleted = Except.ok ({ { TransferSaga.new sid a.id b.id amount a.currency with state := TransferSagaState.debited } with state := TransferSagaState.completed } : TransferSaga) := rfl
  have htryf : TransferSagaService.tryTransferLegs { store := (w.store.saveSaga (TransferSaga.new sid a.id b.id amount a.currency)), locks := w.locks, bus := w.bus ++ [{ eventType := WalletEventType.transferInitiated, walletId := a.id, amount := some amount, metadata := { sagaId := some (TransferSaga.new sid a.id b.id amount a.currency).id, transferTo := none, transferFrom := none, toWalletId := some b.id, reason := none, requestId := rid, recovered := false }, timestamp := now }], pubSchedule := [false], txFaults := [] } (TransferSaga.new sid a.id b.id amount a.currency) rid today now = (Except.error AppError.busDisconnected, { store := Store.saveSaga { wallets := (Store.saveWallet { wallets := (((w.store.saveSaga (TransferSaga.new sid a.id b.id amount a.currency)).saveWallet { a.resetDailyLimitIfNewDay today with balance := a.balance - amount, dailyWithdrawalTotal := (a.resetDailyLimitIfNewDay today).dailyWithdrawalTotal + amount, lastWithdrawalDate := some today }).saveSaga { TransferSaga.new sid a.id b.id amount a.currency with state := TransferSagaState.debited }).wallets, events := (((w.store.saveSaga (TransferSaga.new sid a.id b.id amount a.currency)).saveWallet { a.resetDailyLimitIfNewDay today with balance := a.balance - amount, dailyWithdrawalTotal := (a.resetDailyLimitIfNewDay today).dailyWithdrawalTotal + amount, lastWithdrawalDate := some today }).saveSaga { TransferSaga.new sid a.id b.id amount a.currency with state := TransferSagaState.debited }).events ++ [{ walletId := a.id, eventType := WalletEventType.fundsWithdrawn, currency := (a.resetDailyLimitIfNewDay today).currency, amount := some amount, metadata := { sagaId := some sid, transferTo := some b.id }, createdAt := now }], sagas := (((w.store.saveSaga (TransferSaga.new sid a.id b.id amount a.currency)).saveWallet { a.resetDailyLimitIfNewDay today with balance := a.balance - amount, dailyWithdrawalTotal := (a.resetDailyLimitIfNewDay today).dailyWithdrawalTotal + amount, lastWithdrawalDate := some today }).saveSaga { TransferSaga.new sid a.id b.id amount a.currency with state := TransferSagaState.debited }).sagas, outbox := (((w.store.saveSaga (TransferSaga.new sid a.id b.id amount a.currency)).saveWallet { a.resetDailyLimitIfNewDay today with balance := a.balance - amount, dailyWithdrawalTotal := (a.resetDailyLimitIfNewDay today).dailyWithdrawalTotal + amount, lastWithdrawalDate := some today }).saveSaga { TransferSaga.new sid a.id b.id amount a.currency with state := TransferSagaState.debited }).outbox ++ [{ aggregateId := a.id, eventType := WalletEventType.fundsWithdrawn, payload := { eventType := WalletEventType.fundsWithdrawn, walletId := a.id, amount := some amount, metadata := { sagaId := some sid, transferTo := some b.id }, timestamp := now }, published := false }], idempotency := (((w.store.saveSaga (TransferSaga.new sid a.id b.id amount a.currency)).saveWallet { a.resetDailyLimitIfNewDay today with balance := a.balance - amount, dailyWithdrawalTotal := (a.resetDailyLimitIfNewDay today).dailyWithdrawalTotal + amount, lastWithdrawalDate := some today }).saveSaga { TransferSaga.new sid a.id b.id amount a.currency with state := TransferSagaState.debited }).idempotency } { b with balance := b.balance + amount }).wallets, events := (Store.saveWallet { wallets := (((w.store.saveSaga (TransferSaga.new sid a.id b.id amount a.currency)).saveWallet { a.resetDailyLimitIfNewDay today with balance := a.balance - amount, dailyWithdrawalTotal := (a.resetDailyLimitIfNewDay today).dailyWithdrawalTotal + amount, lastWithdrawalDate := some today }).saveSaga { TransferSaga.new sid a.id b.id amount a.currency with state := TransferSagaState.debited }).wallets, events := (((w.store.saveSaga (TransferSaga.new sid a.id b.id amount a.currency)).saveWallet { a.resetDailyLimitIfNewDay today with balance := a.balance - amount, dailyWithdrawalTotal := (a.resetDailyLimitIfNewDay today).dailyWithdrawalTotal + amount, lastWithdrawalDate := some today }).saveSaga { TransferSaga.new sid a.id b.id amount a.currency with state := TransferSagaState.debited }).events ++ [{ walletId := a.id, eventType := WalletEventType.fundsWithdrawn, currency := (a.resetDailyLimitIfNewDay today).currency, amount := some amount, metadata := { sagaId := some sid, transferTo := some b.id }, createdAt := now }], sagas := (((w.store.saveSaga (TransferSaga.new sid a.id b.id amount a.currency)).saveWallet { a.resetDailyLimitIfNewDay today with balance := a.balance - amount, dailyWithdrawalTotal := (a.resetDailyLimitIfNewDay today).dailyWithdrawalTotal + amount, lastWithdrawalDate := some today }).saveSaga { TransferSaga.new sid a.id b.id amount a.currency with state := TransferSagaState.debited }).sagas, outbox := (((w.store.saveSaga (TransferSaga.new sid a.id b.id amount a.currency)).saveWallet { a.resetDailyLimitIfNewDay today with balance := a.balance - amount, dailyWithdrawalTotal := (a.resetDailyLimitIfNewDay today).dailyWithdrawalTotal + amount, lastWithdrawalDate := some today }).saveSaga { TransferSaga.new sid a.id b.id amount a.currency with state := TransferSagaState.debited }).outbox ++ [{ aggregateId := a.id, eventType := WalletEventType.fundsWithdrawn, payload := { eventType := WalletEventType.fundsWithdrawn, walletId := a.id, amount := some amount, metadata := { sagaId := some sid, transferTo := some b.id }, timestamp := now }, published := false }], idempotency := (((w.store.saveSaga (TransferSaga.new sid a.id b.id amount a.currency)).saveWallet { a.resetDailyLimitIfNewDay today with balance := a.balance - amount, dailyWithdrawalTotal := (a.resetDailyLimitIfNewDay today).dailyWithdrawalTotal + amount, lastWithdrawalDate := some today }).saveSaga { TransferSaga.new sid a.id b.id amount a.currency with state := TransferSagaState.debited }).idempotency } { b with balance := b.balance + amount }).events ++ [{ walletId := b.id, eventType := WalletEventType.fundsDeposited, currency := b.currency, amount := some amount, metadata := { sagaId := some sid, transferFrom := some a.id }, createdAt := now }], sagas := (Store.saveWallet { wallets := (((w.store.saveSaga (TransferSaga.new sid a.id b.id amount a.currency)).saveWallet { a.resetDailyLimitIfNewDay today with balance := a.balance - amount, dailyWithdrawalTotal := (a.resetDailyLimitIfNewDay today).dailyWithdrawalTotal + amount, lastWithdrawalDate := some today }).saveSaga { TransferSaga.new sid a.id b.id amount a.currency with state := TransferSagaState.debited }).wallets, events := (((w.store.saveSaga (TransferSaga.new sid a.id b.id amount a.currency)).saveWallet { a.resetDailyLimitIfNewDay today with balance := a.balance - amount, dailyWithdrawalTotal := (a.resetDailyLimitIfNewDay today).dailyWithdrawalTotal + amount, lastWithdrawalDate := some today }).saveSaga { TransferSaga.new sid a.id b.id amount a.currency with state := TransferSagaState.debited }).events ++ [{ walletId := a.id, eventType := WalletEventType.fundsWithdrawn, currency := (a.resetDailyLimitIfNewDay today).currency, amount := some amount, metadata := { sagaId := some sid, transferTo := some b.id }, createdAt := now }], sagas := (((w.store.saveSaga (TransferSaga.new sid a.id b.id amount a.currency)).saveWallet { a.resetDailyLimitIfNewDay today with balance := a.balance - amount, dailyWithdrawalTotal := (a.resetDailyLimitIfNewDay today).dailyWithdrawalTotal + amount, lastWithdrawalDate := some today }).saveSaga { TransferSaga.new sid a.id b.id amount a.currency with state := TransferSagaState.debited }).sagas, outbox := (((w.store.saveSaga (TransferSaga.new sid a.id b.id amount a.currency)).saveWallet { a.resetDailyLimitIfNewDay today with balance := a.balance - amount, dailyWithdrawalTotal := (a.resetDailyLimitIfNewDay today).dailyWithdrawalTotal + amount, lastWithdrawalDate := some today }).saveSaga { TransferSaga.new sid a.id b.id amount a.currency with state := TransferSagaState.debited }).outbox ++ [{ aggregateId := a.id, eventType := WalletEventType.fundsWithdrawn, payload := { eventType := WalletEventType.fundsWithdrawn, walletId := a.id, amount := some amount, metadata := { sagaId := some sid, transferTo := some b.id }, timestamp := now }, published := false }], idempotency := (((w.store.saveSaga (TransferSaga.new sid a.id b.id amount a.currency)).saveWallet { a.resetDailyLimitIfNewDay today with balance := a.balance - amount, dailyWithdrawalTotal := (a.resetDailyLimitIfNewDay today).dailyWithdrawalTotal + amount, lastWithdrawalDate := some today }).saveSaga { TransferSaga.new sid a.id b.id amount a.currency with state := TransferSagaState.debited }).idempotency } { b with balance := b.balance + amount }).sagas, outbox := (Store.saveWallet { wallets := (((w.store.saveSaga (TransferSaga.new sid a.id b.id amount a.currency)).saveWallet { a.resetDailyLimitIfNewDay today with balance := a.balance - amount, dailyWithdrawalTotal := (a.resetDailyLimitIfNewDay today).dailyWithdrawalTotal + amount, lastWithdrawalDate := some today }).saveSaga { TransferSaga.new sid a.id b.id amount a.currency with state := TransferSagaState.debited }).wallets, events := (((w.store.saveSaga (TransferSaga.new sid a.id b.id amount a.currency)).saveWallet { a.resetDailyLimitIfNewDay today with balance := a.balance - amount, dailyWithdrawalTotal := (a.resetDailyLimitIfNewDay today).dailyWithdrawalTotal + amount, lastWithdrawalDate := some today }).saveSaga { TransferSaga.new sid a.id b.id amount a.currency with state := TransferSagaState.debited }).events ++ [{ walletId := a.id, eventType := WalletEventType.fundsWithdrawn, currency := (a.resetDailyLimitIfNewDay today).currency, amount := some amount, metadata := { sagaId := some sid, transferTo := some b.id }, createdAt := now }], sagas := (((w.store.saveSaga (TransferSaga.new sid a.id b.id amount a.currency)).saveWallet { a.resetDailyLimitIfNewDay today with balance := a.balance - amount, dailyWithdrawalTotal := (a.resetDailyLimitIfNewDay today).dailyWithdrawalTotal + amount, lastWithdrawalDate := some today }).saveSaga { TransferSaga.new sid a.id b.id amount a.currency with state := TransferSagaState.debited }).sagas, outbox := (((w.store.saveSaga (TransferSaga.new sid a.id b.id amount a.currency)).saveWallet { a.resetDailyLimitIfNewDay today with balance := a.balance - amount, dailyWithdrawalTotal := (a.resetDailyLimitIfNewDay today).dailyWithdrawalTotal + amount, lastWithdrawalDate := some today }).saveSaga { TransferSaga.new sid a.id b.id amount a.currency with state := TransferSagaState.debited }).outbox ++ [{ aggregateId := a.id, eventType := WalletEventType.fundsWithdrawn, payload := { eventType := WalletEventType.fundsWithdrawn, walletId := a.id, amount := some amount, metadata := { sagaId := some sid, transferTo := some b.id }, timestamp := now }, published := false }], idempotency := (((w.store.saveSaga (TransferSaga.new sid a.id b.id amount a.currency)).saveWallet { a.resetDailyLimitIfNewDay today with balance := a.balance - amount, dailyWithdrawalTotal := (a.resetDailyLimitIfNewDay today).dailyWithdrawalTotal + amount, lastWithdrawalDate := some today }).saveSaga { TransferSaga.new sid a.id b.id amount a.currency with state := TransferSagaState.debited }).idempotency } { b with balance := b.balance + amount }).outbox ++ [{ aggregateId := b.id, eventType := WalletEventType.fundsDeposited, payload := { eventType := WalletEventType.fundsDeposited, walletId := b.id, amount := some amount, metadata := { sagaId := some sid, transferFrom := some a.id }, timestamp := now }, published := false }], idempotency := (Store.saveWallet { wallets := (((w.store.saveSaga (TransferSaga.new sid a.id b.id amount a.currency)).saveWallet { a.resetDailyLimitIfNewDay today with balance := a.balance - amount, dailyWithdrawalTotal := (a.resetDailyLimitIfNewDay today).dailyWithdrawalTotal + amount, lastWithdrawalDate := some today }).saveSaga { TransferSaga.new sid a.id b.id amount a.currency with state := TransferSagaState.debited }).wallets, events := (((w.store.saveSaga (TransferSaga.new sid a.id b.id amount a.currency)).saveWallet { a.resetDailyLimitIfNewDay today with balance := a.balance - amount, dailyWithdrawalTotal := (a.resetDailyLimitIfNewDay today).dailyWithdrawalTotal + amount, lastWithdrawalDate := some today }).saveSaga { TransferSaga.new sid a.id b.id amount a.currency with state := TransferSagaState.debited }).events ++ [{ walletId := a.id, eventType := WalletEventType.fundsWithdrawn, currency := (a.resetDailyLimitIfNewDay today).currency, amount := some amount, metadata := { sagaId := some sid, transferTo := some b.id }, createdAt := now }], sagas := (((w.store.saveSaga (TransferSaga.new sid a.id b.id amount a.currency)).saveWallet { a.resetDailyLimitIfNewDay today with balance := a.balance - amount, dailyWithdrawalTotal := (a.resetDailyLimitIfNewDay today).dailyWithdrawalTotal + amount, lastWithdrawalDate := some today }).saveSaga { TransferSaga.new sid a.id b.id amount a.currency with state := TransferSagaState.debited }).sagas, outbox := (((w.store.saveSaga (TransferSaga.new sid a.id b.id amount a.currency)).saveWallet { a.resetDailyLimitIfNewDay today with balance := a.balance - amount, dailyWithdrawalTotal := (a.resetDailyLimitIfNewDay today).dailyWithdrawalTotal + amount, lastWithdrawalDate := some today }).saveSaga { TransferSaga.new sid a.id b.id amount a.currency with state := TransferSagaState.debited }).outbox ++ [{ aggregateId := a.id, eventType := WalletEventType.fundsWithdrawn, payload := { eventType := WalletEventType.fundsWithdrawn, walletId := a.id, amount := some amount, metadata := { sagaId := some sid, transferTo := some b.id }, timestamp := now }, published := false }], idempotency := (((w.store.saveSaga (TransferSaga.new sid a.id b.id amount a.currency)).saveWallet { a.resetDailyLimitIfNewDay today with balance := a.balance - amount, dailyWithdrawalTotal := (a.resetDailyLimitIfNewDay today).dailyWithdrawalTotal + amount, lastWithdrawalDate := some today }).saveSaga { TransferSaga.new sid a.id b.id amount a.currency with state := TransferSagaState.debited }).idempotency } { b with balance := b.balance + amount }).idempotency } { { TransferSaga.new sid a.id b.id amount a.currency with state := TransferSagaState.debited } with state := TransferSagaState.completed }, locks := w.locks, bus := ((w.bus ++ [{ eventType := WalletEventType.transferInitiated, walletId := a.id, amount := some amount, metadata := { sagaId := some (TransferSaga.new sid a.id b.id amount a.currency).id, transferTo := none, transferFrom := none, toWalletId := some b.id, reason := none, requestId := rid, recovered := false }, timestamp := now }]) ++ [{ eventType := WalletEventType.fundsWithdrawn, walletId := a.id, amount := some amount, metadata := { sagaId := some sid, transferTo := some b.id }, timestamp := now }]) ++ [{ eventType := WalletEventType.fundsDeposited, walletId := b.id, amount := some amount, metadata := { sagaId := some sid, transferFrom := some a.id }, timestamp := now }], pubSchedule := [], txFaults := [] }) := by
    unfold TransferSagaService.tryTransferLegs
    rw [TransferSagaService.debitFromSender_eval { store := (w.store.saveSaga (TransferSaga.new sid a.id b.id amount a.currency)), locks := w.locks, bus := w.bus ++ [{ eventType := WalletEventType.transferInitiated, walletId := a.id, amount := some amount, metadata := { sagaId := some (TransferSaga.new sid a.id b.id amount a.currency).id, transferTo := none, transferFrom := none, toWalletId := some b.id, reason := none, requestId := rid, recovered := false }, timestamp := now }], pubSchedule := [false], txFaults := [] } a b amount sid today now rfl ((Store.findWallet_saveSaga w.store (TransferSaga.new sid a.id b.id amount a.currency) a.id).trans hfina) ((Store.findSaga_saveWallet (w.store.saveSaga (TransferSaga.new sid a.id b.id amount a.currency)) { a.resetDailyLimitIfNewDay today with balance := a.balance - amount, dailyWithdrawalTotal := (a.resetDailyLimitIfNewDay today).dailyWithdrawalTotal + amount, lastWithdrawalDate := some today } sid).trans (Store.findSaga_saveSaga_self w.store (TransferSaga.new sid a.id b.id amount a.currency))) hact hpos hlim hbal]
    dsimp only
    rw [hrelDg]
    dsimp only
    rw [TransferSagaService.creditToReceiver_eval { store := { wallets := (((w.store.saveSaga (TransferSaga.new sid a.id b.id amount a.currency)).saveWallet { a.resetDailyLimitIfNewDay today with balance := a.balance - amount, dailyWithdrawalTotal := (a.resetDailyLimitIfNewDay today).dailyWithdrawalTotal + amount, lastWithdrawalDate := some today }).saveSaga { TransferSaga.new sid a.id b.id amount a.currency with state := TransferSagaState.debited }).wallets, events := (((w.store.saveSaga (TransferSaga.new sid a.id b.id amount a.currency)).saveWallet { a.resetDailyLimitIfNewDay today with balance := a.balance - amount, dailyWithdrawalTotal := (a.resetDailyLimitIfNewDay today).dailyWithdrawalTotal + amount, lastWithdrawalDate := some today }).saveSaga { TransferSaga.new sid a.id b.id amount a.currency with state := TransferSagaState.debited }).events ++ [{ walletId := a.id, eventType := WalletEventType.fundsWithdrawn, currency := (a.resetDailyLimitIfNewDay today).currency, amount := some amount, metadata := { sagaId := some sid, transferTo := some b.id }, createdAt := now }], sagas := (((w.store.saveSaga (TransferSaga.new sid a.id b.id amount a.currency)).saveWallet { a.resetDailyLimitIfNewDay today with balance := a.balance - amount, dailyWithdrawalTotal := (a.resetDailyLimitIfNewDay today).dailyWithdrawalTotal + amount, lastWithdrawalDate := some today }).saveSaga { TransferSaga.new sid a.id b.id amount a.currency with state := TransferSagaState.debited }).sagas, outbox := (((w.store.saveSaga (TransferSaga.new sid a.id b.id amount a.currency)).saveWallet { a.resetDailyLimitIfNewDay today with balance := a.balance - amount, dailyWithdrawalTotal := (a.resetDailyLimitIfNewDay today).dailyWithdrawalTotal + amount, lastWithdrawalDate := some today }).saveSaga { TransferSaga.new sid a.id b.id amount a.currency with state := TransferSagaState.debited }).outbox ++ [{ aggregateId := a.id, eventType := WalletEventType.fundsWithdrawn, payload := { eventType := WalletEventType.fundsWithdrawn, walletId := a.id, amount := some amount, metadata := { sagaId := some sid, transferTo := some b.id }, timestamp := now }, published := false }], idempotency := (((w.store.saveSaga (TransferSaga.new sid a.id b.id amount a.currency)).saveWallet { a.resetDailyLimitIfNewDay today with balance := a.balance - amount, dailyWithdrawalTotal := (a.resetDailyLimitIfNewDay today).dailyWithdrawalTotal + amount, lastWithdrawalDate := some today }).saveSaga { TransferSaga.new sid a.id b.id amount a.currency with state := TransferSagaState.debited }).idempotency }, locks := w.locks, bus := (w.bus ++ [{ eventType := WalletEventType.transferInitiated, walletId := a.id, amount := some amount, metadata := { sagaId := some (TransferSaga.new sid a.id b.id amount a.currency).id, transferTo := none, transferFrom := none, toWalletId := some b.id, reason := none, requestId := rid, recovered := false }, timestamp := now }]) ++ [{ eventType := WalletEventType.fundsWithdrawn, walletId := a.id, amount := some amount, metadata := { sagaId := some sid, transferTo := some b.id }, timestamp := now }], pubSchedule := [false], txFaults := [] } a b amount sid now rfl ((Store.findWallet_congr { wallets := (((w.store.saveSaga (TransferSaga.new sid a.id b.id amount a.currency)).saveWallet { a.resetDailyLimitIfNewDay today with balance := a.balance - amount, dailyWithdrawalTotal := (a.resetDailyLimitIfNewDay today).dailyWithdrawalTotal + amount, lastWithdrawalDate := some today }).saveSaga { TransferSaga.new sid a.id b.id amount a.currency with state := TransferSagaState.debited }).wallets, events := (((w.store.saveSaga (TransferSaga.new sid a.id b.id amount a.currency)).saveWallet { a.resetDailyLimitIfNewDay today with balance := a.balance - amount, dailyWithdrawalTotal := (a.resetDailyLimitIfNewDay today).dailyWithdrawalTotal + amount, lastWithdrawalDate := some today }).saveSaga { TransferSaga.new sid a.id b.id amount a.currency with state := TransferSagaState.debited }).events ++ [{ walletId := a.id, eventType := WalletEventType.fundsWithdrawn, currency := (a.resetDailyLimitIfNewDay today).currency, amount := some amount, metadata := { sagaId := some sid, transferTo := some b.id }, createdAt := now }], sagas := (((w.store.saveSaga (TransferSaga.new sid a.id b.id amount a.currency)).saveWallet { a.resetDailyLimitIfNewDay today with balance := a.balance - amount, dailyWithdrawalTotal := (a.resetDailyLimitIfNewDay today).dailyWithdrawalTotal + amount, lastWithdrawalDate := some today }).saveSaga { TransferSaga.new sid a.id b.id amount a.currency with state := TransferSagaState.debited }).sagas, outbox := (((w.store.saveSaga (TransferSaga.new sid a.id b.id amount a.currency)).saveWallet { a.resetDailyLimitIfNewDay today with balance := a.balance - amount, dailyWithdrawalTotal := (a.resetDailyLimitIfNewDay today).dailyWithdrawalTotal + amount, lastWithdrawalDate := some today }).saveSaga { TransferSaga.new sid a.id b.id amount a.currency with state := TransferSagaState.debited }).outbox ++ [{ aggregateId := a.id, eventType := WalletEventType.fundsWithdrawn, payload := { eventType := WalletEventType.fundsWithdrawn, walletId := a.id, amount := some amount, metadata := { sagaId := some sid, transferTo := some b.id }, timestamp := now }, published := false }], idempotency := (((w.store.saveSaga (TransferSaga.new sid a.id b.id amount a.currency)).saveWallet { a.resetDailyLimitIfNewDay today with balance := a.balance - amount, dailyWithdrawalTotal := (a.resetDailyLimitIfNewDay today).dailyWithdrawalTotal + amount, lastWithdrawalDate := some today }).saveSaga { TransferSaga.new sid a.id b.id amount a.currency with state := TransferSagaState.debited }).idempotency } (((w.store.saveSaga (TransferSaga.new sid a.id b.id amount a.currency)).saveWallet { a.resetDailyLimitIfNewDay today with balance := a.balance - amount, dailyWithdrawalTotal := (a.resetDailyLimitIfNewDay today).dailyWithdrawalTotal + amount, lastWithdrawalDate := some today }).saveSaga { TransferSaga.new sid a.id b.id amount a.currency with state := TransferSagaState.debited }) b.id rfl).trans ((Store.findWallet_saveSaga ((w.store.saveSaga (TransferSaga.new sid a.id b.id amount a.currency)).saveWallet { a.resetDailyLimitIfNewDay today with balance := a.balance - amount, dailyWithdrawalTotal := (a.resetDailyLimitIfNewDay today).dailyWithdrawalTotal + amount, lastWithdrawalDate := some today }) { TransferSaga.new sid a.id b.id amount a.currency with state := TransferSagaState.debited } b.id).trans ((Store.findWallet_saveWallet_ne (w.store.saveSaga (TransferSaga.new sid a.id b.id amount a.currency)) { a.resetDailyLimitIfNewDay today with balance := a.balance - amount, dailyWithdrawalTotal := (a.resetDailyLimitIfNewDay today).dailyWithdrawalTotal + amount, lastWithdrawalDate := some today } b.id hbne).trans ((Store.findWallet_saveSaga w.store (TransferSaga.new sid a.id b.id amount a.currency) b.id).trans hfinb)))) ((Store.findSaga_saveWallet { wallets := (((w.store.saveSaga (TransferSaga.new sid a.id b.id amount a.currency)).saveWallet { a.resetDailyLimitIfNewDay today with balance := a.balance - amount, dailyWithdrawalTotal := (a.resetDailyLimitIfNewDay today).dailyWithdrawalTotal + amount, lastWithdrawalDate := some today }).saveSaga { TransferSaga.new sid a.id b.id amount a.currency with state := TransferSagaState.debited }).wallets, events := (((w.store.saveSaga (TransferSaga.new sid a.id b.id amount a.currency)).saveWallet { a.resetDailyLimitIfNewDay today with balance := a.balance - amount, dailyWithdrawalTotal := (a.resetDailyLimitIfNewDay today).dailyWithdrawalTotal + amount, lastWithdrawalDate := some today }).saveSaga { TransferSaga.new sid a.id b.id amount a.currency with state := TransferSagaState.debited }).events ++ [{ walletId := a.id, eventType := WalletEventType.fundsWithdrawn, currency := (a.resetDailyLimitIfNewDay today).currency, amount := some amount, metadata := { sagaId := some sid, transferTo := some b.id }, createdAt := now }], sagas := (((w.store.saveSaga (TransferSaga.new sid a.id b.id amount a.currency)).saveWallet { a.resetDailyLimitIfNewDay today with balance := a.balance - amount, dailyWithdrawalTotal := (a.resetDailyLimitIfNewDay today).dailyWithdrawalTotal + amount, lastWithdrawalDate := some today }).saveSaga { TransferSaga.new sid a.id b.id amount a.currency with state := TransferSagaState.debited }).sagas, outbox := (((w.store.saveSaga (TransferSaga.new sid a.id b.id amount a.currency)).saveWallet { a.resetDailyLimitIfNewDay today with balance := a.balance - amount, dailyWithdrawalTotal := (a.resetDailyLimitIfNewDay today).dailyWithdrawalTotal + amount, lastWithdrawalDate := some today }).saveSaga { TransferSaga.new sid a.id b.id amount a.currency with state := TransferSagaState.debited }).outbox ++ [{ aggregateId := a.id, eventType := WalletEventType.fundsWithdrawn, payload := { eventType := WalletEventType.fundsWithdrawn, walletId := a.id, amount := some amount, metadata := { sagaId := some sid, transferTo := some b.id }, timestamp := now }, published := false }], idempotency := (((w.store.saveSaga (TransferSaga.new sid a.id b.id amount a.currency)).saveWallet { a.resetDailyLimitIfNewDay today with balance := a.balance - amount, dailyWithdrawalTotal := (a.resetDailyLimitIfNewDay today).dailyWithdrawalTotal + amount, lastWithdrawalDate := some today }).saveSaga { TransferSaga.new sid a.id b.id amount a.currency with state := TransferSagaState.debited }).idempotency } { b with balance := b.balance + amount } sid).trans hrelD) hbact hpos]
    dsimp only
    rw [hrelD2g]
    dsimp only
    rw [hmc]
    dsimp only [EventPublisher.publish]
    rw [if_neg Bool.false_ne_true]
  refine ⟨{ store := Store.saveSaga (Store.saveSaga { wallets := (Store.saveWallet { wallets := (((w.store.saveSaga (TransferSaga.new sid a.id b.id amount a.currency)).saveWallet { a.resetDailyLimitIfNewDay today with balance := a.balance - amount, dailyWithdrawalTotal := (a.resetDailyLimitIfNewDay today).dailyWithdrawalTotal + amount, lastWithdrawalDate := some today }).saveSaga { TransferSaga.new sid a.id b.id amount a.currency with state := TransferSagaState.debited }).wallets, events := (((w.store.saveSaga (TransferSaga.new sid a.id b.id amount a.currency)).saveWallet { a.resetDailyLimitIfNewDay today with balance := a.balance - amount, dailyWithdrawalTotal := (a.resetDailyLimitIfNewDay today).dailyWithdrawalTotal + amount, lastWithdrawalDate := some today }).saveSaga { TransferSaga.new sid a.id b.id amount a.currency with state := TransferSagaState.debited }).events ++ [{ walletId := a.id, eventType := WalletEventType.fundsWithdrawn, currency := (a.resetDailyLimitIfNewDay today).currency, amount := some amount, metadata := { sagaId := some sid, transferTo := some b.id }, createdAt := now }], sagas := (((w.store.saveSaga (TransferSaga.new sid a.id b.id amount a.currency)).saveWallet { a.resetDailyLimitIfNewDay today with balance := a.balance - amount, dailyWithdrawalTotal := (a.resetDailyLimitIfNewDay today).dailyWithdrawalTotal + amount, lastWithdrawalDate := some today }).saveSaga { TransferSaga.new sid a.id b.id amount a.currency with state := TransferSagaState.debited }).sagas, outbox := (((w.store.saveSaga (TransferSaga.new sid a.id b.id amount a.currency)).saveWallet { a.resetDailyLimitIfNewDay today with balance := a.balance - amount, dailyWithdrawalTotal := (a.resetDailyLimitIfNewDay today).dailyWithdrawalTotal + amount, lastWithdrawalDate := some today }).saveSaga { TransferSaga.new sid a.id b.id amount a.currency with state := TransferSagaState.debited }).outbox ++ [{ aggregateId := a.id, eventType := WalletEventType.fundsWithdrawn, payload := { eventType := WalletEventType.fundsWithdrawn, walletId := a.id, amount := some amount, metadata := { sagaId := some sid, transferTo := some b.id }, timestamp := now }, published := false }], idempotency := (((w.store.saveSaga (TransferSaga.new sid a.id b.id amount a.currency)).saveWallet { a.resetDailyLimitIfNewDay today with balance := a.balance - amount, dailyWithdrawalTotal := (a.resetDailyLimitIfNewDay today).dailyWithdrawalTotal + amount, lastWithdrawalDate := some today }).saveSaga { TransferSaga.new sid a.id b.id amount a.currency with state := TransferSagaState.debited }).idempotency } { b with balance := b.balance + amount }).wallets, events := (Store.saveWallet { wallets := (((w.store.saveSaga (TransferSaga.new sid a.id b.id amount a.currency)).saveWallet { a.resetDailyLimitIfNewDay today with balance := a.balance - amount, dailyWithdrawalTotal := (a.resetDailyLimitIfNewDay today).dailyWithdrawalTotal + amount, lastWithdrawalDate := some today }).saveSaga { TransferSaga.new sid a.id b.id amount a.currency with state := TransferSagaState.debited }).wallets, events := (((w.store.saveSaga (TransferSaga.new sid a.id b.id amount a.currency)).saveWallet { a.resetDailyLimitIfNewDay today with balance := a.balance - amount, dailyWithdrawalTotal := (a.resetDailyLimitIfNewDay today).dailyWithdrawalTotal + amount, lastWithdrawalDate := some today }).saveSaga { TransferSaga.new sid a.id b.id amount a.currency with state := TransferSagaState.debited }).events ++ [{ walletId := a.id, eventType := WalletEventType.fundsWithdrawn, currency := (a.resetDailyLimitIfNewDay today).currency, amount := some amount, metadata := { sagaId := some sid, transferTo := some b.id }, createdAt := now }], sagas := (((w.store.saveSaga (TransferSaga.new sid a.id b.id amount a.currency)).saveWallet { a.resetDailyLimitIfNewDay today with balance := a.balance - amount, dailyWithdrawalTotal := (a.resetDailyLimitIfNewDay today).dailyWithdrawalTotal + amount, lastWithdrawalDate := some today }).saveSaga { TransferSaga.new sid a.id b.id amount a.currency with state := TransferSagaState.debited }).sagas, outbox := (((w.store.saveSaga (TransferSaga.new sid a.id b.id amount a.currency)).saveWallet { a.resetDailyLimitIfNewDay today with balance := a.balance - amount, dailyWithdrawalTotal := (a.resetDailyLimitIfNewDay today).dailyWithdrawalTotal + amount, lastWithdrawalDate := some today }).saveSaga { TransferSaga.new sid a.id b.id amount a.currency with state := TransferSagaState.debited }).outbox ++ [{ aggregateId := a.id, eventType := WalletEventType.fundsWithdrawn, payload := { eventType := WalletEventType.fundsWithdrawn, walletId := a.id, amount := some amount, metadata := { sagaId := some sid, transferTo := some b.id }, timestamp := now }, published := false }], idempotency := (((w.store.saveSaga (TransferSaga.new sid a.id b.id amount a.currency)).saveWallet { a.resetDailyLimitIfNewDay today with balance := a.balance - amount, dailyWithdrawalTotal := (a.resetDailyLimitIfNewDay today).dailyWithdrawalTotal + amount, lastWithdrawalDate := some today }).saveSaga { TransferSaga.new sid a.id b.id amount a.currency with state := TransferSagaState.debited }).idempotency } { b with balance := b.balance + amount }).events ++ [{ walletId := b.id, eventType := WalletEventType.fundsDeposited, currency := b.currency, amount := some amount, metadata := { sagaId := some sid, transferFrom := some a.id }, createdAt := now }], sagas := (Store.saveWallet { wallets := (((w.store.saveSaga (TransferSaga.new sid a.id b.id amount a.currency)).saveWallet { a.resetDailyLimitIfNewDay today with balance := a.balance - amount, dailyWithdrawalTotal := (a.resetDailyLimitIfNewDay today).dailyWithdrawalTotal + amount, lastWithdrawalDate := some today }).saveSaga { TransferSaga.new sid a.id b.id amount a.currency with state := TransferSagaState.debited }).wallets, events := (((w.store.saveSaga (TransferSaga.new sid a.id b.id amount a.currency)).saveWallet { a.resetDailyLimitIfNewDay today with balance := a.balance - amount, dailyWithdrawalTotal := (a.resetDailyLimitIfNewDay today).dailyWithdrawalTotal + amount, lastWithdrawalDate := some today }).saveSaga { TransferSaga.new sid a.id b.id amount a.currency with state := TransferSagaState.debited }).events ++ [{ walletId := a.id, eventType := WalletEventType.fundsWithdrawn, currency := (a.resetDailyLimitIfNewDay today).currency, amount := some amount, metadata := { sagaId := some sid, transferTo := some b.id }, createdAt := now }], sagas := (((w.store.saveSaga (TransferSaga.new sid a.id b.id amount a.currency)).saveWallet { a.resetDailyLimitIfNewDay today with balance := a.balance - amount, dailyWithdrawalTotal := (a.resetDailyLimitIfNewDay today).dailyWithdrawalTotal + amount, lastWithdrawalDate := some today }).saveSaga { TransferSaga.new sid a.id b.id amount a.currency with state := TransferSagaState.debited }).sagas, outbox := (((w.store.saveSaga (TransferSaga.new sid a.id b.id amount a.currency)).saveWallet { a.resetDailyLimitIfNewDay today with balance := a.balance - amount, dailyWithdrawalTotal := (a.resetDailyLimitIfNewDay today).dailyWithdrawalTotal + amount, lastWithdrawalDate := some today }).saveSaga { TransferSaga.new sid a.id b.id amount a.currency with state := TransferSagaState.debited }).outbox ++ [{ aggregateId := a.id, eventType := WalletEventType.fundsWithdrawn, payload := { eventType := WalletEventType.fundsWithdrawn, walletId := a.id, amount := some amount, metadata := { sagaId := some sid, transferTo := some b.id }, timestamp := now }, published := false }], idempotency := (((w.store.saveSaga (TransferSaga.new sid a.id b.id amount a.currency)).saveWallet { a.resetDailyLimitIfNewDay today with balance := a.balance - amount, dailyWithdrawalTotal := (a.resetDailyLimitIfNewDay today).dailyWithdrawalTotal + amount, lastWithdrawalDate := some today }).saveSaga { TransferSaga.new sid a.id b.id amount a.currency with state := TransferSagaState.debited }).idempotency } { b with balance := b.balance + amount }).sagas, outbox := (Store.saveWallet { wallets := (((w.store.saveSaga (TransferSaga.new sid a.id b.id amount a.currency)).saveWallet { a.resetDailyLimitIfNewDay today with balance := a.balance - amount, dailyWithdrawalTotal := (a.resetDailyLimitIfNewDay today).dailyWithdrawalTotal + amount, lastWithdrawalDate := some today }).saveSaga { TransferSaga.new sid a.id b.id amount a.currency with state := TransferSagaState.debited }).wallets, events := (((w.store.saveSaga (TransferSaga.new sid a.id b.id amount a.currency)).saveWallet { a.resetDailyLimitIfNewDay today with balance := a.balance - amount, dailyWithdrawalTotal := (a.resetDailyLimitIfNewDay today).dailyWithdrawalTotal + amount, lastWithdrawalDate := some today }).saveSaga { TransferSaga.new sid a.id b.id amount a.currency with state := TransferSagaState.debited }).events ++ [{ walletId := a.id, eventType := WalletEventType.fundsWithdrawn, currency := (a.resetDailyLimitIfNewDay today).currency, amount := some amount, metadata := { sagaId := some sid, transferTo := some b.id }, createdAt := now }], sagas := (((w.store.saveSaga (TransferSaga.new sid a.id b.id amount a.currency)).saveWallet { a.resetDailyLimitIfNewDay today with balance := a.balance - amount, dailyWithdrawalTotal := (a.resetDailyLimitIfNewDay today).dailyWithdrawalTotal + amount, lastWithdrawalDate := some today }).saveSaga { TransferSaga.new sid a.id b.id amount a.currency with state := TransferSagaState.debited }).sagas, outbox := (((w.store.saveSaga (TransferSaga.new sid a.id b.id amount a.currency)).saveWallet { a.resetDailyLimitIfNewDay today with balance := a.balance - amount, dailyWithdrawalTotal := (a.resetDailyLimitIfNewDay today).dailyWithdrawalTotal + amount, lastWithdrawalDate := some today }).saveSaga { TransferSaga.new sid a.id b.id amount a.currency with state := TransferSagaState.debited }).outbox ++ [{ aggregateId := a.id, eventType := WalletEventType.fundsWithdrawn, payload := { eventType := WalletEventType.fundsWithdrawn, walletId := a.id, amount := some amount, metadata := { sagaId := some sid, transferTo := some b.id }, timestamp := now }, published := false }], idempotency := (((w.store.saveSaga (TransferSaga.new sid a.id b.id amount a.currency)).saveWallet { a.resetDailyLimitIfNewDay today with balance := a.balance - amount, dailyWithdrawalTotal := (a.resetDailyLimitIfNewDay today).dailyWithdrawalTotal + amount, lastWithdrawalDate := some today }).saveSaga { TransferSaga.new sid a.id b.id amount a.currency with state := TransferSagaState.debited }).idempotency } { b with balance := b.balance + amount }).outbox ++ [{ aggregateId := b.id, eventType := WalletEventType.fundsDeposited, payload := { eventType := WalletEventType.fundsDeposited, walletId := b.id, amount := some amount, metadata := { sagaId := some sid, transferFrom := some a.id }, timestamp := now }, published := false }], idempotency := (Store.saveWallet { wallets := (((w.store.saveSaga (TransferSaga.new sid a.id b.id amount a.currency)).saveWallet { a.resetDailyLimitIfNewDay today with balance := a.balance - amount, dailyWithdrawalTotal := (a.resetDailyLimitIfNewDay today).dailyWithdrawalTotal + amount, lastWithdrawalDate := some today }).saveSaga { TransferSaga.new sid a.id b.id amount a.currency with state := TransferSagaState.debited }).wallets, events := (((w.store.saveSaga (TransferSaga.new sid a.id b.id amount a.currency)).saveWallet { a.resetDailyLimitIfNewDay today with balance := a.balance - amount, dailyWithdrawalTotal := (a.resetDailyLimitIfNewDay today).dailyWithdrawalTotal + amount, lastWithdrawalDate := some today }).saveSaga { TransferSaga.new sid a.id b.id amount a.currency with state := TransferSagaState.debited }).events ++ [{ walletId := a.id, eventType := WalletEventType.fundsWithdrawn, currency := (a.resetDailyLimitIfNewDay today).currency, amount := some amount, metadata := { sagaId := some sid, transferTo := some b.id }, createdAt := now }], sagas := (((w.store.saveSaga (TransferSaga.new sid a.id b.id amount a.currency)).saveWallet { a.resetDailyLimitIfNewDay today with balance := a.balance - amount, dailyWithdrawalTotal := (a.resetDailyLimitIfNewDay today).dailyWithdrawalTotal + amount, lastWithdrawalDate := some today }).saveSaga { TransferSaga.new sid a.id b.id amount a.currency with state := TransferSagaState.debited }).sagas, outbox := (((w.store.saveSaga (TransferSaga.new sid a.id b.id amount a.currency)).saveWallet { a.resetDailyLimitIfNewDay today with balance := a.balance - amount, dailyWithdrawalTotal := (a.resetDailyLimitIfNewDay today).dailyWithdrawalTotal + amount, lastWithdrawalDate := some today }).saveSaga { TransferSaga.new sid a.id b.id amount a.currency with state := TransferSagaState.debited }).outbox ++ [{ aggregateId := a.id, eventType := WalletEventType.fundsWithdrawn, payload := { eventType := WalletEventType.fundsWithdrawn, walletId := a.id, amount := some amount, metadata := { sagaId := some sid, transferTo := some b.id }, timestamp := now }, published := false }], idempotency := (((w.store.saveSaga (TransferSaga.new sid a.id b.id amount a.currency)).saveWallet { a.resetDailyLimitIfNewDay today with balance := a.balance - amount, dailyWithdrawalTotal := (a.resetDailyLimitIfNewDay today).dailyWithdrawalTotal + amount, lastWithdrawalDate := some today }).saveSaga { TransferSaga.new sid a.id b.id amount a.currency with state := TransferSagaState.debited }).idempotency } { b with balance := b.balance + amount }).idempotency } { { TransferSaga.new sid a.id b.id amount a.currency with state := TransferSagaState.debited } with state := TransferSagaState.completed }) (TransferSaga.markAsFailed { { TransferSaga.new sid a.id b.id amount a.currency with state := TransferSagaState.debited } with state := TransferSagaState.completed } (AppError.message AppError.busDisconnected)), locks := w.locks, bus := ((w.bus ++ [{ eventType := WalletEventType.transferInitiated, walletId := a.id, amount := some amount, metadata := { sagaId := some (TransferSaga.new sid a.id b.id amount a.currency).id, transferTo := none, transferFrom := none, toWalletId := some b.id, reason := none, requestId := rid, recovered := false }, timestamp := now }]) ++ [{ eventType := WalletEventType.fundsWithdrawn, walletId := a.id, amount := some amount, metadata := { sagaId := some sid, transferTo := some b.id }, timestamp := now }]) ++ [{ eventType := WalletEventType.fundsDeposited, walletId := b.id, amount := some amount, metadata := { sagaId := some sid, transferFrom := some a.id }, timestamp := now }], pubSchedule := [], txFaults := [] }, ?heq, ?c2, ?c3, ?c4, ?c5, ?c6, ?c7, ?c8, ?c9⟩
  case heq =>
    unfold TransferSagaService.executeTransfer
    rw [hnoidem]
    dsimp only
    rw [if_neg hne]
    rw [hfina]
    dsimp only
    rw [WalletRepository.getOrCreate_found w.store b.id a.currency now b hfinb]
    dsimp only
    rw [if_neg (not_not_intro hcur)]
    rw [hsched, hfaults]
    dsimp only [EventPublisher.publish]
    rw [if_pos (rfl : (true : Bool) = true)]
    dsimp only
    rw [htryf]
    dsimp only
    exact (TransferSagaService.catch_not_debited { store := Store.saveSaga { wallets := (Store.saveWallet { wallets := (((w.store.saveSaga (TransferSaga.new sid a.id b.id amount a.currency)).saveWallet { a.resetDailyLimitIfNewDay today with balance := a.balance - amount, dailyWithdrawalTotal := (a.resetDailyLimitIfNewDay today).dailyWithdrawalTotal + amount, lastWithdrawalDate := some today }).saveSaga { TransferSaga.new sid a.id b.id amount a.currency with state := TransferSagaState.debited }).wallets, events := (((w.store.saveSaga (TransferSaga.new sid a.id b.id amount a.currency)).saveWallet { a.resetDailyLimitIfNewDay today with balance := a.balance - amount, dailyWithdrawalTotal := (a.resetDailyLimitIfNewDay today).dailyWithdrawalTotal + amount, lastWithdrawalDate := some today }).saveSaga { TransferSaga.new sid a.id b.id amount a.currency with state := TransferSagaState.debited }).events ++ [{ walletId := a.id, eventType := WalletEventType.fundsWithdrawn, currency := (a.resetDailyLimitIfNewDay today).currency, amount := some amount, metadata := { sagaId := some sid, transferTo := some b.id }, createdAt := now }], sagas := (((w.store.saveSaga (TransferSaga.new sid a.id b.id amount a.currency)).saveWallet { a.resetDailyLimitIfNewDay today with balance := a.balance - amount, dailyWithdrawalTotal := (a.resetDailyLimitIfNewDay today).dailyWithdrawalTotal + amount, lastWithdrawalDate := some today }).saveSaga { TransferSaga.new sid a.id b.id amount a.currency with state := TransferSagaState.debited }).sagas, outbox := (((w.store.saveSaga (TransferSaga.new sid a.id b.id amount a.currency)).saveWallet { a.resetDailyLimitIfNewDay today with balance := a.balance - amount, dailyWithdrawalTotal := (a.resetDailyLimitIfNewDay today).dailyWithdrawalTotal + amount, lastWithdrawalDate := some today }).saveSaga { TransferSaga.new sid a.id b.id amount a.currency with state := TransferSagaState.debited }).outbox ++ [{ aggregateId := a.id, eventType := WalletEventType.fundsWithdrawn, payload := { eventType := WalletEventType.fundsWithdrawn, walletId := a.id, amount := some amount, metadata := { sagaId := some sid, transferTo := some b.id }, timestamp := now }, published := false }], idempotency := (((w.store.saveSaga (TransferSaga.new sid a.id b.id amount a.currency)).saveWallet { a.resetDailyLimitIfNewDay today with balance := a.balance - amount, dailyWithdrawalTotal := (a.resetDailyLimitIfNewDay today).dailyWithdrawalTotal + amount, lastWithdrawalDate := some today }).saveSaga { TransferSaga.new sid a.id b.id amount a.currency with state := TransferSagaState.debited }).idempotency } { b with balance := b.balance + amount }).wallets, events := (Store.saveWallet { wallets := (((w.store.saveSaga (TransferSaga.new sid a.id b.id amount a.currency)).saveWallet { a.resetDailyLimitIfNewDay today with balance := a.balance - amount, dailyWithdrawalTotal := (a.resetDailyLimitIfNewDay today).dailyWithdrawalTotal + amount, lastWithdrawalDate := some today }).saveSaga { TransferSaga.new sid a.id b.id amount a.currency with state := TransferSagaState.debited }).wallets, events := (((w.store.saveSaga (TransferSaga.new sid a.id b.id amount a.currency)).saveWallet { a.resetDailyLimitIfNewDay today with balance := a.balance - amount, dailyWithdrawalTotal := (a.resetDailyLimitIfNewDay today).dailyWithdrawalTotal + amount, lastWithdrawalDate := some today }).saveSaga { TransferSaga.new sid a.id b.id amount a.currency with state := TransferSagaState.debited }).events ++ [{ walletId := a.id, eventType := WalletEventType.fundsWithdrawn, currency := (a.resetDailyLimitIfNewDay today).currency, amount := some amount, metadata := { sagaId := some sid, transferTo := some b.id }, createdAt := now }], sagas := (((w.store.saveSaga (TransferSaga.new sid a.id b.id amount a.currency)).saveWallet { a.resetDailyLimitIfNewDay today with balance := a.balance - amount, dailyWithdrawalTotal := (a.resetDailyLimitIfNewDay today).dailyWithdrawalTotal + amount, lastWithdrawalDate := some today }).saveSaga { TransferSaga.new sid a.id b.id amount a.currency with state := TransferSagaState.debited }).sagas, outbox := (((w.store.saveSaga (TransferSaga.new sid a.id b.id amount a.currency)).saveWallet { a.resetDailyLimitIfNewDay today with balance := a.balance - amount, dailyWithdrawalTotal := (a.resetDailyLimitIfNewDay today).dailyWithdrawalTotal + amount, lastWithdrawalDate := some today }).saveSaga { TransferSaga.new sid a.id b.id amount a.currency with state := TransferSagaState.debited }).outbox ++ [{ aggregateId := a.id, eventType := WalletEventType.fundsWithdrawn, payload := { eventType := WalletEventType.fundsWithdrawn, walletId := a.id, amount := some amount, metadata := { sagaId := some sid, transferTo := some b.id }, timestamp := now }, published := false }], idempotency := (((w.store.saveSaga (TransferSaga.new sid a.id b.id amount a.currency)).saveWallet { a.resetDailyLimitIfNewDay today with balance := a.balance - amount, dailyWithdrawalTotal := (a.resetDailyLimitIfNewDay today).dailyWithdrawalTotal + amount, lastWithdrawalDate := some today }).saveSaga { TransferSaga.new sid a.id b.id amount a.currency with state := TransferSagaState.debited }).idempotency } { b with balance := b.balance + amount }).events ++ [{ walletId := b.id, eventType := WalletEventType.fundsDeposited, currency := b.currency, amount := some amount, metadata := { sagaId := some sid, transferFrom := some a.id }, createdAt := now }], sagas := (Store.saveWallet { wallets := (((w.store.saveSaga (TransferSaga.new sid a.id b.id amount a.currency)).saveWallet { a.resetDailyLimitIfNewDay today with balance := a.balance - amount, dailyWithdrawalTotal := (a.resetDailyLimitIfNewDay today).dailyWithdrawalTotal + amount, lastWithdrawalDate := some today }).saveSaga { TransferSaga.new sid a.id b.id amount a.currency with state := TransferSagaState.debited }).wallets, events := (((w.store.saveSaga (TransferSaga.new sid a.id b.id amount a.currency)).saveWallet { a.resetDailyLimitIfNewDay today with balance := a.balance - amount, dailyWithdrawalTotal := (a.resetDailyLimitIfNewDay today).dailyWithdrawalTotal + amount, lastWithdrawalDate := some today }).saveSaga { TransferSaga.new sid a.id b.id amount a.currency with state := TransferSagaState.debited }).events ++ [{ walletId := a.id, eventType := WalletEventType.fundsWithdrawn, currency := (a.resetDailyLimitIfNewDay today).currency, amount := some amount, metadata := { sagaId := some sid, transferTo := some b.id }, createdAt := now }], sagas := (((w.store.saveSaga (TransferSaga.new sid a.id b.id amount a.currency)).saveWallet { a.resetDailyLimitIfNewDay today with balance := a.balance - amount, dailyWithdrawalTotal := (a.resetDailyLimitIfNewDay today).dailyWithdrawalTotal + amount, lastWithdrawalDate := some today }).saveSaga { TransferSaga.new sid a.id b.id amount a.currency with state := TransferSagaState.debited }).sagas, outbox := (((w.store.saveSaga (TransferSaga.new sid a.id b.id amount a.currency)).saveWallet { a.resetDailyLimitIfNewDay today with balance := a.balance - amount, dailyWithdrawalTotal := (a.resetDailyLimitIfNewDay today).dailyWithdrawalTotal + amount, lastWithdrawalDate := some today }).saveSaga { TransferSaga.new sid a.id b.id amount a.currency with state := TransferSagaState.debited }).outbox ++ [{ aggregateId := a.id, eventType := WalletEventType.fundsWithdrawn, payload := { eventType := WalletEventType.fundsWithdrawn, walletId := a.id, amount := some amount, metadata := { sagaId := some sid, transferTo := some b.id }, timestamp := now }, published := false }], idempotency := (((w.store.saveSaga (TransferSaga.new sid a.id b.id amount a.currency)).saveWallet { a.resetDailyLimitIfNewDay today with balance := a.balance - amount, dailyWithdrawalTotal := (a.resetDailyLimitIfNewDay today).dailyWithdrawalTotal + amount, lastWithdrawalDate := some today }).saveSaga { TransferSaga.new sid a.id b.id amount a.currency with state := TransferSagaState.debited }).idempotency } { b with balance := b.balance + amount }).sagas, outbox := (Store.saveWallet { wallets := (((w.store.saveSaga (TransferSaga.new sid a.id b.id amount a.currency)).saveWallet { a.resetDailyLimitIfNewDay today with balance := a.balance - amount, dailyWithdrawalTotal := (a.resetDailyLimitIfNewDay today).dailyWithdrawalTotal + amount, lastWithdrawalDate := some today }).saveSaga { TransferSaga.new sid a.id b.id amount a.currency with state := TransferSagaState.debited }).wallets, events := (((w.store.saveSaga (TransferSaga.new sid a.id b.id amount a.currency)).saveWallet { a.resetDailyLimitIfNewDay today with balance := a.balance - amount, dailyWithdrawalTotal := (a.resetDailyLimitIfNewDay today).dailyWithdrawalTotal + amount, lastWithdrawalDate := some today }).saveSaga { TransferSaga.new sid a.id b.id amount a.currency with state := TransferSagaState.debited }).events ++ [{ walletId := a.id, eventType := WalletEventType.fundsWithdrawn, currency := (a.resetDailyLimitIfNewDay today).currency, amount := some amount, metadata := { sagaId := some sid, transferTo := some b.id }, createdAt := now }], sagas := (((w.store.saveSaga (TransferSaga.new sid a.id b.id amount a.currency)).saveWallet { a.resetDailyLimitIfNewDay today with balance := a.balance - amount, dailyWithdrawalTotal := (a.resetDailyLimitIfNewDay today).dailyWithdrawalTotal + amount, lastWithdrawalDate := some today }).saveSaga { TransferSaga.new sid a.id b.id amount a.currency with state := TransferSagaState.debited }).sagas, outbox := (((w.store.saveSaga (TransferSaga.new sid a.id b.id amount a.currency)).saveWallet { a.resetDailyLimitIfNewDay today with balance := a.balance - amount, dailyWithdrawalTotal := (a.resetDailyLimitIfNewDay today).dailyWithdrawalTotal + amount, lastWithdrawalDate := some today }).saveSaga { TransferSaga.new sid a.id b.id amount a.currency with state := TransferSagaState.debited }).outbox ++ [{ aggregateId := a.id, eventType := WalletEventType.fundsWithdrawn, payload := { eventType := WalletEventType.fundsWithdrawn, walletId := a.id, amount := some amount, metadata := { sagaId := some sid, transferTo := some b.id }, timestamp := now }, published := false }], idempotency := (((w.store.saveSaga (TransferSaga.new sid a.id b.id amount a.currency)).saveWallet { a.resetDailyLimitIfNewDay today with balance := a.balance - amount, dailyWithdrawalTotal := (a.resetDailyLimitIfNewDay today).dailyWithdrawalTotal + amount, lastWithdrawalDate := some today }).saveSaga { TransferSaga.new sid a.id b.id amount a.currency with state := TransferSagaState.debited }).idempotency } { b with balance := b.balance + amount }).outbox ++ [{ aggregateId := b.id, eventType := WalletEventType.fundsDeposited, payload := { eventType := WalletEventType.fundsDeposited, walletId := b.id, amount := some amount, metadata := { sagaId := some sid, transferFrom := some a.id }, timestamp := now }, published := false }], idempotency := (Store.saveWallet { wallets := (((w.store.saveSaga (TransferSaga.new sid a.id b.id amount a.currency)).saveWallet { a.resetDailyLimitIfNewDay today with balance := a.balance - amount, dailyWithdrawalTotal := (a.resetDailyLimitIfNewDay today).dailyWithdrawalTotal + amount, lastWithdrawalDate := some today }).saveSaga { TransferSaga.new sid a.id b.id amount a.currency with state := TransferSagaState.debited }).wallets, events := (((w.store.saveSaga (TransferSaga.new sid a.id b.id amount a.currency)).saveWallet { a.resetDailyLimitIfNewDay today with balance := a.balance - amount, dailyWithdrawalTotal := (a.resetDailyLimitIfNewDay today).dailyWithdrawalTotal + amount, lastWithdrawalDate := some today }).saveSaga { TransferSaga.new sid a.id b.id amount a.currency with state := TransferSagaState.debited }).events ++ [{ walletId := a.id, eventType := WalletEventType.fundsWithdrawn, currency := (a.resetDailyLimitIfNewDay today).currency, amount := some amount, metadata := { sagaId := some sid, transferTo := some b.id }, createdAt := now }], sagas := (((w.store.saveSaga (TransferSaga.new sid a.id b.id amount a.currency)).saveWallet { a.resetDailyLimitIfNewDay today with balance := a.balance - amount, dailyWithdrawalTotal := (a.resetDailyLimitIfNewDay today).dailyWithdrawalTotal + amount, lastWithdrawalDate := some today }).saveSaga { TransferSaga.new sid a.id b.id amount a.currency with state := TransferSagaState.debited }).sagas, outbox := (((w.store.saveSaga (TransferSaga.new sid a.id b.id amount a.currency)).saveWallet { a.resetDailyLimitIfNewDay today with balance := a.balance - amount, dailyWithdrawalTotal := (a.resetDailyLimitIfNewDay today).dailyWithdrawalTotal + amount, lastWithdrawalDate := some today }).saveSaga { TransferSaga.new sid a.id b.id amount a.currency with state := TransferSagaState.debited }).outbox ++ [{ aggregateId := a.id, eventType := WalletEventType.fundsWithdrawn, payload := { eventType := WalletEventType.fundsWithdrawn, walletId := a.id, amount := some amount, metadata := { sagaId := some sid, transferTo := some b.id }, timestamp := now }, published := false }], idempotency := (((w.store.saveSaga (TransferSaga.new sid a.id b.id amount a.currency)).saveWallet { a.resetDailyLimitIfNewDay today with balance := a.balance - amount, dailyWithdrawalTotal := (a.resetDailyLimitIfNewDay today).dailyWithdrawalTotal + amount, lastWithdrawalDate := some today }).saveSaga { TransferSaga.new sid a.id b.id amount a.currency with state := TransferSagaState.debited }).idempotency } { b with balance := b.balance + amount }).idempotency } { { TransferSaga.new sid a.id b.id amount a.currency with state := TransferSagaState.debited } with state := TransferSagaState.completed }, locks := w.locks, bus := ((w.bus ++ [{ eventType := WalletEventType.transferInitiated, walletId := a.id, amount := some amount, metadata := { sagaId := some (TransferSaga.new sid a.id b.id amount a.currency).id, transferTo := none, transferFrom := none, toWalletId := some b.id, reason := none, requestId := rid, recovered := false }, timestamp := now }]) ++ [{ eventType := WalletEventType.fundsWithdrawn, walletId := a.id, amount := some amount, metadata := { sagaId := some sid, transferTo := some b.id }, timestamp := now }]) ++ [{ eventType := WalletEventType.fundsDeposited, walletId := b.id, amount := some amount, metadata := { sagaId := some sid, transferFrom := some a.id }, timestamp := now }], pubSchedule := [], txFaults := [] } (TransferSaga.new sid a.id b.id amount a.currency).id AppError.busDisconnected now { { TransferSaga.new sid a.id b.id amount a.currency with state := TransferSagaState.debited } with state := TransferSagaState.completed } (Store.findSaga_saveSaga_self { wallets := (Store.saveWallet { wallets := (((w.store.saveSaga (TransferSaga.new sid a.id b.id amount a.currency)).saveWallet { a.resetDailyLimitIfNewDay today with balance := a.balance - amount, dailyWithdrawalTotal := (a.resetDailyLimitIfNewDay today).dailyWithdrawalTotal + amount, lastWithdrawalDate := some today }).saveSaga { TransferSaga.new sid a.id b.id amount a.currency with state := TransferSagaState.debited }).wallets, events := (((w.store.saveSaga (TransferSaga.new sid a.id b.id amount a.currency)).saveWallet { a.resetDailyLimitIfNewDay today with balance := a.balance - amount, dailyWithdrawalTotal := (a.resetDailyLimitIfNewDay today).dailyWithdrawalTotal + amount, lastWithdrawalDate := some today }).saveSaga { TransferSaga.new sid a.id b.id amount a.currency with state := TransferSagaState.debited }).events ++ [{ walletId := a.id, eventType := WalletEventType.fundsWithdrawn, currency := (a.resetDailyLimitIfNewDay today).currency, amount := some amount, metadata := { sagaId := some sid, transferTo := some b.id }, createdAt := now }], sagas := (((w.store.saveSaga (TransferSaga.new sid a.id b.id amount a.currency)).saveWallet { a.resetDailyLimitIfNewDay today with balance := a.balance - amount, dailyWithdrawalTotal := (a.resetDailyLimitIfNewDay today).dailyWithdrawalTotal + amount, lastWithdrawalDate := some today }).saveSaga { TransferSaga.new sid a.id b.id amount a.currency with state := TransferSagaState.debited }).sagas, outbox := (((w.store.saveSaga (TransferSaga.new sid a.id b.id amount a.currency)).saveWallet { a.resetDailyLimitIfNewDay today with balance := a.balance - amount, dailyWithdrawalTotal := (a.resetDailyLimitIfNewDay today).dailyWithdrawalTotal + amount, lastWithdrawalDate := some today }).saveSaga { TransferSaga.new sid a.id b.id amount a.currency with state := TransferSagaState.debited }).outbox ++ [{ aggregateId := a.id, eventType := WalletEventType.fundsWithdrawn, payload := { eventType := WalletEventType.fundsWithdrawn, walletId := a.id, amount := some amount, metadata := { sagaId := some sid, transferTo := some b.id }, timestamp := now }, published := false }], idempotency := (((w.store.saveSaga (TransferSaga.new sid a.id b.id amount a.currency)).saveWallet { a.resetDailyLimitIfNewDay today with balance := a.balance - amount, dailyWithdrawalTotal := (a.resetDailyLimitIfNewDay today).dailyWithdrawalTotal + amount, lastWithdrawalDate := some today }).saveSaga { TransferSaga.new sid a.id b.id amount a.currency with state := TransferSagaState.debited }).idempotency } { b with balance := b.balance + amount }).wallets, events := (Store.saveWallet { wallets := (((w.store.saveSaga (TransferSaga.new sid a.id b.id amount a.currency)).saveWallet { a.resetDailyLimitIfNewDay today with balance := a.balance - amount, dailyWithdrawalTotal := (a.resetDailyLimitIfNewDay today).dailyWithdrawalTotal + amount, lastWithdrawalDate := some today }).saveSaga { TransferSaga.new sid a.id b.id amount a.currency with state := TransferSagaState.debited }).wallets, events := (((w.store.saveSaga (TransferSaga.new sid a.id b.id amount a.currency)).saveWallet { a.resetDailyLimitIfNewDay today with balance := a.balance - amount, dailyWithdrawalTotal := (a.resetDailyLimitIfNewDay today).dailyWithdrawalTotal + amount, lastWithdrawalDate := some today }).saveSaga { TransferSaga.new sid a.id b.id amount a.currency with state := TransferSagaState.debited }).events ++ [{ walletId := a.id, eventType := WalletEventType.fundsWithdrawn, currency := (a.resetDailyLimitIfNewDay today).currency, amount := some amount, metadata := { sagaId := some sid, transferTo := some b.id }, createdAt := now }], sagas := (((w.store.saveSaga (TransferSaga.new sid a.id b.id amount a.currency)).saveWallet { a.resetDailyLimitIfNewDay today with balance := a.balance - amount, dailyWithdrawalTotal := (a.resetDailyLimitIfNewDay today).dailyWithdrawalTotal + amount, lastWithdrawalDate := some today }).saveSaga { TransferSaga.new sid a.id b.id amount a.currency with state := TransferSagaState.debited }).sagas, outbox := (((w.store.saveSaga (TransferSaga.new sid a.id b.id amount a.currency)).saveWallet { a.resetDailyLimitIfNewDay today with balance := a.balance - amount, dailyWithdrawalTotal := (a.resetDailyLimitIfNewDay today).dailyWithdrawalTotal + amount, lastWithdrawalDate := some today }).saveSaga { TransferSaga.new sid a.id b.id amount a.currency with state := TransferSagaState.debited }).outbox ++ [{ aggregateId := a.id, eventType := WalletEventType.fundsWithdrawn, payload := { eventType := WalletEventType.fundsWithdrawn, walletId := a.id, amount := some amount, metadata := { sagaId := some sid, transferTo := some b.id }, timestamp := now }, published := false }], idempotency := (((w.store.saveSaga (TransferSaga.new sid a.id b.id amount a.currency)).saveWallet { a.resetDailyLimitIfNewDay today with balance := a.balance - amount, dailyWithdrawalTotal := (a.resetDailyLimitIfNewDay today).dailyWithdrawalTotal + amount, lastWithdrawalDate := some today }).saveSaga { TransferSaga.new sid a.id b.id amount a.currency with state := TransferSagaState.debited }).idempotency } { b with balance := b.balance + amount }).events ++ [{ walletId := b.id, eventType := WalletEventType.fundsDeposited, currency := b.currency, amount := some amount, metadata := { sagaId := some sid, transferFrom := some a.id }, createdAt := now }], sagas := (Store.saveWallet { wallets := (((w.store.saveSaga (TransferSaga.new sid a.id b.id amount a.currency)).saveWallet { a.resetDailyLimitIfNewDay today with balance := a.balance - amount, dailyWithdrawalTotal := (a.resetDailyLimitIfNewDay today).dailyWithdrawalTotal + amount, lastWithdrawalDate := some today }).saveSaga { TransferSaga.new sid a.id b.id amount a.currency with state := TransferSagaState.debited }).wallets, events := (((w.store.saveSaga (TransferSaga.new sid a.id b.id amount a.currency)).saveWallet { a.resetDailyLimitIfNewDay today with balance := a.balance - amount, dailyWithdrawalTotal := (a.resetDailyLimitIfNewDay today).dailyWithdrawalTotal + amount, lastWithdrawalDate := some today }).saveSaga { TransferSaga.new sid a.id b.id amount a.currency with state := TransferSagaState.debited }).events ++ [{ walletId := a.id, eventType := WalletEventType.fundsWithdrawn, currency := (a.resetDailyLimitIfNewDay today).currency, amount := some amount, metadata := { sagaId := some sid, transferTo := some b.id }, createdAt := now }], sagas := (((w.store.saveSaga (TransferSaga.new sid a.id b.id amount a.currency)).saveWallet { a.resetDailyLimitIfNewDay today with balance := a.balance - amount, dailyWithdrawalTotal := (a.resetDailyLimitIfNewDay today).dailyWithdrawalTotal + amount, lastWithdrawalDate := some today }).saveSaga { TransferSaga.new sid a.id b.id amount a.currency with state := TransferSagaState.debited }).sagas, outbox := (((w.store.saveSaga (TransferSaga.new sid a.id b.id amount a.currency)).saveWallet { a.resetDailyLimitIfNewDay today with balance := a.balance - amount, dailyWithdrawalTotal := (a.resetDailyLimitIfNewDay today).dailyWithdrawalTotal + amount, lastWithdrawalDate := some today }).saveSaga { TransferSaga.new sid a.id b.id amount a.currency with state := TransferSagaState.debited }).outbox ++ [{ aggregateId := a.id, eventType := WalletEventType.fundsWithdrawn, payload := { eventType := WalletEventType.fundsWithdrawn, walletId := a.id, amount := some amount, metadata := { sagaId := some sid, transferTo := some b.id }, timestamp := now }, published := false }], idempotency := (((w.store.saveSaga (TransferSaga.new sid a.id b.id amount a.currency)).saveWallet { a.resetDailyLimitIfNewDay today with balance := a.balance - amount, dailyWithdrawalTotal := (a.resetDailyLimitIfNewDay today).dailyWithdrawalTotal + amount, lastWithdrawalDate := some today }).saveSaga { TransferSaga.new sid a.id b.id amount a.currency with state := TransferSagaState.debited }).idempotency } { b with balance := b.balance + amount }).sagas, outbox := (Store.saveWallet { wallets := (((w.store.saveSaga (TransferSaga.new sid a.id b.id amount a.currency)).saveWallet { a.resetDailyLimitIfNewDay today with balance := a.balance - amount, dailyWithdrawalTotal := (a.resetDailyLimitIfNewDay today).dailyWithdrawalTotal + amount, lastWithdrawalDate := some today }).saveSaga { TransferSaga.new sid a.id b.id amount a.currency with state := TransferSagaState.debited }).wallets, events := (((w.store.saveSaga (TransferSaga.new sid a.id b.id amount a.currency)).saveWallet { a.resetDailyLimitIfNewDay today with balance := a.balance - amount, dailyWithdrawalTotal := (a.resetDailyLimitIfNewDay today).dailyWithdrawalTotal + amount, lastWithdrawalDate := some today }).saveSaga { TransferSaga.new sid a.id b.id amount a.currency with state := TransferSagaState.debited }).events ++ [{ walletId := a.id, eventType := WalletEventType.fundsWithdrawn, currency := (a.resetDailyLimitIfNewDay today).currency, amount := some amount, metadata := { sagaId := some sid, transferTo := some b.id }, createdAt := now }], sagas := (((w.store.saveSaga (TransferSaga.new sid a.id b.id amount a.currency)).saveWallet { a.resetDailyLimitIfNewDay today with balance := a.balance - amount, dailyWithdrawalTotal := (a.resetDailyLimitIfNewDay today).dailyWithdrawalTotal + amount, lastWithdrawalDate := some today }).saveSaga { TransferSaga.new sid a.id b.id amount a.currency with state := TransferSagaState.debited }).sagas, outbox := (((w.store.saveSaga (TransferSaga.new sid a.id b.id amount a.currency)).saveWallet { a.resetDailyLimitIfNewDay today with balance := a.balance - amount, dailyWithdrawalTotal := (a.resetDailyLimitIfNewDay today).dailyWithdrawalTotal + amount, lastWithdrawalDate := some today }).saveSaga { TransferSaga.new sid a.id b.id amount a.currency with state := TransferSagaState.debited }).outbox ++ [{ aggregateId := a.id, eventType := WalletEventType.fundsWithdrawn, payload := { eventType := WalletEventType.fundsWithdrawn, walletId := a.id, amount := some amount, metadata := { sagaId := some sid, transferTo := some b.id }, timestamp := now }, published := false }], idempotency := (((w.store.saveSaga (TransferSaga.new sid a.id b.id amount a.currency)).saveWallet { a.resetDailyLimitIfNewDay today with balance := a.balance - amount, dailyWithdrawalTotal := (a.resetDailyLimitIfNewDay today).dailyWithdrawalTotal + amount, lastWithdrawalDate := some today }).saveSaga { TransferSaga.new sid a.id b.id amount a.currency with state := TransferSagaState.debited }).idempotency } { b with balance := b.balance + amount }).outbox ++ [{ aggregateId := b.id, eventType := WalletEventType.fundsDeposited, payload := { eventType := WalletEventType.fundsDeposited, walletId := b.id, amount := some amount, metadata := { sagaId := some sid, transferFrom := some a.id }, timestamp := now }, published := false }], idempotency := (Store.saveWallet { wallets := (((w.store.saveSaga (TransferSaga.new sid a.id b.id amount a.currency)).saveWallet { a.resetDailyLimitIfNewDay today with balance := a.balance - amount, dailyWithdrawalTotal := (a.resetDailyLimitIfNewDay today).dailyWithdrawalTotal + amount, lastWithdrawalDate := some today }).saveSaga { TransferSaga.new sid a.id b.id amount a.currency with state := TransferSagaState.debited }).wallets, events := (((w.store.saveSaga (TransferSaga.new sid a.id b.id amount a.currency)).saveWallet { a.resetDailyLimitIfNewDay today with balance := a.balance - amount, dailyWithdrawalTotal := (a.resetDailyLimitIfNewDay today).dailyWithdrawalTotal + amount, lastWithdrawalDate := some today }).saveSaga { TransferSaga.new sid a.id b.id amount a.currency with state := TransferSagaState.debited }).events ++ [{ walletId := a.id, eventType := WalletEventType.fundsWithdrawn, currency := (a.resetDailyLimitIfNewDay today).currency, amount := some amount, metadata := { sagaId := some sid, transferTo := some b.id }, createdAt := now }], sagas := (((w.store.saveSaga (TransferSaga.new sid a.id b.id amount a.currency)).saveWallet { a.resetDailyLimitIfNewDay today with balance := a.balance - amount, dailyWithdrawalTotal := (a.resetDailyLimitIfNewDay today).dailyWithdrawalTotal + amount, lastWithdrawalDate := some today }).saveSaga { TransferSaga.new sid a.id b.id amount a.currency with state := TransferSagaState.debited }).sagas, outbox := (((w.store.saveSaga (TransferSaga.new sid a.id b.id amount a.currency)).saveWallet { a.resetDailyLimitIfNewDay today with balance := a.balance - amount, dailyWithdrawalTotal := (a.resetDailyLimitIfNewDay today).dailyWithdrawalTotal + amount, lastWithdrawalDate := some today }).saveSaga { TransferSaga.new sid a.id b.id amount a.currency with state := TransferSagaState.debited }).outbox ++ [{ aggregateId := a.id, eventType := WalletEventType.fundsWithdrawn, payload := { eventType := WalletEventType.fundsWithdrawn, walletId := a.id, amount := some amount, metadata := { sagaId := some sid, transferTo := some b.id }, timestamp := now }, published := false }], idempotency := (((w.store.saveSaga (TransferSaga.new sid a.id b.id amount a.currency)).saveWallet { a.resetDailyLimitIfNewDay today with balance := a.balance - amount, dailyWithdrawalTotal := (a.resetDailyLimitIfNewDay today).dailyWithdrawalTotal + amount, lastWithdrawalDate := some today }).saveSaga { TransferSaga.new sid a.id b.id amount a.currency with state := TransferSagaState.debited }).idempotency } { b with balance := b.balance + amount }).idempotency } { { TransferSaga.new sid a.id b.id amount a.currency with state := TransferSagaState.debited } with state := TransferSagaState.completed }) (fun h => TransferSagaState.noConfusion h))
  case c2 =>
    dsimp only
    exact (Store.findWallet_saveSaga (Store.saveSaga { wallets := (Store.saveWallet { wallets := (((w.store.saveSaga (TransferSaga.new sid a.id b.id amount a.currency)).saveWallet { a.resetDailyLimitIfNewDay today with balance := a.balance - amount, dailyWithdrawalTotal := (a.resetDailyLimitIfNewDay today).dailyWithdrawalTotal + amount, lastWithdrawalDate := some today }).saveSaga { TransferSaga.new sid a.id b.id amount a.currency with state := TransferSagaState.debited }).wallets, events := (((w.store.saveSaga (TransferSaga.new sid a.id b.id amount a.currency)).saveWallet { a.resetDailyLimitIfNewDay today with balance := a.balance - amount, dailyWithdrawalTotal := (a.resetDailyLimitIfNewDay today).dailyWithdrawalTotal + amount, lastWithdrawalDate := some today }).saveSaga { TransferSaga.new sid a.id b.id amount a.currency with state := TransferSagaState.debited }).events ++ [{ walletId := a.id, eventType := WalletEventType.fundsWithdrawn, currency := (a.resetDailyLimitIfNewDay today).currency, amount := some amount, metadata := { sagaId := some sid, transferTo := some b.id }, createdAt := now }], sagas := (((w.store.saveSaga (TransferSaga.new sid a.id b.id amount a.currency)).saveWallet { a.resetDailyLimitIfNewDay today with balance := a.balance - amount, dailyWithdrawalTotal := (a.resetDailyLimitIfNewDay today).dailyWithdrawalTotal + amount, lastWithdrawalDate := some today }).saveSaga { TransferSaga.new sid a.id b.id amount a.currency with state := TransferSagaState.debited }).sagas, outbox := (((w.store.saveSaga (TransferSaga.new sid a.id b.id amount a.currency)).saveWallet { a.resetDailyLimitIfNewDay today with balance := a.balance - amount, dailyWithdrawalTotal := (a.resetDailyLimitIfNewDay today).dailyWithdrawalTotal + amount, lastWithdrawalDate := some today }).saveSaga { TransferSaga.new sid a.id b.id amount a.currency with state := TransferSagaState.debited }).outbox ++ [{ aggregateId := a.id, eventType := WalletEventType.fundsWithdrawn, payload := { eventType := WalletEventType.fundsWithdrawn, walletId := a.id, amount := some amount, metadata := { sagaId := some sid, transferTo := some b.id }, timestamp := now }, published := false }], idempotency := (((w.store.saveSaga (TransferSaga.new sid a.id b.id amount a.currency)).saveWallet { a.resetDailyLimitIfNewDay today with balance := a.balance - amount, dailyWithdrawalTotal := (a.resetDailyLimitIfNewDay today).dailyWithdrawalTotal + amount, lastWithdrawalDate := some today }).saveSaga { TransferSaga.new sid a.id b.id amount a.currency with state := TransferSagaState.debited }).idempotency } { b with balance := b.balance + amount }).wallets, events := (Store.saveWallet { wallets := (((w.store.saveSaga (TransferSaga.new sid a.id b.id amount a.currency)).saveWallet { a.resetDailyLimitIfNewDay today with balance := a.balance - amount, dailyWithdrawalTotal := (a.resetDailyLimitIfNewDay today).dailyWithdrawalTotal + amount, lastWithdrawalDate := some today }).saveSaga { TransferSaga.new sid a.id b.id amount a.currency with state := TransferSagaState.debited }).wallets, events := (((w.store.saveSaga (TransferSaga.new sid a.id b.id amount a.currency)).saveWallet { a.resetDailyLimitIfNewDay today with balance := a.balance - amount, dailyWithdrawalTotal := (a.resetDailyLimitIfNewDay today).dailyWithdrawalTotal + amount, lastWithdrawalDate := some today }).saveSaga { TransferSaga.new sid a.id b.id amount a.currency with state := TransferSagaState.debited }).events ++ [{ walletId := a.id, eventType := WalletEventType.fundsWithdrawn, currency := (a.resetDailyLimitIfNewDay today).currency, amount := some amount, metadata := { sagaId := some sid, transferTo := some b.id }, createdAt := now }], sagas := (((w.store.saveSaga (TransferSaga.new sid a.id b.id amount a.currency)).saveWallet { a.resetDailyLimitIfNewDay today with balance := a.balance - amount, dailyWithdrawalTotal := (a.resetDailyLimitIfNewDay today).dailyWithdrawalTotal + amount, lastWithdrawalDate := some today }).saveSaga { TransferSaga.new sid a.id b.id amount a.currency with state := TransferSagaState.debited }).sagas, outbox := (((w.store.saveSaga (TransferSaga.new sid a.id b.id amount a.currency)).saveWallet { a.resetDailyLimitIfNewDay today with balance := a.balance - amount, dailyWithdrawalTotal := (a.resetDailyLimitIfNewDay today).dailyWithdrawalTotal + amount, lastWithdrawalDate := some today }).saveSaga { TransferSaga.new sid a.id b.id amount a.currency with state := TransferSagaState.debited }).outbox ++ [{ aggregateId := a.id, eventType := WalletEventType.fundsWithdrawn, payload := { eventType := WalletEventType.fundsWithdrawn, walletId := a.id, amount := some amount, metadata := { sagaId := some sid, transferTo := some b.id }, timestamp := now }, published := false }], idempotency := (((w.store.saveSaga (TransferSaga.new sid a.id b.id amount a.currency)).saveWallet { a.resetDailyLimitIfNewDay today with balance := a.balance - amount, dailyWithdrawalTotal := (a.resetDailyLimitIfNewDay today).dailyWithdrawalTotal + amount, lastWithdrawalDate := some today }).saveSaga { TransferSaga.new sid a.id b.id amount a.currency with state := TransferSagaState.debited }).idempotency } { b with balance := b.balance + amount }).events ++ [{ walletId := b.id, eventType := WalletEventType.fundsDeposited, currency := b.currency, amount := some amount, metadata := { sagaId := some sid, transferFrom := some a.id }, createdAt := now }], sagas := (Store.saveWallet { wallets := (((w.store.saveSaga (TransferSaga.new sid a.id b.id amount a.currency)).saveWallet { a.resetDailyLimitIfNewDay today with balance := a.balance - amount, dailyWithdrawalTotal := (a.resetDailyLimitIfNewDay today).dailyWithdrawalTotal + amount, lastWithdrawalDate := some today }).saveSaga { TransferSaga.new sid a.id b.id amount a.currency with state := TransferSagaState.debited }).wallets, events := (((w.store.saveSaga (TransferSaga.new sid a.id b.id amount a.currency)).saveWallet { a.resetDailyLimitIfNewDay today with balance := a.balance - amount, dailyWithdrawalTotal := (a.resetDailyLimitIfNewDay today).dailyWithdrawalTotal + amount, lastWithdrawalDate := some today }).saveSaga { TransferSaga.new sid a.id b.id amount a.currency with state := TransferSagaState.debited }).events ++ [{ walletId := a.id, eventType := WalletEventType.fundsWithdrawn, currency := (a.resetDailyLimitIfNewDay today).currency, amount := some amount, metadata := { sagaId := some sid, transferTo := some b.id }, createdAt := now }], sagas := (((w.store.saveSaga (TransferSaga.new sid a.id b.id amount a.currency)).saveWallet { a.resetDailyLimitIfNewDay today with balance := a.balance - amount, dailyWithdrawalTotal := (a.resetDailyLimitIfNewDay today).dailyWithdrawalTotal + amount, lastWithdrawalDate := some today }).saveSaga { TransferSaga.new sid a.id b.id amount a.currency with state := TransferSagaState.debited }).sagas, outbox := (((w.store.saveSaga (TransferSaga.new sid a.id b.id amount a.currency)).saveWallet { a.resetDailyLimitIfNewDay today with balance := a.balance - amount, dailyWithdrawalTotal := (a.resetDailyLimitIfNewDay today).dailyWithdrawalTotal + amount, lastWithdrawalDate := some today }).saveSaga { TransferSaga.new sid a.id b.id amount a.currency with state := TransferSagaState.debited }).outbox ++ [{ aggregateId := a.id, eventType := WalletEventType.fundsWithdrawn, payload := { eventType := WalletEventType.fundsWithdrawn, walletId := a.id, amount := some amount, metadata := { sagaId := some sid, transferTo := some b.id }, timestamp := now }, published := false }], idempotency := (((w.store.saveSaga (TransferSaga.new sid a.id b.id amount a.currency)).saveWallet { a.resetDailyLimitIfNewDay today with balance := a.balance - amount, dailyWithdrawalTotal := (a.resetDailyLimitIfNewDay today).dailyWithdrawalTotal + amount, lastWithdrawalDate := some today }).saveSaga { TransferSaga.new sid a.id b.id amount a.currency with state := TransferSagaState.debited }).idempotency } { b with balance := b.balance + amount }).sagas, outbox := (Store.saveWallet { wallets := (((w.store.saveSaga (TransferSaga.new sid a.id b.id amount a.currency)).saveWallet { a.resetDailyLimitIfNewDay today with balance := a.balance - amount, dailyWithdrawalTotal := (a.resetDailyLimitIfNewDay today).dailyWithdrawalTotal + amount, lastWithdrawalDate := some today }).saveSaga { TransferSaga.new sid a.id b.id amount a.currency with state := TransferSagaState.debited }).wallets, events := (((w.store.saveSaga (TransferSaga.new sid a.id b.id amount a.currency)).saveWallet { a.resetDailyLimitIfNewDay today with balance := a.balance - amount, dailyWithdrawalTotal := (a.resetDailyLimitIfNewDay today).dailyWithdrawalTotal + amount, lastWithdrawalDate := some today }).saveSaga { TransferSaga.new sid a.id b.id amount a.currency with state := TransferSagaState.debited }).events ++ [{ walletId := a.id, eventType := WalletEventType.fundsWithdrawn, currency := (a.resetDailyLimitIfNewDay today).currency, amount := some amount, metadata := { sagaId := some sid, transferTo := some b.id }, createdAt := now }], sagas := (((w.store.saveSaga (TransferSaga.new sid a.id b.id amount a.currency)).saveWallet { a.resetDailyLimitIfNewDay today with balance := a.balance - amount, dailyWithdrawalTotal := (a.resetDailyLimitIfNewDay today).dailyWithdrawalTotal + amount, lastWithdrawalDate := some today }).saveSaga { TransferSaga.new sid a.id b.id amount a.currency with state := TransferSagaState.debited }).sagas, outbox := (((w.store.saveSaga (TransferSaga.new sid a.id b.id amount a.currency)).saveWallet { a.resetDailyLimitIfNewDay today with balance := a.balance - amount, dailyWithdrawalTotal := (a.resetDailyLimitIfNewDay today).dailyWithdrawalTotal + amount, lastWithdrawalDate := some today }).saveSaga { TransferSaga.new sid a.id b.id amount a.currency with state := TransferSagaState.debited }).outbox ++ [{ aggregateId := a.id, eventType := WalletEventType.fundsWithdrawn, payload := { eventType := WalletEventType.fundsWithdrawn, walletId := a.id, amount := some amount, metadata := { sagaId := some sid, transferTo := some b.id }, timestamp := now }, published := false }], idempotency := (((w.store.saveSaga (TransferSaga.new sid a.id b.id amount a.currency)).saveWallet { a.resetDailyLimitIfNewDay today with balance := a.balance - amount, dailyWithdrawalTotal := (a.resetDailyLimitIfNewDay today).dailyWithdrawalTotal + amount, lastWithdrawalDate := some today }).saveSaga { TransferSaga.new sid a.id b.id amount a.currency with state := TransferSagaState.debited }).idempotency } { b with balance := b.balance + amount }).outbox ++ [{ aggregateId := b.id, eventType := WalletEventType.fundsDeposited, payload := { eventType := WalletEventType.fundsDeposited, walletId := b.id, amount := some amount, metadata := { sagaId := some sid, transferFrom := some a.id }, timestamp := now }, published := false }], idempotency := (Store.saveWallet { wallets := (((w.store.saveSaga (TransferSaga.new sid a.id b.id amount a.currency)).saveWallet { a.resetDailyLimitIfNewDay today with balance := a.balance - amount, dailyWithdrawalTotal := (a.resetDailyLimitIfNewDay today).dailyWithdrawalTotal + amount, lastWithdrawalDate := some today }).saveSaga { TransferSaga.new sid a.id b.id amount a.currency with state := TransferSagaState.debited }).wallets, events := (((w.store.saveSaga (TransferSaga.new sid a.id b.id amount a.currency)).saveWallet { a.resetDailyLimitIfNewDay today with balance := a.balance - amount, dailyWithdrawalTotal := (a.resetDailyLimitIfNewDay today).dailyWithdrawalTotal + amount, lastWithdrawalDate := some today }).saveSaga { TransferSaga.new sid a.id b.id amount a.currency with state := TransferSagaState.debited }).events ++ [{ walletId := a.id, eventType := WalletEventType.fundsWithdrawn, currency := (a.resetDailyLimitIfNewDay today).currency, amount := some amount, metadata := { sagaId := some sid, transferTo := some b.id }, createdAt := now }], sagas := (((w.store.saveSaga (TransferSaga.new sid a.id b.id amount a.currency)).saveWallet { a.resetDailyLimitIfNewDay today with balance := a.balance - amount, dailyWithdrawalTotal := (a.resetDailyLimitIfNewDay today).dailyWithdrawalTotal + amount, lastWithdrawalDate := some today }).saveSaga { TransferSaga.new sid a.id b.id amount a.currency with state := TransferSagaState.debited }).sagas, outbox := (((w.store.saveSaga (TransferSaga.new sid a.id b.id amount a.currency)).saveWallet { a.resetDailyLimitIfNewDay today with balance := a.balance - amount, dailyWithdrawalTotal := (a.resetDailyLimitIfNewDay today).dailyWithdrawalTotal + amount, lastWithdrawalDate := some today }).saveSaga { TransferSaga.new sid a.id b.id amount a.currency with state := TransferSagaState.debited }).outbox ++ [{ aggregateId := a.id, eventType := WalletEventType.fundsWithdrawn, payload := { eventType := WalletEventType.fundsWithdrawn, walletId := a.id, amount := some amount, metadata := { sagaId := some sid, transferTo := some b.id }, timestamp := now }, published := false }], idempotency := (((w.store.saveSaga (TransferSaga.new sid a.id b.id amount a.currency)).saveWallet { a.resetDailyLimitIfNewDay today with balance := a.balance - amount, dailyWithdrawalTotal := (a.resetDailyLimitIfNewDay today).dailyWithdrawalTotal + amount, lastWithdrawalDate := some today }).saveSaga { TransferSaga.new sid a.id b.id amount a.currency with state := TransferSagaState.debited }).idempotency } { b with balance := b.balance + amount }).idempotency } { { TransferSaga.new sid a.id b.id amount a.currency with state := TransferSagaState.debited } with state := TransferSagaState.completed }) (TransferSaga.markAsFailed { { TransferSaga.new sid a.id b.id amount a.currency with state := TransferSagaState.debited } with state := TransferSagaState.completed } (AppError.message AppError.busDisconnected)) a.id).trans ((Store.findWallet_saveSaga { wallets := (Store.saveWallet { wallets := (((w.store.saveSaga (TransferSaga.new sid a.id b.id amount a.currency)).saveWallet { a.resetDailyLimitIfNewDay today with balance := a.balance - amount, dailyWithdrawalTotal := (a.resetDailyLimitIfNewDay today).dailyWithdrawalTotal + amount, lastWithdrawalDate := some today }).saveSaga { TransferSaga.new sid a.id b.id amount a.currency with state := TransferSagaState.debited }).wallets, events := (((w.store.saveSaga (TransferSaga.new sid a.id b.id amount a.currency)).saveWallet { a.resetDailyLimitIfNewDay today with balance := a.balance - amount, dailyWithdrawalTotal := (a.resetDailyLimitIfNewDay today).dailyWithdrawalTotal + amount, lastWithdrawalDate := some today }).saveSaga { TransferSaga.new sid a.id b.id amount a.currency with state := TransferSagaState.debited }).events ++ [{ walletId := a.id, eventType := WalletEventType.fundsWithdrawn, currency := (a.resetDailyLimitIfNewDay today).currency, amount := some amount, metadata := { sagaId := some sid, transferTo := some b.id }, createdAt := now }], sagas := (((w.store.saveSaga (TransferSaga.new sid a.id b.id amount a.currency)).saveWallet { a.resetDailyLimitIfNewDay today with balance := a.balance - amount, dailyWithdrawalTotal := (a.resetDailyLimitIfNewDay today).dailyWithdrawalTotal + amount, lastWithdrawalDate := some today }).saveSaga { TransferSaga.new sid a.id b.id amount a.currency with state := TransferSagaState.debited }).sagas, outbox := (((w.store.saveSaga (TransferSaga.new sid a.id b.id amount a.currency)).saveWallet { a.resetDailyLimitIfNewDay today with balance := a.balance - amount, dailyWithdrawalTotal := (a.resetDailyLimitIfNewDay today).dailyWithdrawalTotal + amount, lastWithdrawalDate := some today }).saveSaga { TransferSaga.new sid a.id b.id amount a.currency with state := TransferSagaState.debited }).outbox ++ [{ aggregateId := a.id, eventType := WalletEventType.fundsWithdrawn, payload := { eventType := WalletEventType.fundsWithdrawn, walletId := a.id, amount := some amount, metadata := { sagaId := some sid, transferTo := some b.id }, timestamp := now }, published := false }], idempotency := (((w.store.saveSaga (TransferSaga.new sid a.id b.id amount a.currency)).saveWallet { a.resetDailyLimitIfNewDay today with balance := a.balance - amount, dailyWithdrawalTotal := (a.resetDailyLimitIfNewDay today).dailyWithdrawalTotal + amount, lastWithdrawalDate := some today }).saveSaga { TransferSaga.new sid a.id b.id amount a.currency with state := TransferSagaState.debited }).idempotency } { b with balance := b.balance + amount }).wallets, events := (Store.saveWallet { wallets := (((w.store.saveSaga (TransferSaga.new sid a.id b.id amount a.currency)).saveWallet { a.resetDailyLimitIfNewDay today with balance := a.balance - amount, dailyWithdrawalTotal := (a.resetDailyLimitIfNewDay today).dailyWithdrawalTotal + amount, lastWithdrawalDate := some today }).saveSaga { TransferSaga.new sid a.id b.id amount a.currency with state := TransferSagaState.debited }).wallets, events := (((w.store.saveSaga (TransferSaga.new sid a.id b.id amount a.currency)).saveWallet { a.resetDailyLimitIfNewDay today with balance := a.balance - amount, dailyWithdrawalTotal := (a.resetDailyLimitIfNewDay today).dailyWithdrawalTotal + amount, lastWithdrawalDate := some today }).saveSaga { TransferSaga.new sid a.id b.id amount a.currency with state := TransferSagaState.debited }).events ++ [{ walletId := a.id, eventType := WalletEventType.fundsWithdrawn, currency := (a.resetDailyLimitIfNewDay today).currency, amount := some amount, metadata := { sagaId := some sid, transferTo := some b.id }, createdAt := now }], sagas := (((w.store.saveSaga (TransferSaga.new sid a.id b.id amount a.currency)).saveWallet { a.resetDailyLimitIfNewDay today with balance := a.balance - amount, dailyWithdrawalTotal := (a.resetDailyLimitIfNewDay today).dailyWithdrawalTotal + amount, lastWithdrawalDate := some today }).saveSaga { TransferSaga.new sid a.id b.id amount a.currency with state := TransferSagaState.debited }).sagas, outbox := (((w.store.saveSaga (TransferSaga.new sid a.id b.id amount a.currency)).saveWallet { a.resetDailyLimitIfNewDay today with balance := a.balance - amount, dailyWithdrawalTotal := (a.resetDailyLimitIfNewDay today).dailyWithdrawalTotal + amount, lastWithdrawalDate := some today }).saveSaga { TransferSaga.new sid a.id b.id amount a.currency with state := TransferSagaState.debited }).outbox ++ [{ aggregateId := a.id, eventType := WalletEventType.fundsWithdrawn, payload := { eventType := WalletEventType.fundsWithdrawn, walletId := a.id, amount := some amount, metadata := { sagaId := some sid, transferTo := some b.id }, timestamp := now }, published := false }], idempotency := (((w.store.saveSaga (TransferSaga.new sid a.id b.id amount a.currency)).saveWallet { a.resetDailyLimitIfNewDay today with balance := a.balance - amount, dailyWithdrawalTotal := (a.resetDailyLimitIfNewDay today).dailyWithdrawalTotal + amount, lastWithdrawalDate := some today }).saveSaga { TransferSaga.new sid a.id b.id amount a.currency with state := TransferSagaState.debited }).idempotency } { b with balance := b.balance + amount }).events ++ [{ walletId := b.id, eventType := WalletEventType.fundsDeposited, currency := b.currency, amount := some amount, metadata := { sagaId := some sid, transferFrom := some a.id }, createdAt := now }], sagas := (Store.saveWallet { wallets := (((w.store.saveSaga (TransferSaga.new sid a.id b.id amount a.currency)).saveWallet { a.resetDailyLimitIfNewDay today with balance := a.balance - amount, dailyWithdrawalTotal := (a.resetDailyLimitIfNewDay today).dailyWithdrawalTotal + amount, lastWithdrawalDate := some today }).saveSaga { TransferSaga.new sid a.id b.id amount a.currency with state := TransferSagaState.debited }).wallets, events := (((w.store.saveSaga (TransferSaga.new sid a.id b.id amount a.currency)).saveWallet { a.resetDailyLimitIfNewDay today with balance := a.balance - amount, dailyWithdrawalTotal := (a.resetDailyLimitIfNewDay today).dailyWithdrawalTotal + amount, lastWithdrawalDate := some today }).saveSaga { TransferSaga.new sid a.id b.id amount a.currency with state := TransferSagaState.debited }).events ++ [{ walletId := a.id, eventType := WalletEventType.fundsWithdrawn, currency := (a.resetDailyLimitIfNewDay today).currency, amount := some amount, metadata := { sagaId := some sid, transferTo := some b.id }, createdAt := now }], sagas := (((w.store.saveSaga (TransferSaga.new sid a.id b.id amount a.currency)).saveWallet { a.resetDailyLimitIfNewDay today with balance := a.balance - amount, dailyWithdrawalTotal := (a.resetDailyLimitIfNewDay today).dailyWithdrawalTotal + amount, lastWithdrawalDate := some today }).saveSaga { TransferSaga.new sid a.id b.id amount a.currency with state := TransferSagaState.debited }).sagas, outbox := (((w.store.saveSaga (TransferSaga.new sid a.id b.id amount a.currency)).saveWallet { a.resetDailyLimitIfNewDay today with balance := a.balance - amount, dailyWithdrawalTotal := (a.resetDailyLimitIfNewDay today).dailyWithdrawalTotal + amount, lastWithdrawalDate := some today }).saveSaga { TransferSaga.new sid a.id b.id amount a.currency with state := TransferSagaState.debited }).outbox ++ [{ aggregateId := a.id, eventType := WalletEventType.fundsWithdrawn, payload := { eventType := WalletEventType.fundsWithdrawn, walletId := a.id, amount := some amount, metadata := { sagaId := some sid, transferTo := some b.id }, timestamp := now }, published := false }], idempotency := (((w.store.saveSaga (TransferSaga.new sid a.id b.id amount a.currency)).saveWallet { a.resetDailyLimitIfNewDay today with balance := a.balance - amount, dailyWithdrawalTotal := (a.resetDailyLimitIfNewDay today).dailyWithdrawalTotal + amount, lastWithdrawalDate := some today }).saveSaga { TransferSaga.new sid a.id b.id amount a.currency with state := TransferSagaState.debited }).idempotency } { b with balance := b.balance + amount }).sagas, outbox := (Store.saveWallet { wallets := (((w.store.saveSaga (TransferSaga.new sid a.id b.id amount a.currency)).saveWallet { a.resetDailyLimitIfNewDay today with balance := a.balance - amount, dailyWithdrawalTotal := (a.resetDailyLimitIfNewDay today).dailyWithdrawalTotal + amount, lastWithdrawalDate := some today }).saveSaga { TransferSaga.new sid a.id b.id amount a.currency with state := TransferSagaState.debited }).wallets, events := (((w.store.saveSaga (TransferSaga.new sid a.id b.id amount a.currency)).saveWallet { a.resetDailyLimitIfNewDay today with balance := a.balance - amount, dailyWithdrawalTotal := (a.resetDailyLimitIfNewDay today).dailyWithdrawalTotal + amount, lastWithdrawalDate := some today }).saveSaga { TransferSaga.new sid a.id b.id amount a.currency with state := TransferSagaState.debited }).events ++ [{ walletId := a.id, eventType := WalletEventType.fundsWithdrawn, currency := (a.resetDailyLimitIfNewDay today).currency, amount := some amount, metadata := { sagaId := some sid, transferTo := some b.id }, createdAt := now }], sagas := (((w.store.saveSaga (TransferSaga.new sid a.id b.id amount a.currency)).saveWallet { a.resetDailyLimitIfNewDay today with balance := a.balance - amount, dailyWithdrawalTotal := (a.resetDailyLimitIfNewDay today).dailyWithdrawalTotal + amount, lastWithdrawalDate := some today }).saveSaga { TransferSaga.new sid a.id b.id amount a.currency with state := TransferSagaState.debited }).sagas, outbox := (((w.store.saveSaga (TransferSaga.new sid a.id b.id amount a.currency)).saveWallet { a.resetDailyLimitIfNewDay today with balance := a.balance - amount, dailyWithdrawalTotal := (a.resetDailyLimitIfNewDay today).dailyWithdrawalTotal + amount, lastWithdrawalDate := some today }).saveSaga { TransferSaga.new sid a.id b.id amount a.currency with state := TransferSagaState.debited }).outbox ++ [{ aggregateId := a.id, eventType := WalletEventType.fundsWithdrawn, payload := { eventType := WalletEventType.fundsWithdrawn, walletId := a.id, amount := some amount, metadata := { sagaId := some sid, transferTo := some b.id }, timestamp := now }, published := false }], idempotency := (((w.store.saveSaga (TransferSaga.new sid a.id b.id amount a.currency)).saveWallet { a.resetDailyLimitIfNewDay today with balance := a.balance - amount, dailyWithdrawalTotal := (a.resetDailyLimitIfNewDay today).dailyWithdrawalTotal + amount, lastWithdrawalDate := some today }).saveSaga { TransferSaga.new sid a.id b.id amount a.currency with state := TransferSagaState.debited }).idempotency } { b with balance := b.balance + amount }).outbox ++ [{ aggregateId := b.id, eventType := WalletEventType.fundsDeposited, payload := { eventType := WalletEventType.fundsDeposited, walletId := b.id, amount := some amount, metadata := { sagaId := some sid, transferFrom := some a.id }, timestamp := now }, published := false }], idempotency := (Store.saveWallet { wallets := (((w.store.saveSaga (TransferSaga.new sid a.id b.id amount a.currency)).saveWallet { a.resetDailyLimitIfNewDay today with balance := a.balance - amount, dailyWithdrawalTotal := (a.resetDailyLimitIfNewDay today).dailyWithdrawalTotal + amount, lastWithdrawalDate := some today }).saveSaga { TransferSaga.new sid a.id b.id amount a.currency with state := TransferSagaState.debited }).wallets, events := (((w.store.saveSaga (TransferSaga.new sid a.id b.id amount a.currency)).saveWallet { a.resetDailyLimitIfNewDay today with balance := a.balance - amount, dailyWithdrawalTotal := (a.resetDailyLimitIfNewDay today).dailyWithdrawalTotal + amount, lastWithdrawalDate := some today }).saveSaga { TransferSaga.new sid a.id b.id amount a.currency with state := TransferSagaState.debited }).events ++ [{ walletId := a.id, eventType := WalletEventType.fundsWithdrawn, currency := (a.resetDailyLimitIfNewDay today).currency, amount := some amount, metadata := { sagaId := some sid, transferTo := some b.id }, createdAt := now }], sagas := (((w.store.saveSaga (TransferSaga.new sid a.id b.id amount a.currency)).saveWallet { a.resetDailyLimitIfNewDay today with balance := a.balance - amount, dailyWithdrawalTotal := (a.resetDailyLimitIfNewDay today).dailyWithdrawalTotal + amount, lastWithdrawalDate := some today }).saveSaga { TransferSaga.new sid a.id b.id amount a.currency with state := TransferSagaState.debited }).sagas, outbox := (((w.store.saveSaga (TransferSaga.new sid a.id b.id amount a.currency)).saveWallet { a.resetDailyLimitIfNewDay today with balance := a.balance - amount, dailyWithdrawalTotal := (a.resetDailyLimitIfNewDay today).dailyWithdrawalTotal + amount, lastWithdrawalDate := some today }).saveSaga { TransferSaga.new sid a.id b.id amount a.currency with state := TransferSagaState.debited }).outbox ++ [{ aggregateId := a.id, eventType := WalletEventType.fundsWithdrawn, payload := { eventType := WalletEventType.fundsWithdrawn, walletId := a.id, amount := some amount, metadata := { sagaId := some sid, transferTo := some b.id }, timestamp := now }, published := false }], idempotency := (((w.store.saveSaga (TransferSaga.new sid a.id b.id amount a.currency)).saveWallet { a.resetDailyLimitIfNewDay today with balance := a.balance - amount, dailyWithdrawalTotal := (a.resetDailyLimitIfNewDay today).dailyWithdrawalTotal + amount, lastWithdrawalDate := some today }).saveSaga { TransferSaga.new sid a.id b.id amount a.currency with state := TransferSagaState.debited }).idempotency } { b with balance := b.balance + amount }).idempotency } { { TransferSaga.new sid a.id b.id amount a.currency with state := TransferSagaState.debited } with state := TransferSagaState.completed } a.id).trans ((Store.findWallet_congr { wallets := (Store.saveWallet { wallets := (((w.store.saveSaga (TransferSaga.new sid a.id b.id amount a.currency)).saveWallet { a.resetDailyLimitIfNewDay today with balance := a.balance - amount, dailyWithdrawalTotal := (a.resetDailyLimitIfNewDay today).dailyWithdrawalTotal + amount, lastWithdrawalDate := some today }).saveSaga { TransferSaga.new sid a.id b.id amount a.currency with state := TransferSagaState.debited }).wallets, events := (((w.store.saveSaga (TransferSaga.new sid a.id b.id amount a.currency)).saveWallet { a.resetDailyLimitIfNewDay today with balance := a.balance - amount, dailyWithdrawalTotal := (a.resetDailyLimitIfNewDay today).dailyWithdrawalTotal + amount, lastWithdrawalDate := some today }).saveSaga { TransferSaga.new sid a.id b.id amount a.currency with state := TransferSagaState.debited }).events ++ [{ walletId := a.id, eventType := WalletEventType.fundsWithdrawn, currency := (a.resetDailyLimitIfNewDay today).currency, amount := some amount, metadata := { sagaId := some sid, transferTo := some b.id }, createdAt := now }], sagas := (((w.store.saveSaga (TransferSaga.new sid a.id b.id amount a.currency)).saveWallet { a.resetDailyLimitIfNewDay today with balance := a.balance - amount, dailyWithdrawalTotal := (a.resetDailyLimitIfNewDay today).dailyWithdrawalTotal + amount, lastWithdrawalDate := some today }).saveSaga { TransferSaga.new sid a.id b.id amount a.currency with state := TransferSagaState.debited }).sagas, outbox := (((w.store.saveSaga (TransferSaga.new sid a.id b.id amount a.currency)).saveWallet { a.resetDailyLimitIfNewDay today with balance := a.balance - amount, dailyWithdrawalTotal := (a.resetDailyLimitIfNewDay today).dailyWithdrawalTotal + amount, lastWithdrawalDate := some today }).saveSaga { TransferSaga.new sid a.id b.id amount a.currency with state := TransferSagaState.debited }).outbox ++ [{ aggregateId := a.id, eventType := WalletEventType.fundsWithdrawn, payload := { eventType := WalletEventType.fundsWithdrawn, walletId := a.id, amount := some amount, metadata := { sagaId := some sid, transferTo := some b.id }, timestamp := now }, published := false }], idempotency := (((w.store.saveSaga (TransferSaga.new sid a.id b.id amount a.currency)).saveWallet { a.resetDailyLimitIfNewDay today with balance := a.balance - amount, dailyWithdrawalTotal := (a.resetDailyLimitIfNewDay today).dailyWithdrawalTotal + amount, lastWithdrawalDate := some today }).saveSaga { TransferSaga.new sid a.id b.id amount a.currency with state := TransferSagaState.debited }).idempotency } { b with balance := b.balance + amount }).wallets, events := (Store.saveWallet { wallets := (((w.store.saveSaga (TransferSaga.new sid a.id b.id amount a.currency)).saveWallet { a.resetDailyLimitIfNewDay today with balance := a.balance - amount, dailyWithdrawalTotal := (a.resetDailyLimitIfNewDay today).dailyWithdrawalTotal + amount, lastWithdrawalDate := some today }).saveSaga { TransferSaga.new sid a.id b.id amount a.currency with state := TransferSagaState.debited }).wallets, events := (((w.store.saveSaga (TransferSaga.new sid a.id b.id amount a.currency)).saveWallet { a.resetDailyLimitIfNewDay today with balance := a.balance - amount, dailyWithdrawalTotal := (a.resetDailyLimitIfNewDay today).dailyWithdrawalTotal + amount, lastWithdrawalDate := some today }).saveSaga { TransferSaga.new sid a.id b.id amount a.currency with state := TransferSagaState.debited }).events ++ [{ walletId := a.id, eventType := WalletEventType.fundsWithdrawn, currency := (a.resetDailyLimitIfNewDay today).currency, amount := some amount, metadata := { sagaId := some sid, transferTo := some b.id }, createdAt := now }], sagas := (((w.store.saveSaga (TransferSaga.new sid a.id b.id amount a.currency)).saveWallet { a.resetDailyLimitIfNewDay today with balance := a.balance - amount, dailyWithdrawalTotal := (a.resetDailyLimitIfNewDay today).dailyWithdrawalTotal + amount, lastWithdrawalDate := some today }).saveSaga { TransferSaga.new sid a.id b.id amount a.currency with state := TransferSagaState.debited }).sagas, outbox := (((w.store.saveSaga (TransferSaga.new sid a.id b.id amount a.currency)).saveWallet { a.resetDailyLimitIfNewDay today with balance := a.balance - amount, dailyWithdrawalTotal := (a.resetDailyLimitIfNewDay today).dailyWithdrawalTotal + amount, lastWithdrawalDate := some today }).saveSaga { TransferSaga.new sid a.id b.id amount a.currency with state := TransferSagaState.debited }).outbox ++ [{ aggregateId := a.id, eventType := WalletEventType.fundsWithdrawn, payload := { eventType := WalletEventType.fundsWithdrawn, walletId := a.id, amount := some amount, metadata := { sagaId := some sid, transferTo := some b.id }, timestamp := now }, published := false }], idempotency := (((w.store.saveSaga (TransferSaga.new sid a.id b.id amount a.currency)).saveWallet { a.resetDailyLimitIfNewDay today with balance := a.balance - amount, dailyWithdrawalTotal := (a.resetDailyLimitIfNewDay today).dailyWithdrawalTotal + amount, lastWithdrawalDate := some today }).saveSaga { TransferSaga.new sid a.id b.id amount a.currency with state := TransferSagaState.debited }).idempotency } { b with balance := b.balance + amount }).events ++ [{ walletId := b.id, eventType := WalletEventType.fundsDeposited, currency := b.currency, amount := some amount, metadata := { sagaId := some sid, transferFrom := some a.id }, createdAt := now }], sagas := (Store.saveWallet { wallets := (((w.store.saveSaga (TransferSaga.new sid a.id b.id amount a.currency)).saveWallet { a.resetDailyLimitIfNewDay today with balance := a.balance - amount, dailyWithdrawalTotal := (a.resetDailyLimitIfNewDay today).dailyWithdrawalTotal + amount, lastWithdrawalDate := some today }).saveSaga { TransferSaga.new sid a.id b.id amount a.currency with state := TransferSagaState.debited }).wallets, events := (((w.store.saveSaga (TransferSaga.new sid a.id b.id amount a.currency)).saveWallet { a.resetDailyLimitIfNewDay today with balance := a.balance - amount, dailyWithdrawalTotal := (a.resetDailyLimitIfNewDay today).dailyWithdrawalTotal + amount, lastWithdrawalDate := some today }).saveSaga { TransferSaga.new sid a.id b.id amount a.currency with state := TransferSagaState.debited }).events ++ [{ walletId := a.id, eventType := WalletEventType.fundsWithdrawn, currency := (a.resetDailyLimitIfNewDay today).currency, amount := some amount, metadata := { sagaId := some sid, transferTo := some b.id }, createdAt := now }], sagas := (((w.store.saveSaga (TransferSaga.new sid a.id b.id amount a.currency)).saveWallet { a.resetDailyLimitIfNewDay today with balance := a.balance - amount, dailyWithdrawalTotal := (a.resetDailyLimitIfNewDay today).dailyWithdrawalTotal + amount, lastWithdrawalDate := some today }).saveSaga { TransferSaga.new sid a.id b.id amount a.currency with state := TransferSagaState.debited }).sagas, outbox := (((w.store.saveSaga (TransferSaga.new sid a.id b.id amount a.currency)).saveWallet { a.resetDailyLimitIfNewDay today with balance := a.balance - amount, dailyWithdrawalTotal := (a.resetDailyLimitIfNewDay today).dailyWithdrawalTotal + amount, lastWithdrawalDate := some today }).saveSaga { TransferSaga.new sid a.id b.id amount a.currency with state := TransferSagaState.debited }).outbox ++ [{ aggregateId := a.id, eventType := WalletEventType.fundsWithdrawn, payload := { eventType := WalletEventType.fundsWithdrawn, walletId := a.id, amount := some amount, metadata := { sagaId := some sid, transferTo := some b.id }, timestamp := now }, published := false }], idempotency := (((w.store.saveSaga (TransferSaga.new sid a.id b.id amount a.currency)).saveWallet { a.resetDailyLimitIfNewDay today with balance := a.balance - amount, dailyWithdrawalTotal := (a.resetDailyLimitIfNewDay today).dailyWithdrawalTotal + amount, lastWithdrawalDate := some today }).saveSaga { TransferSaga.new sid a.id b.id amount a.currency with state := TransferSagaState.debited }).idempotency } { b with balance := b.balance + amount }).sagas, outbox := (Store.saveWallet { wallets := (((w.store.saveSaga (TransferSaga.new sid a.id b.id amount a.currency)).saveWallet { a.resetDailyLimitIfNewDay today with balance := a.balance - amount, dailyWithdrawalTotal := (a.resetDailyLimitIfNewDay today).dailyWithdrawalTotal + amount, lastWithdrawalDate := some today }).saveSaga { TransferSaga.new sid a.id b.id amount a.currency with state := TransferSagaState.debited }).wallets, events := (((w.store.saveSaga (TransferSaga.new sid a.id b.id amount a.currency)).saveWallet { a.resetDailyLimitIfNewDay today with balance := a.balance - amount, dailyWithdrawalTotal := (a.resetDailyLimitIfNewDay today).dailyWithdrawalTotal + amount, lastWithdrawalDate := some today }).saveSaga { TransferSaga.new sid a.id b.id amount a.currency with state := TransferSagaState.debited }).events ++ [{ walletId := a.id, eventType := WalletEventType.fundsWithdrawn, currency := (a.resetDailyLimitIfNewDay today).currency, amount := some amount, metadata := { sagaId := some sid, transferTo := some b.id }, createdAt := now }], sagas := (((w.store.saveSaga (TransferSaga.new sid a.id b.id amount a.currency)).saveWallet { a.resetDailyLimitIfNewDay today with balance := a.balance - amount, dailyWithdrawalTotal := (a.resetDailyLimitIfNewDay today).dailyWithdrawalTotal + amount, lastWithdrawalDate := some today }).saveSaga { TransferSaga.new sid a.id b.id amount a.currency with state := TransferSagaState.debited }).sagas, outbox := (((w.store.saveSaga (TransferSaga.new sid a.id b.id amount a.currency)).saveWallet { a.resetDailyLimitIfNewDay today with balance := a.balance - amount, dailyWithdrawalTotal := (a.resetDailyLimitIfNewDay today).dailyWithdrawalTotal + amount, lastWithdrawalDate := some today }).saveSaga { TransferSaga.new sid a.id b.id amount a.currency with state := TransferSagaState.debited }).outbox ++ [{ aggregateId := a.id, eventType := WalletEventType.fundsWithdrawn, payload := { eventType := WalletEventType.fundsWithdrawn, walletId := a.id, amount := some amount, metadata := { sagaId := some sid, transferTo := some b.id }, timestamp := now }, published := false }], idempotency := (((w.store.saveSaga (TransferSaga.new sid a.id b.id amount a.currency)).saveWallet { a.resetDailyLimitIfNewDay today with balance := a.balance - amount, dailyWithdrawalTotal := (a.resetDailyLimitIfNewDay today).dailyWithdrawalTotal + amount, lastWithdrawalDate := some today }).saveSaga { TransferSaga.new sid a.id b.id amount a.currency with state := TransferSagaState.debited }).idempotency } { b with balance := b.balance + amount }).outbox ++ [{ aggregateId := b.id, eventType := WalletEventType.fundsDeposited, payload := { eventType := WalletEventType.fundsDeposited, walletId := b.id, amount := some amount, metadata := { sagaId := some sid, transferFrom := some a.id }, timestamp := now }, published := false }], idempotency := (Store.saveWallet { wallets := (((w.store.saveSaga (TransferSaga.new sid a.id b.id amount a.currency)).saveWallet { a.resetDailyLimitIfNewDay today with balance := a.balance - amount, dailyWithdrawalTotal := (a.resetDailyLimitIfNewDay today).dailyWithdrawalTotal + amount, lastWithdrawalDate := some today }).saveSaga { TransferSaga.new sid a.id b.id amount a.currency with state := TransferSagaState.debited }).wallets, events := (((w.store.saveSaga (TransferSaga.new sid a.id b.id amount a.currency)).saveWallet { a.resetDailyLimitIfNewDay today with balance := a.balance - amount, dailyWithdrawalTotal := (a.resetDailyLimitIfNewDay today).dailyWithdrawalTotal + amount, lastWithdrawalDate := some today }).saveSaga { TransferSaga.new sid a.id b.id amount a.currency with state := TransferSagaState.debited }).events ++ [{ walletId := a.id, eventType := WalletEventType.fundsWithdrawn, currency := (a.resetDailyLimitIfNewDay today).currency, amount := some amount, metadata := { sagaId := some sid, transferTo := some b.id }, createdAt := now }], sagas := (((w.store.saveSaga (TransferSaga.new sid a.id b.id amount a.currency)).saveWallet { a.resetDailyLimitIfNewDay today with balance := a.balance - amount, dailyWithdrawalTotal := (a.resetDailyLimitIfNewDay today).dailyWithdrawalTotal + amount, lastWithdrawalDate := some today }).saveSaga { TransferSaga.new sid a.id b.id amount a.currency with state := TransferSagaState.debited }).sagas, outbox := (((w.store.saveSaga (TransferSaga.new sid a.id b.id amount a.currency)).saveWallet { a.resetDailyLimitIfNewDay today with balance := a.balance - amount, dailyWithdrawalTotal := (a.resetDailyLimitIfNewDay today).dailyWithdrawalTotal + amount, lastWithdrawalDate := some today }).saveSaga { TransferSaga.new sid a.id b.id amount a.currency with state := TransferSagaState.debited }).outbox ++ [{ aggregateId := a.id, eventType := WalletEventType.fundsWithdrawn, payload := { eventType := WalletEventType.fundsWithdrawn, walletId := a.id, amount := some amount, metadata := { sagaId := some sid, transferTo := some b.id }, timestamp := now }, published := false }], idempotency := (((w.store.saveSaga (TransferSaga.new sid a.id b.id amount a.currency)).saveWallet { a.resetDailyLimitIfNewDay today with balance := a.balance - amount, dailyWithdrawalTotal := (a.resetDailyLimitIfNewDay today).dailyWithdrawalTotal + amount, lastWithdrawalDate := some today }).saveSaga { TransferSaga.new sid a.id b.id amount a.currency with state := TransferSagaState.debited }).idempotency } { b with balance := b.balance + amount }).idempotency } (Store.saveWallet { wallets := (((w.store.saveSaga (TransferSaga.new sid a.id b.id amount a.currency)).saveWallet { a.resetDailyLimitIfNewDay today with balance := a.balance - amount, dailyWithdrawalTotal := (a.resetDailyLimitIfNewDay today).dailyWithdrawalTotal + amount, lastWithdrawalDate := some today }).saveSaga { TransferSaga.new sid a.id b.id amount a.currency with state := TransferSagaState.debited }).wallets, events := (((w.store.saveSaga (TransferSaga.new sid a.id b.id amount a.currency)).saveWallet { a.resetDailyLimitIfNewDay today with balance := a.balance - amount, dailyWithdrawalTotal := (a.resetDailyLimitIfNewDay today).dailyWithdrawalTotal + amount, lastWithdrawalDate := some today }).saveSaga { TransferSaga.new sid a.id b.id amount a.currency with state := TransferSagaState.debited }).events ++ [{ walletId := a.id, eventType := WalletEventType.fundsWithdrawn, currency := (a.resetDailyLimitIfNewDay today).currency, amount := some amount, metadata := { sagaId := some sid, transferTo := some b.id }, createdAt := now }], sagas := (((w.store.saveSaga (TransferSaga.new sid a.id b.id amount a.currency)).saveWallet { a.resetDailyLimitIfNewDay today with balance := a.balance - amount, dailyWithdrawalTotal := (a.resetDailyLimitIfNewDay today).dailyWithdrawalTotal + amount, lastWithdrawalDate := some today }).saveSaga { TransferSaga.new sid a.id b.id amount a.currency with state := TransferSagaState.debited }).sagas, outbox := (((w.store.saveSaga (TransferSaga.new sid a.id b.id amount a.currency)).saveWallet { a.resetDailyLimitIfNewDay today with balance := a.balance - amount, dailyWithdrawalTotal := (a.resetDailyLimitIfNewDay today).dailyWithdrawalTotal + amount, lastWithdrawalDate := some today }).saveSaga { TransferSaga.new sid a.id b.id amount a.currency with state := TransferSagaState.debited }).outbox ++ [{ aggregateId := a.id, eventType := WalletEventType.fundsWithdrawn, payload := { eventType := WalletEventType.fundsWithdrawn, walletId := a.id, amount := some amount, metadata := { sagaId := some sid, transferTo := some b.id }, timestamp := now }, published := false }], idempotency := (((w.store.saveSaga (TransferSaga.new sid a.id b.id amount a.currency)).saveWallet { a.resetDailyLimitIfNewDay today with balance := a.balance - amount, dailyWithdrawalTotal := (a.resetDailyLimitIfNewDay today).dailyWithdrawalTotal + amount, lastWithdrawalDate := some today }).saveSaga { TransferSaga.new sid a.id b.id amount a.currency with state := TransferSagaState.debited }).idempotency } { b with balance := b.balance + amount }) a.id rfl).trans ((Store.findWallet_saveWallet_ne { wallets := (((w.store.saveSaga (TransferSaga.new sid a.id b.id amount a.currency)).saveWallet { a.resetDailyLimitIfNewDay today with balance := a.balance - amount, dailyWithdrawalTotal := (a.resetDailyLimitIfNewDay today).dailyWithdrawalTotal + amount, lastWithdrawalDate := some today }).saveSaga { TransferSaga.new sid a.id b.id amount a.currency with state := TransferSagaState.debited }).wallets, events := (((w.store.saveSaga (TransferSaga.new sid a.id b.id amount a.currency)).saveWallet { a.resetDailyLimitIfNewDay today with balance := a.balance - amount, dailyWithdrawalTotal := (a.resetDailyLimitIfNewDay today).dailyWithdrawalTotal + amount, lastWithdrawalDate := some today }).saveSaga { TransferSaga.new sid a.id b.id amount a.currency with state := TransferSagaState.debited }).events ++ [{ walletId := a.id, eventType := WalletEventType.fundsWithdrawn, currency := (a.resetDailyLimitIfNewDay today).currency, amount := some amount, metadata := { sagaId := some sid, transferTo := some b.id }, createdAt := now }], sagas := (((w.store.saveSaga (TransferSaga.new sid a.id b.id amount a.currency)).saveWallet { a.resetDailyLimitIfNewDay today with balance := a.balance - amount, dailyWithdrawalTotal := (a.resetDailyLimitIfNewDay today).dailyWithdrawalTotal + amount, lastWithdrawalDate := some today }).saveSaga { TransferSaga.new sid a.id b.id amount a.currency with state := TransferSagaState.debited }).sagas, outbox := (((w.store.saveSaga (TransferSaga.new sid a.id b.id amount a.currency)).saveWallet { a.resetDailyLimitIfNewDay today with balance := a.balance - amount, dailyWithdrawalTotal := (a.resetDailyLimitIfNewDay today).dailyWithdrawalTotal + amount, lastWithdrawalDate := some today }).saveSaga { TransferSaga.new sid a.id b.id amount a.currency with state := TransferSagaState.debited }).outbox ++ [{ aggregateId := a.id, eventType := WalletEventType.fundsWithdrawn, payload := { eventType := WalletEventType.fundsWithdrawn, walletId := a.id, amount := some amount, metadata := { sagaId := some sid, transferTo := some b.id }, timestamp := now }, published := false }], idempotency := (((w.store.saveSaga (TransferSaga.new sid a.id b.id amount a.currency)).saveWallet { a.resetDailyLimitIfNewDay today with balance := a.balance - amount, dailyWithdrawalTotal := (a.resetDailyLimitIfNewDay today).dailyWithdrawalTotal + amount, lastWithdrawalDate := some today }).saveSaga { TransferSaga.new sid a.id b.id amount a.currency with state := TransferSagaState.debited }).idempotency } { b with balance := b.balance + amount } a.id hne).trans ((Store.findWallet_congr { wallets := (((w.store.saveSaga (TransferSaga.new sid a.id b.id amount a.currency)).saveWallet { a.resetDailyLimitIfNewDay today with balance := a.balance - amount, dailyWithdrawalTotal := (a.resetDailyLimitIfNewDay today).dailyWithdrawalTotal + amount, lastWithdrawalDate := some today }).saveSaga { TransferSaga.new sid a.id b.id amount a.currency with state := TransferSagaState.debited }).wallets, events := (((w.store.saveSaga (TransferSaga.new sid a.id b.id amount a.currency)).saveWallet { a.resetDailyLimitIfNewDay today with balance := a.balance - amount, dailyWithdrawalTotal := (a.resetDailyLimitIfNewDay today).dailyWithdrawalTotal + amount, lastWithdrawalDate := some today }).saveSaga { TransferSaga.new sid a.id b.id amount a.currency with state := TransferSagaState.debited }).events ++ [{ walletId := a.id, eventType := WalletEventType.fundsWithdrawn, currency := (a.resetDailyLimitIfNewDay today).currency, amount := some amount, metadata := { sagaId := some sid, transferTo := some b.id }, createdAt := now }], sagas := (((w.store.saveSaga (TransferSaga.new sid a.id b.id amount a.currency)).saveWallet { a.resetDailyLimitIfNewDay today with balance := a.balance - amount, dailyWithdrawalTotal := (a.resetDailyLimitIfNewDay today).dailyWithdrawalTotal + amount, lastWithdrawalDate := some today }).saveSaga { TransferSaga.new sid a.id b.id amount a.currency with state := TransferSagaState.debited }).sagas, outbox := (((w.store.saveSaga (TransferSaga.new sid a.id b.id amount a.currency)).saveWallet { a.resetDailyLimitIfNewDay today with balance := a.balance - amount, dailyWithdrawalTotal := (a.resetDailyLimitIfNewDay today).dailyWithdrawalTotal + amount, lastWithdrawalDate := some today }).saveSaga { TransferSaga.new sid a.id b.id amount a.currency with state := TransferSagaState.debited }).outbox ++ [{ aggregateId := a.id, eventType := WalletEventType.fundsWithdrawn, payload := { eventType := WalletEventType.fundsWithdrawn, walletId := a.id, amount := some amount, metadata := { sagaId := some sid, transferTo := some b.id }, timestamp := now }, published := false }], idempotency := (((w.store.saveSaga (TransferSaga.new sid a.id b.id amount a.currency)).saveWallet { a.resetDailyLimitIfNewDay today with balance := a.balance - amount, dailyWithdrawalTotal := (a.resetDailyLimitIfNewDay today).dailyWithdrawalTotal + amount, lastWithdrawalDate := some today }).saveSaga { TransferSaga.new sid a.id b.id amount a.currency with state := TransferSagaState.debited }).idempotency } (((w.store.saveSaga (TransferSaga.new sid a.id b.id amount a.currency)).saveWallet { a.resetDailyLimitIfNewDay today with balance := a.balance - amount, dailyWithdrawalTotal := (a.resetDailyLimitIfNewDay today).dailyWithdrawalTotal + amount, lastWithdrawalDate := some today }).saveSaga { TransferSaga.new sid a.id b.id amount a.currency with state := TransferSagaState.debited }) a.id rfl).trans ((Store.findWallet_saveSaga ((w.store.saveSaga (TransferSaga.new sid a.id b.id amount a.currency)).saveWallet { a.resetDailyLimitIfNewDay today with balance := a.balance - amount, dailyWithdrawalTotal := (a.resetDailyLimitIfNewDay today).dailyWithdrawalTotal + amount, lastWithdrawalDate := some today }) { TransferSaga.new sid a.id b.id amount a.currency with state := TransferSagaState.debited } a.id).trans (hself (w.store.saveSaga (TransferSaga.new sid a.id b.id amount a.currency))))))))
  case c3 =>
    dsimp only
    exact (Store.findWallet_saveSaga (Store.saveSaga { wallets := (Store.saveWallet { wallets := (((w.store.saveSaga (TransferSaga.new sid a.id b.id amount a.currency)).saveWallet { a.resetDailyLimitIfNewDay today with balance := a.balance - amount, dailyWithdrawalTotal := (a.resetDailyLimitIfNewDay today).dailyWithdrawalTotal + amount, lastWithdrawalDate := some today }).saveSaga { TransferSaga.new sid a.id b.id amount a.currency with state := TransferSagaState.debited }).wallets, events := (((w.store.saveSaga (TransferSaga.new sid a.id b.id amount a.currency)).saveWallet { a.resetDailyLimitIfNewDay today with balance := a.balance - amount, dailyWithdrawalTotal := (a.resetDailyLimitIfNewDay today).dailyWithdrawalTotal + amount, lastWithdrawalDate := some today }).saveSaga { TransferSaga.new sid a.id b.id amount a.currency with state := TransferSagaState.debited }).events ++ [{ walletId := a.id, eventType := WalletEventType.fundsWithdrawn, currency := (a.resetDailyLimitIfNewDay today).currency, amount := some amount, metadata := { sagaId := some sid, transferTo := some b.id }, createdAt := now }], sagas := (((w.store.saveSaga (TransferSaga.new sid a.id b.id amount a.currency)).saveWallet { a.resetDailyLimitIfNewDay today with balance := a.balance - amount, dailyWithdrawalTotal := (a.resetDailyLimitIfNewDay today).dailyWithdrawalTotal + amount, lastWithdrawalDate := some today }).saveSaga { TransferSaga.new sid a.id b.id amount a.currency with state := TransferSagaState.debited }).sagas, outbox := (((w.store.saveSaga (TransferSaga.new sid a.id b.id amount a.currency)).saveWallet { a.resetDailyLimitIfNewDay today with balance := a.balance - amount, dailyWithdrawalTotal := (a.resetDailyLimitIfNewDay today).dailyWithdrawalTotal + amount, lastWithdrawalDate := some today }).saveSaga { TransferSaga.new sid a.id b.id amount a.currency with state := TransferSagaState.debited }).outbox ++ [{ aggregateId := a.id, eventType := WalletEventType.fundsWithdrawn, payload := { eventType := WalletEventType.fundsWithdrawn, walletId := a.id, amount := some amount, metadata := { sagaId := some sid, transferTo := some b.id }, timestamp := now }, published := false }], idempotency := (((w.store.saveSaga (TransferSaga.new sid a.id b.id amount a.currency)).saveWallet { a.resetDailyLimitIfNewDay today with balance := a.balance - amount, dailyWithdrawalTotal := (a.resetDailyLimitIfNewDay today).dailyWithdrawalTotal + amount, lastWithdrawalDate := some today }).saveSaga { TransferSaga.new sid a.id b.id amount a.currency with state := TransferSagaState.debited }).idempotency } { b with balance := b.balance + amount }).wallets, events := (Store.saveWallet { wallets := (((w.store.saveSaga (TransferSaga.new sid a.id b.id amount a.currency)).saveWallet { a.resetDailyLimitIfNewDay today with balance := a.balance - amount, dailyWithdrawalTotal := (a.resetDailyLimitIfNewDay today).dailyWithdrawalTotal + amount, lastWithdrawalDate := some today }).saveSaga { TransferSaga.new sid a.id b.id amount a.currency with state := TransferSagaState.debited }).wallets, events := (((w.store.saveSaga (TransferSaga.new sid a.id b.id amount a.currency)).saveWallet { a.resetDailyLimitIfNewDay today with balance := a.balance - amount, dailyWithdrawalTotal := (a.resetDailyLimitIfNewDay today).dailyWithdrawalTotal + amount, lastWithdrawalDate := some today }).saveSaga { TransferSaga.new sid a.id b.id amount a.currency with state := TransferSagaState.debited }).events ++ [{ walletId := a.id, eventType := WalletEventType.fundsWithdrawn, currency := (a.resetDailyLimitIfNewDay today).currency, amount := some amount, metadata := { sagaId := some sid, transferTo := some b.id }, createdAt := now }], sagas := (((w.store.saveSaga (TransferSaga.new sid a.id b.id amount a.currency)).saveWallet { a.resetDailyLimitIfNewDay today with balance := a.balance - amount, dailyWithdrawalTotal := (a.resetDailyLimitIfNewDay today).dailyWithdrawalTotal + amount, lastWithdrawalDate := some today }).saveSaga { TransferSaga.new sid a.id b.id amount a.currency with state := TransferSagaState.debited }).sagas, outbox := (((w.store.saveSaga (TransferSaga.new sid a.id b.id amount a.currency)).saveWallet { a.resetDailyLimitIfNewDay today with balance := a.balance - amount, dailyWithdrawalTotal := (a.resetDailyLimitIfNewDay today).dailyWithdrawalTotal + amount, lastWithdrawalDate := some today }).saveSaga { TransferSaga.new sid a.id b.id amount a.currency with state := TransferSagaState.debited }).outbox ++ [{ aggregateId := a.id, eventType := WalletEventType.fundsWithdrawn, payload := { eventType := WalletEventType.fundsWithdrawn, walletId := a.id, amount := some amount, metadata := { sagaId := some sid, transferTo := some b.id }, timestamp := now }, published := false }], idempotency := (((w.store.saveSaga (TransferSaga.new sid a.id b.id amount a.currency)).saveWallet { a.resetDailyLimitIfNewDay today with balance := a.balance - amount, dailyWithdrawalTotal := (a.resetDailyLimitIfNewDay today).dailyWithdrawalTotal + amount, lastWithdrawalDate := some today }).saveSaga { TransferSaga.new sid a.id b.id amount a.currency with state := TransferSagaState.debited }).idempotency } { b with balance := b.balance + amount }).events ++ [{ walletId := b.id, eventType := WalletEventType.fundsDeposited, currency := b.currency, amount := some amount, metadata := { sagaId := some sid, transferFrom := some a.id }, createdAt := now }], sagas := (Store.saveWallet { wallets := (((w.store.saveSaga (TransferSaga.new sid a.id b.id amount a.currency)).saveWallet { a.resetDailyLimitIfNewDay today with balance := a.balance - amount, dailyWithdrawalTotal := (a.resetDailyLimitIfNewDay today).dailyWithdrawalTotal + amount, lastWithdrawalDate := some today }).saveSaga { TransferSaga.new sid a.id b.id amount a.currency with state := TransferSagaState.debited }).wallets, events := (((w.store.saveSaga (TransferSaga.new sid a.id b.id amount a.currency)).saveWallet { a.resetDailyLimitIfNewDay today with balance := a.balance - amount, dailyWithdrawalTotal := (a.resetDailyLimitIfNewDay today).dailyWithdrawalTotal + amount, lastWithdrawalDate := some today }).saveSaga { TransferSaga.new sid a.id b.id amount a.currency with state := TransferSagaState.debited }).events ++ [{ walletId := a.id, eventType := WalletEventType.fundsWithdrawn, currency := (a.resetDailyLimitIfNewDay today).currency, amount := some amount, metadata := { sagaId := some sid, transferTo := some b.id }, createdAt := now }], sagas := (((w.store.saveSaga (TransferSaga.new sid a.id b.id amount a.currency)).saveWallet { a.resetDailyLimitIfNewDay today with balance := a.balance - amount, dailyWithdrawalTotal := (a.resetDailyLimitIfNewDay today).dailyWithdrawalTotal + amount, lastWithdrawalDate := some today }).saveSaga { TransferSaga.new sid a.id b.id amount a.currency with state := TransferSagaState.debited }).sagas, outbox := (((w.store.saveSaga (TransferSaga.new sid a.id b.id amount a.currency)).saveWallet { a.resetDailyLimitIfNewDay today with balance := a.balance - amount, dailyWithdrawalTotal := (a.resetDailyLimitIfNewDay today).dailyWithdrawalTotal + amount, lastWithdrawalDate := some today }).saveSaga { TransferSaga.new sid a.id b.id amount a.currency with state := TransferSagaState.debited }).outbox ++ [{ aggregateId := a.id, eventType := WalletEventType.fundsWithdrawn, payload := { eventType := WalletEventType.fundsWithdrawn, walletId := a.id, amount := some amount, metadata := { sagaId := some sid, transferTo := some b.id }, timestamp := now }, published := false }], idempotency := (((w.store.saveSaga (TransferSaga.new sid a.id b.id amount a.currency)).saveWallet { a.resetDailyLimitIfNewDay today with balance := a.balance - amount, dailyWithdrawalTotal := (a.resetDailyLimitIfNewDay today).dailyWithdrawalTotal + amount, lastWithdrawalDate := some today }).saveSaga { TransferSaga.new sid a.id b.id amount a.currency with state := TransferSagaState.debited }).idempotency } { b with balance := b.balance + amount }).sagas, outbox := (Store.saveWallet { wallets := (((w.store.saveSaga (TransferSaga.new sid a.id b.id amount a.currency)).saveWallet { a.resetDailyLimitIfNewDay today with balance := a.balance - amount, dailyWithdrawalTotal := (a.resetDailyLimitIfNewDay today).dailyWithdrawalTotal + amount, lastWithdrawalDate := some today }).saveSaga { TransferSaga.new sid a.id b.id amount a.currency with state := TransferSagaState.debited }).wallets, events := (((w.store.saveSaga (TransferSaga.new sid a.id b.id amount a.currency)).saveWallet { a.resetDailyLimitIfNewDay today with balance := a.balance - amount, dailyWithdrawalTotal := (a.resetDailyLimitIfNewDay today).dailyWithdrawalTotal + amount, lastWithdrawalDate := some today }).saveSaga { TransferSaga.new sid a.id b.id amount a.currency with state := TransferSagaState.debited }).events ++ [{ walletId := a.id, eventType := WalletEventType.fundsWithdrawn, currency := (a.resetDailyLimitIfNewDay today).currency, amount := some amount, metadata := { sagaId := some sid, transferTo := some b.id }, createdAt := now }], sagas := (((w.store.saveSaga (TransferSaga.new sid a.id b.id amount a.currency)).saveWallet { a.resetDailyLimitIfNewDay today with balance := a.balance - amount, dailyWithdrawalTotal := (a.resetDailyLimitIfNewDay today).dailyWithdrawalTotal + amount, lastWithdrawalDate := some today }).saveSaga { TransferSaga.new sid a.id b.id amount a.currency with state := TransferSagaState.debited }).sagas, outbox := (((w.store.saveSaga (TransferSaga.new sid a.id b.id amount a.currency)).saveWallet { a.resetDailyLimitIfNewDay today with balance := a.balance - amount, dailyWithdrawalTotal := (a.resetDailyLimitIfNewDay today).dailyWithdrawalTotal + amount, lastWithdrawalDate := some today }).saveSaga { TransferSaga.new sid a.id b.id amount a.currency with state := TransferSagaState.debited }).outbox ++ [{ aggregateId := a.id, eventType := WalletEventType.fundsWithdrawn, payload := { eventType := WalletEventType.fundsWithdrawn, walletId := a.id, amount := some amount, metadata := { sagaId := some sid, transferTo := some b.id }, timestamp := now }, published := false }], idempotency := (((w.store.saveSaga (TransferSaga.new sid a.id b.id amount a.currency)).saveWallet { a.resetDailyLimitIfNewDay today with balance := a.balance - amount, dailyWithdrawalTotal := (a.resetDailyLimitIfNewDay today).dailyWithdrawalTotal + amount, lastWithdrawalDate := some today }).saveSaga { TransferSaga.new sid a.id b.id amount a.currency with state := TransferSagaState.debited }).idempotency } { b with balance := b.balance + amount }).outbox ++ [{ aggregateId := b.id, eventType := WalletEventType.fundsDeposited, payload := { eventType := WalletEventType.fundsDeposited, walletId := b.id, amount := some amount, metadata := { sagaId := some sid, transferFrom := some a.id }, timestamp := now }, published := false }], idempotency := (Store.saveWallet { wallets := (((w.store.saveSaga (TransferSaga.new sid a.id b.id amount a.currency)).saveWallet { a.resetDailyLimitIfNewDay today with balance := a.balance - amount, dailyWithdrawalTotal := (a.resetDailyLimitIfNewDay today).dailyWithdrawalTotal + amount, lastWithdrawalDate := some today }).saveSaga { TransferSaga.new sid a.id b.id amount a.currency with state := TransferSagaState.debited }).wallets, events := (((w.store.saveSaga (TransferSaga.new sid a.id b.id amount a.currency)).saveWallet { a.resetDailyLimitIfNewDay today with balance := a.balance - amount, dailyWithdrawalTotal := (a.resetDailyLimitIfNewDay today).dailyWithdrawalTotal + amount, lastWithdrawalDate := some today }).saveSaga { TransferSaga.new sid a.id b.id amount a.currency with state := TransferSagaState.debited }).events ++ [{ walletId := a.id, eventType := WalletEventType.fundsWithdrawn, currency := (a.resetDailyLimitIfNewDay today).currency, amount := some amount, metadata := { sagaId := some sid, transferTo := some b.id }, createdAt := now }], sagas := (((w.store.saveSaga (TransferSaga.new sid a.id b.id amount a.currency)).saveWallet { a.resetDailyLimitIfNewDay today with balance := a.balance - amount, dailyWithdrawalTotal := (a.resetDailyLimitIfNewDay today).dailyWithdrawalTotal + amount, lastWithdrawalDate := some today }).saveSaga { TransferSaga.new sid a.id b.id amount a.currency with state := TransferSagaState.debited }).sagas, outbox := (((w.store.saveSaga (TransferSaga.new sid a.id b.id amount a.currency)).saveWallet { a.resetDailyLimitIfNewDay today with balance := a.balance - amount, dailyWithdrawalTotal := (a.resetDailyLimitIfNewDay today).dailyWithdrawalTotal + amount, lastWithdrawalDate := some today }).saveSaga { TransferSaga.new sid a.id b.id amount a.currency with state := TransferSagaState.debited }).outbox ++ [{ aggregateId := a.id, eventType := WalletEventType.fundsWithdrawn, payload := { eventType := WalletEventType.fundsWithdrawn, walletId := a.id, amount := some amount, metadata := { sagaId := some sid, transferTo := some b.id }, timestamp := now }, published := false }], idempotency := (((w.store.saveSaga (TransferSaga.new sid a.id b.id amount a.currency)).saveWallet { a.resetDailyLimitIfNewDay today with balance := a.balance - amount, dailyWithdrawalTotal := (a.resetDailyLimitIfNewDay today).dailyWithdrawalTotal + amount, lastWithdrawalDate := some today }).saveSaga { TransferSaga.new sid a.id b.id amount a.currency with state := TransferSagaState.debited }).idempotency } { b with balance := b.balance + amount }).idempotency } { { TransferSaga.new sid a.id b.id amount a.currency with state := TransferSagaState.debited } with state := TransferSagaState.completed }) (TransferSaga.markAsFailed { { TransferSaga.new sid a.id b.id amount a.currency with state := TransferSagaState.debited } with state := TransferSagaState.completed } (AppError.message AppError.busDisconnected)) b.id).trans ((Store.findWallet_saveSaga { wallets := (Store.saveWallet { wallets := (((w.store.saveSaga (TransferSaga.new sid a.id b.id amount a.currency)).saveWallet { a.resetDailyLimitIfNewDay today with balance := a.balance - amount, dailyWithdrawalTotal := (a.resetDailyLimitIfNewDay today).dailyWithdrawalTotal + amount, lastWithdrawalDate := some today }).saveSaga { TransferSaga.new sid a.id b.id amount a.currency with state := TransferSagaState.debited }).wallets, events := (((w.store.saveSaga (TransferSaga.new sid a.id b.id amount a.currency)).saveWallet { a.resetDailyLimitIfNewDay today with balance := a.balance - amount, dailyWithdrawalTotal := (a.resetDailyLimitIfNewDay today).dailyWithdrawalTotal + amount, lastWithdrawalDate := some today }).saveSaga { TransferSaga.new sid a.id b.id amount a.currency with state := TransferSagaState.debited }).events ++ [{ walletId := a.id, eventType := WalletEventType.fundsWithdrawn, currency := (a.resetDailyLimitIfNewDay today).currency, amount := some amount, metadata := { sagaId := some sid, transferTo := some b.id }, createdAt := now }], sagas := (((w.store.saveSaga (TransferSaga.new sid a.id b.id amount a.currency)).saveWallet { a.resetDailyLimitIfNewDay today with balance := a.balance - amount, dailyWithdrawalTotal := (a.resetDailyLimitIfNewDay today).dailyWithdrawalTotal + amount, lastWithdrawalDate := some today }).saveSaga { TransferSaga.new sid a.id b.id amount a.currency with state := TransferSagaState.debited }).sagas, outbox := (((w.store.saveSaga (TransferSaga.new sid a.id b.id amount a.currency)).saveWallet { a.resetDailyLimitIfNewDay today with balance := a.balance - amount, dailyWithdrawalTotal := (a.resetDailyLimitIfNewDay today).dailyWithdrawalTotal + amount, lastWithdrawalDate := some today }).saveSaga { TransferSaga.new sid a.id b.id amount a.currency with state := TransferSagaState.debited }).outbox ++ [{ aggregateId := a.id, eventType := WalletEventType.fundsWithdrawn, payload := { eventType := WalletEventType.fundsWithdrawn, walletId := a.id, amount := some amount, metadata := { sagaId := some sid, transferTo := some b.id }, timestamp := now }, published := false }], idempotency := (((w.store.saveSaga (TransferSaga.new sid a.id b.id amount a.currency)).saveWallet { a.resetDailyLimitIfNewDay today with balance := a.balance - amount, dailyWithdrawalTotal := (a.resetDailyLimitIfNewDay today).dailyWithdrawalTotal + amount, lastWithdrawalDate := some today }).saveSaga { TransferSaga.new sid a.id b.id amount a.currency with state := TransferSagaState.debited }).idempotency } { b with balance := b.balance + amount }).wallets, events := (Store.saveWallet { wallets := (((w.store.saveSaga (TransferSaga.new sid a.id b.id amount a.currency)).saveWallet { a.resetDailyLimitIfNewDay today with balance := a.balance - amount, dailyWithdrawalTotal := (a.resetDailyLimitIfNewDay today).dailyWithdrawalTotal + amount, lastWithdrawalDate := some today }).saveSaga { TransferSaga.new sid a.id b.id amount a.currency with state := TransferSagaState.debited }).wallets, events := (((w.store.saveSaga (TransferSaga.new sid a.id b.id amount a.currency)).saveWallet { a.resetDailyLimitIfNewDay today with balance := a.balance - amount, dailyWithdrawalTotal := (a.resetDailyLimitIfNewDay today).dailyWithdrawalTotal + amount, lastWithdrawalDate := some today }).saveSaga { TransferSaga.new sid a.id b.id amount a.currency with state := TransferSagaState.debited }).events ++ [{ walletId := a.id, eventType := WalletEventType.fundsWithdrawn, currency := (a.resetDailyLimitIfNewDay today).currency, amount := some amount, metadata := { sagaId := some sid, transferTo := some b.id }, createdAt := now }], sagas := (((w.store.saveSaga (TransferSaga.new sid a.id b.id amount a.currency)).saveWallet { a.resetDailyLimitIfNewDay today with balance := a.balance - amount, dailyWithdrawalTotal := (a.resetDailyLimitIfNewDay today).dailyWithdrawalTotal + amount, lastWithdrawalDate := some today }).saveSaga { TransferSaga.new sid a.id b.id amount a.currency with state := TransferSagaState.debited }).sagas, outbox := (((w.store.saveSaga (TransferSaga.new sid a.id b.id amount a.currency)).saveWallet { a.resetDailyLimitIfNewDay today with balance := a.balance - amount, dailyWithdrawalTotal := (a.resetDailyLimitIfNewDay today).dailyWithdrawalTotal + amount, lastWithdrawalDate := some today }).saveSaga { TransferSaga.new sid a.id b.id amount a.currency with state := TransferSagaState.debited }).outbox ++ [{ aggregateId := a.id, eventType := WalletEventType.fundsWithdrawn, payload := { eventType := WalletEventType.fundsWithdrawn, walletId := a.id, amount := some amount, metadata := { sagaId := some sid, transferTo := some b.id }, timestamp := now }, published := false }], idempotency := (((w.store.saveSaga (TransferSaga.new sid a.id b.id amount a.currency)).saveWallet { a.resetDailyLimitIfNewDay today with balance := a.balance - amount, dailyWithdrawalTotal := (a.resetDailyLimitIfNewDay today).dailyWithdrawalTotal + amount, lastWithdrawalDate := some today }).saveSaga { TransferSaga.new sid a.id b.id amount a.currency with state := TransferSagaState.debited }).idempotency } { b with balance := b.balance + amount }).events ++ [{ walletId := b.id, eventType := WalletEventType.fundsDeposited, currency := b.currency, amount := some amount, metadata := { sagaId := some sid, transferFrom := some a.id }, createdAt := now }], sagas := (Store.saveWallet { wallets := (((w.store.saveSaga (TransferSaga.new sid a.id b.id amount a.currency)).saveWallet { a.resetDailyLimitIfNewDay today with balance := a.balance - amount, dailyWithdrawalTotal := (a.resetDailyLimitIfNewDay today).dailyWithdrawalTotal + amount, lastWithdrawalDate := some today }).saveSaga { TransferSaga.new sid a.id b.id amount a.currency with state := TransferSagaState.debited }).wallets, events := (((w.store.saveSaga (TransferSaga.new sid a.id b.id amount a.currency)).saveWallet { a.resetDailyLimitIfNewDay today with balance := a.balance - amount, dailyWithdrawalTotal := (a.resetDailyLimitIfNewDay today).dailyWithdrawalTotal + amount, lastWithdrawalDate := some today }).saveSaga { TransferSaga.new sid a.id b.id amount a.currency with state := TransferSagaState.debited }).events ++ [{ walletId := a.id, eventType := WalletEventType.fundsWithdrawn, currency := (a.resetDailyLimitIfNewDay today).currency, amount := some amount, metadata := { sagaId := some sid, transferTo := some b.id }, createdAt := now }], sagas := (((w.store.saveSaga (TransferSaga.new sid a.id b.id amount a.currency)).saveWallet { a.resetDailyLimitIfNewDay today with balance := a.balance - amount, dailyWithdrawalTotal := (a.resetDailyLimitIfNewDay today).dailyWithdrawalTotal + amount, lastWithdrawalDate := some today }).saveSaga { TransferSaga.new sid a.id b.id amount a.currency with state := TransferSagaState.debited }).sagas, outbox := (((w.store.saveSaga (TransferSaga.new sid a.id b.id amount a.currency)).saveWallet { a.resetDailyLimitIfNewDay today with balance := a.balance - amount, dailyWithdrawalTotal := (a.resetDailyLimitIfNewDay today).dailyWithdrawalTotal + amount, lastWithdrawalDate := some today }).saveSaga { TransferSaga.new sid a.id b.id amount a.currency with state := TransferSagaState.debited }).outbox ++ [{ aggregateId := a.id, eventType := WalletEventType.fundsWithdrawn, payload := { eventType := WalletEventType.fundsWithdrawn, walletId := a.id, amount := some amount, metadata := { sagaId := some sid, transferTo := some b.id }, timestamp := now }, published := false }], idempotency := (((w.store.saveSaga (TransferSaga.new sid a.id b.id amount a.currency)).saveWallet { a.resetDailyLimitIfNewDay today with balance := a.balance - amount, dailyWithdrawalTotal := (a.resetDailyLimitIfNewDay today).dailyWithdrawalTotal + amount, lastWithdrawalDate := some today }).saveSaga { TransferSaga.new sid a.id b.id amount a.currency with state := TransferSagaState.debited }).idempotency } { b with balance := b.balance + amount }).sagas, outbox := (Store.saveWallet { wallets := (((w.store.saveSaga (TransferSaga.new sid a.id b.id amount a.currency)).saveWallet { a.resetDailyLimitIfNewDay today with balance := a.balance - amount, dailyWithdrawalTotal := (a.resetDailyLimitIfNewDay today).dailyWithdrawalTotal + amount, lastWithdrawalDate := some today }).saveSaga { TransferSaga.new sid a.id b.id amount a.currency with state := TransferSagaState.debited }).wallets, events := (((w.store.saveSaga (TransferSaga.new sid a.id b.id amount a.currency)).saveWallet { a.resetDailyLimitIfNewDay today with balance := a.balance - amount, dailyWithdrawalTotal := (a.resetDailyLimitIfNewDay today).dailyWithdrawalTotal + amount, lastWithdrawalDate := some today }).saveSaga { TransferSaga.new sid a.id b.id amount a.currency with state := TransferSagaState.debited }).events ++ [{ walletId := a.id, eventType := WalletEventType.fundsWithdrawn, currency := (a.resetDailyLimitIfNewDay today).currency, amount := some amount, metadata := { sagaId := some sid, transferTo := some b.id }, createdAt := now }], sagas := (((w.store.saveSaga (TransferSaga.new sid a.id b.id amount a.currency)).saveWallet { a.resetDailyLimitIfNewDay today with balance := a.balance - amount, dailyWithdrawalTotal := (a.resetDailyLimitIfNewDay today).dailyWithdrawalTotal + amount, lastWithdrawalDate := some today }).saveSaga { TransferSaga.new sid a.id b.id amount a.currency with state := TransferSagaState.debited }).sagas, outbox := (((w.store.saveSaga (TransferSaga.new sid a.id b.id amount a.currency)).saveWallet { a.resetDailyLimitIfNewDay today with balance := a.balance - amount, dailyWithdrawalTotal := (a.resetDailyLimitIfNewDay today).dailyWithdrawalTotal + amount, lastWithdrawalDate := some today }).saveSaga { TransferSaga.new sid a.id b.id amount a.currency with state := TransferSagaState.debited }).outbox ++ [{ aggregateId := a.id, eventType := WalletEventType.fundsWithdrawn, payload := { eventType := WalletEventType.fundsWithdrawn, walletId := a.id, amount := some amount, metadata := { sagaId := some sid, transferTo := some b.id }, timestamp := now }, published := false }], idempotency := (((w.store.saveSaga (TransferSaga.new sid a.id b.id amount a.currency)).saveWallet { a.resetDailyLimitIfNewDay today with balance := a.balance - amount, dailyWithdrawalTotal := (a.resetDailyLimitIfNewDay today).dailyWithdrawalTotal + amount, lastWithdrawalDate := some today }).saveSaga { TransferSaga.new sid a.id b.id amount a.currency with state := TransferSagaState.debited }).idempotency } { b with balance := b.balance + amount }).outbox ++ [{ aggregateId := b.id, eventType := WalletEventType.fundsDeposited, payload := { eventType := WalletEventType.fundsDeposited, walletId := b.id, amount := some amount, metadata := { sagaId := some sid, transferFrom := some a.id }, timestamp := now }, published := false }], idempotency := (Store.saveWallet { wallets := (((w.store.saveSaga (TransferSaga.new sid a.id b.id amount a.currency)).saveWallet { a.resetDailyLimitIfNewDay today with balance := a.balance - amount, dailyWithdrawalTotal := (a.resetDailyLimitIfNewDay today).dailyWithdrawalTotal + amount, lastWithdrawalDate := some today }).saveSaga { TransferSaga.new sid a.id b.id amount a.currency with state := TransferSagaState.debited }).wallets, events := (((w.store.saveSaga (TransferSaga.new sid a.id b.id amount a.currency)).saveWallet { a.resetDailyLimitIfNewDay today with balance := a.balance - amount, dailyWithdrawalTotal := (a.resetDailyLimitIfNewDay today).dailyWithdrawalTotal + amount, lastWithdrawalDate := some today }).saveSaga { TransferSaga.new sid a.id b.id amount a.currency with state := TransferSagaState.debited }).events ++ [{ walletId := a.id, eventType := WalletEventType.fundsWithdrawn, currency := (a.resetDailyLimitIfNewDay today).currency, amount := some amount, metadata := { sagaId := some sid, transferTo := some b.id }, createdAt := now }], sagas := (((w.store.saveSaga (TransferSaga.new sid a.id b.id amount a.currency)).saveWallet { a.resetDailyLimitIfNewDay today with balance := a.balance - amount, dailyWithdrawalTotal := (a.resetDailyLimitIfNewDay today).dailyWithdrawalTotal + amount, lastWithdrawalDate := some today }).saveSaga { TransferSaga.new sid a.id b.id amount a.currency with state := TransferSagaState.debited }).sagas, outbox := (((w.store.saveSaga (TransferSaga.new sid a.id b.id amount a.currency)).saveWallet { a.resetDailyLimitIfNewDay today with balance := a.balance - amount, dailyWithdrawalTotal := (a.resetDailyLimitIfNewDay today).dailyWithdrawalTotal + amount, lastWithdrawalDate := some today }).saveSaga { TransferSaga.new sid a.id b.id amount a.currency with state := TransferSagaState.debited }).outbox ++ [{ aggregateId := a.id, eventType := WalletEventType.fundsWithdrawn, payload := { eventType := WalletEventType.fundsWithdrawn, walletId := a.id, amount := some amount, metadata := { sagaId := some sid, transferTo := some b.id }, timestamp := now }, published := false }], idempotency := (((w.store.saveSaga (TransferSaga.new sid a.id b.id amount a.currency)).saveWallet { a.resetDailyLimitIfNewDay today with balance := a.balance - amount, dailyWithdrawalTotal := (a.resetDailyLimitIfNewDay today).dailyWithdrawalTotal + amount, lastWithdrawalDate := some today }).saveSaga { TransferSaga.new sid a.id b.id amount a.currency with state := TransferSagaState.debited }).idempotency } { b with balance := b.balance + amount }).idempotency } { { TransferSaga.new sid a.id b.id amount a.currency with state := TransferSagaState.debited } with state := TransferSagaState.completed } b.id).trans ((Store.findWallet_congr { wallets := (Store.saveWallet { wallets := (((w.store.saveSaga (TransferSaga.new sid a.id b.id amount a.currency)).saveWallet { a.resetDailyLimitIfNewDay today with balance := a.balance - amount, dailyWithdrawalTotal := (a.resetDailyLimitIfNewDay today).dailyWithdrawalTotal + amount, lastWithdrawalDate := some today }).saveSaga { TransferSaga.new sid a.id b.id amount a.currency with state := TransferSagaState.debited }).wallets, events := (((w.store.saveSaga (TransferSaga.new sid a.id b.id amount a.currency)).saveWallet { a.resetDailyLimitIfNewDay today with balance := a.balance - amount, dailyWithdrawalTotal := (a.resetDailyLimitIfNewDay today).dailyWithdrawalTotal + amount, lastWithdrawalDate := some today }).saveSaga { TransferSaga.new sid a.id b.id amount a.currency with state := TransferSagaState.debited }).events ++ [{ walletId := a.id, eventType := WalletEventType.fundsWithdrawn, currency := (a.resetDailyLimitIfNewDay today).currency, amount := some amount, metadata := { sagaId := some sid, transferTo := some b.id }, createdAt := now }], sagas := (((w.store.saveSaga (TransferSaga.new sid a.id b.id amount a.currency)).saveWallet { a.resetDailyLimitIfNewDay today with balance := a.balance - amount, dailyWithdrawalTotal := (a.resetDailyLimitIfNewDay today).dailyWithdrawalTotal + amount, lastWithdrawalDate := some today }).saveSaga { TransferSaga.new sid a.id b.id amount a.currency with state := TransferSagaState.debited }).sagas, outbox := (((w.store.saveSaga (TransferSaga.new sid a.id b.id amount a.currency)).saveWallet { a.resetDailyLimitIfNewDay today with balance := a.balance - amount, dailyWithdrawalTotal := (a.resetDailyLimitIfNewDay today).dailyWithdrawalTotal + amount, lastWithdrawalDate := some today }).saveSaga { TransferSaga.new sid a.id b.id amount a.currency with state := TransferSagaState.debited }).outbox ++ [{ aggregateId := a.id, eventType := WalletEventType.fundsWithdrawn, payload := { eventType := WalletEventType.fundsWithdrawn, walletId := a.id, amount := some amount, metadata := { sagaId := some sid, transferTo := some b.id }, timestamp := now }, published := false }], idempotency := (((w.store.saveSaga (TransferSaga.new sid a.id b.id amount a.currency)).saveWallet { a.resetDailyLimitIfNewDay today with balance := a.balance - amount, dailyWithdrawalTotal := (a.resetDailyLimitIfNewDay today).dailyWithdrawalTotal + amount, lastWithdrawalDate := some today }).saveSaga { TransferSaga.new sid a.id b.id amount a.currency with state := TransferSagaState.debited }).idempotency } { b with balance := b.balance + amount }).wallets, events := (Store.saveWallet { wallets := (((w.store.saveSaga (TransferSaga.new sid a.id b.id amount a.currency)).saveWallet { a.resetDailyLimitIfNewDay today with balance := a.balance - amount, dailyWithdrawalTotal := (a.resetDailyLimitIfNewDay today).dailyWithdrawalTotal + amount, lastWithdrawalDate := some today }).saveSaga { TransferSaga.new sid a.id b.id amount a.currency with state := TransferSagaState.debited }).wallets, events := (((w.store.saveSaga (TransferSaga.new sid a.id b.id amount a.currency)).saveWallet { a.resetDailyLimitIfNewDay today with balance := a.balance - amount, dailyWithdrawalTotal := (a.resetDailyLimitIfNewDay today).dailyWithdrawalTotal + amount, lastWithdrawalDate := some today }).saveSaga { TransferSaga.new sid a.id b.id amount a.currency with state := TransferSagaState.debited }).events ++ [{ walletId := a.id, eventType := WalletEventType.fundsWithdrawn, currency := (a.resetDailyLimitIfNewDay today).currency, amount := some amount, metadata := { sagaId := some sid, transferTo := some b.id }, createdAt := now }], sagas := (((w.store.saveSaga (TransferSaga.new sid a.id b.id amount a.currency)).saveWallet { a.resetDailyLimitIfNewDay today with balance := a.balance - amount, dailyWithdrawalTotal := (a.resetDailyLimitIfNewDay today).dailyWithdrawalTotal + amount, lastWithdrawalDate := some today }).saveSaga { TransferSaga.new sid a.id b.id amount a.currency with state := TransferSagaState.debited }).sagas, outbox := (((w.store.saveSaga (TransferSaga.new sid a.id b.id amount a.currency)).saveWallet { a.resetDailyLimitIfNewDay today with balance := a.balance - amount, dailyWithdrawalTotal := (a.resetDailyLimitIfNewDay today).dailyWithdrawalTotal + amount, lastWithdrawalDate := some today }).saveSaga { TransferSaga.new sid a.id b.id amount a.currency with state := TransferSagaState.debited }).outbox ++ [{ aggregateId := a.id, eventType := WalletEventType.fundsWithdrawn, payload := { eventType := WalletEventType.fundsWithdrawn, walletId := a.id, amount := some amount, metadata := { sagaId := some sid, transferTo := some b.id }, timestamp := now }, published := false }], idempotency := (((w.store.saveSaga (TransferSaga.new sid a.id b.id amount a.currency)).saveWallet { a.resetDailyLimitIfNewDay today with balance := a.balance - amount, dailyWithdrawalTotal := (a.resetDailyLimitIfNewDay today).dailyWithdrawalTotal + amount, lastWithdrawalDate := some today }).saveSaga { TransferSaga.new sid a.id b.id amount a.currency with state := TransferSagaState.debited }).idempotency } { b with balance := b.balance + amount }).events ++ [{ walletId := b.id, eventType := WalletEventType.fundsDeposited, currency := b.currency, amount := some amount, metadata := { sagaId := some sid, transferFrom := some a.id }, createdAt := now }], sagas := (Store.saveWallet { wallets := (((w.store.saveSaga (TransferSaga.new sid a.id b.id amount a.currency)).saveWallet { a.resetDailyLimitIfNewDay today with balance := a.balance - amount, dailyWithdrawalTotal := (a.resetDailyLimitIfNewDay today).dailyWithdrawalTotal + amount, lastWithdrawalDate := some today }).saveSaga { TransferSaga.new sid a.id b.id amount a.currency with state := TransferSagaState.debited }).wallets, events := (((w.store.saveSaga (TransferSaga.new sid a.id b.id amount a.currency)).saveWallet { a.resetDailyLimitIfNewDay today with balance := a.balance - amount, dailyWithdrawalTotal := (a.resetDailyLimitIfNewDay today).dailyWithdrawalTotal + amount, lastWithdrawalDate := some today }).saveSaga { TransferSaga.new sid a.id b.id amount a.currency with state := TransferSagaState.debited }).events ++ [{ walletId := a.id, eventType := WalletEventType.fundsWithdrawn, currency := (a.resetDailyLimitIfNewDay today).currency, amount := some amount, metadata := { sagaId := some sid, transferTo := some b.id }, createdAt := now }], sagas := (((w.store.saveSaga (TransferSaga.new sid a.id b.id amount a.currency)).saveWallet { a.resetDailyLimitIfNewDay today with balance := a.balance - amount, dailyWithdrawalTotal := (a.resetDailyLimitIfNewDay today).dailyWithdrawalTotal + amount, lastWithdrawalDate := some today }).saveSaga { TransferSaga.new sid a.id b.id amount a.currency with state := TransferSagaState.debited }).sagas, outbox := (((w.store.saveSaga (TransferSaga.new sid a.id b.id amount a.currency)).saveWallet { a.resetDailyLimitIfNewDay today with balance := a.balance - amount, dailyWithdrawalTotal := (a.resetDailyLimitIfNewDay today).dailyWithdrawalTotal + amount, lastWithdrawalDate := some today }).saveSaga { TransferSaga.new sid a.id b.id amount a.currency with state := TransferSagaState.debited }).outbox ++ [{ aggregateId := a.id, eventType := WalletEventType.fundsWithdrawn, payload := { eventType := WalletEventType.fundsWithdrawn, walletId := a.id, amount := some amount, metadata := { sagaId := some sid, transferTo := some b.id }, timestamp := now }, published := false }], idempotency := (((w.store.saveSaga (TransferSaga.new sid a.id b.id amount a.currency)).saveWallet { a.resetDailyLimitIfNewDay today with balance := a.balance - amount, dailyWithdrawalTotal := (a.resetDailyLimitIfNewDay today).dailyWithdrawalTotal + amount, lastWithdrawalDate := some today }).saveSaga { TransferSaga.new sid a.id b.id amount a.currency with state := TransferSagaState.debited }).idempotency } { b with balance := b.balance + amount }).sagas, outbox := (Store.saveWallet { wallets := (((w.store.saveSaga (TransferSaga.new sid a.id b.id amount a.currency)).saveWallet { a.resetDailyLimitIfNewDay today with balance := a.balance - amount, dailyWithdrawalTotal := (a.resetDailyLimitIfNewDay today).dailyWithdrawalTotal + amount, lastWithdrawalDate := some today }).saveSaga { TransferSaga.new sid a.id b.id amount a.currency with state := TransferSagaState.debited }).wallets, events := (((w.store.saveSaga (TransferSaga.new sid a.id b.id amount a.currency)).saveWallet { a.resetDailyLimitIfNewDay today with balance := a.balance - amount, dailyWithdrawalTotal := (a.resetDailyLimitIfNewDay today).dailyWithdrawalTotal + amount, lastWithdrawalDate := some today }).saveSaga { TransferSaga.new sid a.id b.id amount a.currency with state := TransferSagaState.debited }).events ++ [{ walletId := a.id, eventType := WalletEventType.fundsWithdrawn, currency := (a.resetDailyLimitIfNewDay today).currency, amount := some amount, metadata := { sagaId := some sid, transferTo := some b.id }, createdAt := now }], sagas := (((w.store.saveSaga (TransferSaga.new sid a.id b.id amount a.currency)).saveWallet { a.resetDailyLimitIfNewDay today with balance := a.balance - amount, dailyWithdrawalTotal := (a.resetDailyLimitIfNewDay today).dailyWithdrawalTotal + amount, lastWithdrawalDate := some today }).saveSaga { TransferSaga.new sid a.id b.id amount a.currency with state := TransferSagaState.debited }).sagas, outbox := (((w.store.saveSaga (TransferSaga.new sid a.id b.id amount a.currency)).saveWallet { a.resetDailyLimitIfNewDay today with balance := a.balance - amount, dailyWithdrawalTotal := (a.resetDailyLimitIfNewDay today).dailyWithdrawalTotal + amount, lastWithdrawalDate := some today }).saveSaga { TransferSaga.new sid a.id b.id amount a.currency with state := TransferSagaState.debited }).outbox ++ [{ aggregateId := a.id, eventType := WalletEventType.fundsWithdrawn, payload := { eventType := WalletEventType.fundsWithdrawn, walletId := a.id, amount := some amount, metadata := { sagaId := some sid, transferTo := some b.id }, timestamp := now }, published := false }], idempotency := (((w.store.saveSaga (TransferSaga.new sid a.id b.id amount a.currency)).saveWallet { a.resetDailyLimitIfNewDay today with balance := a.balance - amount, dailyWithdrawalTotal := (a.resetDailyLimitIfNewDay today).dailyWithdrawalTotal + amount, lastWithdrawalDate := some today }).saveSaga { TransferSaga.new sid a.id b.id amount a.currency with state := TransferSagaState.debited }).idempotency } { b with balance := b.balance + amount }).outbox ++ [{ aggregateId := b.id, eventType := WalletEventType.fundsDeposited, payload := { eventType := WalletEventType.fundsDeposited, walletId := b.id, amount := some amount, metadata := { sagaId := some sid, transferFrom := some a.id }, timestamp := now }, published := false }], idempotency := (Store.saveWallet { wallets := (((w.store.saveSaga (TransferSaga.new sid a.id b.id amount a.currency)).saveWallet { a.resetDailyLimitIfNewDay today with balance := a.balance - amount, dailyWithdrawalTotal := (a.resetDailyLimitIfNewDay today).dailyWithdrawalTotal + amount, lastWithdrawalDate := some today }).saveSaga { TransferSaga.new sid a.id b.id amount a.currency with state := TransferSagaState.debited }).wallets, events := (((w.store.saveSaga (TransferSaga.new sid a.id b.id amount a.currency)).saveWallet { a.resetDailyLimitIfNewDay today with balance := a.balance - amount, dailyWithdrawalTotal := (a.resetDailyLimitIfNewDay today).dailyWithdrawalTotal + amount, lastWithdrawalDate := some today }).saveSaga { TransferSaga.new sid a.id b.id amount a.currency with state := TransferSagaState.debited }).events ++ [{ walletId := a.id, eventType := WalletEventType.fundsWithdrawn, currency := (a.resetDailyLimitIfNewDay today).currency, amount := some amount, metadata := { sagaId := some sid, transferTo := some b.id }, createdAt := now }], sagas := (((w.store.saveSaga (TransferSaga.new sid a.id b.id amount a.currency)).saveWallet { a.resetDailyLimitIfNewDay today with balance := a.balance - amount, dailyWithdrawalTotal := (a.resetDailyLimitIfNewDay today).dailyWithdrawalTotal + amount, lastWithdrawalDate := some today }).saveSaga { TransferSaga.new sid a.id b.id amount a.currency with state := TransferSagaState.debited }).sagas, outbox := (((w.store.saveSaga (TransferSaga.new sid a.id b.id amount a.currency)).saveWallet { a.resetDailyLimitIfNewDay today with balance := a.balance - amount, dailyWithdrawalTotal := (a.resetDailyLimitIfNewDay today).dailyWithdrawalTotal + amount, lastWithdrawalDate := some today }).saveSaga { TransferSaga.new sid a.id b.id amount a.currency with state := TransferSagaState.debited }).outbox ++ [{ aggregateId := a.id, eventType := WalletEventType.fundsWithdrawn, payload := { eventType := WalletEventType.fundsWithdrawn, walletId := a.id, amount := some amount, metadata := { sagaId := some sid, transferTo := some b.id }, timestamp := now }, published := false }], idempotency := (((w.store.saveSaga (TransferSaga.new sid a.id b.id amount a.currency)).saveWallet { a.resetDailyLimitIfNewDay today with balance := a.balance - amount, dailyWithdrawalTotal := (a.resetDailyLimitIfNewDay today).dailyWithdrawalTotal + amount, lastWithdrawalDate := some today }).saveSaga { TransferSaga.new sid a.id b.id amount a.currency with state := TransferSagaState.debited }).idempotency } { b with balance := b.balance + amount }).idempotency } (Store.saveWallet { wallets := (((w.store.saveSaga (TransferSaga.new sid a.id b.id amount a.currency)).saveWallet { a.resetDailyLimitIfNewDay today with balance := a.balance - amount, dailyWithdrawalTotal := (a.resetDailyLimitIfNewDay today).dailyWithdrawalTotal + amount, lastWithdrawalDate := some today }).saveSaga { TransferSaga.new sid a.id b.id amount a.currency with state := TransferSagaState.debited }).wallets, events := (((w.store.saveSaga (TransferSaga.new sid a.id b.id amount a.currency)).saveWallet { a.resetDailyLimitIfNewDay today with balance := a.balance - amount, dailyWithdrawalTotal := (a.resetDailyLimitIfNewDay today).dailyWithdrawalTotal + amount, lastWithdrawalDate := some today }).saveSaga { TransferSaga.new sid a.id b.id amount a.currency with state := TransferSagaState.debited }).events ++ [{ walletId := a.id, eventType := WalletEventType.fundsWithdrawn, currency := (a.resetDailyLimitIfNewDay today).currency, amount := some amount, metadata := { sagaId := some sid, transferTo := some b.id }, createdAt := now }], sagas := (((w.store.saveSaga (TransferSaga.new sid a.id b.id amount a.currency)).saveWallet { a.resetDailyLimitIfNewDay today with balance := a.balance - amount, dailyWithdrawalTotal := (a.resetDailyLimitIfNewDay today).dailyWithdrawalTotal + amount, lastWithdrawalDate := some today }).saveSaga { TransferSaga.new sid a.id b.id amount a.currency with state := TransferSagaState.debited }).sagas, outbox := (((w.store.saveSaga (TransferSaga.new sid a.id b.id amount a.currency)).saveWallet { a.resetDailyLimitIfNewDay today with balance := a.balance - amount, dailyWithdrawalTotal := (a.resetDailyLimitIfNewDay today).dailyWithdrawalTotal + amount, lastWithdrawalDate := some today }).saveSaga { TransferSaga.new sid a.id b.id amount a.currency with state := TransferSagaState.debited }).outbox ++ [{ aggregateId := a.id, eventType := WalletEventType.fundsWithdrawn, payload := { eventType := WalletEventType.fundsWithdrawn, walletId := a.id, amount := some amount, metadata := { sagaId := some sid, transferTo := some b.id }, timestamp := now }, published := false }], idempotency := (((w.store.saveSaga (TransferSaga.new sid a.id b.id amount a.currency)).saveWallet { a.resetDailyLimitIfNewDay today with balance := a.balance - amount, dailyWithdrawalTotal := (a.resetDailyLimitIfNewDay today).dailyWithdrawalTotal + amount, lastWithdrawalDate := some today }).saveSaga { TransferSaga.new sid a.id b.id amount a.currency with state := TransferSagaState.debited }).idempotency } { b with balance := b.balance + amount }) b.id rfl).trans (Store.findWallet_saveWallet_self { wallets := (((w.store.saveSaga (TransferSaga.new sid a.id b.id amount a.currency)).saveWallet { a.resetDailyLimitIfNewDay today with balance := a.balance - amount, dailyWithdrawalTotal := (a.resetDailyLimitIfNewDay today).dailyWithdrawalTotal + amount, lastWithdrawalDate := some today }).saveSaga { TransferSaga.new sid a.id b.id amount a.currency with state := TransferSagaState.debited }).wallets, events := (((w.store.saveSaga (TransferSaga.new sid a.id b.id amount a.currency)).saveWallet { a.resetDailyLimitIfNewDay today with balance := a.balance - amount, dailyWithdrawalTotal := (a.resetDailyLimitIfNewDay today).dailyWithdrawalTotal + amount, lastWithdrawalDate := some today }).saveSaga { TransferSaga.new sid a.id b.id amount a.currency with state := TransferSagaState.debited }).events ++ [{ walletId := a.id, eventType := WalletEventType.fundsWithdrawn, currency := (a.resetDailyLimitIfNewDay today).currency, amount := some amount, metadata := { sagaId := some sid, transferTo := some b.id }, createdAt := now }], sagas := (((w.store.saveSaga (TransferSaga.new sid a.id b.id amount a.currency)).saveWallet { a.resetDailyLimitIfNewDay today with balance := a.balance - amount, dailyWithdrawalTotal := (a.resetDailyLimitIfNewDay today).dailyWithdrawalTotal + amount, lastWithdrawalDate := some today }).saveSaga { TransferSaga.new sid a.id b.id amount a.currency with state := TransferSagaState.debited }).sagas, outbox := (((w.store.saveSaga (TransferSaga.new sid a.id b.id amount a.currency)).saveWallet { a.resetDailyLimitIfNewDay today with balance := a.balance - amount, dailyWithdrawalTotal := (a.resetDailyLimitIfNewDay today).dailyWithdrawalTotal + amount, lastWithdrawalDate := some today }).saveSaga { TransferSaga.new sid a.id b.id amount a.currency with state := TransferSagaState.debited }).outbox ++ [{ aggregateId := a.id, eventType := WalletEventType.fundsWithdrawn, payload := { eventType := WalletEventType.fundsWithdrawn, walletId := a.id, amount := some amount, metadata := { sagaId := some sid, transferTo := some b.id }, timestamp := now }, published := false }], idempotency := (((w.store.saveSaga (TransferSaga.new sid a.id b.id amount a.currency)).saveWallet { a.resetDailyLimitIfNewDay today with balance := a.balance - amount, dailyWithdrawalTotal := (a.resetDailyLimitIfNewDay today).dailyWithdrawalTotal + amount, lastWithdrawalDate := some today }).saveSaga { TransferSaga.new sid a.id b.id amount a.currency with state := TransferSagaState.debited }).idempotency } { b with balance := b.balance + amount })))
  case c4 =>
    dsimp only
    exact Store.findSaga_saveSaga_self (Store.saveSaga { wallets := (Store.saveWallet { wallets := (((w.store.saveSaga (TransferSaga.new sid a.id b.id amount a.currency)).saveWallet { a.resetDailyLimitIfNewDay today with balance := a.balance - amount, dailyWithdrawalTotal := (a.resetDailyLimitIfNewDay today).dailyWithdrawalTotal + amount, lastWithdrawalDate := some today }).saveSaga { TransferSaga.new sid a.id b.id amount a.currency with state := TransferSagaState.debited }).wallets, events := (((w.store.saveSaga (TransferSaga.new sid a.id b.id amount a.currency)).saveWallet { a.resetDailyLimitIfNewDay today with balance := a.balance - amount, dailyWithdrawalTotal := (a.resetDailyLimitIfNewDay today).dailyWithdrawalTotal + amount, lastWithdrawalDate := some today }).saveSaga { TransferSaga.new sid a.id b.id amount a.currency with state := TransferSagaState.debited }).events ++ [{ walletId := a.id, eventType := WalletEventType.fundsWithdrawn, currency := (a.resetDailyLimitIfNewDay today).currency, amount := some amount, metadata := { sagaId := some sid, transferTo := some b.id }, createdAt := now }], sagas := (((w.store.saveSaga (TransferSaga.new sid a.id b.id amount a.currency)).saveWallet { a.resetDailyLimitIfNewDay today with balance := a.balance - amount, dailyWithdrawalTotal := (a.resetDailyLimitIfNewDay today).dailyWithdrawalTotal + amount, lastWithdrawalDate := some today }).saveSaga { TransferSaga.new sid a.id b.id amount a.currency with state := TransferSagaState.debited }).sagas, outbox := (((w.store.saveSaga (TransferSaga.new sid a.id b.id amount a.currency)).saveWallet { a.resetDailyLimitIfNewDay today with balance := a.balance - amount, dailyWithdrawalTotal := (a.resetDailyLimitIfNewDay today).dailyWithdrawalTotal + amount, lastWithdrawalDate := some today }).saveSaga { TransferSaga.new sid a.id b.id amount a.currency with state := TransferSagaState.debited }).outbox ++ [{ aggregateId := a.id, eventType := WalletEventType.fundsWithdrawn, payload := { eventType := WalletEventType.fundsWithdrawn, walletId := a.id, amount := some amount, metadata := { sagaId := some sid, transferTo := some b.id }, timestamp := now }, published := false }], idempotency := (((w.store.saveSaga (TransferSaga.new sid a.id b.id amount a.currency)).saveWallet { a.resetDailyLimitIfNewDay today with balance := a.balance - amount, dailyWithdrawalTotal := (a.resetDailyLimitIfNewDay today).dailyWithdrawalTotal + amount, lastWithdrawalDate := some today }).saveSaga { TransferSaga.new sid a.id b.id amount a.currency with state := TransferSagaState.debited }).idempotency } { b with balance := b.balance + amount }).wallets, events := (Store.saveWallet { wallets := (((w.store.saveSaga (TransferSaga.new sid a.id b.id amount a.currency)).saveWallet { a.resetDailyLimitIfNewDay today with balance := a.balance - amount, dailyWithdrawalTotal := (a.resetDailyLimitIfNewDay today).dailyWithdrawalTotal + amount, lastWithdrawalDate := some today }).saveSaga { TransferSaga.new sid a.id b.id amount a.currency with state := TransferSagaState.debited }).wallets, events := (((w.store.saveSaga (TransferSaga.new sid a.id b.id amount a.currency)).saveWallet { a.resetDailyLimitIfNewDay today with balance := a.balance - amount, dailyWithdrawalTotal := (a.resetDailyLimitIfNewDay today).dailyWithdrawalTotal + amount, lastWithdrawalDate := some today }).saveSaga { TransferSaga.new sid a.id b.id amount a.currency with state := TransferSagaState.debited }).events ++ [{ walletId := a.id, eventType := WalletEventType.fundsWithdrawn, currency := (a.resetDailyLimitIfNewDay today).currency, amount := some amount, metadata := { sagaId := some sid, transferTo := some b.id }, createdAt := now }], sagas := (((w.store.saveSaga (TransferSaga.new sid a.id b.id amount a.currency)).saveWallet { a.resetDailyLimitIfNewDay today with balance := a.balance - amount, dailyWithdrawalTotal := (a.resetDailyLimitIfNewDay today).dailyWithdrawalTotal + amount, lastWithdrawalDate := some today }).saveSaga { TransferSaga.new sid a.id b.id amount a.currency with state := TransferSagaState.debited }).sagas, outbox := (((w.store.saveSaga (TransferSaga.new sid a.id b.id amount a.currency)).saveWallet { a.resetDailyLimitIfNewDay today with balance := a.balance - amount, dailyWithdrawalTotal := (a.resetDailyLimitIfNewDay today).dailyWithdrawalTotal + amount, lastWithdrawalDate := some today }).saveSaga { TransferSaga.new sid a.id b.id amount a.currency with state := TransferSagaState.debited }).outbox ++ [{ aggregateId := a.id, eventType := WalletEventType.fundsWithdrawn, payload := { eventType := WalletEventType.fundsWithdrawn, walletId := a.id, amount := some amount, metadata := { sagaId := some sid, transferTo := some b.id }, timestamp := now }, published := false }], idempotency := (((w.store.saveSaga (TransferSaga.new sid a.id b.id amount a.currency)).saveWallet { a.resetDailyLimitIfNewDay today with balance := a.balance - amount, dailyWithdrawalTotal := (a.resetDailyLimitIfNewDay today).dailyWithdrawalTotal + amount, lastWithdrawalDate := some today }).saveSaga { TransferSaga.new sid a.id b.id amount a.currency with state := TransferSagaState.debited }).idempotency } { b with balance := b.balance + amount }).events ++ [{ walletId := b.id, eventType := WalletEventType.fundsDeposited, currency := b.currency, amount := some amount, metadata := { sagaId := some sid, transferFrom := some a.id }, createdAt := now }], sagas := (Store.saveWallet { wallets := (((w.store.saveSaga (TransferSaga.new sid a.id b.id amount a.currency)).saveWallet { a.resetDailyLimitIfNewDay today with balance := a.balance - amount, dailyWithdrawalTotal := (a.resetDailyLimitIfNewDay today).dailyWithdrawalTotal + amount, lastWithdrawalDate := some today }).saveSaga { TransferSaga.new sid a.id b.id amount a.currency with state := TransferSagaState.debited }).wallets, events := (((w.store.saveSaga (TransferSaga.new sid a.id b.id amount a.currency)).saveWallet { a.resetDailyLimitIfNewDay today with balance := a.balance - amount, dailyWithdrawalTotal := (a.resetDailyLimitIfNewDay today).dailyWithdrawalTotal + amount, lastWithdrawalDate := some today }).saveSaga { TransferSaga.new sid a.id b.id amount a.currency with state := TransferSagaState.debited }).events ++ [{ walletId := a.id, eventType := WalletEventType.fundsWithdrawn, currency := (a.resetDailyLimitIfNewDay today).currency, amount := some amount, metadata := { sagaId := some sid, transferTo := some b.id }, createdAt := now }], sagas := (((w.store.saveSaga (TransferSaga.new sid a.id b.id amount a.currency)).saveWallet { a.resetDailyLimitIfNewDay today with balance := a.balance - amount, dailyWithdrawalTotal := (a.resetDailyLimitIfNewDay today).dailyWithdrawalTotal + amount, lastWithdrawalDate := some today }).saveSaga { TransferSaga.new sid a.id b.id amount a.currency with state := TransferSagaState.debited }).sagas, outbox := (((w.store.saveSaga (TransferSaga.new sid a.id b.id amount a.currency)).saveWallet { a.resetDailyLimitIfNewDay today with balance := a.balance - amount, dailyWithdrawalTotal := (a.resetDailyLimitIfNewDay today).dailyWithdrawalTotal + amount, lastWithdrawalDate := some today }).saveSaga { TransferSaga.new sid a.id b.id amount a.currency with state := TransferSagaState.debited }).outbox ++ [{ aggregateId := a.id, eventType := WalletEventType.fundsWithdrawn, payload := { eventType := WalletEventType.fundsWithdrawn, walletId := a.id, amount := some amount, metadata := { sagaId := some sid, transferTo := some b.id }, timestamp := now }, published := false }], idempotency := (((w.store.saveSaga (TransferSaga.new sid a.id b.id amount a.currency)).saveWallet { a.resetDailyLimitIfNewDay today with balance := a.balance - amount, dailyWithdrawalTotal := (a.resetDailyLimitIfNewDay today).dailyWithdrawalTotal + amount, lastWithdrawalDate := some today }).saveSaga { TransferSaga.new sid a.id b.id amount a.currency with state := TransferSagaState.debited }).idempotency } { b with balance := b.balance + amount }).sagas, outbox := (Store.saveWallet { wallets := (((w.store.saveSaga (TransferSaga.new sid a.id b.id amount a.currency)).saveWallet { a.resetDailyLimitIfNewDay today with balance := a.balance - amount, dailyWithdrawalTotal := (a.resetDailyLimitIfNewDay today).dailyWithdrawalTotal + amount, lastWithdrawalDate := some today }).saveSaga { TransferSaga.new sid a.id b.id amount a.currency with state := TransferSagaState.debited }).wallets, events := (((w.store.saveSaga (TransferSaga.new sid a.id b.id amount a.currency)).saveWallet { a.resetDailyLimitIfNewDay today with balance := a.balance - amount, dailyWithdrawalTotal := (a.resetDailyLimitIfNewDay today).dailyWithdrawalTotal + amount, lastWithdrawalDate := some today }).saveSaga { TransferSaga.new sid a.id b.id amount a.currency with state := TransferSagaState.debited }).events ++ [{ walletId := a.id, eventType := WalletEventType.fundsWithdrawn, currency := (a.resetDailyLimitIfNewDay today).currency, amount := some amount, metadata := { sagaId := some sid, transferTo := some b.id }, createdAt := now }], sagas := (((w.store.saveSaga (TransferSaga.new sid a.id b.id amount a.currency)).saveWallet { a.resetDailyLimitIfNewDay today with balance := a.balance - amount, dailyWithdrawalTotal := (a.resetDailyLimitIfNewDay today).dailyWithdrawalTotal + amount, lastWithdrawalDate := some today }).saveSaga { TransferSaga.new sid a.id b.id amount a.currency with state := TransferSagaState.debited }).sagas, outbox := (((w.store.saveSaga (TransferSaga.new sid a.id b.id amount a.currency)).saveWallet { a.resetDailyLimitIfNewDay today with balance := a.balance - amount, dailyWithdrawalTotal := (a.resetDailyLimitIfNewDay today).dailyWithdrawalTotal + amount, lastWithdrawalDate := some today }).saveSaga { TransferSaga.new sid a.id b.id amount a.currency with state := TransferSagaState.debited }).outbox ++ [{ aggregateId := a.id, eventType := WalletEventType.fundsWithdrawn, payload := { eventType := WalletEventType.fundsWithdrawn, walletId := a.id, amount := some amount, metadata := { sagaId := some sid, transferTo := some b.id }, timestamp := now }, published := false }], idempotency := (((w.store.saveSaga (TransferSaga.new sid a.id b.id amount a.currency)).saveWallet { a.resetDailyLimitIfNewDay today with balance := a.balance - amount, dailyWithdrawalTotal := (a.resetDailyLimitIfNewDay today).dailyWithdrawalTotal + amount, lastWithdrawalDate := some today }).saveSaga { TransferSaga.new sid a.id b.id amount a.currency with state := TransferSagaState.debited }).idempotency } { b with balance := b.balance + amount }).outbox ++ [{ aggregateId := b.id, eventType := WalletEventType.fundsDeposited, payload := { eventType := WalletEventType.fundsDeposited, walletId := b.id, amount := some amount, metadata := { sagaId := some sid, transferFrom := some a.id }, timestamp := now }, published := false }], idempotency := (Store.saveWallet { wallets := (((w.store.saveSaga (TransferSaga.new sid a.id b.id amount a.currency)).saveWallet { a.resetDailyLimitIfNewDay today with balance := a.balance - amount, dailyWithdrawalTotal := (a.resetDailyLimitIfNewDay today).dailyWithdrawalTotal + amount, lastWithdrawalDate := some today }).saveSaga { TransferSaga.new sid a.id b.id amount a.currency with state := TransferSagaState.debited }).wallets, events := (((w.store.saveSaga (TransferSaga.new sid a.id b.id amount a.currency)).saveWallet { a.resetDailyLimitIfNewDay today with balance := a.balance - amount, dailyWithdrawalTotal := (a.resetDailyLimitIfNewDay today).dailyWithdrawalTotal + amount, lastWithdrawalDate := some today }).saveSaga { TransferSaga.new sid a.id b.id amount a.currency with state := TransferSagaState.debited }).events ++ [{ walletId := a.id, eventType := WalletEventType.fundsWithdrawn, currency := (a.resetDailyLimitIfNewDay today).currency, amount := some amount, metadata := { sagaId := some sid, transferTo := some b.id }, createdAt := now }], sagas := (((w.store.saveSaga (TransferSaga.new sid a.id b.id amount a.currency)).saveWallet { a.resetDailyLimitIfNewDay today with balance := a.balance - amount, dailyWithdrawalTotal := (a.resetDailyLimitIfNewDay today).dailyWithdrawalTotal + amount, lastWithdrawalDate := some today }).saveSaga { TransferSaga.new sid a.id b.id amount a.currency with state := TransferSagaState.debited }).sagas, outbox := (((w.store.saveSaga (TransferSaga.new sid a.id b.id amount a.currency)).saveWallet { a.resetDailyLimitIfNewDay today with balance := a.balance - amount, dailyWithdrawalTotal := (a.resetDailyLimitIfNewDay today).dailyWithdrawalTotal + amount, lastWithdrawalDate := some today }).saveSaga { TransferSaga.new sid a.id b.id amount a.currency with state := TransferSagaState.debited }).outbox ++ [{ aggregateId := a.id, eventType := WalletEventType.fundsWithdrawn, payload := { eventType := WalletEventType.fundsWithdrawn, walletId := a.id, amount := some amount, metadata := { sagaId := some sid, transferTo := some b.id }, timestamp := now }, published := false }], idempotency := (((w.store.saveSaga (TransferSaga.new sid a.id b.id amount a.currency)).saveWallet { a.resetDailyLimitIfNewDay today with balance := a.balance - amount, dailyWithdrawalTotal := (a.resetDailyLimitIfNewDay today).dailyWithdrawalTotal + amount, lastWithdrawalDate := some today }).saveSaga { TransferSaga.new sid a.id b.id amount a.currency with state := TransferSagaState.debited }).idempotency } { b with balance := b.balance + amount }).idempotency } { { TransferSaga.new sid a.id b.id amount a.currency with state := TransferSagaState.debited } with state := TransferSagaState.completed }) (TransferSaga.markAsFailed { { TransferSaga.new sid a.id b.id amount a.currency with state := TransferSagaState.debited } with state := TransferSagaState.completed } (AppError.message AppError.busDisconnected))
  case c5 =>
    dsimp only
    simp only [Store.saveSaga_events, Store.saveWallet_events, Wallet.reset_currency, List.append_assoc, List.cons_append, List.nil_append]
  case c6 =>
    dsimp only
    simp only [Store.saveSaga_outbox, Store.saveWallet_outbox, List.append_assoc, List.cons_append, List.nil_append]
  case c7 =>
    dsimp only
    simp only [Store.saveSaga_idempotency, Store.saveWallet_idempotency]
  case c8 =>
    dsimp only
    simp only [TransferSaga.new, List.append_assoc, List.cons_append, List.nil_append]
  case c9 =>
    rfl

/-- C3 (counterexample to the claim as stated). A concrete fully successful
transfer of 50 from "alice" to "bob" completes, yet the committed store holds
NO TRANSFER_INITIATED outbox row and NO TRANSFER_COMPLETED journal event or
outbox row: both notifications are awaited direct publishes to the broker,
never persisted in the same transaction as any wallet mutation. -/
theorem c3_no_persisted_transfer_rows :
    (TransferSagaService.executeTransfer (World.ofStore happyTransferStore) "alice" "bob" 50 none "saga-3" 0 0).1 = .ok (.transferResp { sagaId := "saga-3", state := TransferSagaState.completed, fromWalletId := "alice", toWalletId := "bob", amount := 50 }) ∧
    ((TransferSagaService.executeTransfer (World.ofStore happyTransferStore) "alice" "bob" 50 none "saga-3" 0 0).2).store.outbox.filter (fun r => r.eventType = WalletEventType.transferInitiated) = [] ∧
    ((TransferSagaService.executeTransfer (World.ofStore happyTransferStore) "alice" "bob" 50 none "saga-3" 0 0).2).store.events.filter (fun e => e.eventType = WalletEventType.transferCompleted) = [] ∧
    ((TransferSagaService.executeTransfer (World.ofStore happyTransferStore) "alice" "bob" 50 none "saga-3" 0 0).2).store.outbox.filter (fun r => r.eventType = WalletEventType.transferCompleted) = [] := by
  obtain ⟨wFin, hE, hfa, hfb, hfs, hev, hob, hid, hbus, hlk⟩ :=
    TransferSagaService.executeTransfer_happy_eval (World.ofStore happyTransferStore)
      (demoWallet "alice" 100) (demoWallet "bob" 0) 50 "saga-3" 0 0
      (by decide) rfl rfl rfl rfl rfl rfl rfl (by norm_num) rfl
      (by norm_num [demoWallet, Wallet.new])
  have hida : (demoWallet "alice" 100).id = "alice" := rfl
  have hidb : (demoWallet "bob" 0).id = "bob" := rfl
  rw [hida, hidb] at hE
  refine ⟨?_, ?_, ?_, ?_⟩
  · rw [hE]
  · rw [hE]
    dsimp only
    rw [hob]
    simp [World.ofStore, happyTransferStore]
  · rw [hE]
    dsimp only
    rw [hev]
    simp [World.ofStore, happyTransferStore]
  · rw [hE]
    dsimp only
    rw [hob]
    simp [World.ofStore, happyTransferStore]

/-- C3 (amended). `executeTransfer` inserts the saga in the constructor state
PENDING and, for a transfer that runs to completion on an initially empty
journal/outbox, persists exactly the two leg rows (FUNDS_WITHDRAWN and
FUNDS_DEPOSITED as journal events with matching outbox rows, each written in
the same transaction as its wallet mutation) and the COMPLETED saga; the
TRANSFER_INITIATED and TRANSFER_COMPLETED notifications are emitted as awaited
direct publishes that reach only the broker — no journal event and no outbox
row of either type is ever persisted. -/
theorem c3_transfer_persistence (w : World) (a b : Wallet) (amount : Rat)
    (sid : String) (today now : Nat)
    (hne : a.id ≠ b.id)
    (hfina : w.store.findWallet a.id = some a)
    (hfinb : w.store.findWallet b.id = some b)
    (hcur : b.currency = a.currency)
    (hfaults : w.txFaults = [])
    (hsched : w.pubSchedule = [])
    (hact : a.status = .active) (hbact : b.status = .active)
    (hpos : 0 < amount)
    (hlim : Wallet.validateDailyLimit (a.resetDailyLimitIfNewDay today) amount = .ok ())
    (hbal : ¬ a.balance < amount)
    (hev0 : w.store.events = []) (hob0 : w.store.outbox = [])
    (hbus0 : w.bus = []) :
    (TransferSaga.new sid a.id b.id amount a.currency).state = TransferSagaState.pending ∧
    ∃ wFin : World,
      TransferSagaService.executeTransfer w a.id b.id amount none sid today now = (.ok (.transferResp { sagaId := sid, state := TransferSagaState.completed, fromWalletId := a.id, toWalletId := b.id, amount := amount }), wFin) ∧
      wFin.store.findSaga sid = some { TransferSaga.new sid a.id b.id amount a.currency with state := TransferSagaState.completed } ∧
      wFin.store.events.map (fun e => e.eventType) = [WalletEventType.fundsWithdrawn, WalletEventType.fundsDeposited] ∧
      wFin.store.outbox.map (fun r => r.eventType) = [WalletEventType.fundsWithdrawn, WalletEventType.fundsDeposited] ∧
      wFin.store.events.filter (fun e => e.eventType = WalletEventType.transferInitiated) = [] ∧
      wFin.store.events.filter (fun e => e.eventType = WalletEventType.transferCompleted) = [] ∧
      wFin.store.outbox.filter (fun r => r.eventType = WalletEventType.transferInitiated) = [] ∧
      wFin.store.outbox.filter (fun r => r.eventType = WalletEventType.transferCompleted) = [] ∧
      { eventType := WalletEventType.transferInitiated, walletId := a.id, amount := some amount, metadata := { sagaId := some sid, toWalletId := some b.id }, timestamp := now } ∈ wFin.bus ∧ { eventType := WalletEventType.transferCompleted, walletId := a.id, amount := some amount, metadata := { sagaId := some sid, toWalletId := some b.id }, timestamp := now } ∈ wFin.bus := by
  obtain ⟨wFin, hE, hfa, hfb, hfs, hev, hob, hid, hbus, hlk⟩ :=
    TransferSagaService.executeTransfer_happy_eval w a b amount sid today now
      hne hfina hfinb hcur hfaults hsched hact hbact hpos hlim hbal
  refine ⟨rfl, wFin, hE, hfs, ?_, ?_, ?_, ?_, ?_, ?_, ?_, ?_⟩
  · rw [hev, hev0]
    simp
  · rw [hob, hob0]
    simp
  · rw [hev, hev0]
    simp
  · rw [hev, hev0]
    simp
  · rw [hob, hob0]
    simp
  · rw [hob, hob0]
    simp
  · rw [hbus, hbus0]
    simp
  · rw [hbus, hbus0]
    simp

/-- C3 witness: the amended theorem evaluated on the concrete happy store. -/
theorem c3_transfer_persistence_witness :
    (TransferSaga.new "saga-3" "alice" "bob" 50 "USD").state = TransferSagaState.pending ∧
    ∃ wFin : World,
      TransferSagaService.executeTransfer (World.ofStore happyTransferStore) "alice" "bob" 50 none "saga-3" 0 0 = (.ok (.transferResp { sagaId := "saga-3", state := TransferSagaState.completed, fromWalletId := "alice", toWalletId := "bob", amount := 50 }), wFin) ∧
      wFin.store.findSaga "saga-3" = some { TransferSaga.new "saga-3" "alice" "bob" 50 "USD" with state := TransferSagaState.completed } ∧
      wFin.store.events.map (fun e => e.eventType) = [WalletEventType.fundsWithdrawn, WalletEventType.fundsDeposited] ∧
      wFin.store.outbox.map (fun r => r.eventType) = [WalletEventType.fundsWithdrawn, WalletEventType.fundsDeposited] ∧
      wFin.store.events.filter (fun e => e.eventType = WalletEventType.transferInitiated) = [] ∧
      wFin.store.events.filter (fun e => e.eventType = WalletEventType.transferCompleted) = [] ∧
      wFin.store.outbox.filter (fun r => r.eventType = WalletEventType.transferInitiated) = [] ∧
      wFin.store.outbox.filter (fun r => r.eventType = WalletEventType.transferCompleted) = [] ∧
      { eventType := WalletEventType.transferInitiated, walletId := "alice", amount := some 50, metadata := { sagaId := some "saga-3", toWalletId := some "bob" }, timestamp := 0 } ∈ wFin.bus ∧ { eventType := WalletEventType.transferCompleted, walletId := "alice", amount := some 50, metadata := { sagaId := some "saga-3", toWalletId := some "bob" }, timestamp := 0 } ∈ wFin.bus :=
  c3_transfer_persistence (World.ofStore happyTransferStore)
    (demoWallet "alice" 100) (demoWallet "bob" 0) 50 "saga-3" 0 0
    (by decide) rfl rfl rfl rfl rfl rfl rfl (by norm_num) rfl
    (by norm_num [demoWallet, Wallet.new]) rfl rfl rfl

/-- C4 (counterexample to the claim as stated). A concrete transfer invoked
WITH a request id, on a broker that accepts the awaited TRANSFER_INITIATED
publish and then disconnects: both leg transactions commit (alice's balance is
already 50 and the saga row is FAILED), the caller sees the broker error —
and the idempotency table is still empty, because `executeTransfer` inserts
the idempotency record only after the awaited TRANSFER_COMPLETED publish,
outside every store transaction; the state change persisted without its
idempotency record. -/
theorem c4_transfer_record_outside_transaction :
    (TransferSagaService.executeTransfer failingPublishWorld "alice" "bob" 50 (some "req-1") "saga-9" 0 0).1 = .error .busDisconnected ∧
    ((TransferSagaService.executeTransfer failingPublishWorld "alice" "bob" 50 (some "req-1") "saga-9" 0 0).2).store.idempotency = [] ∧
    (((TransferSagaService.executeTransfer failingPublishWorld "alice" "bob" 50 (some "req-1") "saga-9" 0 0).2).store.findWallet "alice").map (fun x => x.balance) = some 50 ∧
    (((TransferSagaService.executeTransfer failingPublishWorld "alice" "bob" 50 (some "req-1") "saga-9" 0 0).2).store.findSaga "saga-9").map (fun s => s.state) = some TransferSagaState.failed := by
  obtain ⟨wFin, hE, hfa, hfb, hfs, hev, hob, hid, hbus, hlk⟩ :=
    TransferSagaService.executeTransfer_publishFail_eval failingPublishWorld
      (demoWallet "alice" 100) (demoWallet "bob" 0) 50 (some "req-1") "saga-9" 0 0
      (by decide) rfl rfl rfl rfl rfl rfl rfl rfl (by norm_num) rfl
      (by norm_num [demoWallet, Wallet.new])
  have hida : (demoWallet "alice" 100).id = "alice" := rfl
  have hidb : (demoWallet "bob" 0).id = "bob" := rfl
  rw [hida] at hE hfa hfs
  rw [hidb] at hE hfs
  refine ⟨?_, ?_, ?_, ?_⟩
  · rw [hE]
  · rw [hE]
    dsimp only
    rw [hid]
    rfl
  · rw [hE]
    dsimp only
    rw [hfa]
    dsimp only [Option.map]
    norm_num [demoWallet, Wallet.new, Wallet.resetDailyLimitIfNewDay]
  · rw [hE]
    dsimp only
    rw [hfs]
    rfl

/-- C4 (amended). The wallet engine honours the claim: a known request id
replays the stored response with the world untouched (for the wallet
operations and for transfers alike); a successful wallet operation inserts the
idempotency record as the last step of the SAME store transaction that saves
the wallet, the journal event and the outbox row; and a transaction fault
rolls back the state change and the record together.  `executeTransfer`,
however, does NOT insert its record in the same transaction as the state
change: when the broker dies after the legs have committed, the transfer state
persists while the idempotency table is left untouched. -/
theorem c4_idempotency_placement :
    (∀ (w : World) (walletId : String) (amount : Rat)
        (eventType : WalletEventType)
        (operation : Wallet → Except WalletError Wallet) (r : String)
        (rec : IdempotencyKey) (autoCreate : Bool) (now : Nat),
      w.store.findIdempotency r = some rec →
      WalletService.executeIdempotentTransaction w walletId amount eventType
        operation (some r) autoCreate now = (.ok rec.response, w)) ∧
    (∀ (w : World) (f t : String) (amount : Rat) (r : String)
        (rec : IdempotencyKey) (sid : String) (today now : Nat),
      w.store.findIdempotency r = some rec →
      TransferSagaService.executeTransfer w f t amount (some r) sid today now =
        (.ok rec.response, w)) ∧
    (∀ (w : World) (walletId : String) (amount : Rat)
        (eventType : WalletEventType)
        (operation : Wallet → Except WalletError Wallet) (r : String)
        (now : Nat) (wal wal' : Wallet),
      w.store.findIdempotency r = none →
      ("lock:req:" ++ r) ∉ w.locks →
      w.txFaults = [] →
      w.store.findWallet walletId = some wal →
      operation wal = .ok wal' →
      ∃ wFin : World,
        WalletService.executeIdempotentTransaction w walletId amount eventType
          operation (some r) false now =
          (.ok (.walletResp wal'.balance wal'.id), wFin) ∧
        wFin.store.findWallet wal'.id = some wal' ∧
        wFin.store.idempotency = w.store.idempotency ++
          [{ requestId := r,
              response := StoredResponse.walletResp wal'.balance wal'.id }] ∧
        wFin.locks = w.locks) ∧
    (∀ (w : World) (walletId : String) (amount : Rat)
        (eventType : WalletEventType)
        (operation : Wallet → Except WalletError Wallet) (r : String)
        (now : Nat) (e : AppError) (rest : List (Option AppError)),
      w.store.findIdempotency r = none →
      ("lock:req:" ++ r) ∉ w.locks →
      w.txFaults = some e :: rest →
      ∃ wFin : World,
        WalletService.executeIdempotentTransaction w walletId amount eventType
          operation (some r) false now = (.error e, wFin) ∧
        wFin.store = w.store ∧ wFin.locks = w.locks) ∧
    (∀ (w : World) (a b : Wallet) (amount : Rat) (r sid : String)
        (today now : Nat),
      a.id ≠ b.id →
      w.store.findIdempotency r = none →
      w.store.findWallet a.id = some a →
      w.store.findWallet b.id = some b →
      b.currency = a.currency →
      w.txFaults = [] →
      w.pubSchedule = [true, false] →
      a.status = .active → b.status = .active → 0 < amount →
      Wallet.validateDailyLimit (a.resetDailyLimitIfNewDay today) amount = .ok () →
      ¬ a.balance < amount →
      ∃ wFin : World,
        TransferSagaService.executeTransfer w a.id b.id amount (some r) sid
          today now = (.error .busDisconnected, wFin) ∧
        wFin.store.idempotency = w.store.idempotency ∧
        wFin.store.findWallet a.id = some { a.resetDailyLimitIfNewDay today with balance := a.balance - amount, dailyWithdrawalTotal := (a.resetDailyLimitIfNewDay today).dailyWithdrawalTotal + amount, lastWithdrawalDate := some today }) := by
  refine ⟨?_, ?_, ?_, ?_, ?_⟩
  · intro w walletId amount eventType operation r rec autoCreate now h
    unfold WalletService.executeIdempotentTransaction
    dsimp only [Option.bind]
    rw [h]
  · intro w f t amount r rec sid today now h
    unfold TransferSagaService.executeTransfer
    dsimp only [Option.bind]
    rw [h]
  · intro w walletId amount eventType operation r now wal wal' hidem hlock hfaults hfw hop
    refine ⟨{ store := { wallets := (w.store.saveWallet wal').wallets, events := (w.store.saveWallet wal').events ++ [{ walletId := walletId, eventType := eventType, currency := wal'.currency, amount := some amount, metadata := { sagaId := none, transferTo := none, transferFrom := none, toWalletId := none, reason := none, requestId := some r, recovered := false }, createdAt := now }], sagas := (w.store.saveWallet wal').sagas, outbox := (w.store.saveWallet wal').outbox ++ [{ aggregateId := walletId, eventType := eventType, payload := { eventType := eventType, walletId := walletId, amount := some amount, metadata := { sagaId := none, transferTo := none, transferFrom := none, toWalletId := none, reason := none, requestId := some r, recovered := false }, timestamp := now }, published := false }], idempotency := (w.store.saveWallet wal').idempotency ++ [{ requestId := r, response := StoredResponse.walletResp wal'.balance wal'.id }] }, locks := (("lock:req:" ++ r) :: w.locks).erase ("lock:req:" ++ r), bus := w.bus ++ [{ eventType := eventType, walletId := walletId, amount := some amount, metadata := { sagaId := none, transferTo := none, transferFrom := none, toWalletId := none, reason := none, requestId := some r, recovered := false }, timestamp := now }], pubSchedule := w.pubSchedule, txFaults := [] }, ?_, ?_, ?_, ?_⟩
    · unfold WalletService.executeIdempotentTransaction
      dsimp only [Option.bind, Option.map]
      rw [hidem]
      dsimp only
      unfold TransactionManager.execute TransactionManager.runTx TransactionManager.commitPath
      dsimp only
      rw [if_neg hlock]
      rw [hfaults]
      dsimp only
      rw [if_neg Bool.false_ne_true]
      rw [hfw]
      dsimp only [Except.ok_bind]
      rw [hop]
      dsimp only [Except.mapError_ok, Except.ok_bind]
      rfl
    · dsimp only
      exact (Store.findWallet_congr { wallets := (w.store.saveWallet wal').wallets, events := (w.store.saveWallet wal').events ++ [{ walletId := walletId, eventType := eventType, currency := wal'.currency, amount := some amount, metadata := { sagaId := none, transferTo := none, transferFrom := none, toWalletId := none, reason := none, requestId := some r, recovered := false }, createdAt := now }], sagas := (w.store.saveWallet wal').sagas, outbox := (w.store.saveWallet wal').outbox ++ [{ aggregateId := walletId, eventType := eventType, payload := { eventType := eventType, walletId := walletId, amount := some amount, metadata := { sagaId := none, transferTo := none, transferFrom := none, toWalletId := none, reason := none, requestId := some r, recovered := false }, timestamp := now }, published := false }], idempotency := (w.store.saveWallet wal').idempotency ++ [{ requestId := r, response := StoredResponse.walletResp wal'.balance wal'.id }] } (w.store.saveWallet wal') wal'.id rfl).trans
        (Store.findWallet_saveWallet_self w.store wal')
    · dsimp only
      simp only [Store.saveWallet_idempotency]
    · dsimp only
      simp only [List.erase_cons_head]
  · intro w walletId amount eventType operation r now e rest hidem hlock hfaults
    refine ⟨{ store := w.store, locks := (("lock:req:" ++ r) :: w.locks).erase ("lock:req:" ++ r), bus := w.bus, pubSchedule := w.pubSchedule, txFaults := rest }, ?_, rfl, ?_⟩
    · unfold WalletService.executeIdempotentTransaction
      dsimp only [Option.bind, Option.map]
      rw [hidem]
      dsimp only
      unfold TransactionManager.execute TransactionManager.runTx
      dsimp only
      rw [if_neg hlock]
      rw [hfaults]
    · dsimp only
      simp only [List.erase_cons_head]
  · intro w a b amount r sid today now hne hidem hfina hfinb hcur hfaults hsched hact hbact hpos hlim hbal
    obtain ⟨wFin, hE, hfa, hfb, hfs, hev, hob, hid, hbus, hlk⟩ :=
      TransferSagaService.executeTransfer_publishFail_eval w a b amount
        (some r) sid today now hne hidem hfina hfinb hcur hfaults hsched
        hact hbact hpos hlim hbal
    exact ⟨wFin, hE, hid, hfa⟩

/-- C4 witness: replay of a stored record on the concrete replay store — the
stored response is returned and the world is untouched. -/
theorem c4_idempotency_placement_witness :
    WalletService.executeIdempotentTransaction (World.ofStore replayStore)
      "alice" 5 .fundsDeposited (fun wa => wa.deposit 5) (some "req-0") true 0 =
      (.ok (.walletResp 7 "alice"), World.ofStore replayStore) :=
  c4_idempotency_placement.1 (World.ofStore replayStore) "alice" 5
    .fundsDeposited (fun wa => wa.deposit 5) "req-0"
    { requestId := "req-0", response := StoredResponse.walletResp 7 "alice" }
    true 0 rfl
